import Mathlib

/-!
# WLED UDP sync notifier: packet encoding and decoding

A shallow embedding of `wled00/udp.cpp`: `notify` (the encoder of the version-11
sync packet) and the legacy-notifier branch of `handleNotifications` (its
decoder).  Machine integers are natural numbers with explicit reduction modulo
`2 ^ w`; the global variables of the firmware are the fields of `State`.

Everything that the two functions call but that is declared outside the
translated sources (the strip and segment setters, the colour macros, the time
service) is either a parameter gathered in `Ext`, or a small definition whose
documentation says that it is modelled.
-/

namespace WLED

/-! ## Constants of `udp.cpp` -/

/-- The size of one segment record: `#define UDP_SEG_SIZE 28`. -/
def UDP_SEG_SIZE : Nat := 28

/-- The packet size `#define WLEDPACKETSIZE (41+(MAX_NUM_SEGMENTS*UDP_SEG_SIZE)+0)`;
`MAX_NUM_SEGMENTS` is declared outside the sources and is an argument here. -/
def WLEDPACKETSIZE (MAX_NUM_SEGMENTS : Nat) : Nat := 41 + (MAX_NUM_SEGMENTS * UDP_SEG_SIZE) + 0

/-- The largest datagram accepted: `#define UDP_IN_MAXSIZE 1472`. -/
def UDP_IN_MAXSIZE : Nat := 1472

/-- The delay added to received times: `#define PRESUMED_NETWORK_DELAY 3`. -/
def PRESUMED_NETWORK_DELAY : Nat := 3

/-! ## Colour words -/

/-- Modelled from the spec: the colour macros are declared in a header that is not
among the sources.  A colour is "a color with white channel": a 32-bit word of four
8-bit channels; `W` is the channel in the top byte. -/
def W (c : Nat) : Nat := (c >>> 24) % 256

/-- Modelled from the spec: the red channel of a colour word (see `W`). -/
def R (c : Nat) : Nat := (c >>> 16) % 256

/-- Modelled from the spec: the green channel of a colour word (see `W`). -/
def G (c : Nat) : Nat := (c >>> 8) % 256

/-- Modelled from the spec: the blue channel of a colour word (see `W`). -/
def B (c : Nat) : Nat := c % 256

/-- Modelled from the spec: the colour word assembled from four channel bytes, the
inverse of `R`, `G`, `B`, `W`; each argument is cast to a byte. -/
def RGBW32 (r g b w : Nat) : Nat :=
  ((w % 256) <<< 24) ||| ((r % 256) <<< 16) ||| ((g % 256) <<< 8) ||| (b % 256)

/-! ## Data model -/

/-- The fields of `WS2812FX::Segment` that `udp.cpp` reads or writes. -/
structure Segment where
  start : Nat
  stop : Nat
  offset : Nat
  grouping : Nat
  spacing : Nat
  options : Nat
  opacity : Nat
  mode : Nat
  speed : Nat
  intensity : Nat
  palette : Nat
  colors0 : Nat
  colors1 : Nat
  colors2 : Nat
  cct : Nat
deriving DecidableEq, Repr, Inhabited

/-- The part of the `strip` object that `udp.cpp` uses.  `segments` is the segment
table, `color0 .. color2` and `cct` are what `strip.setColor` and `strip.setCCT`
were last given. -/
structure Strip where
  segments : List Segment
  mainSegment : Nat
  timebase : Nat
  color0 : Nat
  color1 : Nat
  color2 : Nat
  cct : Nat
  hasCCTBus : Bool
  modeCount : Nat
  paletteCount : Nat
deriving DecidableEq, Repr, Inhabited

/-- A time of the time service, `Toki::Time`: seconds and milliseconds. -/
structure TokiTime where
  sec : Nat
  ms : Nat
deriving DecidableEq, Repr, Inhabited

/-- The time service `toki`: the current time and the rank of its source. -/
structure Toki where
  timeSource : Nat
  time : TokiTime
deriving DecidableEq, Repr, Inhabited

/-- The global variables read or written by `notify` and by the notifier branch of
`handleNotifications`. -/
structure State where
  udpConnected : Bool
  syncGroups : Nat
  receiveGroups : Nat
  notifyDirect : Bool
  notifyButton : Bool
  notifyHue : Bool
  notifyAlexa : Bool
  notifyHK : Bool
  notifyTwice : Bool
  notificationSentCallMode : Nat
  notificationSentTime : Nat
  notificationTwoRequired : Bool
  receiveNotifications : Bool
  receiveDirect : Bool
  receiveNotificationBrightness : Bool
  receiveNotificationColor : Bool
  receiveNotificationEffects : Bool
  receiveSegmentOptions : Bool
  receiveSegmentBounds : Bool
  realtimeMode : Nat
  bri : Nat
  nightlightActive : Bool
  nightlightDelayMins : Nat
  transitionDelay : Nat
  transitionDelayTemp : Nat
  currentPlaylist : Int
  stateChanged : Bool
  stateUpdatedCalls : Nat
  strip : Strip
  toki : Toki
deriving DecidableEq, Repr, Inhabited

/-- What `udp.cpp` uses but the sources do not declare: the call-mode and
time-source constants, the operations of the time service on times, and the two
segment predicates. -/
structure Ext where
  CALL_MODE_INIT : Nat
  CALL_MODE_DIRECT_CHANGE : Nat
  CALL_MODE_BUTTON : Nat
  CALL_MODE_BUTTON_PRESET : Nat
  CALL_MODE_NIGHTLIGHT : Nat
  CALL_MODE_HUE : Nat
  CALL_MODE_PRESET_CYCLE : Nat
  CALL_MODE_BLYNK : Nat
  CALL_MODE_ALEXA : Nat
  CALL_MODE_HOMEKIT : Nat
  TOKI_TS_UDP : Nat
  TOKI_TS_UDP_NTP : Nat
  TOKI_TS_UDP_SEC : Nat
  TOKI_TS_SEC : Nat
  tokiAdjust : TokiTime → Nat → TokiTime
  tokiMsDifference : TokiTime → TokiTime → Nat
  tokiIsLater : TokiTime → TokiTime → Bool
  isActive : Segment → Bool
  isSelected : Segment → Bool

/-! ## The strip interface -/

/-- Modelled from the spec: `strip.getMaxSegments()` is declared outside the sources.
The packet invariant "total size = fixed header length + segment-count × fixed
segment-record length" makes it the `MAX_NUM_SEGMENTS` of `WLEDPACKETSIZE`: the
number of entries of the segment table of the strip.  The methods of the strip
that concern segments are modelled on that table. -/
def getMaxSegments (segments : List Segment) : Nat := segments.length

/-- Modelled from the spec: `strip.getSegment(id)`, the entry `id` of the segment
table (a segment is "a contiguous addressable sub-range of the pixel output with its
own effect/color/geometry settings"). -/
def getSegment (segments : List Segment) (id : Nat) : Segment := segments.getD id default

/-- Modelled from the spec: `strip.getMainSegment()`, the entry of the table that is
the main segment. -/
def getMainSegment (strip : Strip) : Segment := getSegment strip.segments strip.mainSegment

/-- A write through the reference `strip.getSegment(id)`: entry `id` of the table
becomes `f` of itself.  A write to an `id` outside the table leaves the table as it
is: what the firmware does with it is not determined by the sources. -/
def updSegment (segments : List Segment) (id : Nat) (f : Segment → Segment) : List Segment :=
  segments.set id (f (getSegment segments id))

/-- Modelled from the spec: `strip.setColor(slot, c)`, one of the "device-state
setters"; `c` becomes the colour of the strip in that slot. -/
def setColor (strip : Strip) (slot : Nat) (c : Nat) : Strip :=
  if slot = 0 then { strip with color0 := c }
  else if slot = 1 then { strip with color1 := c }
  else if slot = 2 then { strip with color2 := c }
  else strip

/-- Modelled from the spec: `strip.setCCT(cct)`, a device-state setter. -/
def setCCT (strip : Strip) (cct : Nat) : Strip := { strip with cct := cct }

/-- Modelled from the spec: `strip.setSegment(id, start, stop, grouping, spacing,
offset)`, the device-state setter of the "segment geometry". -/
def setSegment (segments : List Segment) (id start stop grouping spacing offset : Nat) :
    List Segment :=
  updSegment segments id (fun g =>
    { g with start := start, stop := stop, grouping := grouping, spacing := spacing,
             offset := offset })

/-- Modelled from the spec: `strip.setMode(id, m)`, the device-state setter of the
effect mode of segment `id`. -/
def setMode (segments : List Segment) (id m : Nat) : List Segment :=
  updSegment segments id (fun g => { g with mode := m })

/-- Modelled from the spec: `Segment::setOption(n, val)` on the "boolean option
bitfield", an 8-bit word: bit `n` becomes `val`. -/
def Segment.setOption (g : Segment) (n : Nat) (val : Bool) : Segment :=
  { g with options := if val then (g.options ||| (1 <<< n)) % 256
                      else g.options &&& (255 - (1 <<< n) % 256) }

/-- Modelled from the spec: `Segment::setOpacity(o, id)`, a setter. -/
def Segment.setOpacity (g : Segment) (o : Nat) : Segment := { g with opacity := o }

/-- Modelled from the spec: `Segment::setColor(slot, c, id)`, the setter of one of
the "up to three colors with white channel" of a segment. -/
def Segment.setColor (g : Segment) (slot : Nat) (c : Nat) : Segment :=
  if slot = 0 then { g with colors0 := c }
  else if slot = 1 then { g with colors1 := c }
  else if slot = 2 then { g with colors2 := c }
  else g

/-- Modelled from the spec: `Segment::setCCT(k, id)`, a setter. -/
def Segment.setCCT (g : Segment) (k : Nat) : Segment := { g with cct := k }

/-- Modelled from the spec: `unloadPlaylist()` is outside the sources; afterwards no
playlist is current. -/
def unloadPlaylist (s : State) : State := { s with currentPlaylist := -1 }

/-- Modelled from the spec: `stateUpdated(CALL_MODE_NOTIFICATION)` is outside the
sources; applying a sync packet "triggers a display refresh", which is counted. -/
def stateUpdated (s : State) : State := { s with stateUpdatedCalls := s.stateUpdatedCalls + 1 }

/-- The byte that a `bool` becomes when it is stored in the packet. -/
def boolByte (b : Bool) : Nat := if b then 1 else 0

/-! ## `notify`: building the packet -/

/-- Bytes 0 to 40 of `udpOut` (lines 33 to 94 of `udp.cpp`); `now` is `millis()`. -/
def notifyHeader (now callMode : Nat) (followUp : Bool) (s : State) : List Nat :=
  let mainseg := getMainSegment s.strip
  let t := (now + s.strip.timebase) % 2 ^ 32
  let unix := s.toki.time.sec % 2 ^ 32
  let ms := s.toki.time.ms % 2 ^ 16
  [ 0,
    callMode % 256,
    s.bri % 256,
    R mainseg.colors0,
    G mainseg.colors0,
    B mainseg.colors0,
    boolByte s.nightlightActive,
    s.nightlightDelayMins % 256,
    mainseg.mode % 256,
    mainseg.speed % 256,
    W mainseg.colors0,
    11,
    R mainseg.colors1,
    G mainseg.colors1,
    B mainseg.colors1,
    W mainseg.colors1,
    mainseg.intensity % 256,
    (s.transitionDelay >>> 0) &&& 0xFF,
    (s.transitionDelay >>> 8) &&& 0xFF,
    mainseg.palette % 256,
    R mainseg.colors2,
    G mainseg.colors2,
    B mainseg.colors2,
    W mainseg.colors2,
    boolByte followUp,
    (t >>> 24) &&& 0xFF,
    (t >>> 16) &&& 0xFF,
    (t >>> 8) &&& 0xFF,
    (t >>> 0) &&& 0xFF,
    s.toki.timeSource % 256,
    (unix >>> 24) &&& 0xFF,
    (unix >>> 16) &&& 0xFF,
    (unix >>> 8) &&& 0xFF,
    (unix >>> 0) &&& 0xFF,
    (ms >>> 8) &&& 0xFF,
    (ms >>> 0) &&& 0xFF,
    s.syncGroups % 256,
    if s.strip.hasCCTBus then 0 else 255,
    mainseg.cct % 256,
    getMaxSegments s.strip.segments % 256,
    UDP_SEG_SIZE ]

/-- The 28 bytes written for segment `i` by the body of the loop of `notify`
(lines 98 to 125), in the order of their offsets `0+ofs` to `27+ofs`. -/
def notifySegment (i : Nat) (selseg : Segment) : List Nat :=
  [ i % 256,
    (selseg.start >>> 8) % 256,
    (selseg.start &&& 0xFF) % 256,
    (selseg.stop >>> 8) % 256,
    (selseg.stop &&& 0xFF) % 256,
    selseg.grouping % 256,
    selseg.spacing % 256,
    (selseg.offset >>> 8) % 256,
    (selseg.offset &&& 0xFF) % 256,
    (selseg.options &&& 0x0F) % 256,
    selseg.opacity % 256,
    selseg.mode % 256,
    selseg.speed % 256,
    selseg.intensity % 256,
    selseg.palette % 256,
    R selseg.colors0,
    G selseg.colors0,
    B selseg.colors0,
    W selseg.colors0,
    R selseg.colors1,
    G selseg.colors1,
    B selseg.colors1,
    W selseg.colors1,
    R selseg.colors2,
    G selseg.colors2,
    B selseg.colors2,
    W selseg.colors2,
    selseg.cct % 256 ]

/-- The array `udpOut` when `notify` sends it: the header, then one record per
segment; the record of segment `i` starts at `ofs = 41 + i*UDP_SEG_SIZE`. -/
def notifyPacket (now callMode : Nat) (followUp : Bool) (s : State) : List Nat :=
  notifyHeader now callMode followUp s ++
    (List.range (getMaxSegments s.strip.segments)).flatMap
      (fun i => notifySegment i (getSegment s.strip.segments i))

/-- The `switch (callMode)` of `notify`: whether the call mode is one that notifies. -/
def notifyCallMode (x : Ext) (callMode : Nat) (s : State) : Bool :=
  if callMode = x.CALL_MODE_INIT then false
  else if callMode = x.CALL_MODE_DIRECT_CHANGE then s.notifyDirect
  else if callMode = x.CALL_MODE_BUTTON then s.notifyButton
  else if callMode = x.CALL_MODE_BUTTON_PRESET then s.notifyButton
  else if callMode = x.CALL_MODE_NIGHTLIGHT then s.notifyDirect
  else if callMode = x.CALL_MODE_HUE then s.notifyHue
  else if callMode = x.CALL_MODE_PRESET_CYCLE then s.notifyDirect
  else if callMode = x.CALL_MODE_BLYNK then s.notifyDirect
  else if callMode = x.CALL_MODE_ALEXA then s.notifyAlexa
  else if callMode = x.CALL_MODE_HOMEKIT then s.notifyHK
  else false

/-- The function `notify(callMode, followUp)` at time `now`: the new state, and the
datagram that is broadcast, if one is. -/
def notify (x : Ext) (now callMode : Nat) (followUp : Bool) (s : State) :
    State × Option (List Nat) :=
  if !s.udpConnected then (s, none)
  else if s.syncGroups = 0 then (s, none)
  else if !notifyCallMode x callMode s then (s, none)
  else
    ({ s with notificationSentCallMode := callMode % 256,
              notificationSentTime := now,
              notificationTwoRequired := if followUp then false else s.notifyTwice },
     some (notifyPacket now callMode followUp s))

/-! ## `handleNotifications`: the notifier branch -/

/-- The array `udpIn` after a datagram `pkt` was read into it: the bytes of the
datagram, and beyond them whatever the memory holds (`junk`), which the datagram
does not determine. -/
def udpInOf (pkt : List Nat) (junk : Nat → Nat) : Nat → Nat :=
  fun i => if i < pkt.length then pkt.getD i 0 % 256 else junk i % 256

/-- The difference `a - b` of two `uint32_t`. -/
def sub32 (a b : Nat) : Nat := (a % 2 ^ 32 + 2 ^ 32 - b % 2 ^ 32) % 2 ^ 32

/-- Lines 322 to 324 of the segment loop: the segment id that record number `i`
carries, or `none` when the record is skipped by the `continue` of line 324; with
`some id` the loop body goes on to `strip.getSegment(id)`. -/
def syncSegmentId (udpIn : Nat → Nat) (segments : List Segment) (i : Nat) : Option Nat :=
  let ofs := (41 + i * udpIn 40) % 2 ^ 16
  let id := udpIn (0 + ofs)
  if id > getMaxSegments segments then none else some id

/-- The body of the segment loop of `handleNotifications` (lines 322 to 352) for
the record number `i`, acting on the segment table of the strip; the state `s`
gives the receive flags. -/
def syncSegment (s : State) (udpIn : Nat → Nat) (someSel applyEffects : Bool)
    (segments : List Segment) (i : Nat) : List Segment :=
  let ofs := (41 + i * udpIn 40) % 2 ^ 16
  match syncSegmentId udpIn segments i with
  | none => segments
  | some id =>
    let start := (udpIn (1 + ofs) <<< 8 ||| udpIn (2 + ofs)) % 2 ^ 16
    let stop := (udpIn (3 + ofs) <<< 8 ||| udpIn (4 + ofs)) % 2 ^ 16
    let offset := (udpIn (7 + ofs) <<< 8 ||| udpIn (8 + ofs)) % 2 ^ 16
    if !s.receiveSegmentOptions then
      setSegment segments id start stop (getSegment segments id).grouping
        (getSegment segments id).spacing offset
    else
      let segments := (List.range 4).foldl
        (fun sg j => updSegment sg id
          (fun g => g.setOption j (decide ((udpIn (9 + ofs) >>> j) &&& 0x01 ≠ 0)))) segments
      let segments := updSegment segments id (fun g => g.setOpacity (udpIn (10 + ofs)))
      let segments :=
        if applyEffects then
          let segments := setMode segments id (udpIn (11 + ofs))
          let segments := updSegment segments id (fun g => { g with speed := udpIn (12 + ofs) })
          let segments :=
            updSegment segments id (fun g => { g with intensity := udpIn (13 + ofs) })
          updSegment segments id (fun g => { g with palette := udpIn (14 + ofs) })
        else segments
      let segments :=
        if s.receiveNotificationColor || !someSel then
          let segments := updSegment segments id (fun g => g.setColor 0
            (RGBW32 (udpIn (15 + ofs)) (udpIn (16 + ofs)) (udpIn (17 + ofs)) (udpIn (18 + ofs))))
          let segments := updSegment segments id (fun g => g.setColor 1
            (RGBW32 (udpIn (19 + ofs)) (udpIn (20 + ofs)) (udpIn (21 + ofs)) (udpIn (22 + ofs))))
          let segments := updSegment segments id (fun g => g.setColor 2
            (RGBW32 (udpIn (23 + ofs)) (udpIn (24 + ofs)) (udpIn (25 + ofs)) (udpIn (26 + ofs))))
          updSegment segments id (fun g => g.setCCT (udpIn (27 + ofs)))
        else segments
      if s.receiveSegmentBounds then
        setSegment segments id start stop (udpIn (5 + ofs)) (udpIn (6 + ofs)) offset
      else
        setSegment segments id (getSegment segments id).start (getSegment segments id).stop
          (udpIn (5 + ofs)) (udpIn (6 + ofs)) (getSegment segments id).offset

/-- The segment loop of `handleNotifications` (lines 320 to 353): one pass of
`syncSegment` for each `i < numSrcSegs`, where `numSrcSegs = udpIn[39]`. -/
def syncSegments (s : State) (udpIn : Nat → Nat) (someSel applyEffects : Bool)
    (segments : List Segment) : List Segment :=
  (List.range (udpIn 39)).foldl (syncSegment s udpIn someSel applyEffects) segments

/-- The body of the loop of the simple effect sync (lines 360 to 365) for the local
segment `i`; `modeCount` and `paletteCount` are `strip.getModeCount()` and
`strip.getPaletteCount()`. -/
def syncEffect (x : Ext) (udpIn : Nat → Nat) (version modeCount paletteCount : Nat)
    (segments : List Segment) (i : Nat) : List Segment :=
  if !x.isActive (getSegment segments i) || !x.isSelected (getSegment segments i) then segments
  else
    let segments := if udpIn 8 < modeCount then setMode segments i (udpIn 8) else segments
    let segments := updSegment segments i (fun g => { g with speed := udpIn 9 })
    let segments :=
      if version > 2 then updSegment segments i (fun g => { g with intensity := udpIn 16 })
      else segments
    if version > 4 && udpIn 19 < paletteCount then
      updSegment segments i (fun g => { g with palette := udpIn 19 })
    else segments

/-- The simple effect sync, "applies to all selected segments" (lines 359 to 366). -/
def syncEffects (x : Ext) (udpIn : Nat → Nat) (version modeCount paletteCount : Nat)
    (segments : List Segment) : List Segment :=
  (List.range (getMaxSegments segments)).foldl
    (syncEffect x udpIn version modeCount paletteCount) segments

/-- The colours of the notification applied to the strip (lines 295 to 311). -/
def syncColors (s : State) (udpIn : Nat → Nat) (version : Nat) (someSel : Bool) : State :=
  if (s.receiveNotificationColor || !someSel) && (version < 11 || !s.receiveSegmentOptions) then
    let strip := setColor s.strip 0
      (RGBW32 (udpIn 3) (udpIn 4) (udpIn 5) (if version > 0 then udpIn 10 else 0))
    let strip :=
      if version > 1 then
        setColor strip 1 (RGBW32 (udpIn 12) (udpIn 13) (udpIn 14) (udpIn 15))
      else strip
    let strip :=
      if version > 6 then
        let strip := setColor strip 2 (RGBW32 (udpIn 20) (udpIn 21) (udpIn 22) (udpIn 23))
        if version > 9 && version < 200 && udpIn 37 < 255 then
          let cct : Int :=
            if udpIn 37 > 0 then
              (((udpIn 37 <<< 8 : Nat) : Int) + (udpIn 38 : Int) - 1900) / 32
            else (udpIn 38 : Int)
          setCCT strip (cct % 256).toNat
        else strip
      else strip
    { s with strip := strip }
  else s

/-- Line 318: a playlist is unloaded when effects are applied. -/
def syncPlaylist (applyEffects : Bool) (s : State) : State :=
  if applyEffects && decide (s.currentPlaylist ≥ 0) then unloadPlaylist s else s

/-- Lines 319 to 355: the segment loop and `stateChanged = true`, for a packet of
version above 10 on a receiver of segment options or segment bounds. -/
def syncSegs (udpIn : Nat → Nat) (version : Nat) (someSel applyEffects : Bool) (s : State) :
    State :=
  if version > 10 && (s.receiveSegmentOptions || s.receiveSegmentBounds) then
    { s with strip := { s.strip with
               segments := syncSegments s udpIn someSel applyEffects s.strip.segments },
             stateChanged := true }
  else s

/-- Lines 358 to 368: the simple effect sync and `stateChanged = true`. -/
def syncSimple (x : Ext) (udpIn : Nat → Nat) (version : Nat) (applyEffects : Bool) (s : State) :
    State :=
  if applyEffects && (version < 11 || !s.receiveSegmentOptions) then
    { s with strip := { s.strip with
               segments := syncEffects x udpIn version s.strip.modeCount s.strip.paletteCount
                 s.strip.segments },
             stateChanged := true }
  else s

/-- Lines 370 to 376: the timebase of the sender, moved by the presumed network
delay and by `now = millis()`; the result also tells whether the timebase was
updated. -/
def syncTimebase (now : Nat) (udpIn : Nat → Nat) (version : Nat) (applyEffects : Bool)
    (s : State) : State × Bool :=
  if applyEffects && version > 5 then
    let t := (udpIn 25 <<< 24 ||| udpIn 26 <<< 16 ||| udpIn 27 <<< 8 ||| udpIn 28) % 2 ^ 32
    let t := (t + PRESUMED_NETWORK_DELAY) % 2 ^ 32
    let t := sub32 t now
    ({ s with strip := { s.strip with timebase := t } }, true)
  else (s, false)

/-- The effects of the notification (lines 316 to 377, the block `version < 200`);
the result also tells whether the timebase was updated. -/
def syncFx (x : Ext) (now : Nat) (udpIn : Nat → Nat) (version : Nat)
    (someSel applyEffects : Bool) (s : State) : State × Bool :=
  if version < 200 then
    let s := syncPlaylist applyEffects s
    let s := syncSegs udpIn version someSel applyEffects s
    let s := syncSimple x udpIn version applyEffects s
    syncTimebase now udpIn version applyEffects s
  else (s, false)

/-- The system time of the notification (lines 380 to 401). -/
def syncTime (x : Ext) (udpIn : Nat → Nat) (version : Nat) (timebaseUpdated : Bool)
    (s : State) : State :=
  if version > 7 && version < 200 then
    let tm : TokiTime :=
      { sec := (udpIn 30 <<< 24 ||| udpIn 31 <<< 16 ||| udpIn 32 <<< 8 ||| udpIn 33) % 2 ^ 32,
        ms := (udpIn 34 <<< 8 ||| udpIn 35) % 2 ^ 16 }
    if udpIn 29 > s.toki.timeSource then
      let tm := x.tokiAdjust tm PRESUMED_NETWORK_DELAY
      let ts :=
        if udpIn 29 > 99 then x.TOKI_TS_UDP_NTP
        else if udpIn 29 ≥ x.TOKI_TS_SEC then x.TOKI_TS_UDP_SEC
        else x.TOKI_TS_UDP
      { s with toki := { timeSource := ts % 256, time := tm } }
    else if timebaseUpdated && s.toki.timeSource > 99 then
      let myTime := s.toki.time
      let diff := x.tokiMsDifference tm myTime % 2 ^ 32
      let tb := sub32 s.strip.timebase PRESUMED_NETWORK_DELAY
      let tb := if x.tokiIsLater tm myTime then (tb + diff) % 2 ^ 32 else sub32 tb diff
      { s with strip := { s.strip with timebase := tb } }
    else s
  else s

/-- The end of the notifier branch (lines 403 to 412): transition delay,
nightlight, brightness, and the call of `stateUpdated`. -/
def syncFinish (udpIn : Nat → Nat) (version : Nat) (someSel : Bool) (s : State) : State :=
  let s :=
    if version > 3 then
      { s with transitionDelayTemp :=
          ((udpIn 17 <<< 0) &&& 0xFF) + ((udpIn 18 <<< 8) &&& 0xFF00) }
    else s
  let s := { s with nightlightActive := decide (udpIn 6 ≠ 0) }
  let s := if s.nightlightActive then { s with nightlightDelayMins := udpIn 7 } else s
  let s := if s.receiveNotificationBrightness || !someSel then { s with bri := udpIn 2 } else s
  stateUpdated s

/-- Line 292: whether some selective receive flag is set. -/
def someSel (s : State) : Bool :=
  s.receiveNotificationBrightness || s.receiveNotificationColor || s.receiveNotificationEffects

/-- Lines 292 to 412 of the notifier branch: a packet that passed the three early
`return`s is applied to the state, at time `now = millis()`. -/
def syncApply (x : Ext) (now : Nat) (udpIn : Nat → Nat) (s : State) : State :=
  let version := udpIn 11
  let someSel := someSel s
  let s := syncColors s udpIn version someSel
  let applyEffects := s.receiveNotificationEffects || !someSel
  let r := syncFx x now udpIn version someSel applyEffects s
  let s := syncTime x udpIn version r.2 r.1
  syncFinish udpIn version someSel s

/-- The notifier branch of `handleNotifications` (the body of the `if` of line 277,
lines 279 to 413) at time `now = millis()`: `none` when the packet is left
unapplied by one of the three early `return`s, otherwise the state after the
packet was applied. -/
def wledNotifier (x : Ext) (now : Nat) (udpIn : Nat → Nat) (s : State) : Option State :=
  if sub32 now s.notificationSentTime < 1000 then none
  else if udpIn 1 > 199 then none
  else
    let version := udpIn 11
    if (if version < 9 || version > 199 then s.receiveGroups &&& 0x01 = 0
        else s.receiveGroups &&& udpIn 36 = 0) then none
    else some (syncApply x now udpIn s)

/-- A datagram taken from one of the two notifier sockets: its bytes, the address
it came from, and whether it came from the supplementary socket. -/
structure Datagram where
  data : List Nat
  remoteIP : Nat
  isSupp : Bool
deriving DecidableEq, Repr, Inhabited

/-- The path of a datagram through `handleNotifications` into the notifier branch
(lines 200, 233 to 247 and 277): `some s'` when the datagram is a legacy sync packet
that the branch applies, `none` when it is dropped before or inside the branch or
is left to the other protocols. -/
def receiveSync (x : Ext) (now localIP : Nat) (d : Datagram) (junk : Nat → Nat)
    (s : State) : Option State :=
  if !s.udpConnected then none
  else if !(s.receiveNotifications || s.receiveDirect) then none
  else if d.data.length = 0 || d.data.length > UDP_IN_MAXSIZE then none
  else if !d.isSupp && d.remoteIP = localIP then none
  else
    let udpIn := udpInOf d.data junk
    if d.isSupp && udpIn 0 = 255 && udpIn 1 = 1 && d.data.length ≥ 40 then none
    else if udpIn 0 = 0 && s.realtimeMode = 0 && s.receiveNotifications then
      wledNotifier x now udpIn s
    else none

/-! ## Realtime ownership, the pixel buffer and the node list -/

/-- The constant of `#define TMP2NET_OUT_PORT 65442`. -/
def TMP2NET_OUT_PORT : Nat := 65442

/-- The largest 32-bit value, `UINT32_MAX`. -/
def UINT32_MAX : Nat := 2 ^ 32 - 1

/-- Modelled from the spec: the realtime mode is inactive or one of the active
protocols; inactive is the value that the tests `!realtimeMode` take for false. -/
def REALTIME_MODE_INACTIVE : Nat := 0

/-- Modelled from the spec: the active mode of a generic realtime source. -/
def REALTIME_MODE_GENERIC : Nat := 1

/-- Modelled from the spec: the active mode of the indexed UDP formats. -/
def REALTIME_MODE_UDP : Nat := 2

/-- Modelled from the spec: the active mode of the raw RGB (Hyperion) socket. -/
def REALTIME_MODE_HYPERION : Nat := 3

/-- Modelled from the spec: the active mode of TPM2.NET. -/
def REALTIME_MODE_TPM2NET : Nat := 7

/-- Modelled from the spec: the override state none, the value that the tests
`!realtimeOverride` take for false. -/
def REALTIME_OVERRIDE_NONE : Nat := 0

/-- Modelled from the spec: the override state once. -/
def REALTIME_OVERRIDE_ONCE : Nat := 1

/-- Modelled from the spec: the override state always. -/
def REALTIME_OVERRIDE_ALWAYS : Nat := 2

/-- Modelled from the spec: an entry of the node list, with the fields that
`handleNotifications` stores: name, the four octets of the address, age, type and
build. -/
structure NodeStruct where
  nodeName : List Nat
  ip : List Nat
  age : Nat
  nodeType : Nat
  build : Nat
deriving DecidableEq, Repr, Inhabited

/-- Modelled from the spec: a fresh entry, as `Nodes[unit]` creates it: age and type 0,
address `0.0.0.0`. -/
def NodeStruct.new : NodeStruct :=
  { nodeName := [], ip := [0, 0, 0, 0], age := 0, nodeType := 0, build := 0 }

/-- A datagram that the device sends: destination address, destination port and
payload. -/
structure Sent where
  ip : Nat
  port : Nat
  data : List Nat
deriving DecidableEq, Repr, Inhabited

/-- The global variables of `udp.cpp`: those of `State` and the further ones that
`realtimeLock`, `handleNotifications` and `setRealtimePixel` read and write. The pixel
buffer, the brightness, the time of the last show and the number of shows belong to
`strip`; `notifierRemoteIP` is the value of `notifierUdp.remoteIP()`; `sent` collects
the datagrams sent. -/
structure Device extends State where
  udp2Connected : Bool
  udpRgbConnected : Bool
  subnetMask : Nat
  gatewayIP : Nat
  udpPort : Nat
  notifierRemoteIP : Nat
  sent : List Sent
  e131NewData : Bool
  realtimeOverride : Nat
  realtimeTimeout : Nat
  realtimeIP : Nat
  realtimeTimeoutMs : Nat
  briLast : Nat
  arlsForceMaxBri : Bool
  arlsOffset : Int
  arlsDisableGammaCorrection : Bool
  tpmPacketCount : Nat
  tpmPayloadFrameSize : Nat
  nodeListEnabled : Bool
  Nodes : List (Nat × NodeStruct)
  pixels : List Nat
  brightness : Nat
  gammaCorrectCol : Bool
  lastShow : Nat
  shows : Nat
deriving DecidableEq, Repr, Inhabited

/-- The functions and constants that `udp.cpp` uses from the rest of the firmware and
from its libraries: brightness scaling, the gamma table, the capacity of the node list,
`String::trim`, the HTTP API handler `handleSet`, and the JSON API (`deserializeJson`
followed by `deserializeState`; `none` when parsing fails or gives a null object). -/
structure Host where
  scaledBri : Nat → Nat
  gamma8 : Nat → Nat
  WLED_MAX_NODES : Nat
  trim : List Nat → List Nat
  handleSet : List Nat → Device → Device
  deserializeJson : List Nat → Option (Device → Device)

/-- Modelled from the spec: `strip.getLengthTotal()`, the number of pixels of the
buffer, a 16-bit value. -/
def getLengthTotal (pixels : List Nat) : Nat := pixels.length % 2 ^ 16

/-- Modelled from the spec: `strip.setPixelColor(i, r, g, b, w)` stores the colour word
at index `i` of the buffer. -/
def setPixelColor (pixels : List Nat) (i r g b w : Nat) : List Nat :=
  pixels.set i (RGBW32 r g b w)

/-- Modelled from the spec: `strip.setBrightness(b)` stores the brightness of the
strip. -/
def setBrightness (b : Nat) (dev : Device) : Device := { dev with brightness := b % 256 }

/-- Modelled from the spec: `strip.show()` pushes the buffer to the LEDs; the model
counts the calls. -/
def stripShow (dev : Device) : Device := { dev with shows := dev.shows + 1 }

/-- Modelled from the spec: an address is a word of four octets, and `ip[0] = v` stores
its first octet, taken as the lowest byte of the word. -/
def ipSetOctet0 (ip v : Nat) : Nat := ip - ip % 256 + v % 256

/-! ## `realtimeLock` and the expiry of the lock -/

/-- The function `realtimeLock(timeoutMs, md)` (lines 142 to 162) at time
`now = millis()`. -/
def realtimeLock (y : Host) (now timeoutMs md : Nat) (dev : Device) : Device :=
  let timeoutMs := timeoutMs % 2 ^ 32
  let md := md % 256
  let dev :=
    if dev.realtimeMode = 0 && dev.realtimeOverride = 0 then
      let totalLen := getLengthTotal dev.pixels
      { dev with
        pixels := (List.range totalLen).foldl (fun px i => setPixelColor px i 0 0 0 0)
          dev.pixels }
    else dev
  let dev := { dev with realtimeTimeout := (now % 2 ^ 32 + timeoutMs) % 2 ^ 32 }
  let dev :=
    if timeoutMs = 255001 || timeoutMs = 65000 then { dev with realtimeTimeout := UINT32_MAX }
    else dev
  let dev :=
    if dev.bri = 0 && dev.realtimeMode = 0 then setBrightness (y.scaledBri dev.briLast) dev
    else dev
  let dev := { dev with realtimeMode := md }
  let dev :=
    if dev.arlsForceMaxBri && dev.realtimeOverride = 0 then setBrightness (y.scaledBri 255) dev
    else dev
  if md = REALTIME_MODE_GENERIC then stripShow dev else dev

/-- The per-tick expiry check of `handleNotifications` (lines 190 to 197, "unlock strip
when realtime UDP times out") at time `now = millis()`. -/
def checkExpiry (y : Host) (now : Nat) (dev : Device) : Device :=
  if dev.realtimeMode ≠ 0 && now % 2 ^ 32 > dev.realtimeTimeout then
    let dev :=
      if dev.realtimeOverride = REALTIME_OVERRIDE_ONCE then
        { dev with realtimeOverride := REALTIME_OVERRIDE_NONE }
      else dev
    let dev := setBrightness (y.scaledBri dev.bri) dev
    let dev := { dev with realtimeMode := REALTIME_MODE_INACTIVE }
    { dev with realtimeIP := ipSetOctet0 dev.realtimeIP 0 }
  else dev

/-- The function `setRealtimePixel(i, r, g, b, w)` (lines 537 to 549) on the pixel
buffer; the flags are those of `cfg`. -/
def setRealtimePixel (y : Host) (cfg : Device) (pixels : List Nat) (i r g b w : Nat) :
    List Nat :=
  let pix := (((i : Int) + cfg.arlsOffset) % 2 ^ 16).toNat
  if pix < getLengthTotal pixels then
    if !cfg.arlsDisableGammaCorrection && cfg.gammaCorrectCol then
      setPixelColor pixels pix (y.gamma8 r) (y.gamma8 g) (y.gamma8 b) (y.gamma8 w)
    else setPixelColor pixels pix r g b w
  else pixels

/-! ## The pixel loops of the realtime protocols -/

/-- The loop of the raw RGB socket (lines 223 to 227) and, with `i` starting at 2, the
loop of DRGB (lines 483 to 487): one pixel per triplet while `i < packetSize - 2`,
stopping once `id` reaches `totalLen`. The first argument bounds the number of
rounds. -/
def drgbLoop (y : Host) (cfg : Device) (buf : Nat → Nat) (packetSize totalLen : Nat) :
    Nat → Nat → Nat → List Nat → List Nat
  | 0, _, _, px => px
  | fuel + 1, i, id, px =>
    if i < packetSize - 2 then
      let px := setRealtimePixel y cfg px id (buf i) (buf (i + 1)) (buf (i + 2)) 0
      let id := (id + 1) % 2 ^ 16
      if id ≥ totalLen then px
      else drgbLoop y cfg buf packetSize totalLen fuel ((i + 3) % 2 ^ 16) id px
    else px

/-- The loop of WARLS (lines 476 to 479): an index byte and three colour bytes per
pixel while `i < packetSize - 3`. -/
def warlsLoop (y : Host) (cfg : Device) (udpIn : Nat → Nat) (packetSize : Nat) :
    Nat → Nat → List Nat → List Nat
  | 0, _, px => px
  | fuel + 1, i, px =>
    if i < packetSize - 3 then
      let px := setRealtimePixel y cfg px (udpIn i) (udpIn (i + 1)) (udpIn (i + 2))
        (udpIn (i + 3)) 0
      warlsLoop y cfg udpIn packetSize fuel ((i + 4) % 2 ^ 16) px
    else px

/-- The loop of DRGBW (lines 492 to 496): four colour bytes per pixel while
`i < packetSize - 3`, stopping once `id` reaches `totalLen`. -/
def drgbwLoop (y : Host) (cfg : Device) (udpIn : Nat → Nat) (packetSize totalLen : Nat) :
    Nat → Nat → Nat → List Nat → List Nat
  | 0, _, _, px => px
  | fuel + 1, i, id, px =>
    if i < packetSize - 3 then
      let px := setRealtimePixel y cfg px id (udpIn i) (udpIn (i + 1)) (udpIn (i + 2))
        (udpIn (i + 3))
      let id := (id + 1) % 2 ^ 16
      if id ≥ totalLen then px
      else drgbwLoop y cfg udpIn packetSize totalLen fuel ((i + 4) % 2 ^ 16) id px
    else px

/-- The loop of DNRGB (lines 501 to 506): one pixel per triplet while
`i < packetSize - 2`, leaving the loop when `id` is not below `totalLen`. -/
def dnrgbLoop (y : Host) (cfg : Device) (udpIn : Nat → Nat) (packetSize totalLen : Nat) :
    Nat → Nat → Nat → List Nat → List Nat
  | 0, _, _, px => px
  | fuel + 1, i, id, px =>
    if i < packetSize - 2 then
      if id ≥ totalLen then px
      else
        let px := setRealtimePixel y cfg px id (udpIn i) (udpIn (i + 1)) (udpIn (i + 2)) 0
        dnrgbLoop y cfg udpIn packetSize totalLen fuel ((i + 3) % 2 ^ 16)
          ((id + 1) % 2 ^ 16) px
    else px

/-- The loop of DNRGBW (lines 510 to 515): four colour bytes per pixel, in steps of four
bytes while `i < packetSize - 2`, leaving the loop when `id` is not below `totalLen`. -/
def dnrgbwLoop (y : Host) (cfg : Device) (udpIn : Nat → Nat) (packetSize totalLen : Nat) :
    Nat → Nat → Nat → List Nat → List Nat
  | 0, _, _, px => px
  | fuel + 1, i, id, px =>
    if i < packetSize - 2 then
      if id ≥ totalLen then px
      else
        let px := setRealtimePixel y cfg px id (udpIn i) (udpIn (i + 1)) (udpIn (i + 2))
          (udpIn (i + 3))
        dnrgbwLoop y cfg udpIn packetSize totalLen fuel ((i + 4) % 2 ^ 16)
          ((id + 1) % 2 ^ 16) px
    else px

/-- The loop of TPM2.NET (lines 440 to 447): one pixel per triplet while
`i < tpmPayloadFrameSize + 4`, leaving the loop when `id` is not below `totalLen`. -/
def tpm2Loop (y : Host) (cfg : Device) (udpIn : Nat → Nat) (frameSize totalLen : Nat) :
    Nat → Nat → Nat → List Nat → List Nat
  | 0, _, _, px => px
  | fuel + 1, i, id, px =>
    if i < frameSize + 4 then
      if id < totalLen then
        let px := setRealtimePixel y cfg px id (udpIn i) (udpIn (i + 1)) (udpIn (i + 2)) 0
        tpm2Loop y cfg udpIn frameSize totalLen fuel ((i + 3) % 2 ^ 16)
          ((id + 1) % 2 ^ 16) px
      else px
    else px

/-! ## `handleNotifications`: the branches of a datagram -/

/-- The record that the node-info branch stores in the entry `nd` (lines 258 to 272)
from the buffer `udpIn` of `len` bytes: address, age 0, the name up to its first zero
byte and trimmed, type, and the build, which is 0 below 44 bytes. -/
def storeNodeInfo (y : Host) (udpIn : Nat → Nat) (len : Nat) (nd : NodeStruct) : NodeStruct :=
  let build :=
    if len ≥ 44 then
      (List.range 4).foldl (fun b i => (b ||| (udpIn (40 + i) <<< (8 * i))) % 2 ^ 32) 0
    else 0
  { nd with
    ip := (List.range 4).map (fun k => udpIn (k + 2))
    age := 0
    nodeName := y.trim (((List.range 32).map (fun k => udpIn (6 + k))).takeWhile
      (fun c => c != 0))
    nodeType := udpIn 38
    build := build }

/-- The node-info branch (lines 246 to 275) for the buffer `udpIn` of `len` bytes that
came from `remoteIP` over the supplementary socket. -/
def handleNodeInfo (y : Host) (localIP : Nat) (udpIn : Nat → Nat) (len remoteIP : Nat)
    (dev : Device) : Device :=
  if !dev.nodeListEnabled || remoteIP = localIP then dev
  else
    let unit := udpIn 39
    let nodes :=
      if (dev.Nodes.lookup unit).isNone && dev.Nodes.length < y.WLED_MAX_NODES then
        dev.Nodes ++ [(unit, NodeStruct.new)]
      else dev.Nodes
    { dev with
      Nodes := nodes.map (fun p => if p.1 = unit then (p.1, storeNodeInfo y udpIn len p.2) else p) }

/-- The function `sendTPM2Ack()` (lines 167 to 172): one byte `0xac` to the address of
`notifierUdp.remoteIP()`, port `TMP2NET_OUT_PORT`. -/
def sendTPM2Ack (dev : Device) : Device :=
  { dev with sent := dev.sent ++ [⟨dev.notifierRemoteIP, TMP2NET_OUT_PORT, [0xac]⟩] }

/-- The TPM2.NET branch (lines 419 to 455) at time `now`, for the buffer `udpIn` that
came from `remoteIP`. -/
def handleTPM2 (y : Host) (now : Nat) (udpIn : Nat → Nat) (remoteIP : Nat) (dev : Device) :
    Device :=
  let tpmType := udpIn 1
  if tpmType = 0xaa then sendTPM2Ack dev
  else if tpmType ≠ 0xda then dev
  else
    let dev := { dev with realtimeIP := remoteIP }
    let dev := realtimeLock y now dev.realtimeTimeoutMs REALTIME_MODE_TPM2NET dev
    if dev.realtimeOverride ≠ 0 then dev
    else
      let dev := { dev with tpmPacketCount := (dev.tpmPacketCount + 1) % 256 }
      let dev :=
        if dev.tpmPacketCount = 1 then
          { dev with tpmPayloadFrameSize := ((udpIn 2 <<< 8) + udpIn 3) % 2 ^ 16 }
        else dev
      let packetNum := udpIn 4
      let numPackets := udpIn 5
      let id := (((dev.tpmPayloadFrameSize / 3 : Nat) : Int) * ((packetNum : Int) - 1)
        % 2 ^ 16).toNat
      let totalLen := getLengthTotal dev.pixels
      let dev :=
        { dev with
          pixels := tpm2Loop y dev udpIn dev.tpmPayloadFrameSize totalLen (totalLen + 1) 6 id
            dev.pixels }
      if dev.tpmPacketCount = numPackets then stripShow { dev with tpmPacketCount := 0 }
      else dev

/-- The branch of the indexed realtime formats (lines 458 to 519) at time `now`, for the
buffer `udpIn` of a datagram of `packetSize` bytes that came from `remoteIP`; the
test `udpIn[0] > 0 && udpIn[0] < 5` of line 458 is that of `handleDatagram`. -/
def handleRealtime (y : Host) (now : Nat) (udpIn : Nat → Nat) (packetSize remoteIP : Nat)
    (dev : Device) : Device :=
  let dev := { dev with realtimeIP := remoteIP }
  if packetSize < 2 then dev
  else if udpIn 1 = 0 then { dev with realtimeTimeout := 0 }
  else
    let dev := realtimeLock y now (udpIn 1 * 1000 + 1) REALTIME_MODE_UDP dev
    if dev.realtimeOverride ≠ 0 then dev
    else
      let totalLen := getLengthTotal dev.pixels
      let pixels :=
        if udpIn 0 = 1 then warlsLoop y dev udpIn packetSize packetSize 2 dev.pixels
        else if udpIn 0 = 2 then
          drgbLoop y dev udpIn packetSize totalLen packetSize 2 0 dev.pixels
        else if udpIn 0 = 3 then
          drgbwLoop y dev udpIn packetSize totalLen packetSize 2 0 dev.pixels
        else if udpIn 0 = 4 then
          let id := ((udpIn 3 <<< 0) &&& 0xFF) + ((udpIn 2 <<< 8) &&& 0xFF00)
          dnrgbLoop y dev udpIn packetSize totalLen packetSize 4 id dev.pixels
        else if udpIn 0 = 5 then
          let id := ((udpIn 3 <<< 0) &&& 0xFF) + ((udpIn 2 <<< 8) &&& 0xFF00)
          dnrgbwLoop y dev udpIn packetSize totalLen packetSize 4 id dev.pixels
        else dev.pixels
      stripShow { dev with pixels := pixels }

/-- The API over UDP (lines 521 to 533) for the buffer `udpIn` of a datagram of
`packetSize` bytes: the request is the text of the buffer up to its first zero byte,
a zero being stored behind the datagram first. -/
def handleApi (y : Host) (udpIn : Nat → Nat) (packetSize : Nat) (dev : Device) : Device :=
  let udpIn := Function.update udpIn packetSize 0
  let text := ((List.range (packetSize + 1)).map udpIn).takeWhile (fun c => c != 0)
  if udpIn 0 ≥ 65 && udpIn 0 ≤ 90 then y.handleSet text dev
  else if udpIn 0 = 123 then
    match y.deserializeJson text with
    | some f => f dev
    | none => dev
  else dev

/-- The branch of the raw RGB (Hyperion) socket (lines 212 to 230) at time `now` for a
datagram `data` from `remoteIP`. -/
def handleRawRgb (y : Host) (now : Nat) (data : List Nat) (remoteIP : Nat) (junk : Nat → Nat)
    (dev : Device) : Device :=
  let packetSize := data.length
  if !dev.receiveDirect then dev
  else if packetSize > UDP_IN_MAXSIZE || packetSize < 3 then dev
  else
    let dev := { dev with realtimeIP := remoteIP }
    let lbuf := udpInOf data junk
    let dev := realtimeLock y now dev.realtimeTimeoutMs REALTIME_MODE_HYPERION dev
    if dev.realtimeOverride ≠ 0 then dev
    else
      let totalLen := getLengthTotal dev.pixels
      stripShow
        { dev with
          pixels := drgbLoop y dev lbuf packetSize totalLen packetSize 0 0 dev.pixels }

/-- The path of a datagram of one of the two notifier sockets through
`handleNotifications` (lines 233 to 533) at time `now = millis()`. -/
def handleDatagram (x : Ext) (y : Host) (now localIP : Nat) (d : Datagram) (junk : Nat → Nat)
    (dev : Device) : Device :=
  let packetSize := d.data.length
  if !(dev.receiveNotifications || dev.receiveDirect) then dev
  else if packetSize = 0 || packetSize > UDP_IN_MAXSIZE then dev
  else if !d.isSupp && d.remoteIP = localIP then dev
  else
    let udpIn := udpInOf d.data junk
    if d.isSupp && udpIn 0 = 255 && udpIn 1 = 1 && packetSize ≥ 40 then
      handleNodeInfo y localIP udpIn packetSize d.remoteIP dev
    else if udpIn 0 = 0 && dev.realtimeMode = 0 && dev.receiveNotifications then
      match wledNotifier x now udpIn dev.toState with
      | some s => { dev with toState := s }
      | none => dev
    else if !dev.receiveDirect then dev
    else if udpIn 0 = 0x9c then handleTPM2 y now udpIn d.remoteIP dev
    else if udpIn 0 > 0 && udpIn 0 < 5 then
      handleRealtime y now udpIn packetSize d.remoteIP dev
    else handleApi y udpIn packetSize dev

/-! ## `handleNotifications`: one tick -/

/-- A datagram waiting in a socket: its bytes and the address it came from. -/
structure UdpPacket where
  data : List Nat
  remoteIP : Nat
deriving DecidableEq, Repr, Inhabited

/-- What the three sockets hold when `handleNotifications` polls them. -/
structure Sockets where
  notifierUdp : Option UdpPacket
  notifier2Udp : Option UdpPacket
  rgbUdp : Option UdpPacket
deriving DecidableEq, Repr, Inhabited

/-- The value of `parsePacket()`: the size of the waiting datagram, 0 when there is
none. -/
def parsePacket (p : Option UdpPacket) : Nat :=
  match p with
  | some q => q.data.length
  | none => 0

/-- The bytes that `read` takes from a socket: those of the waiting datagram. -/
def socketData (p : Option UdpPacket) : List Nat :=
  match p with
  | some q => q.data
  | none => []

/-- The value of `remoteIP()` after a socket with last sender `old` was polled. -/
def socketRemoteIP (p : Option UdpPacket) (old : Nat) : Nat :=
  match p with
  | some q => if q.data.length = 0 then old else q.remoteIP
  | none => old

/-- The second notification (lines 180 to 182) at time `now = millis()`; the datagram
goes to the broadcast address of line 132. -/
def secondNotification (x : Ext) (now : Nat) (dev : Device) : Device :=
  if dev.udpConnected && dev.notificationTwoRequired
      && sub32 now dev.notificationSentTime > 250 then
    let r := notify x now dev.notificationSentCallMode true dev.toState
    let broadcastIp := ((2 ^ 32 - 1 - dev.subnetMask % 2 ^ 32) ||| dev.gatewayIP) % 2 ^ 32
    match r.2 with
    | some pkt =>
      { dev with
        toState := r.1
        sent := dev.sent ++ [⟨broadcastIp, dev.udpPort, pkt⟩] }
    | none => { dev with toState := r.1 }
  else dev

/-- The show of fresh E1.31 data (lines 184 to 188) at time `now = millis()`. -/
def e131Show (now : Nat) (dev : Device) : Device :=
  if dev.e131NewData && sub32 now dev.lastShow > 15 then
    stripShow { dev with e131NewData := false }
  else dev

/-- The steps that every tick of `handleNotifications` takes before it polls the
sockets (lines 180 to 197): second notification, E1.31 show, expiry check. -/
def tickStart (x : Ext) (y : Host) (now : Nat) (dev : Device) : Device :=
  checkExpiry y now (e131Show now (secondNotification x now dev))

/-- The function `handleNotifications()` (lines 175 to 534) at time `now = millis()`,
with local address `localIP`, the sockets holding `socks`, and `junk` the memory behind
the received datagram. -/
def handleNotifications (x : Ext) (y : Host) (now localIP : Nat) (junk : Nat → Nat)
    (socks : Sockets) (dev : Device) : Device :=
  let dev := tickStart x y now dev
  if !dev.udpConnected then dev
  else
    let packetSize := parsePacket socks.notifierUdp
    let dev :=
      { dev with
        notifierRemoteIP := socketRemoteIP socks.notifierUdp dev.notifierRemoteIP }
    let isSupp := packetSize = 0 && dev.udp2Connected
    let packetSize := if isSupp then parsePacket socks.notifier2Udp else packetSize
    if packetSize = 0 && dev.udpRgbConnected && parsePacket socks.rgbUdp ≠ 0 then
      handleRawRgb y now (socketData socks.rgbUdp) (socketRemoteIP socks.rgbUdp 0) junk dev
    else
      let d : Datagram :=
        if isSupp then
          ⟨socketData socks.notifier2Udp, socketRemoteIP socks.notifier2Udp 0, true⟩
        else ⟨socketData socks.notifierUdp, dev.notifierRemoteIP, false⟩
      handleDatagram x y now localIP d junk dev

/-- The datagram `d` is the one that a tick reads from the notifier sockets `socks` on
the device `dev`: it waits in the primary socket, or the primary socket holds nothing,
the supplementary socket is connected and it waits there. -/
def Reads (socks : Sockets) (dev : Device) (d : Datagram) : Prop :=
  d.data ≠ [] ∧
  ((socks.notifierUdp = some ⟨d.data, d.remoteIP⟩ ∧ d.isSupp = false)
    ∨ (parsePacket socks.notifierUdp = 0 ∧ dev.udp2Connected = true
        ∧ socks.notifier2Udp = some ⟨d.data, d.remoteIP⟩ ∧ d.isSupp = true))

/-! ## The node list: aging and announcements -/

/-- The function `refreshNodeList()` (lines 553 to 571) on the node list: an entry with
a nonzero first octet and an age below 10 stays, one tick older; every other entry is
erased. -/
def refreshNodeList (nodes : List (Nat × NodeStruct)) : List (Nat × NodeStruct) :=
  nodes.filterMap (fun p =>
    if p.2.ip.getD 0 0 ≠ 0 ∧ p.2.age < 10 then
      some (p.1, { p.2 with age := (p.2.age + 1) % 256 })
    else none)

/-- What happens to the node list: an announcement, given by the receive buffer, its
length and the address it came from, reaches the node-info branch, or
`refreshNodeList()` runs. -/
inductive NodeEvent where
  | announce (udpIn : Nat → Nat) (len remoteIP : Nat)
  | tick

/-- The device after one event of the node list. -/
def nodeStep (y : Host) (localIP : Nat) (dev : Device) : NodeEvent → Device
  | .announce udpIn len remoteIP => handleNodeInfo y localIP udpIn len remoteIP dev
  | .tick => { dev with Nodes := refreshNodeList dev.Nodes }

/-- The device after a sequence of events of the node list. -/
def nodeRun (y : Host) (localIP : Nat) (events : List NodeEvent) (dev : Device) : Device :=
  events.foldl (nodeStep y localIP) dev

/-- What `sendSysInfoUDP()` reads: the octets of `Network.localIP()`, the characters of
`serverDescription`, the node type of the platform, `VERSION` and `udpPort2`. -/
structure SysInfo where
  localIP : List Nat
  serverDescription : List Nat
  NODE_TYPE_ID : Nat
  VERSION : Nat
  udpPort2 : Nat
deriving DecidableEq, Repr, Inhabited

/-- The address that `sendSysInfoUDP()` announces (lines 579 and 580): the local
address, or `4.3.2.1` when that is `0.0.0.0` or `255.255.255.255`. -/
def sysInfoIP (i : SysInfo) : List Nat :=
  if i.localIP = [0, 0, 0, 0] || i.localIP = [255, 255, 255, 255] then [4, 3, 2, 1]
  else i.localIP

/-- The 44 bytes that `sendSysInfoUDP()` builds (lines 593 to 613). -/
def sysInfoData (i : SysInfo) : List Nat :=
  let ip := sysInfoIP i
  [255, 1]
    ++ (List.range 4).map (fun x => ip.getD x 0 % 256)
    ++ (List.range 32).map (fun k => i.serverDescription.getD k 0 % 256)
    ++ [i.NODE_TYPE_ID % 256, ip.getD 3 0 % 256]
    ++ (List.range 4).map (fun k => ((i.VERSION % 2 ^ 32) >>> (8 * k)) &&& 0xFF)

/-- The function `sendSysInfoUDP()` (lines 576 to 619): the announcement goes to
`255.255.255.255`, port `udpPort2`. -/
def sendSysInfoUDP (i : SysInfo) (dev : Device) : Device :=
  if !dev.udp2Connected then dev
  else { dev with sent := dev.sent ++ [⟨0xFFFFFFFF, i.udpPort2, sysInfoData i⟩] }

/-! ## Passes of the main loop -/

/-- One pass of the main loop through `handleNotifications()`: the time `millis()`, what
the three sockets hold, and the memory behind the datagram that is read. -/
structure Tick where
  now : Nat
  junk : Nat → Nat
  socks : Sockets

/-- The device after the passes `ticks` through `handleNotifications()`, one after the
other, at the local address `localIP`. -/
def tickRun (x : Ext) (y : Host) (localIP : Nat) (ticks : List Tick) (dev : Device) : Device :=
  ticks.foldl (fun dev t => handleNotifications x y t.now localIP t.junk t.socks dev) dev

/-- The colour word that `setRealtimePixel(i, r, g, b, w)` stores (lines 542 to 546). -/
def realtimeColor (y : Host) (cfg : Device) (r g b w : Nat) : Nat :=
  if !cfg.arlsDisableGammaCorrection && cfg.gammaCorrectCol then
    RGBW32 (y.gamma8 r) (y.gamma8 g) (y.gamma8 b) (y.gamma8 w)
  else RGBW32 r g b w

/-! ## `realtimeBroadcast`: DDP output -/

/-- The constant of `#define DDP_FLAGS1_VER1 0x40`. -/
def DDP_FLAGS1_VER1 : Nat := 0x40

/-- The constant of `#define DDP_FLAGS1_PUSH 0x01`. -/
def DDP_FLAGS1_PUSH : Nat := 0x01

/-- The constant of `#define DDP_ID_DISPLAY 1`. -/
def DDP_ID_DISPLAY : Nat := 1

/-- The constant of `#define DDP_CHANNELS_PER_PACKET 1440`. -/
def DDP_CHANNELS_PER_PACKET : Nat := 1440

/-- What `realtimeBroadcast` uses from outside `udp.cpp`: `scale8`, the port
`DDP_DEFAULT_PORT`, `interfacesInited`, and whether `beginPacket` and `endPacket`
succeed for the packet of a given number. -/
structure Net where
  scale8 : Nat → Nat → Nat
  DDP_DEFAULT_PORT : Nat
  interfacesInited : Bool
  beginPacket : Nat → Bool
  endPacket : Nat → Bool

/-- The outcome of `realtimeBroadcast`: the value returned, the shared
`sequenceNumber` afterwards, and the datagrams sent. -/
structure Broadcast where
  result : Nat
  sequenceNumber : Nat
  sent : List Sent
deriving DecidableEq, Repr, Inhabited

/-- The colour loop of one DDP packet (lines 712 to 717): three scaled bytes per round
while `i < packetSize`, the buffer offset skipping the white byte of an RGBW buffer.
The result is the bytes written and the buffer offset afterwards; the first argument
bounds the number of rounds. -/
def ddpColors (n : Net) (buffer : Nat → Nat) (bri : Nat) (isRGBW : Bool) (packetSize : Nat) :
    Nat → Nat → Nat → List Nat → List Nat × Nat
  | 0, _, bufferOffset, out => (out, bufferOffset)
  | fuel + 1, i, bufferOffset, out =>
    if i < packetSize then
      let out := out ++ [n.scale8 (buffer bufferOffset) bri,
        n.scale8 (buffer ((bufferOffset + 1) % 2 ^ 16)) bri,
        n.scale8 (buffer ((bufferOffset + 2) % 2 ^ 16)) bri]
      let bufferOffset := (bufferOffset + 3) % 2 ^ 16
      let bufferOffset := if isRGBW then (bufferOffset + 1) % 2 ^ 16 else bufferOffset
      ddpColors n buffer bri isRGBW packetSize fuel ((i + 3) % 2 ^ 16) bufferOffset out
    else (out, bufferOffset)

/-- The packet loop of the DDP case (lines 675 to 726) from packet number
`currentPacket` on, with the channel offset, the buffer offset, the sequence number and
the datagrams sent so far; the first argument bounds the number of rounds. -/
def ddpLoop (n : Net) (client : Nat) (buffer : Nat → Nat) (bri : Nat) (isRGBW : Bool)
    (channelCount packetCount : Nat) :
    Nat → Nat → Nat → Nat → Nat → List Sent → Broadcast
  | 0, _, _, _, sequenceNumber, sent => ⟨0, sequenceNumber, sent⟩
  | fuel + 1, currentPacket, channel, bufferOffset, sequenceNumber, sent =>
    if currentPacket < packetCount then
      let sequenceNumber := if sequenceNumber > 15 then 0 else sequenceNumber
      if !n.beginPacket currentPacket then ⟨1, sequenceNumber, sent⟩
      else
        let last := decide (currentPacket = packetCount - 1)
        let flags := if last then DDP_FLAGS1_VER1 ||| DDP_FLAGS1_PUSH else DDP_FLAGS1_VER1
        let packetSize :=
          if last && decide (channelCount % DDP_CHANNELS_PER_PACKET ≠ 0) then
            channelCount % DDP_CHANNELS_PER_PACKET
          else DDP_CHANNELS_PER_PACKET
        let header := [flags, sequenceNumber &&& 0x0F, 0, DDP_ID_DISPLAY,
          0xFF &&& (channel >>> 24), 0xFF &&& (channel >>> 16), 0xFF &&& (channel >>> 8),
          0xFF &&& channel, 0xFF &&& (packetSize >>> 8), 0xFF &&& packetSize]
        let sequenceNumber := (sequenceNumber + 1) % 256
        let colors := ddpColors n buffer bri isRGBW packetSize packetSize 0 bufferOffset []
        if !n.endPacket currentPacket then ⟨1, sequenceNumber, sent⟩
        else
          ddpLoop n client buffer bri isRGBW channelCount packetCount fuel
            ((currentPacket + 1) % 2 ^ 16) ((channel + packetSize) % 2 ^ 32) colors.2
            sequenceNumber (sent ++ [⟨client, n.DDP_DEFAULT_PORT, header ++ colors.1⟩])
    else ⟨0, sequenceNumber, sent⟩

/-- The function `realtimeBroadcast(type, client, length, buffer, bri, isRGBW)` (lines
655 to 737) with the shared `sequenceNumber` at its call. -/
def realtimeBroadcast (n : Net) (type client length : Nat) (buffer : Nat → Nat) (bri : Nat)
    (isRGBW : Bool) (sequenceNumber : Nat) : Broadcast :=
  if !n.interfacesInited then ⟨1, sequenceNumber, []⟩
  else if type % 256 = 0 then
    let channelCount := (length % 2 ^ 16 * 3) % 2 ^ 16
    let packetCount := channelCount / DDP_CHANNELS_PER_PACKET
    let packetCount :=
      if channelCount % DDP_CHANNELS_PER_PACKET ≠ 0 then packetCount + 1 else packetCount
    ddpLoop n client buffer bri isRGBW channelCount packetCount (packetCount + 1) 0 0 0
      sequenceNumber []
  else ⟨0, sequenceNumber, []⟩

/-- The datagram that one round of the packet loop of `realtimeBroadcast` (lines 675 to
724) writes between `beginPacket` and `endPacket`, for the loop variables at that point;
`sequenceNumber` is the counter after the reset of line 676. -/
def ddpPacket (n : Net) (client : Nat) (buffer : Nat → Nat) (bri : Nat) (isRGBW : Bool)
    (channelCount packetCount currentPacket channel bufferOffset sequenceNumber : Nat) :
    Sent :=
  let last := decide (currentPacket = packetCount - 1)
  let flags := if last then DDP_FLAGS1_VER1 ||| DDP_FLAGS1_PUSH else DDP_FLAGS1_VER1
  let packetSize :=
    if last && decide (channelCount % DDP_CHANNELS_PER_PACKET ≠ 0) then
      channelCount % DDP_CHANNELS_PER_PACKET
    else DDP_CHANNELS_PER_PACKET
  let header := [flags, sequenceNumber &&& 0x0F, 0, DDP_ID_DISPLAY,
    0xFF &&& (channel >>> 24), 0xFF &&& (channel >>> 16), 0xFF &&& (channel >>> 8),
    0xFF &&& channel, 0xFF &&& (packetSize >>> 8), 0xFF &&& packetSize]
  let colors := ddpColors n buffer bri isRGBW packetSize packetSize 0 bufferOffset []
  ⟨client, n.DDP_DEFAULT_PORT, header ++ colors.1⟩

/-- One call `realtimeBroadcast(type, client, length, buffer, bri, isRGBW)` together with
the network as it is during the call. -/
structure BroadcastCall where
  net : Net
  type : Nat
  client : Nat
  length : Nat
  buffer : Nat → Nat
  bri : Nat
  isRGBW : Bool

/-- The calls of `realtimeBroadcast` in `calls`, one after the other, on the shared
`sequenceNumber` of line 653: the counter after the last call and the datagrams sent so
far, those of `sent` first. -/
def broadcastRun : List BroadcastCall → Nat → List Sent → Nat × List Sent
  | [], sequenceNumber, sent => (sequenceNumber, sent)
  | c :: calls, sequenceNumber, sent =>
    let r := realtimeBroadcast c.net c.type c.client c.length c.buffer c.bri c.isRGBW
      sequenceNumber
    broadcastRun calls r.sequenceNumber (sent ++ r.sent)

/-! ## The fields that a version defines -/

/-- The buffers `u` and `u'` hold the same packet as far as its version `u 11` defines
fields: bytes 0 to 9 and the version byte always, and the bytes of a field introduced
in version `k` when the version is at least `k` (white 1, secondary colour 2,
intensity 3, transition delay 4, palette 5, timebase 6, tertiary colour 7, system
time 8, sync groups 9, CCT 10, segment records 11). -/
def sameFields (u u' : Nat → Nat) : Prop :=
  (∀ i, i ≤ 9 → u' i = u i) ∧ u' 11 = u 11
  ∧ (u 11 > 0 → u' 10 = u 10)
  ∧ (u 11 > 1 → ∀ i, 12 ≤ i → i ≤ 15 → u' i = u i)
  ∧ (u 11 > 2 → u' 16 = u 16)
  ∧ (u 11 > 3 → ∀ i, 17 ≤ i → i ≤ 18 → u' i = u i)
  ∧ (u 11 > 4 → u' 19 = u 19)
  ∧ (u 11 > 5 → ∀ i, 25 ≤ i → i ≤ 28 → u' i = u i)
  ∧ (u 11 > 6 → ∀ i, 20 ≤ i → i ≤ 23 → u' i = u i)
  ∧ (u 11 > 7 → ∀ i, 29 ≤ i → i ≤ 35 → u' i = u i)
  ∧ (u 11 > 8 → u' 36 = u 36)
  ∧ (u 11 > 9 → ∀ i, 37 ≤ i → i ≤ 38 → u' i = u i)
  ∧ (u 11 > 10 → u' 39 = u 39 ∧ u' 40 = u 40
      ∧ ∀ i j, i < u 39 → j < 28 →
          u' (j + (41 + i * u 40) % 2 ^ 16) = u (j + (41 + i * u 40) % 2 ^ 16))

/-! ## The decoding of one segment record -/

/-- The segment that the body of the segment loop makes of the local segment `g`
from the record at offset `ofs`, when segment options and segment bounds are
received and effects and colours are applied: the setters of lines 333 to 349 in
their order. -/
def recordSegment (udpIn : Nat → Nat) (ofs : Nat) (g : Segment) : Segment :=
  let g := (List.range 4).foldl
    (fun g j => g.setOption j (decide ((udpIn (9 + ofs) >>> j) &&& 0x01 ≠ 0))) g
  let g := g.setOpacity (udpIn (10 + ofs))
  let g := { g with mode := udpIn (11 + ofs) }
  let g := { g with speed := udpIn (12 + ofs) }
  let g := { g with intensity := udpIn (13 + ofs) }
  let g := { g with palette := udpIn (14 + ofs) }
  let g := g.setColor 0
    (RGBW32 (udpIn (15 + ofs)) (udpIn (16 + ofs)) (udpIn (17 + ofs)) (udpIn (18 + ofs)))
  let g := g.setColor 1
    (RGBW32 (udpIn (19 + ofs)) (udpIn (20 + ofs)) (udpIn (21 + ofs)) (udpIn (22 + ofs)))
  let g := g.setColor 2
    (RGBW32 (udpIn (23 + ofs)) (udpIn (24 + ofs)) (udpIn (25 + ofs)) (udpIn (26 + ofs)))
  let g := g.setCCT (udpIn (27 + ofs))
  { g with start := (udpIn (1 + ofs) <<< 8 ||| udpIn (2 + ofs)) % 2 ^ 16,
           stop := (udpIn (3 + ofs) <<< 8 ||| udpIn (4 + ofs)) % 2 ^ 16,
           grouping := udpIn (5 + ofs), spacing := udpIn (6 + ofs),
           offset := (udpIn (7 + ofs) <<< 8 ||| udpIn (8 + ofs)) % 2 ^ 16 }

/-- The fields of a segment are within their C types: 16 bits for start, stop and
offset, 32 bits for the colours, 8 bits for the others. -/
def Segment.wf (g : Segment) : Prop :=
  g.start < 2 ^ 16 ∧ g.stop < 2 ^ 16 ∧ g.offset < 2 ^ 16 ∧ g.grouping < 256
  ∧ g.spacing < 256 ∧ g.options < 256 ∧ g.opacity < 256 ∧ g.mode < 256 ∧ g.speed < 256
  ∧ g.intensity < 256 ∧ g.palette < 256 ∧ g.colors0 < 2 ^ 32 ∧ g.colors1 < 2 ^ 32
  ∧ g.colors2 < 2 ^ 32 ∧ g.cct < 256

instance (g : Segment) : Decidable g.wf := by
  unfold Segment.wf
  infer_instance

/-! ## Example devices -/

/-- An instance of the external parts, with the call modes numbered in the order of
the `switch` of `notify`; used to run the definitions on concrete inputs. -/
def extExample : Ext :=
  { CALL_MODE_INIT := 0, CALL_MODE_DIRECT_CHANGE := 1, CALL_MODE_BUTTON := 2,
    CALL_MODE_BUTTON_PRESET := 3, CALL_MODE_NIGHTLIGHT := 4, CALL_MODE_HUE := 5,
    CALL_MODE_PRESET_CYCLE := 6, CALL_MODE_BLYNK := 7, CALL_MODE_ALEXA := 8,
    CALL_MODE_HOMEKIT := 9,
    TOKI_TS_UDP := 1, TOKI_TS_UDP_NTP := 110, TOKI_TS_UDP_SEC := 20, TOKI_TS_SEC := 40,
    tokiAdjust := fun t d => { sec := t.sec, ms := t.ms + d },
    tokiMsDifference := fun _ _ => 0,
    tokiIsLater := fun _ _ => false,
    isActive := fun g => decide (g.stop > g.start),
    isSelected := fun g => decide (g.options % 2 = 1) }

/-- A segment with a different value in every field. -/
def segmentExample : Segment :=
  { start := 300, stop := 700, offset := 258, grouping := 2, spacing := 3, options := 0xA5,
    opacity := 200, mode := 7, speed := 8, intensity := 9, palette := 10,
    colors0 := 0x11223344, colors1 := 0xAABBCCDD, colors2 := 0x01020304, cct := 77 }

/-- A strip of two segments. -/
def stripExample : Strip :=
  { segments := [segmentExample, { segmentExample with start := 0, stop := 20, options := 0x5A }],
    mainSegment := 0, timebase := 5, color0 := 0, color1 := 0, color2 := 0, cct := 0,
    hasCCTBus := true, modeCount := 100, paletteCount := 50 }

/-- A device that notifies on direct changes and receives in sync group 1. -/
def senderExample : State :=
  { udpConnected := true, syncGroups := 1, receiveGroups := 1,
    notifyDirect := true, notifyButton := false, notifyHue := false, notifyAlexa := false,
    notifyHK := false, notifyTwice := false,
    notificationSentCallMode := 0, notificationSentTime := 0, notificationTwoRequired := false,
    receiveNotifications := true, receiveDirect := true,
    receiveNotificationBrightness := false, receiveNotificationColor := false,
    receiveNotificationEffects := false,
    receiveSegmentOptions := false, receiveSegmentBounds := false,
    realtimeMode := 0, bri := 128, nightlightActive := true, nightlightDelayMins := 60,
    transitionDelay := 750, transitionDelayTemp := 0, currentPlaylist := -1,
    stateChanged := false, stateUpdatedCalls := 0,
    strip := stripExample,
    toki := { timeSource := 120, time := { sec := 1700000000, ms := 999 } } }

/-- A second device, dark and with blank segments, that receives from `senderExample`. -/
def receiverExample : State :=
  { senderExample with
    bri := 1, nightlightActive := false, nightlightDelayMins := 0, transitionDelay := 0,
    strip := { stripExample with
      segments := [{ (default : Segment) with options := 0xF0 }, default], timebase := 0 },
    toki := { timeSource := 0, time := { sec := 0, ms := 0 } } }

/-- The packet that `senderExample` broadcasts at `millis() = 100000` on a direct change. -/
def packetExample : List Nat := notifyPacket 100000 1 false senderExample

/-- The state of `receiverExample` after `packetExample` was applied at
`millis() = 5000`, the memory beyond the datagram being zero. -/
def receivedExample : State :=
  syncApply extExample 5000 (udpInOf packetExample (fun _ => 0)) receiverExample

/-- A 12-byte packet as a sender of an old version `v` builds it: call mode 1,
brightness 50, colour (1, 2, 3), nightlight on with 30 minutes, effect 5 at speed 6,
white 7, and the version byte. -/
def legacyPacket (v : Nat) : List Nat := [0, 1, 50, 1, 2, 3, 1, 30, 5, 6, 7, v]

/-- The state of `receiverExample` after `legacyPacket v` was applied at
`millis() = 5000`, the memory beyond the datagram being zero. -/
def legacyReceived (v : Nat) : State :=
  syncApply extExample 5000 (udpInOf (legacyPacket v) (fun _ => 0)) receiverExample

/-- The packet of `senderExample` with its version byte replaced by 200, the first
of the versions of custom senders. -/
def customPacketExample : List Nat := packetExample.set 11 200

/-- The state of `receiverExample` after `customPacketExample` was applied. -/
def customReceived : State :=
  syncApply extExample 5000 (udpInOf customPacketExample (fun _ => 0)) receiverExample

/-- The first 40 bytes of the packet of `senderExample`: a version-11 packet cut
before its byte 40. -/
def truncatedPacketExample : List Nat := packetExample.take 40

/-- The state of `receiverExample` after `truncatedPacketExample` was applied. -/
def truncatedReceived : State :=
  syncApply extExample 5000 (udpInOf truncatedPacketExample (fun _ => 0)) receiverExample

/-- A receiver of segment options and segment bounds, with two segments of
opacity 200. -/
def segReceiverExample : State :=
  { receiverExample with
    receiveSegmentOptions := true, receiveSegmentBounds := true,
    strip := { receiverExample.strip with
      segments := [{ (default : Segment) with options := 0xF0, opacity := 200 },
                   { (default : Segment) with opacity := 200 }] } }

/-- The 41 header bytes of the packet of `senderExample`, declaring in byte 39 one
segment record of which the datagram holds no byte. -/
def headerOnlyExample : List Nat := packetExample.take 39 ++ [1, 28]

/-- The header of `headerOnlyExample` followed by one record of 28 bytes whose
segment id, its first byte, is 2: the number of segments of `segReceiverExample`. -/
def outOfRangeExample : List Nat :=
  headerOnlyExample ++
    [2, 0, 5, 0, 9, 1, 0, 0, 0, 0x0F, 77, 1, 2, 3, 4, 5, 6, 7, 8, 9, 10, 11, 12, 13, 14, 15, 16, 17]

/-- The state of `segReceiverExample` after `packetExample` was applied. -/
def segReceived : State :=
  syncApply extExample 5000 (udpInOf packetExample (fun _ => 0)) segReceiverExample

/-- A host with a linear brightness scale and a quadratic gamma table, whose API
handlers leave the device alone. -/
def hostExample : Host :=
  { scaledBri := fun b => b * 200 / 255, gamma8 := fun v => v * v / 255,
    WLED_MAX_NODES := 150, trim := fun t => t,
    handleSet := fun _ dev => dev, deserializeJson := fun _ => none }

/-- The device of `receiverExample` with eight lit pixels, all three sockets connected
and no realtime owner. -/
def deviceExample : Device :=
  { toState := receiverExample,
    udp2Connected := true, udpRgbConnected := true,
    subnetMask := 0x00FFFFFF, gatewayIP := 0x0101A8C0, udpPort := 21324,
    notifierRemoteIP := 0, sent := [], e131NewData := false,
    realtimeOverride := 0, realtimeTimeout := 0, realtimeIP := 0, realtimeTimeoutMs := 2500,
    briLast := 128, arlsForceMaxBri := false, arlsOffset := 0,
    arlsDisableGammaCorrection := true,
    tpmPacketCount := 0, tpmPayloadFrameSize := 0,
    nodeListEnabled := true, Nodes := [],
    pixels := [1, 2, 3, 4, 5, 6, 7, 8], brightness := 1, gammaCorrectCol := false,
    lastShow := 0, shows := 0 }

/-- The device `deviceExample` while an indexed realtime source owns it until
`millis() = 6000`. -/
def lockedExample : Device :=
  { deviceExample with realtimeMode := REALTIME_MODE_UDP, realtimeTimeout := 6000 }

/-- Sockets of which only the primary notifier socket holds a datagram. -/
def primaryOnly (data : List Nat) (remoteIP : Nat) : Sockets :=
  { notifierUdp := some ⟨data, remoteIP⟩, notifier2Udp := none, rgbUdp := none }

/-- Sockets of which only the supplementary notifier socket holds a datagram. -/
def suppOnly (data : List Nat) (remoteIP : Nat) : Sockets :=
  { notifierUdp := none, notifier2Udp := some ⟨data, remoteIP⟩, rgbUdp := none }

/-- Sockets of which only the raw RGB socket holds a datagram. -/
def rgbOnly (data : List Nat) (remoteIP : Nat) : Sockets :=
  { notifierUdp := none, notifier2Udp := none, rgbUdp := some ⟨data, remoteIP⟩ }

/-- A network on which every send succeeds; `scale8(v, bri)` is `v * bri / 256`. -/
def netExample : Net :=
  { scale8 := fun v bri => v * bri / 256, DDP_DEFAULT_PORT := 4048, interfacesInited := true,
    beginPacket := fun _ => true, endPacket := fun _ => true }

/-- A node at `192.168.1.7` named `WLED` on an ESP32 (node type 32), of build 2203150. -/
def sysInfoExample : SysInfo :=
  { localIP := [192, 168, 1, 7], serverDescription := [87, 76, 69, 68, 0],
    NODE_TYPE_ID := 32, VERSION := 2203150, udpPort2 := 65506 }

/-- The node list with the one entry that the announcement of `sysInfoExample` leaves in
the empty list. -/
def nodesExample : List (Nat × NodeStruct) :=
  [(7, { nodeName := [87, 76, 69, 68], ip := [192, 168, 1, 7], age := 0, nodeType := 32,
         build := 2203150 })]

/-- A host like `hostExample` whose node list holds one entry at most. -/
def smallHostExample : Host := { hostExample with WLED_MAX_NODES := 1 }

/-- The device `deviceExample` with the node list `nodesExample`. -/
def nodeDeviceExample : Device := { deviceExample with Nodes := nodesExample }

/-- A second node, at `192.168.1.9`, named `B`, of build 2203151. -/
def sysInfoExample2 : SysInfo :=
  { localIP := [192, 168, 1, 9], serverDescription := [32, 66, 32, 0, 88],
    NODE_TYPE_ID := 82, VERSION := 2203151, udpPort2 := 65506 }

/-- A new announcement of the node of `sysInfoExample`, renamed `X` and of build 5. -/
def sysInfoExample3 : SysInfo :=
  { sysInfoExample with serverDescription := [88, 0], VERSION := 5 }

/-- Data packet `p + 1` of a TPM2.NET frame of three packets of two pixels each, from
sender 7 over the primary socket; its colour bytes are `10 * p + 1` to `10 * p + 6`. -/
def tpmDatagramExample (p : Nat) : Datagram :=
  ⟨[0x9c, 0xda, 0, 6, p + 1, 3, 10 * p + 1, 10 * p + 2, 10 * p + 3, 10 * p + 4, 10 * p + 5,
    10 * p + 6, 0x36], 7, false⟩

/-- The pass that reads the packet `tpmDatagramExample p` at `millis() = 5000 + g * p`. -/
def tpmFrameExample (g p : Nat) : Tick :=
  { now := 5000 + g * p,
    junk := fun _ => 0,
    socks := primaryOnly (tpmDatagramExample p).data 7 }

/-! ## Bytes and words -/

theorem and_0xFF (a : Nat) : a &&& 0xFF = a % 256 :=
  Nat.and_pow_two_sub_one_eq_mod a 8

theorem and_0x0F (a : Nat) : a &&& 0x0F = a % 16 :=
  Nat.and_pow_two_sub_one_eq_mod a 4

theorem and_0x01 (a : Nat) : a &&& 0x01 = a % 2 :=
  Nat.and_pow_two_sub_one_eq_mod a 1

theorem shl8_or (a b : Nat) (hb : b < 256) : a <<< 8 ||| b = a * 256 + b := by
  rw [Nat.shiftLeft_eq, Nat.mul_comm a, ← Nat.mul_add_lt_is_or (by simpa using hb)]

theorem word32_or (a b c d : Nat) (hb : b < 256) (hc : c < 256) (hd : d < 256) :
    a <<< 24 ||| b <<< 16 ||| c <<< 8 ||| d = a * 2 ^ 24 + b * 2 ^ 16 + c * 2 ^ 8 + d := by
  have h3 : c <<< 8 ||| d = c * 2 ^ 8 + d := shl8_or c d hd
  have h2 : b <<< 16 ||| (c * 2 ^ 8 + d) = b * 2 ^ 16 + (c * 2 ^ 8 + d) := by
    rw [Nat.shiftLeft_eq, Nat.mul_comm b, ← Nat.mul_add_lt_is_or (by omega)]
  have h1 : a <<< 24 ||| (b * 2 ^ 16 + (c * 2 ^ 8 + d))
      = a * 2 ^ 24 + (b * 2 ^ 16 + (c * 2 ^ 8 + d)) := by
    rw [Nat.shiftLeft_eq, Nat.mul_comm a, ← Nat.mul_add_lt_is_or (by omega)]
  rw [Nat.lor_assoc, Nat.lor_assoc, h3, h2, h1]
  omega

theorem RGBW32_eq (r g b w : Nat) :
    RGBW32 r g b w = (w % 256) * 2 ^ 24 + (r % 256) * 2 ^ 16 + (g % 256) * 2 ^ 8 + b % 256 := by
  unfold RGBW32
  exact word32_or _ _ _ _ (Nat.mod_lt _ (by decide)) (Nat.mod_lt _ (by decide))
    (Nat.mod_lt _ (by decide))

theorem RGBW32_channels (c : Nat) (hc : c < 2 ^ 32) : RGBW32 (R c) (G c) (B c) (W c) = c := by
  rw [RGBW32_eq]
  simp only [R, G, B, W, Nat.shiftRight_eq_div_pow]
  omega

/-! ## The layout of the packet -/

theorem notifyHeader_length (now callMode : Nat) (followUp : Bool) (s : State) :
    (notifyHeader now callMode followUp s).length = 41 := rfl

theorem notifySegment_length (i : Nat) (g : Segment) : (notifySegment i g).length = 28 := rfl

theorem blocks_length (f : Nat → List Nat) (hf : ∀ i, (f i).length = 28) (n : Nat) :
    ((List.range n).flatMap f).length = 28 * n := by
  induction n with
  | zero => rfl
  | succ n ih =>
    rw [List.range_succ, List.flatMap_append, List.length_append, ih, List.flatMap_singleton, hf]
    omega

theorem blocks_getD (f : Nat → List Nat) (hf : ∀ i, (f i).length = 28) (n i k d : Nat)
    (hi : i < n) (hk : k < 28) :
    ((List.range n).flatMap f).getD (28 * i + k) d = (f i).getD k d := by
  induction n with
  | zero => omega
  | succ n ih =>
    rw [List.range_succ, List.flatMap_append, List.flatMap_singleton]
    have hlen := blocks_length f hf n
    by_cases h : i < n
    · rw [List.getD_append _ _ _ _ (by omega)]
      exact ih h
    · have hin : i = n := by omega
      subst hin
      rw [List.getD_append_right _ _ _ _ (by omega), hlen]
      congr 1
      omega

theorem notifyPacket_length (now callMode : Nat) (followUp : Bool) (s : State) :
    (notifyPacket now callMode followUp s).length = 41 + 28 * getMaxSegments s.strip.segments := by
  unfold notifyPacket
  rw [List.length_append, notifyHeader_length,
    blocks_length _ (fun i => notifySegment_length i _)]

theorem notifyPacket_header (now callMode : Nat) (followUp : Bool) (s : State) (j d : Nat)
    (hj : j < 41) :
    (notifyPacket now callMode followUp s).getD j d
      = (notifyHeader now callMode followUp s).getD j d := by
  unfold notifyPacket
  exact List.getD_append _ _ _ _ (by rw [notifyHeader_length]; exact hj)

theorem notifyPacket_segment (now callMode : Nat) (followUp : Bool) (s : State) (i k d : Nat)
    (hi : i < getMaxSegments s.strip.segments) (hk : k < 28) :
    (notifyPacket now callMode followUp s).getD (41 + 28 * i + k) d
      = (notifySegment i (getSegment s.strip.segments i)).getD k d := by
  unfold notifyPacket
  rw [List.getD_append_right _ _ _ _ (by rw [notifyHeader_length]; omega), notifyHeader_length]
  have h : 41 + 28 * i + k - 41 = 28 * i + k := by omega
  rw [h]
  exact blocks_getD _ (fun i => notifySegment_length i _) _ i k d hi hk

theorem notify_packet (x : Ext) (now callMode : Nat) (followUp : Bool) (s : State)
    (pkt : List Nat) (h : (notify x now callMode followUp s).2 = some pkt) :
    pkt = notifyPacket now callMode followUp s := by
  unfold notify at h
  split at h
  · simp at h
  · split at h
    · simp at h
    · split at h
      · simp at h
      · simpa using h.symm

/-! ## Slices of a list -/

theorem getElem?_of_lt (l : List Nat) (i : Nat) (h : i < l.length) :
    l[i]? = some (l.getD i 0) := by
  simp [List.getD_eq_getElem?_getD, List.getElem?_eq_getElem h]

theorem slice_eq (l r : List Nat) (m : Nat) (hr : m + r.length ≤ l.length)
    (h : ∀ k, k < r.length → l.getD (m + k) 0 = r.getD k 0) :
    (l.drop m).take r.length = r := by
  apply List.ext_getElem?
  intro k
  by_cases hk : k < r.length
  · rw [List.getElem?_take_of_lt hk, List.getElem?_drop, getElem?_of_lt l (m + k) (by omega),
      getElem?_of_lt r k hk, h k hk]
  · rw [List.getElem?_eq_none (by simp; omega), List.getElem?_eq_none (by omega)]

/-! ## The stages of the notifier branch: the fields that a stage leaves alone -/

theorem syncColors_eq (s : State) (u : Nat → Nat) (v : Nat) (ss : Bool) :
    syncColors s u v ss =
      { s with strip := { s.strip with
          color0 := (syncColors s u v ss).strip.color0,
          color1 := (syncColors s u v ss).strip.color1,
          color2 := (syncColors s u v ss).strip.color2,
          cct := (syncColors s u v ss).strip.cct } } := by
  unfold syncColors
  simp only [setColor, setCCT]
  split_ifs <;> rfl

@[simp] theorem syncColors_receiveNotificationBrightness
    (s : State) (u : Nat → Nat) (v : Nat) (ss : Bool) :
    (syncColors s u v ss).receiveNotificationBrightness = s.receiveNotificationBrightness := by
  rw [syncColors_eq]

@[simp] theorem syncColors_receiveNotificationColor
    (s : State) (u : Nat → Nat) (v : Nat) (ss : Bool) :
    (syncColors s u v ss).receiveNotificationColor = s.receiveNotificationColor := by
  rw [syncColors_eq]

@[simp] theorem syncColors_receiveNotificationEffects
    (s : State) (u : Nat → Nat) (v : Nat) (ss : Bool) :
    (syncColors s u v ss).receiveNotificationEffects = s.receiveNotificationEffects := by
  rw [syncColors_eq]

@[simp] theorem syncColors_receiveSegmentOptions (s : State) (u : Nat → Nat) (v : Nat) (ss : Bool) :
    (syncColors s u v ss).receiveSegmentOptions = s.receiveSegmentOptions := by
  rw [syncColors_eq]

@[simp] theorem syncColors_receiveSegmentBounds (s : State) (u : Nat → Nat) (v : Nat) (ss : Bool) :
    (syncColors s u v ss).receiveSegmentBounds = s.receiveSegmentBounds := by
  rw [syncColors_eq]

@[simp] theorem syncColors_bri (s : State) (u : Nat → Nat) (v : Nat) (ss : Bool) :
    (syncColors s u v ss).bri = s.bri := by
  rw [syncColors_eq]

@[simp] theorem syncColors_nightlightActive (s : State) (u : Nat → Nat) (v : Nat) (ss : Bool) :
    (syncColors s u v ss).nightlightActive = s.nightlightActive := by
  rw [syncColors_eq]

@[simp] theorem syncColors_nightlightDelayMins (s : State) (u : Nat → Nat) (v : Nat) (ss : Bool) :
    (syncColors s u v ss).nightlightDelayMins = s.nightlightDelayMins := by
  rw [syncColors_eq]

@[simp] theorem syncColors_transitionDelayTemp (s : State) (u : Nat → Nat) (v : Nat) (ss : Bool) :
    (syncColors s u v ss).transitionDelayTemp = s.transitionDelayTemp := by
  rw [syncColors_eq]

@[simp] theorem syncColors_currentPlaylist (s : State) (u : Nat → Nat) (v : Nat) (ss : Bool) :
    (syncColors s u v ss).currentPlaylist = s.currentPlaylist := by
  rw [syncColors_eq]

@[simp] theorem syncColors_stateUpdatedCalls (s : State) (u : Nat → Nat) (v : Nat) (ss : Bool) :
    (syncColors s u v ss).stateUpdatedCalls = s.stateUpdatedCalls := by
  rw [syncColors_eq]

@[simp] theorem syncColors_toki (s : State) (u : Nat → Nat) (v : Nat) (ss : Bool) :
    (syncColors s u v ss).toki = s.toki := by
  rw [syncColors_eq]

@[simp] theorem syncColors_strip_segments (s : State) (u : Nat → Nat) (v : Nat) (ss : Bool) :
    (syncColors s u v ss).strip.segments = s.strip.segments := by
  rw [syncColors_eq]

@[simp] theorem syncColors_strip_timebase (s : State) (u : Nat → Nat) (v : Nat) (ss : Bool) :
    (syncColors s u v ss).strip.timebase = s.strip.timebase := by
  rw [syncColors_eq]

@[simp] theorem syncColors_strip_modeCount (s : State) (u : Nat → Nat) (v : Nat) (ss : Bool) :
    (syncColors s u v ss).strip.modeCount = s.strip.modeCount := by
  rw [syncColors_eq]

@[simp] theorem syncColors_strip_paletteCount (s : State) (u : Nat → Nat) (v : Nat) (ss : Bool) :
    (syncColors s u v ss).strip.paletteCount = s.strip.paletteCount := by
  rw [syncColors_eq]

theorem syncPlaylist_eq (ae : Bool) (s : State) :
    syncPlaylist ae s =
      { s with currentPlaylist := (syncPlaylist ae s).currentPlaylist } := by
  unfold syncPlaylist unloadPlaylist
  split_ifs <;> rfl

@[simp] theorem syncPlaylist_receiveNotificationBrightness (ae : Bool) (s : State) :
    (syncPlaylist ae s).receiveNotificationBrightness = s.receiveNotificationBrightness := by
  rw [syncPlaylist_eq]

@[simp] theorem syncPlaylist_receiveNotificationColor (ae : Bool) (s : State) :
    (syncPlaylist ae s).receiveNotificationColor = s.receiveNotificationColor := by
  rw [syncPlaylist_eq]

@[simp] theorem syncPlaylist_receiveNotificationEffects (ae : Bool) (s : State) :
    (syncPlaylist ae s).receiveNotificationEffects = s.receiveNotificationEffects := by
  rw [syncPlaylist_eq]

@[simp] theorem syncPlaylist_receiveSegmentOptions (ae : Bool) (s : State) :
    (syncPlaylist ae s).receiveSegmentOptions = s.receiveSegmentOptions := by
  rw [syncPlaylist_eq]

@[simp] theorem syncPlaylist_receiveSegmentBounds (ae : Bool) (s : State) :
    (syncPlaylist ae s).receiveSegmentBounds = s.receiveSegmentBounds := by
  rw [syncPlaylist_eq]

@[simp] theorem syncPlaylist_bri (ae : Bool) (s : State) :
    (syncPlaylist ae s).bri = s.bri := by
  rw [syncPlaylist_eq]

@[simp] theorem syncPlaylist_nightlightActive (ae : Bool) (s : State) :
    (syncPlaylist ae s).nightlightActive = s.nightlightActive := by
  rw [syncPlaylist_eq]

@[simp] theorem syncPlaylist_nightlightDelayMins (ae : Bool) (s : State) :
    (syncPlaylist ae s).nightlightDelayMins = s.nightlightDelayMins := by
  rw [syncPlaylist_eq]

@[simp] theorem syncPlaylist_transitionDelayTemp (ae : Bool) (s : State) :
    (syncPlaylist ae s).transitionDelayTemp = s.transitionDelayTemp := by
  rw [syncPlaylist_eq]

@[simp] theorem syncPlaylist_stateUpdatedCalls (ae : Bool) (s : State) :
    (syncPlaylist ae s).stateUpdatedCalls = s.stateUpdatedCalls := by
  rw [syncPlaylist_eq]

@[simp] theorem syncPlaylist_toki (ae : Bool) (s : State) :
    (syncPlaylist ae s).toki = s.toki := by
  rw [syncPlaylist_eq]

@[simp] theorem syncPlaylist_strip (ae : Bool) (s : State) :
    (syncPlaylist ae s).strip = s.strip := by
  rw [syncPlaylist_eq]

theorem syncSegs_eq (u : Nat → Nat) (v : Nat) (ss ae : Bool) (s : State) :
    syncSegs u v ss ae s =
      { s with
        stateChanged := (syncSegs u v ss ae s).stateChanged,
        strip := { s.strip with segments := (syncSegs u v ss ae s).strip.segments } } := by
  unfold syncSegs
  split_ifs <;> rfl

@[simp] theorem syncSegs_receiveNotificationBrightness
    (u : Nat → Nat) (v : Nat) (ss ae : Bool) (s : State) :
    (syncSegs u v ss ae s).receiveNotificationBrightness = s.receiveNotificationBrightness := by
  rw [syncSegs_eq]

@[simp] theorem syncSegs_receiveNotificationColor
    (u : Nat → Nat) (v : Nat) (ss ae : Bool) (s : State) :
    (syncSegs u v ss ae s).receiveNotificationColor = s.receiveNotificationColor := by
  rw [syncSegs_eq]

@[simp] theorem syncSegs_receiveNotificationEffects
    (u : Nat → Nat) (v : Nat) (ss ae : Bool) (s : State) :
    (syncSegs u v ss ae s).receiveNotificationEffects = s.receiveNotificationEffects := by
  rw [syncSegs_eq]

@[simp] theorem syncSegs_receiveSegmentOptions
    (u : Nat → Nat) (v : Nat) (ss ae : Bool) (s : State) :
    (syncSegs u v ss ae s).receiveSegmentOptions = s.receiveSegmentOptions := by
  rw [syncSegs_eq]

@[simp] theorem syncSegs_receiveSegmentBounds (u : Nat → Nat) (v : Nat) (ss ae : Bool) (s : State) :
    (syncSegs u v ss ae s).receiveSegmentBounds = s.receiveSegmentBounds := by
  rw [syncSegs_eq]

@[simp] theorem syncSegs_bri (u : Nat → Nat) (v : Nat) (ss ae : Bool) (s : State) :
    (syncSegs u v ss ae s).bri = s.bri := by
  rw [syncSegs_eq]

@[simp] theorem syncSegs_nightlightActive (u : Nat → Nat) (v : Nat) (ss ae : Bool) (s : State) :
    (syncSegs u v ss ae s).nightlightActive = s.nightlightActive := by
  rw [syncSegs_eq]

@[simp] theorem syncSegs_nightlightDelayMins (u : Nat → Nat) (v : Nat) (ss ae : Bool) (s : State) :
    (syncSegs u v ss ae s).nightlightDelayMins = s.nightlightDelayMins := by
  rw [syncSegs_eq]

@[simp] theorem syncSegs_transitionDelayTemp (u : Nat → Nat) (v : Nat) (ss ae : Bool) (s : State) :
    (syncSegs u v ss ae s).transitionDelayTemp = s.transitionDelayTemp := by
  rw [syncSegs_eq]

@[simp] theorem syncSegs_currentPlaylist (u : Nat → Nat) (v : Nat) (ss ae : Bool) (s : State) :
    (syncSegs u v ss ae s).currentPlaylist = s.currentPlaylist := by
  rw [syncSegs_eq]

@[simp] theorem syncSegs_stateUpdatedCalls (u : Nat → Nat) (v : Nat) (ss ae : Bool) (s : State) :
    (syncSegs u v ss ae s).stateUpdatedCalls = s.stateUpdatedCalls := by
  rw [syncSegs_eq]

@[simp] theorem syncSegs_toki (u : Nat → Nat) (v : Nat) (ss ae : Bool) (s : State) :
    (syncSegs u v ss ae s).toki = s.toki := by
  rw [syncSegs_eq]

@[simp] theorem syncSegs_strip_timebase (u : Nat → Nat) (v : Nat) (ss ae : Bool) (s : State) :
    (syncSegs u v ss ae s).strip.timebase = s.strip.timebase := by
  rw [syncSegs_eq]

@[simp] theorem syncSegs_strip_color0 (u : Nat → Nat) (v : Nat) (ss ae : Bool) (s : State) :
    (syncSegs u v ss ae s).strip.color0 = s.strip.color0 := by
  rw [syncSegs_eq]

@[simp] theorem syncSegs_strip_color1 (u : Nat → Nat) (v : Nat) (ss ae : Bool) (s : State) :
    (syncSegs u v ss ae s).strip.color1 = s.strip.color1 := by
  rw [syncSegs_eq]

@[simp] theorem syncSegs_strip_color2 (u : Nat → Nat) (v : Nat) (ss ae : Bool) (s : State) :
    (syncSegs u v ss ae s).strip.color2 = s.strip.color2 := by
  rw [syncSegs_eq]

@[simp] theorem syncSegs_strip_cct (u : Nat → Nat) (v : Nat) (ss ae : Bool) (s : State) :
    (syncSegs u v ss ae s).strip.cct = s.strip.cct := by
  rw [syncSegs_eq]

@[simp] theorem syncSegs_strip_modeCount (u : Nat → Nat) (v : Nat) (ss ae : Bool) (s : State) :
    (syncSegs u v ss ae s).strip.modeCount = s.strip.modeCount := by
  rw [syncSegs_eq]

@[simp] theorem syncSegs_strip_paletteCount (u : Nat → Nat) (v : Nat) (ss ae : Bool) (s : State) :
    (syncSegs u v ss ae s).strip.paletteCount = s.strip.paletteCount := by
  rw [syncSegs_eq]

theorem syncSimple_eq (x : Ext) (u : Nat → Nat) (v : Nat) (ae : Bool) (s : State) :
    syncSimple x u v ae s =
      { s with
        stateChanged := (syncSimple x u v ae s).stateChanged,
        strip := { s.strip with segments := (syncSimple x u v ae s).strip.segments } } := by
  unfold syncSimple
  split_ifs <;> rfl

@[simp] theorem syncSimple_receiveNotificationBrightness
    (x : Ext) (u : Nat → Nat) (v : Nat) (ae : Bool) (s : State) :
    (syncSimple x u v ae s).receiveNotificationBrightness = s.receiveNotificationBrightness := by
  rw [syncSimple_eq]

@[simp] theorem syncSimple_receiveNotificationColor
    (x : Ext) (u : Nat → Nat) (v : Nat) (ae : Bool) (s : State) :
    (syncSimple x u v ae s).receiveNotificationColor = s.receiveNotificationColor := by
  rw [syncSimple_eq]

@[simp] theorem syncSimple_receiveNotificationEffects
    (x : Ext) (u : Nat → Nat) (v : Nat) (ae : Bool) (s : State) :
    (syncSimple x u v ae s).receiveNotificationEffects = s.receiveNotificationEffects := by
  rw [syncSimple_eq]

@[simp] theorem syncSimple_receiveSegmentOptions
    (x : Ext) (u : Nat → Nat) (v : Nat) (ae : Bool) (s : State) :
    (syncSimple x u v ae s).receiveSegmentOptions = s.receiveSegmentOptions := by
  rw [syncSimple_eq]

@[simp] theorem syncSimple_receiveSegmentBounds
    (x : Ext) (u : Nat → Nat) (v : Nat) (ae : Bool) (s : State) :
    (syncSimple x u v ae s).receiveSegmentBounds = s.receiveSegmentBounds := by
  rw [syncSimple_eq]

@[simp] theorem syncSimple_bri (x : Ext) (u : Nat → Nat) (v : Nat) (ae : Bool) (s : State) :
    (syncSimple x u v ae s).bri = s.bri := by
  rw [syncSimple_eq]

@[simp] theorem syncSimple_nightlightActive
    (x : Ext) (u : Nat → Nat) (v : Nat) (ae : Bool) (s : State) :
    (syncSimple x u v ae s).nightlightActive = s.nightlightActive := by
  rw [syncSimple_eq]

@[simp] theorem syncSimple_nightlightDelayMins
    (x : Ext) (u : Nat → Nat) (v : Nat) (ae : Bool) (s : State) :
    (syncSimple x u v ae s).nightlightDelayMins = s.nightlightDelayMins := by
  rw [syncSimple_eq]

@[simp] theorem syncSimple_transitionDelayTemp
    (x : Ext) (u : Nat → Nat) (v : Nat) (ae : Bool) (s : State) :
    (syncSimple x u v ae s).transitionDelayTemp = s.transitionDelayTemp := by
  rw [syncSimple_eq]

@[simp] theorem syncSimple_currentPlaylist
    (x : Ext) (u : Nat → Nat) (v : Nat) (ae : Bool) (s : State) :
    (syncSimple x u v ae s).currentPlaylist = s.currentPlaylist := by
  rw [syncSimple_eq]

@[simp] theorem syncSimple_stateUpdatedCalls
    (x : Ext) (u : Nat → Nat) (v : Nat) (ae : Bool) (s : State) :
    (syncSimple x u v ae s).stateUpdatedCalls = s.stateUpdatedCalls := by
  rw [syncSimple_eq]

@[simp] theorem syncSimple_toki (x : Ext) (u : Nat → Nat) (v : Nat) (ae : Bool) (s : State) :
    (syncSimple x u v ae s).toki = s.toki := by
  rw [syncSimple_eq]

@[simp] theorem syncSimple_strip_timebase
    (x : Ext) (u : Nat → Nat) (v : Nat) (ae : Bool) (s : State) :
    (syncSimple x u v ae s).strip.timebase = s.strip.timebase := by
  rw [syncSimple_eq]

@[simp] theorem syncSimple_strip_color0
    (x : Ext) (u : Nat → Nat) (v : Nat) (ae : Bool) (s : State) :
    (syncSimple x u v ae s).strip.color0 = s.strip.color0 := by
  rw [syncSimple_eq]

@[simp] theorem syncSimple_strip_color1
    (x : Ext) (u : Nat → Nat) (v : Nat) (ae : Bool) (s : State) :
    (syncSimple x u v ae s).strip.color1 = s.strip.color1 := by
  rw [syncSimple_eq]

@[simp] theorem syncSimple_strip_color2
    (x : Ext) (u : Nat → Nat) (v : Nat) (ae : Bool) (s : State) :
    (syncSimple x u v ae s).strip.color2 = s.strip.color2 := by
  rw [syncSimple_eq]

@[simp] theorem syncSimple_strip_cct (x : Ext) (u : Nat → Nat) (v : Nat) (ae : Bool) (s : State) :
    (syncSimple x u v ae s).strip.cct = s.strip.cct := by
  rw [syncSimple_eq]

@[simp] theorem syncSimple_strip_modeCount
    (x : Ext) (u : Nat → Nat) (v : Nat) (ae : Bool) (s : State) :
    (syncSimple x u v ae s).strip.modeCount = s.strip.modeCount := by
  rw [syncSimple_eq]

@[simp] theorem syncSimple_strip_paletteCount
    (x : Ext) (u : Nat → Nat) (v : Nat) (ae : Bool) (s : State) :
    (syncSimple x u v ae s).strip.paletteCount = s.strip.paletteCount := by
  rw [syncSimple_eq]

theorem syncTimebase_eq (now : Nat) (u : Nat → Nat) (v : Nat) (ae : Bool) (s : State) :
    (syncTimebase now u v ae s).1 =
      { s with strip := { s.strip with
          timebase := ((syncTimebase now u v ae s).1).strip.timebase } } := by
  unfold syncTimebase
  split_ifs <;> rfl

@[simp] theorem syncTimebase_receiveNotificationBrightness
    (now : Nat) (u : Nat → Nat) (v : Nat) (ae : Bool) (s : State) :
    ((syncTimebase now u v ae s).1).receiveNotificationBrightness
      = s.receiveNotificationBrightness := by
  rw [syncTimebase_eq]

@[simp] theorem syncTimebase_receiveNotificationColor
    (now : Nat) (u : Nat → Nat) (v : Nat) (ae : Bool) (s : State) :
    ((syncTimebase now u v ae s).1).receiveNotificationColor = s.receiveNotificationColor := by
  rw [syncTimebase_eq]

@[simp] theorem syncTimebase_receiveNotificationEffects
    (now : Nat) (u : Nat → Nat) (v : Nat) (ae : Bool) (s : State) :
    ((syncTimebase now u v ae s).1).receiveNotificationEffects = s.receiveNotificationEffects := by
  rw [syncTimebase_eq]

@[simp] theorem syncTimebase_receiveSegmentOptions
    (now : Nat) (u : Nat → Nat) (v : Nat) (ae : Bool) (s : State) :
    ((syncTimebase now u v ae s).1).receiveSegmentOptions = s.receiveSegmentOptions := by
  rw [syncTimebase_eq]

@[simp] theorem syncTimebase_receiveSegmentBounds
    (now : Nat) (u : Nat → Nat) (v : Nat) (ae : Bool) (s : State) :
    ((syncTimebase now u v ae s).1).receiveSegmentBounds = s.receiveSegmentBounds := by
  rw [syncTimebase_eq]

@[simp] theorem syncTimebase_bri (now : Nat) (u : Nat → Nat) (v : Nat) (ae : Bool) (s : State) :
    ((syncTimebase now u v ae s).1).bri = s.bri := by
  rw [syncTimebase_eq]

@[simp] theorem syncTimebase_nightlightActive
    (now : Nat) (u : Nat → Nat) (v : Nat) (ae : Bool) (s : State) :
    ((syncTimebase now u v ae s).1).nightlightActive = s.nightlightActive := by
  rw [syncTimebase_eq]

@[simp] theorem syncTimebase_nightlightDelayMins
    (now : Nat) (u : Nat → Nat) (v : Nat) (ae : Bool) (s : State) :
    ((syncTimebase now u v ae s).1).nightlightDelayMins = s.nightlightDelayMins := by
  rw [syncTimebase_eq]

@[simp] theorem syncTimebase_transitionDelayTemp
    (now : Nat) (u : Nat → Nat) (v : Nat) (ae : Bool) (s : State) :
    ((syncTimebase now u v ae s).1).transitionDelayTemp = s.transitionDelayTemp := by
  rw [syncTimebase_eq]

@[simp] theorem syncTimebase_currentPlaylist
    (now : Nat) (u : Nat → Nat) (v : Nat) (ae : Bool) (s : State) :
    ((syncTimebase now u v ae s).1).currentPlaylist = s.currentPlaylist := by
  rw [syncTimebase_eq]

@[simp] theorem syncTimebase_stateUpdatedCalls
    (now : Nat) (u : Nat → Nat) (v : Nat) (ae : Bool) (s : State) :
    ((syncTimebase now u v ae s).1).stateUpdatedCalls = s.stateUpdatedCalls := by
  rw [syncTimebase_eq]

@[simp] theorem syncTimebase_toki (now : Nat) (u : Nat → Nat) (v : Nat) (ae : Bool) (s : State) :
    ((syncTimebase now u v ae s).1).toki = s.toki := by
  rw [syncTimebase_eq]

@[simp] theorem syncTimebase_strip_segments
    (now : Nat) (u : Nat → Nat) (v : Nat) (ae : Bool) (s : State) :
    ((syncTimebase now u v ae s).1).strip.segments = s.strip.segments := by
  rw [syncTimebase_eq]

@[simp] theorem syncTimebase_strip_color0
    (now : Nat) (u : Nat → Nat) (v : Nat) (ae : Bool) (s : State) :
    ((syncTimebase now u v ae s).1).strip.color0 = s.strip.color0 := by
  rw [syncTimebase_eq]

@[simp] theorem syncTimebase_strip_color1
    (now : Nat) (u : Nat → Nat) (v : Nat) (ae : Bool) (s : State) :
    ((syncTimebase now u v ae s).1).strip.color1 = s.strip.color1 := by
  rw [syncTimebase_eq]

@[simp] theorem syncTimebase_strip_color2
    (now : Nat) (u : Nat → Nat) (v : Nat) (ae : Bool) (s : State) :
    ((syncTimebase now u v ae s).1).strip.color2 = s.strip.color2 := by
  rw [syncTimebase_eq]

@[simp] theorem syncTimebase_strip_cct
    (now : Nat) (u : Nat → Nat) (v : Nat) (ae : Bool) (s : State) :
    ((syncTimebase now u v ae s).1).strip.cct = s.strip.cct := by
  rw [syncTimebase_eq]

@[simp] theorem syncTimebase_strip_modeCount
    (now : Nat) (u : Nat → Nat) (v : Nat) (ae : Bool) (s : State) :
    ((syncTimebase now u v ae s).1).strip.modeCount = s.strip.modeCount := by
  rw [syncTimebase_eq]

@[simp] theorem syncTimebase_strip_paletteCount
    (now : Nat) (u : Nat → Nat) (v : Nat) (ae : Bool) (s : State) :
    ((syncTimebase now u v ae s).1).strip.paletteCount = s.strip.paletteCount := by
  rw [syncTimebase_eq]

theorem syncTime_eq (x : Ext) (u : Nat → Nat) (v : Nat) (tu : Bool) (s : State) :
    syncTime x u v tu s =
      { s with
        toki := (syncTime x u v tu s).toki,
        strip := { s.strip with timebase := (syncTime x u v tu s).strip.timebase } } := by
  unfold syncTime
  split_ifs <;> rfl

@[simp] theorem syncTime_receiveNotificationBrightness
    (x : Ext) (u : Nat → Nat) (v : Nat) (tu : Bool) (s : State) :
    (syncTime x u v tu s).receiveNotificationBrightness = s.receiveNotificationBrightness := by
  rw [syncTime_eq]

@[simp] theorem syncTime_receiveNotificationColor
    (x : Ext) (u : Nat → Nat) (v : Nat) (tu : Bool) (s : State) :
    (syncTime x u v tu s).receiveNotificationColor = s.receiveNotificationColor := by
  rw [syncTime_eq]

@[simp] theorem syncTime_receiveNotificationEffects
    (x : Ext) (u : Nat → Nat) (v : Nat) (tu : Bool) (s : State) :
    (syncTime x u v tu s).receiveNotificationEffects = s.receiveNotificationEffects := by
  rw [syncTime_eq]

@[simp] theorem syncTime_receiveSegmentOptions
    (x : Ext) (u : Nat → Nat) (v : Nat) (tu : Bool) (s : State) :
    (syncTime x u v tu s).receiveSegmentOptions = s.receiveSegmentOptions := by
  rw [syncTime_eq]

@[simp] theorem syncTime_receiveSegmentBounds
    (x : Ext) (u : Nat → Nat) (v : Nat) (tu : Bool) (s : State) :
    (syncTime x u v tu s).receiveSegmentBounds = s.receiveSegmentBounds := by
  rw [syncTime_eq]

@[simp] theorem syncTime_bri (x : Ext) (u : Nat → Nat) (v : Nat) (tu : Bool) (s : State) :
    (syncTime x u v tu s).bri = s.bri := by
  rw [syncTime_eq]

@[simp] theorem syncTime_nightlightActive
    (x : Ext) (u : Nat → Nat) (v : Nat) (tu : Bool) (s : State) :
    (syncTime x u v tu s).nightlightActive = s.nightlightActive := by
  rw [syncTime_eq]

@[simp] theorem syncTime_nightlightDelayMins
    (x : Ext) (u : Nat → Nat) (v : Nat) (tu : Bool) (s : State) :
    (syncTime x u v tu s).nightlightDelayMins = s.nightlightDelayMins := by
  rw [syncTime_eq]

@[simp] theorem syncTime_transitionDelayTemp
    (x : Ext) (u : Nat → Nat) (v : Nat) (tu : Bool) (s : State) :
    (syncTime x u v tu s).transitionDelayTemp = s.transitionDelayTemp := by
  rw [syncTime_eq]

@[simp] theorem syncTime_currentPlaylist
    (x : Ext) (u : Nat → Nat) (v : Nat) (tu : Bool) (s : State) :
    (syncTime x u v tu s).currentPlaylist = s.currentPlaylist := by
  rw [syncTime_eq]

@[simp] theorem syncTime_stateUpdatedCalls
    (x : Ext) (u : Nat → Nat) (v : Nat) (tu : Bool) (s : State) :
    (syncTime x u v tu s).stateUpdatedCalls = s.stateUpdatedCalls := by
  rw [syncTime_eq]

@[simp] theorem syncTime_strip_segments
    (x : Ext) (u : Nat → Nat) (v : Nat) (tu : Bool) (s : State) :
    (syncTime x u v tu s).strip.segments = s.strip.segments := by
  rw [syncTime_eq]

@[simp] theorem syncTime_strip_color0 (x : Ext) (u : Nat → Nat) (v : Nat) (tu : Bool) (s : State) :
    (syncTime x u v tu s).strip.color0 = s.strip.color0 := by
  rw [syncTime_eq]

@[simp] theorem syncTime_strip_color1 (x : Ext) (u : Nat → Nat) (v : Nat) (tu : Bool) (s : State) :
    (syncTime x u v tu s).strip.color1 = s.strip.color1 := by
  rw [syncTime_eq]

@[simp] theorem syncTime_strip_color2 (x : Ext) (u : Nat → Nat) (v : Nat) (tu : Bool) (s : State) :
    (syncTime x u v tu s).strip.color2 = s.strip.color2 := by
  rw [syncTime_eq]

@[simp] theorem syncTime_strip_cct (x : Ext) (u : Nat → Nat) (v : Nat) (tu : Bool) (s : State) :
    (syncTime x u v tu s).strip.cct = s.strip.cct := by
  rw [syncTime_eq]

@[simp] theorem syncTime_strip_modeCount
    (x : Ext) (u : Nat → Nat) (v : Nat) (tu : Bool) (s : State) :
    (syncTime x u v tu s).strip.modeCount = s.strip.modeCount := by
  rw [syncTime_eq]

@[simp] theorem syncTime_strip_paletteCount
    (x : Ext) (u : Nat → Nat) (v : Nat) (tu : Bool) (s : State) :
    (syncTime x u v tu s).strip.paletteCount = s.strip.paletteCount := by
  rw [syncTime_eq]

theorem syncFinish_eq (u : Nat → Nat) (v : Nat) (ss : Bool) (s : State) :
    syncFinish u v ss s =
      { s with
        transitionDelayTemp :=
          if v > 3 then ((u 17 <<< 0) &&& 0xFF) + ((u 18 <<< 8) &&& 0xFF00)
          else s.transitionDelayTemp,
        nightlightActive := decide (u 6 ≠ 0),
        nightlightDelayMins := if u 6 ≠ 0 then u 7 else s.nightlightDelayMins,
        bri := if s.receiveNotificationBrightness || !ss then u 2 else s.bri,
        stateUpdatedCalls := s.stateUpdatedCalls + 1 } := by
  unfold syncFinish stateUpdated
  by_cases h6 : u 6 = 0 <;> by_cases hv : v > 3 <;>
    by_cases hb : (s.receiveNotificationBrightness || !ss) = true <;> simp [h6, hv, hb]

@[simp] theorem syncFinish_receiveNotificationBrightness
    (u : Nat → Nat) (v : Nat) (ss : Bool) (s : State) :
    (syncFinish u v ss s).receiveNotificationBrightness = s.receiveNotificationBrightness := by
  rw [syncFinish_eq]

@[simp] theorem syncFinish_receiveNotificationColor
    (u : Nat → Nat) (v : Nat) (ss : Bool) (s : State) :
    (syncFinish u v ss s).receiveNotificationColor = s.receiveNotificationColor := by
  rw [syncFinish_eq]

@[simp] theorem syncFinish_receiveNotificationEffects
    (u : Nat → Nat) (v : Nat) (ss : Bool) (s : State) :
    (syncFinish u v ss s).receiveNotificationEffects = s.receiveNotificationEffects := by
  rw [syncFinish_eq]

@[simp] theorem syncFinish_receiveSegmentOptions (u : Nat → Nat) (v : Nat) (ss : Bool) (s : State) :
    (syncFinish u v ss s).receiveSegmentOptions = s.receiveSegmentOptions := by
  rw [syncFinish_eq]

@[simp] theorem syncFinish_receiveSegmentBounds (u : Nat → Nat) (v : Nat) (ss : Bool) (s : State) :
    (syncFinish u v ss s).receiveSegmentBounds = s.receiveSegmentBounds := by
  rw [syncFinish_eq]

@[simp] theorem syncFinish_currentPlaylist (u : Nat → Nat) (v : Nat) (ss : Bool) (s : State) :
    (syncFinish u v ss s).currentPlaylist = s.currentPlaylist := by
  rw [syncFinish_eq]

@[simp] theorem syncFinish_toki (u : Nat → Nat) (v : Nat) (ss : Bool) (s : State) :
    (syncFinish u v ss s).toki = s.toki := by
  rw [syncFinish_eq]

@[simp] theorem syncFinish_strip (u : Nat → Nat) (v : Nat) (ss : Bool) (s : State) :
    (syncFinish u v ss s).strip = s.strip := by
  rw [syncFinish_eq]

@[simp] theorem syncFx_receiveNotificationBrightness
    (x : Ext) (now : Nat) (u : Nat → Nat) (v : Nat) (ss ae : Bool) (s : State) :
    (syncFx x now u v ss ae s).1.receiveNotificationBrightness
      = s.receiveNotificationBrightness := by
  unfold syncFx
  split_ifs <;> simp

@[simp] theorem syncFx_receiveNotificationColor
    (x : Ext) (now : Nat) (u : Nat → Nat) (v : Nat) (ss ae : Bool) (s : State) :
    (syncFx x now u v ss ae s).1.receiveNotificationColor = s.receiveNotificationColor := by
  unfold syncFx
  split_ifs <;> simp

@[simp] theorem syncFx_receiveNotificationEffects
    (x : Ext) (now : Nat) (u : Nat → Nat) (v : Nat) (ss ae : Bool) (s : State) :
    (syncFx x now u v ss ae s).1.receiveNotificationEffects = s.receiveNotificationEffects := by
  unfold syncFx
  split_ifs <;> simp

@[simp] theorem syncFx_receiveSegmentOptions
    (x : Ext) (now : Nat) (u : Nat → Nat) (v : Nat) (ss ae : Bool) (s : State) :
    (syncFx x now u v ss ae s).1.receiveSegmentOptions = s.receiveSegmentOptions := by
  unfold syncFx
  split_ifs <;> simp

@[simp] theorem syncFx_receiveSegmentBounds
    (x : Ext) (now : Nat) (u : Nat → Nat) (v : Nat) (ss ae : Bool) (s : State) :
    (syncFx x now u v ss ae s).1.receiveSegmentBounds = s.receiveSegmentBounds := by
  unfold syncFx
  split_ifs <;> simp

@[simp] theorem syncFx_bri
    (x : Ext) (now : Nat) (u : Nat → Nat) (v : Nat) (ss ae : Bool) (s : State) :
    (syncFx x now u v ss ae s).1.bri = s.bri := by
  unfold syncFx
  split_ifs <;> simp

@[simp] theorem syncFx_nightlightActive
    (x : Ext) (now : Nat) (u : Nat → Nat) (v : Nat) (ss ae : Bool) (s : State) :
    (syncFx x now u v ss ae s).1.nightlightActive = s.nightlightActive := by
  unfold syncFx
  split_ifs <;> simp

@[simp] theorem syncFx_nightlightDelayMins
    (x : Ext) (now : Nat) (u : Nat → Nat) (v : Nat) (ss ae : Bool) (s : State) :
    (syncFx x now u v ss ae s).1.nightlightDelayMins = s.nightlightDelayMins := by
  unfold syncFx
  split_ifs <;> simp

@[simp] theorem syncFx_transitionDelayTemp
    (x : Ext) (now : Nat) (u : Nat → Nat) (v : Nat) (ss ae : Bool) (s : State) :
    (syncFx x now u v ss ae s).1.transitionDelayTemp = s.transitionDelayTemp := by
  unfold syncFx
  split_ifs <;> simp

@[simp] theorem syncFx_stateUpdatedCalls
    (x : Ext) (now : Nat) (u : Nat → Nat) (v : Nat) (ss ae : Bool) (s : State) :
    (syncFx x now u v ss ae s).1.stateUpdatedCalls = s.stateUpdatedCalls := by
  unfold syncFx
  split_ifs <;> simp

@[simp] theorem syncFx_toki
    (x : Ext) (now : Nat) (u : Nat → Nat) (v : Nat) (ss ae : Bool) (s : State) :
    (syncFx x now u v ss ae s).1.toki = s.toki := by
  unfold syncFx
  split_ifs <;> simp

@[simp] theorem syncFx_strip_color0
    (x : Ext) (now : Nat) (u : Nat → Nat) (v : Nat) (ss ae : Bool) (s : State) :
    (syncFx x now u v ss ae s).1.strip.color0 = s.strip.color0 := by
  unfold syncFx
  split_ifs <;> simp

@[simp] theorem syncFx_strip_color1
    (x : Ext) (now : Nat) (u : Nat → Nat) (v : Nat) (ss ae : Bool) (s : State) :
    (syncFx x now u v ss ae s).1.strip.color1 = s.strip.color1 := by
  unfold syncFx
  split_ifs <;> simp

@[simp] theorem syncFx_strip_color2
    (x : Ext) (now : Nat) (u : Nat → Nat) (v : Nat) (ss ae : Bool) (s : State) :
    (syncFx x now u v ss ae s).1.strip.color2 = s.strip.color2 := by
  unfold syncFx
  split_ifs <;> simp

@[simp] theorem syncFx_strip_cct
    (x : Ext) (now : Nat) (u : Nat → Nat) (v : Nat) (ss ae : Bool) (s : State) :
    (syncFx x now u v ss ae s).1.strip.cct = s.strip.cct := by
  unfold syncFx
  split_ifs <;> simp

@[simp] theorem syncFx_strip_modeCount
    (x : Ext) (now : Nat) (u : Nat → Nat) (v : Nat) (ss ae : Bool) (s : State) :
    (syncFx x now u v ss ae s).1.strip.modeCount = s.strip.modeCount := by
  unfold syncFx
  split_ifs <;> simp

@[simp] theorem syncFx_strip_paletteCount
    (x : Ext) (now : Nat) (u : Nat → Nat) (v : Nat) (ss ae : Bool) (s : State) :
    (syncFx x now u v ss ae s).1.strip.paletteCount = s.strip.paletteCount := by
  unfold syncFx
  split_ifs <;> simp

/-! ## The result of `syncApply`, field by field -/

theorem syncApply_bri (x : Ext) (now : Nat) (u : Nat → Nat) (s : State) :
    (syncApply x now u s).bri
      = if s.receiveNotificationBrightness || !someSel s then u 2 else s.bri := by
  simp [syncApply, syncFinish_eq]

theorem syncApply_transitionDelayTemp (x : Ext) (now : Nat) (u : Nat → Nat) (s : State) :
    (syncApply x now u s).transitionDelayTemp
      = if u 11 > 3 then ((u 17 <<< 0) &&& 0xFF) + ((u 18 <<< 8) &&& 0xFF00)
        else s.transitionDelayTemp := by
  simp [syncApply, syncFinish_eq]

theorem syncApply_nightlightActive (x : Ext) (now : Nat) (u : Nat → Nat) (s : State) :
    (syncApply x now u s).nightlightActive = decide (u 6 ≠ 0) := by
  simp [syncApply, syncFinish_eq]

theorem syncApply_nightlightDelayMins (x : Ext) (now : Nat) (u : Nat → Nat) (s : State) :
    (syncApply x now u s).nightlightDelayMins
      = if u 6 ≠ 0 then u 7 else s.nightlightDelayMins := by
  simp [syncApply, syncFinish_eq]

theorem syncApply_stateUpdatedCalls (x : Ext) (now : Nat) (u : Nat → Nat) (s : State) :
    (syncApply x now u s).stateUpdatedCalls = s.stateUpdatedCalls + 1 := by
  simp [syncApply, syncFinish_eq]

theorem syncApply_colors (x : Ext) (now : Nat) (u : Nat → Nat) (s : State) :
    (syncApply x now u s).strip.color0 = (syncColors s u (u 11) (someSel s)).strip.color0
    ∧ (syncApply x now u s).strip.color1 = (syncColors s u (u 11) (someSel s)).strip.color1
    ∧ (syncApply x now u s).strip.color2 = (syncColors s u (u 11) (someSel s)).strip.color2
    ∧ (syncApply x now u s).strip.cct = (syncColors s u (u 11) (someSel s)).strip.cct := by
  simp [syncApply, syncFinish_eq]

theorem syncApply_segments (x : Ext) (now : Nat) (u : Nat → Nat) (s : State) :
    (syncApply x now u s).strip.segments
      = (syncFx x now u (u 11) (someSel s) (s.receiveNotificationEffects || !someSel s)
          (syncColors s u (u 11) (someSel s))).1.strip.segments := by
  simp [syncApply, syncFinish_eq]

theorem syncApply_currentPlaylist (x : Ext) (now : Nat) (u : Nat → Nat) (s : State) :
    (syncApply x now u s).currentPlaylist
      = (syncFx x now u (u 11) (someSel s) (s.receiveNotificationEffects || !someSel s)
          (syncColors s u (u 11) (someSel s))).1.currentPlaylist := by
  simp [syncApply, syncFinish_eq]

theorem syncApply_toki (x : Ext) (now : Nat) (u : Nat → Nat) (s : State) :
    (syncApply x now u s).toki
      = if u 11 > 7 ∧ u 11 < 200 ∧ u 29 > s.toki.timeSource then
          { timeSource :=
              (if u 29 > 99 then x.TOKI_TS_UDP_NTP
               else if u 29 ≥ x.TOKI_TS_SEC then x.TOKI_TS_UDP_SEC else x.TOKI_TS_UDP) % 256,
            time := x.tokiAdjust
              { sec := (u 30 <<< 24 ||| u 31 <<< 16 ||| u 32 <<< 8 ||| u 33) % 2 ^ 32,
                ms := (u 34 <<< 8 ||| u 35) % 2 ^ 16 } PRESUMED_NETWORK_DELAY }
        else s.toki := by
  simp only [syncApply, syncFinish_eq]
  unfold syncTime
  split_ifs <;> simp_all

theorem syncColors_color0 (s : State) (u : Nat → Nat) (v : Nat) (ss : Bool) :
    (syncColors s u v ss).strip.color0
      = if (s.receiveNotificationColor || !ss) && (decide (v < 11) || !s.receiveSegmentOptions)
        then RGBW32 (u 3) (u 4) (u 5) (if v > 0 then u 10 else 0)
        else s.strip.color0 := by
  unfold syncColors
  by_cases hc : ((s.receiveNotificationColor || !ss)
      && (decide (v < 11) || !s.receiveSegmentOptions)) = true
  · by_cases h1 : v > 1 <;> by_cases h6 : v > 6 <;>
      by_cases hk : (decide (v > 9) && decide (v < 200) && decide (u 37 < 255)) = true <;>
      simp only [hc, h1, h6, hk, setColor, setCCT] <;> simp
  · simp only [hc]
    simp

theorem syncColors_color1 (s : State) (u : Nat → Nat) (v : Nat) (ss : Bool) :
    (syncColors s u v ss).strip.color1
      = if ((s.receiveNotificationColor || !ss) && (decide (v < 11) || !s.receiveSegmentOptions))
            = true ∧ v > 1
        then RGBW32 (u 12) (u 13) (u 14) (u 15)
        else s.strip.color1 := by
  unfold syncColors
  by_cases hc : ((s.receiveNotificationColor || !ss)
      && (decide (v < 11) || !s.receiveSegmentOptions)) = true
  · by_cases h1 : v > 1 <;> by_cases h6 : v > 6 <;>
      by_cases hk : (decide (v > 9) && decide (v < 200) && decide (u 37 < 255)) = true <;>
      simp only [hc, h1, h6, hk, setColor, setCCT] <;> simp
  · simp only [hc]
    simp

theorem syncColors_color2 (s : State) (u : Nat → Nat) (v : Nat) (ss : Bool) :
    (syncColors s u v ss).strip.color2
      = if ((s.receiveNotificationColor || !ss) && (decide (v < 11) || !s.receiveSegmentOptions))
            = true ∧ v > 6
        then RGBW32 (u 20) (u 21) (u 22) (u 23)
        else s.strip.color2 := by
  unfold syncColors
  by_cases hc : ((s.receiveNotificationColor || !ss)
      && (decide (v < 11) || !s.receiveSegmentOptions)) = true
  · by_cases h1 : v > 1 <;> by_cases h6 : v > 6 <;>
      by_cases hk : (decide (v > 9) && decide (v < 200) && decide (u 37 < 255)) = true <;>
      simp only [hc, h1, h6, hk, setColor, setCCT] <;> simp
  · simp only [hc]
    simp

theorem syncColors_cct (s : State) (u : Nat → Nat) (v : Nat) (ss : Bool)
    (hv : v < 10 ∨ 200 ≤ v) :
    (syncColors s u v ss).strip.cct = s.strip.cct := by
  have hk : (decide (v > 9) && decide (v < 200) && decide (u 37 < 255)) = false := by
    simp only [Bool.and_eq_false_imp, Bool.and_eq_true, decide_eq_true_eq, decide_eq_false_iff_not]
    omega
  unfold syncColors
  by_cases hc : ((s.receiveNotificationColor || !ss)
      && (decide (v < 11) || !s.receiveSegmentOptions)) = true
  · by_cases h1 : v > 1 <;> by_cases h6 : v > 6 <;>
      simp only [hc, h1, h6, hk, setColor, setCCT] <;> simp
  · simp only [hc]
    simp

theorem syncFx_timebase (x : Ext) (now : Nat) (u : Nat → Nat) (v : Nat) (ss ae : Bool)
    (s : State) (hv : v < 6 ∨ 200 ≤ v) :
    (syncFx x now u v ss ae s).1.strip.timebase = s.strip.timebase
    ∧ (syncFx x now u v ss ae s).2 = false := by
  unfold syncFx
  by_cases h : v < 200
  · have h5 : ¬ v > 5 := by omega
    simp [h, syncTimebase, h5]
  · simp [h]

theorem syncApply_timebase (x : Ext) (now : Nat) (u : Nat → Nat) (s : State)
    (hv : u 11 < 6 ∨ 200 ≤ u 11) :
    (syncApply x now u s).strip.timebase = s.strip.timebase := by
  have h7 : ¬ (u 11 > 7 ∧ u 11 < 200) := by omega
  simp only [syncApply, syncFinish_eq]
  unfold syncTime
  simp [h7, (syncFx_timebase x now u (u 11) _ _ _ hv).1]

/-! ## Acceptance -/

theorem wledNotifier_some (x : Ext) (now : Nat) (u : Nat → Nat) (s r : State)
    (h : wledNotifier x now u s = some r) :
    r = syncApply x now u s
    ∧ ¬ sub32 now s.notificationSentTime < 1000
    ∧ ¬ u 1 > 199
    ∧ ¬ (if u 11 < 9 || u 11 > 199 then s.receiveGroups &&& 0x01 = 0
         else s.receiveGroups &&& u 36 = 0) := by
  unfold wledNotifier at h
  by_cases h1 : sub32 now s.notificationSentTime < 1000
  · rw [if_pos h1] at h
    exact absurd h (by simp)
  · rw [if_neg h1] at h
    by_cases h2 : u 1 > 199
    · rw [if_pos h2] at h
      exact absurd h (by simp)
    · rw [if_neg h2] at h
      by_cases h3 : (if u 11 < 9 || u 11 > 199 then s.receiveGroups &&& 0x01 = 0
          else s.receiveGroups &&& u 36 = 0)
      · rw [if_pos h3] at h
        exact absurd h (by simp)
      · rw [if_neg h3] at h
        exact ⟨(Option.some.inj h).symm, h1, h2, h3⟩

theorem receiveSync_some (x : Ext) (now localIP : Nat) (d : Datagram) (junk : Nat → Nat)
    (s r : State) (h : receiveSync x now localIP d junk s = some r) :
    wledNotifier x now (udpInOf d.data junk) s = some r
    ∧ 0 < d.data.length ∧ d.data.length ≤ UDP_IN_MAXSIZE
    ∧ udpInOf d.data junk 0 = 0 ∧ s.realtimeMode = 0 ∧ s.receiveNotifications = true
    ∧ s.udpConnected = true ∧ ¬ (d.isSupp = false ∧ d.remoteIP = localIP) := by
  unfold receiveSync at h
  split at h
  · simp at h
  · split at h
    · simp at h
    · split at h
      · simp at h
      · split at h
        · simp at h
        · simp only [] at h
          split at h
          · simp at h
          · split at h
            · rename_i h1 h2 h3 h4 h5 h6
              simp only [Bool.and_eq_true, decide_eq_true_eq] at h6
              simp only [Bool.or_eq_true, decide_eq_true_eq, not_or] at h3
              refine ⟨h, by omega, by omega, h6.1.1, h6.1.2, h6.2, by simpa using h1, ?_⟩
              simpa using h4
            · simp at h

theorem udpInOf_lt (pkt : List Nat) (junk : Nat → Nat) (i : Nat) (h : i < pkt.length) :
    udpInOf pkt junk i = pkt.getD i 0 % 256 := by
  unfold udpInOf
  rw [if_pos h]

/-! ## Reading the packet of `notify` -/

theorem shl8_and (b : Nat) (hb : b < 256) : (b <<< 8) &&& 0xFF00 = b * 256 := by
  interval_cases b <;> rfl

theorem RGBW32_bytes (c : Nat) (hc : c < 2 ^ 32) :
    RGBW32 (R c % 256) (G c % 256) (B c % 256) (W c % 256) = c := by
  have h : RGBW32 (R c % 256) (G c % 256) (B c % 256) (W c % 256)
      = RGBW32 (R c) (G c) (B c) (W c) := by
    simp only [RGBW32, Nat.mod_mod]
  rw [h, RGBW32_channels c hc]

theorem udpInOf_header (now callMode : Nat) (followUp : Bool) (s : State) (junk : Nat → Nat)
    (j : Nat) (hj : j < 41) :
    udpInOf (notifyPacket now callMode followUp s) junk j
      = (notifyHeader now callMode followUp s).getD j 0 % 256 := by
  rw [udpInOf_lt _ _ _ (by rw [notifyPacket_length]; omega), notifyPacket_header _ _ _ _ _ _ hj]

/-! ## Which bytes of the buffer a stage reads -/

theorem syncColors_cct_eq (s : State) (u : Nat → Nat) (v : Nat) (ss : Bool) :
    (syncColors s u v ss).strip.cct
      = if ((s.receiveNotificationColor || !ss) && (decide (v < 11) || !s.receiveSegmentOptions))
            = true ∧ v > 6
            ∧ (decide (v > 9) && decide (v < 200) && decide (u 37 < 255)) = true
        then ((if u 37 > 0 then (((u 37 <<< 8 : Nat) : Int) + (u 38 : Int) - 1900) / 32
               else (u 38 : Int)) % 256).toNat
        else s.strip.cct := by
  unfold syncColors
  by_cases hc : ((s.receiveNotificationColor || !ss)
      && (decide (v < 11) || !s.receiveSegmentOptions)) = true
  · by_cases h1 : v > 1 <;> by_cases h6 : v > 6 <;>
      by_cases hk : (decide (v > 9) && decide (v < 200) && decide (u 37 < 255)) = true <;>
      simp only [hc, h1, h6, hk, setColor, setCCT] <;> simp
  · simp only [hc]
    simp

theorem syncColors_congr (s : State) (u u' : Nat → Nat) (v : Nat) (ss : Bool)
    (h3 : u' 3 = u 3) (h4 : u' 4 = u 4) (h5 : u' 5 = u 5)
    (h10 : v > 0 → u' 10 = u 10)
    (h12 : v > 1 → u' 12 = u 12 ∧ u' 13 = u 13 ∧ u' 14 = u 14 ∧ u' 15 = u 15)
    (h20 : v > 6 → u' 20 = u 20 ∧ u' 21 = u 21 ∧ u' 22 = u 22 ∧ u' 23 = u 23)
    (h37 : v > 9 → u' 37 = u 37 ∧ u' 38 = u 38) :
    syncColors s u' v ss = syncColors s u v ss := by
  have e0 : (syncColors s u' v ss).strip.color0 = (syncColors s u v ss).strip.color0 := by
    rw [syncColors_color0, syncColors_color0, h3, h4, h5]
    by_cases c : v > 0
    · rw [h10 c]
    · rw [if_neg c, if_neg c]
  have e1 : (syncColors s u' v ss).strip.color1 = (syncColors s u v ss).strip.color1 := by
    rw [syncColors_color1, syncColors_color1]
    by_cases c : v > 1
    · rw [(h12 c).1, (h12 c).2.1, (h12 c).2.2.1, (h12 c).2.2.2]
    · rw [if_neg (fun h => c h.2), if_neg (fun h => c h.2)]
  have e2 : (syncColors s u' v ss).strip.color2 = (syncColors s u v ss).strip.color2 := by
    rw [syncColors_color2, syncColors_color2]
    by_cases c : v > 6
    · rw [(h20 c).1, (h20 c).2.1, (h20 c).2.2.1, (h20 c).2.2.2]
    · rw [if_neg (fun h => c h.2), if_neg (fun h => c h.2)]
  have e3 : (syncColors s u' v ss).strip.cct = (syncColors s u v ss).strip.cct := by
    rw [syncColors_cct_eq, syncColors_cct_eq]
    by_cases c : v > 9
    · rw [(h37 c).1, (h37 c).2]
    · have hk : ∀ w : Nat → Nat,
          (decide (v > 9) && decide (v < 200) && decide (w 37 < 255)) = false := by
        intro w
        simp [c]
      rw [if_neg (fun h => by rw [hk] at h; exact absurd h.2.2 (by simp)),
        if_neg (fun h => by rw [hk] at h; exact absurd h.2.2 (by simp))]
  rw [syncColors_eq s u', syncColors_eq s u, e0, e1, e2, e3]

theorem syncFinish_congr (u u' : Nat → Nat) (v : Nat) (ss : Bool) (s : State)
    (h2 : u' 2 = u 2) (h6 : u' 6 = u 6) (h7 : u' 7 = u 7)
    (h17 : v > 3 → u' 17 = u 17 ∧ u' 18 = u 18) :
    syncFinish u' v ss s = syncFinish u v ss s := by
  rw [syncFinish_eq, syncFinish_eq, h2, h6, h7]
  by_cases c : v > 3
  · rw [(h17 c).1, (h17 c).2]
  · simp only [if_neg c]

theorem syncTime_congr (x : Ext) (u u' : Nat → Nat) (v : Nat) (tu : Bool) (s : State)
    (h : v > 7 → u' 29 = u 29 ∧ u' 30 = u 30 ∧ u' 31 = u 31 ∧ u' 32 = u 32 ∧ u' 33 = u 33
      ∧ u' 34 = u 34 ∧ u' 35 = u 35) :
    syncTime x u' v tu s = syncTime x u v tu s := by
  unfold syncTime
  by_cases c : v > 7
  · obtain ⟨a, b, c', d, e, f, g⟩ := h c
    rw [a, b, c', d, e, f, g]
  · have : (decide (v > 7) && decide (v < 200)) = false := by simp [c]
    simp only [this, Bool.false_eq_true, if_false]

theorem syncTimebase_congr (now : Nat) (u u' : Nat → Nat) (v : Nat) (ae : Bool) (s : State)
    (h : v > 5 → u' 25 = u 25 ∧ u' 26 = u 26 ∧ u' 27 = u 27 ∧ u' 28 = u 28) :
    syncTimebase now u' v ae s = syncTimebase now u v ae s := by
  unfold syncTimebase
  by_cases c : v > 5
  · obtain ⟨a, b, c', d⟩ := h c
    rw [a, b, c', d]
  · have : (ae && decide (v > 5)) = false := by simp [c]
    simp only [this, Bool.false_eq_true, if_false]

theorem syncEffect_congr (x : Ext) (u u' : Nat → Nat) (v mc pc : Nat)
    (segs : List Segment) (i : Nat)
    (h8 : u' 8 = u 8) (h9 : u' 9 = u 9) (h16 : v > 2 → u' 16 = u 16)
    (h19 : v > 4 → u' 19 = u 19) :
    syncEffect x u' v mc pc segs i = syncEffect x u v mc pc segs i := by
  unfold syncEffect
  rw [h8, h9]
  by_cases c2 : v > 2
  · rw [h16 c2]
    by_cases c4 : v > 4
    · rw [h19 c4]
    · have : ∀ w : Nat → Nat, (decide (v > 4) && decide (w 19 < pc)) = false := by
        intro w; simp [c4]
      simp only [this, Bool.false_eq_true, if_false]
  · have c4 : ¬ v > 4 := by omega
    have : ∀ w : Nat → Nat, (decide (v > 4) && decide (w 19 < pc)) = false := by
      intro w; simp [c4]
    simp only [this, if_neg c2, Bool.false_eq_true, if_false]

theorem syncEffects_congr (x : Ext) (u u' : Nat → Nat) (v mc pc : Nat)
    (segs : List Segment)
    (h8 : u' 8 = u 8) (h9 : u' 9 = u 9) (h16 : v > 2 → u' 16 = u 16)
    (h19 : v > 4 → u' 19 = u 19) :
    syncEffects x u' v mc pc segs = syncEffects x u v mc pc segs := by
  unfold syncEffects
  have : syncEffect x u' v mc pc = syncEffect x u v mc pc := by
    funext sg i
    exact syncEffect_congr x u u' v mc pc sg i h8 h9 h16 h19
  rw [this]

theorem syncSegment_congr (s : State) (u u' : Nat → Nat) (ss ae : Bool)
    (segs : List Segment) (i : Nat)
    (h40 : u' 40 = u 40)
    (h : ∀ j, j < 28 → u' (j + (41 + i * u 40) % 2 ^ 16) = u (j + (41 + i * u 40) % 2 ^ 16)) :
    syncSegment s u' ss ae segs i = syncSegment s u ss ae segs i := by
  unfold syncSegment syncSegmentId
  rw [h40]
  simp only [h 0 (by omega), h 1 (by omega), h 2 (by omega), h 3 (by omega), h 4 (by omega),
    h 5 (by omega), h 6 (by omega), h 7 (by omega), h 8 (by omega), h 9 (by omega),
    h 10 (by omega), h 11 (by omega), h 12 (by omega), h 13 (by omega), h 14 (by omega),
    h 15 (by omega), h 16 (by omega), h 17 (by omega), h 18 (by omega), h 19 (by omega),
    h 20 (by omega), h 21 (by omega), h 22 (by omega), h 23 (by omega), h 24 (by omega),
    h 25 (by omega), h 26 (by omega), h 27 (by omega)]

theorem syncSegments_congr (s : State) (u u' : Nat → Nat) (ss ae : Bool)
    (segs : List Segment)
    (h39 : u' 39 = u 39) (h40 : u' 40 = u 40)
    (h : ∀ i j, i < u 39 → j < 28 →
      u' (j + (41 + i * u 40) % 2 ^ 16) = u (j + (41 + i * u 40) % 2 ^ 16)) :
    syncSegments s u' ss ae segs = syncSegments s u ss ae segs := by
  unfold syncSegments
  rw [h39]
  apply List.foldl_ext
  intro sg i hi
  exact syncSegment_congr s u u' ss ae sg i h40 (fun j hj => h i j (List.mem_range.mp hi) hj)

theorem syncFx_congr (x : Ext) (now : Nat) (u u' : Nat → Nat) (ss ae : Bool) (s : State)
    (h : sameFields u u') :
    syncFx x now u' (u 11) ss ae s = syncFx x now u (u 11) ss ae s := by
  obtain ⟨hb, -, -, -, h16, -, h19, h25, -, -, -, -, hseg⟩ := h
  unfold syncFx
  have e1 : ∀ t : State, syncSegs u' (u 11) ss ae t = syncSegs u (u 11) ss ae t := by
    intro t
    unfold syncSegs
    by_cases c : u 11 > 10
    · obtain ⟨a, b, c'⟩ := hseg c
      rw [syncSegments_congr t u u' ss ae _ a b c']
    · simp only [c, decide_False, Bool.false_and, Bool.false_eq_true, if_false]
  have e2 : ∀ t : State, syncSimple x u' (u 11) ae t = syncSimple x u (u 11) ae t := by
    intro t
    unfold syncSimple
    rw [syncEffects_congr x u u' (u 11) _ _ _ (hb 8 (by omega)) (hb 9 (by omega)) h16 h19]
  have e3 : ∀ t : State, syncTimebase now u' (u 11) ae t = syncTimebase now u (u 11) ae t := by
    intro t
    exact syncTimebase_congr now u u' (u 11) ae t
      (fun c => ⟨h25 c 25 (by omega) (by omega), h25 c 26 (by omega) (by omega),
        h25 c 27 (by omega) (by omega), h25 c 28 (by omega) (by omega)⟩)
  simp only [e1, e2, e3]

theorem syncApply_congr (x : Ext) (now : Nat) (u u' : Nat → Nat) (s : State)
    (h : sameFields u u') :
    syncApply x now u' s = syncApply x now u s := by
  have hfx := fun ss ae t => syncFx_congr x now u u' ss ae t h
  obtain ⟨hb, h11, h10, h12, -, h17, -, -, h20, h29, -, h37, -⟩ := h
  unfold syncApply
  simp only [h11]
  rw [syncColors_congr s u u' (u 11) _ (hb 3 (by omega)) (hb 4 (by omega)) (hb 5 (by omega)) h10
    (fun c => ⟨h12 c 12 (by omega) (by omega), h12 c 13 (by omega) (by omega),
      h12 c 14 (by omega) (by omega), h12 c 15 (by omega) (by omega)⟩)
    (fun c => ⟨h20 c 20 (by omega) (by omega), h20 c 21 (by omega) (by omega),
      h20 c 22 (by omega) (by omega), h20 c 23 (by omega) (by omega)⟩)
    (fun c => ⟨h37 c 37 (by omega) (by omega), h37 c 38 (by omega) (by omega)⟩)]
  simp only [hfx]
  rw [syncTime_congr x u u' (u 11) _ _
    (fun c => ⟨h29 c 29 (by omega) (by omega), h29 c 30 (by omega) (by omega),
      h29 c 31 (by omega) (by omega), h29 c 32 (by omega) (by omega),
      h29 c 33 (by omega) (by omega), h29 c 34 (by omega) (by omega),
      h29 c 35 (by omega) (by omega)⟩)]
  rw [syncFinish_congr u u' (u 11) _ _ (hb 2 (by omega)) (hb 6 (by omega)) (hb 7 (by omega))
    (fun c => ⟨h17 c 17 (by omega) (by omega), h17 c 18 (by omega) (by omega)⟩)]

theorem wledNotifier_congr (x : Ext) (now : Nat) (u u' : Nat → Nat) (s : State)
    (h : sameFields u u') :
    wledNotifier x now u' s = wledNotifier x now u s := by
  have ha := syncApply_congr x now u u' s h
  obtain ⟨hb, h11, -, -, -, -, -, -, -, -, h36, -, -⟩ := h
  unfold wledNotifier
  rw [ha, hb 1 (by omega)]
  simp only [h11]
  by_cases c : u 11 > 8
  · rw [h36 c]
  · have : (decide (u 11 < 9) || decide (u 11 > 199)) = true := by
      simp only [Bool.or_eq_true, decide_eq_true_eq]; omega
    simp only [this, if_true]

/-! ## Fields of the segments that the simple effect sync leaves alone -/

theorem updSegment_length (segs : List Segment) (id : Nat) (f : Segment → Segment) :
    (updSegment segs id f).length = segs.length := by
  unfold updSegment
  exact List.length_set _ _ _

theorem updSegment_map {α : Type} (p : Segment → α) (segs : List Segment) (id : Nat)
    (f : Segment → Segment) (hf : ∀ g, p (f g) = p g) :
    (updSegment segs id f).map p = segs.map p := by
  unfold updSegment getSegment
  rw [List.map_set, hf]
  by_cases h : id < segs.length
  · rw [List.getD_eq_getElem _ _ h]
    apply List.ext_getElem?
    intro k
    by_cases hk : id = k
    · subst hk
      rw [List.getElem?_set_self (by simpa using h)]
      simp [h]
    · rw [List.getElem?_set_ne hk]
  · rw [List.set_eq_of_length_le (by simpa using h)]

theorem foldl_map {α : Type} (p : Segment → α) (f : List Segment → Nat → List Segment)
    (h : ∀ sg i, (f sg i).map p = sg.map p) (xs : List Nat) (sg : List Segment) :
    (xs.foldl f sg).map p = sg.map p := by
  induction xs generalizing sg with
  | nil => rfl
  | cons a xs ih => rw [List.foldl_cons, ih, h]

theorem syncEffect_map {α : Type} (p : Segment → α) (x : Ext) (u : Nat → Nat)
    (v mc pc : Nat) (segs : List Segment) (i : Nat)
    (hmode : ∀ g m, p { g with mode := m } = p g)
    (hspeed : ∀ g k, p { g with speed := k } = p g)
    (hint : v > 2 → ∀ g k, p { g with intensity := k } = p g)
    (hpal : v > 4 → ∀ g k, p { g with palette := k } = p g) :
    (syncEffect x u v mc pc segs i).map p = segs.map p := by
  unfold syncEffect
  split
  · rfl
  · have e1 : (if u 8 < mc then setMode segs i (u 8) else segs).map p = segs.map p := by
      split
      · exact updSegment_map p _ _ _ (fun g => hmode g _)
      · rfl
    simp only []
    split
    · rename_i c
      simp only [Bool.and_eq_true, decide_eq_true_eq] at c
      rw [updSegment_map p _ _ _ (fun g => hpal c.1 g _)]
      split
      · rename_i c2
        rw [updSegment_map p _ _ _ (fun g => hint c2 g _),
          updSegment_map p _ _ _ (fun g => hspeed g _), e1]
      · rw [updSegment_map p _ _ _ (fun g => hspeed g _), e1]
    · split
      · rename_i c2
        rw [updSegment_map p _ _ _ (fun g => hint c2 g _),
          updSegment_map p _ _ _ (fun g => hspeed g _), e1]
      · rw [updSegment_map p _ _ _ (fun g => hspeed g _), e1]

theorem syncEffects_map {α : Type} (p : Segment → α) (x : Ext) (u : Nat → Nat)
    (v mc pc : Nat) (segs : List Segment)
    (hmode : ∀ g m, p { g with mode := m } = p g)
    (hspeed : ∀ g k, p { g with speed := k } = p g)
    (hint : v > 2 → ∀ g k, p { g with intensity := k } = p g)
    (hpal : v > 4 → ∀ g k, p { g with palette := k } = p g) :
    (syncEffects x u v mc pc segs).map p = segs.map p := by
  unfold syncEffects
  exact foldl_map p _ (fun sg i => syncEffect_map p x u v mc pc sg i hmode hspeed hint hpal) _ _

theorem syncFx_segments_lt (x : Ext) (now : Nat) (u : Nat → Nat) (v : Nat) (ss ae : Bool)
    (s : State) (hv : v < 11) :
    (syncFx x now u v ss ae s).1.strip.segments
      = if ae then syncEffects x u v s.strip.modeCount s.strip.paletteCount s.strip.segments
        else s.strip.segments := by
  unfold syncFx
  rw [if_pos (by omega)]
  simp only [syncTimebase_strip_segments]
  have c : ¬ v > 10 := by omega
  unfold syncSimple syncSegs
  simp only [c, decide_False, Bool.false_and, Bool.false_eq_true, if_false, hv, decide_True,
    Bool.true_or, Bool.and_true]
  cases ae <;> simp

theorem syncFx_ge (x : Ext) (now : Nat) (u : Nat → Nat) (v : Nat) (ss ae : Bool)
    (s : State) (hv : 200 ≤ v) :
    syncFx x now u v ss ae s = (s, false) := by
  unfold syncFx
  rw [if_neg (by omega)]

theorem syncApply_segments_map {α : Type} (p : Segment → α) (x : Ext) (now : Nat)
    (u : Nat → Nat) (s : State) (hv : u 11 < 11)
    (hmode : ∀ g m, p { g with mode := m } = p g)
    (hspeed : ∀ g k, p { g with speed := k } = p g)
    (hint : u 11 > 2 → ∀ g k, p { g with intensity := k } = p g)
    (hpal : u 11 > 4 → ∀ g k, p { g with palette := k } = p g) :
    (syncApply x now u s).strip.segments.map p = s.strip.segments.map p := by
  rw [syncApply_segments, syncFx_segments_lt _ _ _ _ _ _ _ hv]
  split
  · rw [syncEffects_map p x u _ _ _ _ hmode hspeed hint hpal]
    simp
  · simp

/-! ## Buffers that agree on the fields of a version -/

theorem W_RGBW32 (r g b w : Nat) : W (RGBW32 r g b w) = w % 256 := by
  rw [RGBW32_eq]
  simp only [W, Nat.shiftRight_eq_div_pow]
  omega

theorem sameFields_update36 (u : Nat → Nat) (b : Nat) (hv : u 11 < 9) :
    sameFields u (Function.update u 36 b) := by
  have hne : ∀ i, i ≠ 36 → Function.update u 36 b i = u i :=
    fun i hi => Function.update_noteq hi b u
  refine ⟨fun i hi => hne i (by omega), hne 11 (by omega), fun _ => hne 10 (by omega),
    fun _ i _ _ => hne i (by omega), fun _ => hne 16 (by omega),
    fun _ i _ _ => hne i (by omega), fun _ => hne 19 (by omega),
    fun _ i _ _ => hne i (by omega), fun _ i _ _ => hne i (by omega),
    fun _ i _ _ => hne i (by omega), fun c => absurd c (by omega),
    fun c => absurd c (by omega), fun c => absurd c (by omega)⟩

theorem sameFields_v0 (u u' : Nat → Nat) (hv : u 11 = 0) (h9 : ∀ i, i ≤ 9 → u' i = u i)
    (h11 : u' 11 = 0) : sameFields u u' := by
  refine ⟨h9, by rw [h11, hv], ?_, ?_, ?_, ?_, ?_, ?_, ?_, ?_, ?_, ?_, ?_⟩ <;>
    exact fun c => absurd c (by omega)

/-! ## The path of a datagram into the notifier branch -/

theorem receiveSync_of (x : Ext) (now localIP : Nat) (d : Datagram) (junk : Nat → Nat)
    (s r : State) (hc : s.udpConnected = true) (hn : s.receiveNotifications = true)
    (hl : 0 < d.data.length) (hm : d.data.length ≤ UDP_IN_MAXSIZE)
    (hself : ¬ (d.isSupp = false ∧ d.remoteIP = localIP))
    (h0 : udpInOf d.data junk 0 = 0) (hrt : s.realtimeMode = 0)
    (hw : wledNotifier x now (udpInOf d.data junk) s = some r) :
    receiveSync x now localIP d junk s = some r := by
  unfold receiveSync
  rw [if_neg (by simp [hc]), if_neg (by simp [hn]),
    if_neg (by simp only [Bool.or_eq_true, decide_eq_true_eq]; omega),
    if_neg (by simpa using hself)]
  simp only []
  rw [if_neg (by simp [h0]), if_pos (by simp [h0, hrt, hn])]
  exact hw

theorem receiveSync_congr (x : Ext) (now localIP : Nat) (d : Datagram) (junk junk' : Nat → Nat)
    (s : State) (h0 : udpInOf d.data junk' 0 = udpInOf d.data junk 0)
    (h1 : udpInOf d.data junk' 1 = udpInOf d.data junk 1)
    (hw : wledNotifier x now (udpInOf d.data junk') s
      = wledNotifier x now (udpInOf d.data junk) s) :
    receiveSync x now localIP d junk' s = receiveSync x now localIP d junk s := by
  unfold receiveSync
  simp only [h0, h1, hw]

theorem udpInOf_junk (pkt : List Nat) (junk junk' : Nat → Nat) (i : Nat)
    (h : pkt.length ≤ i → junk' i % 256 = junk i % 256) :
    udpInOf pkt junk' i = udpInOf pkt junk i := by
  unfold udpInOf
  by_cases c : i < pkt.length
  · rw [if_pos c, if_pos c]
  · rw [if_neg c, if_neg c]
    exact h (by omega)

/-! ## The segment loop on a full segment sync -/

theorem getSegment_updSegment_self (segs : List Segment) (id : Nat) (f : Segment → Segment)
    (h : id < segs.length) : getSegment (updSegment segs id f) id = f (getSegment segs id) := by
  unfold updSegment getSegment
  rw [List.getD_eq_getElem _ _ (by simpa using h)]
  simp

theorem getSegment_updSegment_ne (segs : List Segment) (id j : Nat) (f : Segment → Segment)
    (h : id ≠ j) : getSegment (updSegment segs id f) j = getSegment segs j := by
  unfold updSegment getSegment
  simp only [List.getD_eq_getElem?_getD, List.getElem?_set_ne h]

theorem updSegment_updSegment (segs : List Segment) (id : Nat) (f g : Segment → Segment) :
    updSegment (updSegment segs id f) id g = updSegment segs id (fun a => g (f a)) := by
  by_cases h : id < segs.length
  · unfold updSegment
    rw [List.set_set]
    congr 1
    exact congrArg g (getSegment_updSegment_self segs id f h)
  · unfold updSegment
    rw [List.set_eq_of_length_le (by simpa using h), List.set_eq_of_length_le (by omega),
      List.set_eq_of_length_le (by omega)]

theorem range_four : List.range 4 = [0, 1, 2, 3] := rfl

theorem syncSegment_full (s : State) (u : Nat → Nat) (ss : Bool) (segs : List Segment)
    (i id : Nat) (hid : syncSegmentId u segs i = some id)
    (ho : s.receiveSegmentOptions = true) (hb : s.receiveSegmentBounds = true)
    (hc : (s.receiveNotificationColor || !ss) = true) :
    syncSegment s u ss true segs i
      = updSegment segs id (recordSegment u ((41 + i * u 40) % 2 ^ 16)) := by
  unfold syncSegment
  rw [hid]
  simp only [ho, hb, hc, Bool.not_true, Bool.false_eq_true, if_false, if_true, setSegment,
    setMode, range_four, List.foldl_cons, List.foldl_nil, updSegment_updSegment]
  congr 1

theorem mod256_testBit (a j : Nat) : (a % 256).testBit j = (decide (j < 8) && a.testBit j) :=
  Nat.testBit_mod_two_pow a 8 j

theorem setOption_testBit (g : Segment) (n j : Nat) (val : Bool) (hn : n < 4) (hj : j < 8) :
    ((g.setOption n val).options).testBit j = if j = n then val else g.options.testBit j := by
  unfold Segment.setOption
  interval_cases n <;> interval_cases j <;> cases val <;>
    simp only [mod256_testBit, Nat.testBit_or, Nat.testBit_and, Bool.false_eq_true, if_false,
      if_true] <;>
    generalize g.options.testBit _ = b <;> cases b <;> decide

theorem bit_decide (r j : Nat) : decide ((r >>> j) &&& 0x01 ≠ 0) = r.testBit j := by
  have e : r.testBit j = (1 &&& r >>> j != 0) := rfl
  rw [e, Nat.and_comm]
  by_cases h : 1 &&& r >>> j = 0
  · rw [h]; rfl
  · rw [decide_eq_true h, bne_iff_ne.mpr h]

theorem setColor_options
    (g : Segment) (slot c : Nat) : (g.setColor slot c).options = g.options := by
  unfold Segment.setColor
  split_ifs <;> rfl

theorem recordSegment_options_eq (u : Nat → Nat) (ofs : Nat) (g : Segment) :
    (recordSegment u ofs g).options
      = ((((g.setOption 0 (decide ((u (9 + ofs) >>> 0) &&& 0x01 ≠ 0))).setOption 1
          (decide ((u (9 + ofs) >>> 1) &&& 0x01 ≠ 0))).setOption 2
          (decide ((u (9 + ofs) >>> 2) &&& 0x01 ≠ 0))).setOption 3
          (decide ((u (9 + ofs) >>> 3) &&& 0x01 ≠ 0))).options := by
  unfold recordSegment
  simp only [range_four, List.foldl_cons, List.foldl_nil, setColor_options, Segment.setCCT,
    Segment.setOpacity]

theorem recordSegment_options (u : Nat → Nat) (ofs : Nat) (g : Segment) (j : Nat) (hj : j < 8) :
    (recordSegment u ofs g).options.testBit j
      = if j < 4 then (u (9 + ofs)).testBit j else g.options.testBit j := by
  rw [recordSegment_options_eq, setOption_testBit _ 3 j _ (by omega) hj,
    setOption_testBit _ 2 j _ (by omega) hj, setOption_testBit _ 1 j _ (by omega) hj,
    setOption_testBit _ 0 j _ (by omega) hj]
  simp only [bit_decide]
  interval_cases j <;> rfl

theorem syncSegments_full (s : State) (u : Nat → Nat) (ss : Bool) (segs : List Segment)
    (n : Nat) (ho : s.receiveSegmentOptions = true) (hb : s.receiveSegmentBounds = true)
    (hc : (s.receiveNotificationColor || !ss) = true)
    (hlen : segs.length = n) (hn : n < 256) (h40 : u 40 = 28)
    (hid : ∀ i, i < n → u (0 + (41 + i * 28)) = i) (k : Nat) (hk : k ≤ n) :
    ((List.range k).foldl (syncSegment s u ss true) segs).length = n
    ∧ (∀ i, i < k →
        getSegment ((List.range k).foldl (syncSegment s u ss true) segs) i
          = recordSegment u (41 + i * 28) (getSegment segs i))
    ∧ (∀ i, k ≤ i →
        getSegment ((List.range k).foldl (syncSegment s u ss true) segs) i
          = getSegment segs i) := by
  induction k with
  | zero => exact ⟨hlen, fun i hi => absurd hi (by omega), fun i _ => rfl⟩
  | succ k ih =>
    obtain ⟨ihl, ihlt, ihge⟩ := ih (by omega)
    have hofs : (41 + k * u 40) % 2 ^ 16 = 41 + k * 28 := by
      rw [h40]; omega
    have hsid : syncSegmentId u ((List.range k).foldl (syncSegment s u ss true) segs) k
        = some k := by
      unfold syncSegmentId
      simp only [hofs, hid k (by omega), getMaxSegments, ihl]
      rw [if_neg (by omega)]
    have hstep : (List.range (k + 1)).foldl (syncSegment s u ss true) segs
        = updSegment ((List.range k).foldl (syncSegment s u ss true) segs) k
            (recordSegment u (41 + k * 28)) := by
      rw [List.range_succ, List.foldl_append, List.foldl_cons, List.foldl_nil,
        syncSegment_full s u ss _ k k hsid ho hb hc, hofs]
    rw [hstep]
    refine ⟨by rw [updSegment_length, ihl], ?_, ?_⟩
    · intro i hi
      by_cases hik : i = k
      · subst hik
        rw [getSegment_updSegment_self _ _ _ (by omega), ihge i (Nat.le_refl i)]
      · rw [getSegment_updSegment_ne _ _ _ _ (fun h => hik h.symm), ihlt i (by omega)]
    · intro i hi
      rw [getSegment_updSegment_ne _ _ _ _ (by omega), ihge i (by omega)]

theorem syncSegments_flags (s s' : State) (u : Nat → Nat) (ss ae : Bool) (segs : List Segment)
    (h1 : s'.receiveSegmentOptions = s.receiveSegmentOptions)
    (h2 : s'.receiveSegmentBounds = s.receiveSegmentBounds)
    (h3 : s'.receiveNotificationColor = s.receiveNotificationColor) :
    syncSegments s' u ss ae segs = syncSegments s u ss ae segs := by
  unfold syncSegments
  have : syncSegment s' u ss ae = syncSegment s u ss ae := by
    funext sg i
    unfold syncSegment
    rw [h1, h2, h3]
  rw [this]

theorem syncApply_segments_full (x : Ext) (now : Nat) (u : Nat → Nat) (s : State)
    (hv : u 11 = 11) (ho : s.receiveSegmentOptions = true)
    (hss : someSel s = false) :
    (syncApply x now u s).strip.segments = syncSegments s u false true s.strip.segments := by
  rw [syncApply_segments, hv, hss]
  unfold syncFx
  rw [if_pos (by omega)]
  simp only [syncTimebase_strip_segments]
  unfold syncSimple
  simp only [syncSegs_receiveSegmentOptions, syncPlaylist_receiveSegmentOptions,
    syncColors_receiveSegmentOptions, ho]
  rw [if_neg (by simp)]
  unfold syncSegs
  simp only [syncPlaylist_receiveSegmentOptions, syncColors_receiveSegmentOptions, ho]
  rw [if_pos (by simp)]
  simp only [syncPlaylist_strip, syncColors_strip_segments, Bool.not_false, Bool.or_true]
  exact syncSegments_flags s _ u false true _ (by simp) (by simp) (by simp)

theorem udpInOf_segment (now callMode : Nat) (followUp : Bool) (s : State) (junk : Nat → Nat)
    (i k : Nat) (hi : i < getMaxSegments s.strip.segments) (hk : k < 28) :
    udpInOf (notifyPacket now callMode followUp s) junk (k + (41 + i * 28))
      = (notifySegment i (getSegment s.strip.segments i)).getD k 0 % 256 := by
  have e : k + (41 + i * 28) = 41 + 28 * i + k := by omega
  rw [e, udpInOf_lt _ _ _ (by rw [notifyPacket_length]; omega),
    notifyPacket_segment _ _ _ _ _ _ _ hi hk]

theorem recordSegment_fields (u : Nat → Nat) (ofs : Nat) (g : Segment) :
    (recordSegment u ofs g).start = (u (1 + ofs) <<< 8 ||| u (2 + ofs)) % 2 ^ 16
    ∧ (recordSegment u ofs g).stop = (u (3 + ofs) <<< 8 ||| u (4 + ofs)) % 2 ^ 16
    ∧ (recordSegment u ofs g).grouping = u (5 + ofs)
    ∧ (recordSegment u ofs g).spacing = u (6 + ofs)
    ∧ (recordSegment u ofs g).offset = (u (7 + ofs) <<< 8 ||| u (8 + ofs)) % 2 ^ 16
    ∧ (recordSegment u ofs g).opacity = u (10 + ofs)
    ∧ (recordSegment u ofs g).mode = u (11 + ofs)
    ∧ (recordSegment u ofs g).speed = u (12 + ofs)
    ∧ (recordSegment u ofs g).intensity = u (13 + ofs)
    ∧ (recordSegment u ofs g).palette = u (14 + ofs)
    ∧ (recordSegment u ofs g).colors0
        = RGBW32 (u (15 + ofs)) (u (16 + ofs)) (u (17 + ofs)) (u (18 + ofs))
    ∧ (recordSegment u ofs g).colors1
        = RGBW32 (u (19 + ofs)) (u (20 + ofs)) (u (21 + ofs)) (u (22 + ofs))
    ∧ (recordSegment u ofs g).colors2
        = RGBW32 (u (23 + ofs)) (u (24 + ofs)) (u (25 + ofs)) (u (26 + ofs))
    ∧ (recordSegment u ofs g).cct = u (27 + ofs) :=
  ⟨rfl, rfl, rfl, rfl, rfl, rfl, rfl, rfl, rfl, rfl, rfl, rfl, rfl, rfl⟩

theorem be16 (a : Nat) (ha : a < 2 ^ 16) :
    (((a >>> 8) % 256 % 256) <<< 8 ||| ((a &&& 0xFF) % 256 % 256)) % 2 ^ 16 = a := by
  rw [shl8_or _ _ (Nat.mod_lt _ (by omega)), and_0xFF, Nat.shiftRight_eq_div_pow]
  omega

theorem mod16_testBit (a j : Nat) (hj : j < 4) :
    ((a &&& 0x0F) % 256 % 256).testBit j = a.testBit j := by
  rw [mod256_testBit, mod256_testBit, Nat.testBit_and]
  interval_cases j <;> generalize a.testBit _ = b <;> cases b <;> decide

/-! ## The steps of a tick before the sockets are polled -/

theorem notify_fst (x : Ext) (now callMode : Nat) (followUp : Bool) (s : State) :
    ∃ a b c, (notify x now callMode followUp s).1 =
      { s with notificationSentCallMode := a, notificationSentTime := b,
               notificationTwoRequired := c } := by
  unfold notify
  split_ifs <;> exact ⟨_, _, _, rfl⟩

theorem secondNotification_eq (x : Ext) (now : Nat) (dev : Device) :
    ∃ a b c l, secondNotification x now dev =
      { dev with notificationSentCallMode := a, notificationSentTime := b,
                 notificationTwoRequired := c, sent := l } := by
  unfold secondNotification
  split_ifs
  · obtain ⟨a, b, c, h⟩ := notify_fst x now dev.notificationSentCallMode true dev.toState
    rcases hn : notify x now dev.notificationSentCallMode true dev.toState with ⟨s1, _ | pkt⟩
    · rw [hn] at h
      exact ⟨a, b, c, _, by simp only []; rw [show s1 = _ from h]⟩
    · rw [hn] at h
      exact ⟨a, b, c, _, by simp only []; rw [show s1 = _ from h]⟩
  · exact ⟨_, _, _, _, rfl⟩

theorem e131Show_eq (now : Nat) (dev : Device) :
    ∃ e n, e131Show now dev = { dev with e131NewData := e, shows := n } := by
  unfold e131Show stripShow
  split_ifs
  · exact ⟨_, _, rfl⟩
  · exact ⟨_, _, rfl⟩

theorem checkExpiry_eq (y : Host) (now : Nat) (dev : Device) :
    ∃ m o b i, checkExpiry y now dev =
      { dev with realtimeMode := m, realtimeOverride := o, brightness := b,
                 realtimeIP := i } := by
  unfold checkExpiry setBrightness
  split_ifs
  · exact ⟨_, _, _, _, rfl⟩
  · exact ⟨_, _, _, _, rfl⟩
  · exact ⟨_, _, _, _, rfl⟩

theorem tickStart_eq (x : Ext) (y : Host) (now : Nat) (dev : Device) :
    ∃ a b c l e n m o r i, tickStart x y now dev =
      { dev with notificationSentCallMode := a, notificationSentTime := b,
                 notificationTwoRequired := c, sent := l, e131NewData := e, shows := n,
                 realtimeMode := m, realtimeOverride := o, brightness := r,
                 realtimeIP := i } := by
  obtain ⟨a, b, c, l, h1⟩ := secondNotification_eq x now dev
  obtain ⟨e, n, h2⟩ := e131Show_eq now (secondNotification x now dev)
  obtain ⟨m, o, r, i, h3⟩ := checkExpiry_eq y now (e131Show now (secondNotification x now dev))
  refine ⟨a, b, c, l, e, n, m, o, r, i, ?_⟩
  unfold tickStart
  rw [h3, h2, h1]

@[simp] theorem tickStart_udpConnected (x : Ext) (y : Host) (now : Nat) (dev : Device) :
    (tickStart x y now dev).udpConnected = dev.udpConnected := by
  obtain ⟨a, b, c, l, e, n, m, o, r, i, h⟩ := tickStart_eq x y now dev
  rw [h]

@[simp] theorem tickStart_syncGroups (x : Ext) (y : Host) (now : Nat) (dev : Device) :
    (tickStart x y now dev).syncGroups = dev.syncGroups := by
  obtain ⟨a, b, c, l, e, n, m, o, r, i, h⟩ := tickStart_eq x y now dev
  rw [h]

@[simp] theorem tickStart_receiveGroups (x : Ext) (y : Host) (now : Nat) (dev : Device) :
    (tickStart x y now dev).receiveGroups = dev.receiveGroups := by
  obtain ⟨a, b, c, l, e, n, m, o, r, i, h⟩ := tickStart_eq x y now dev
  rw [h]

@[simp] theorem tickStart_receiveNotifications (x : Ext) (y : Host) (now : Nat) (dev : Device) :
    (tickStart x y now dev).receiveNotifications = dev.receiveNotifications := by
  obtain ⟨a, b, c, l, e, n, m, o, r, i, h⟩ := tickStart_eq x y now dev
  rw [h]

@[simp] theorem tickStart_receiveDirect (x : Ext) (y : Host) (now : Nat) (dev : Device) :
    (tickStart x y now dev).receiveDirect = dev.receiveDirect := by
  obtain ⟨a, b, c, l, e, n, m, o, r, i, h⟩ := tickStart_eq x y now dev
  rw [h]

@[simp] theorem tickStart_bri (x : Ext) (y : Host) (now : Nat) (dev : Device) :
    (tickStart x y now dev).bri = dev.bri := by
  obtain ⟨a, b, c, l, e, n, m, o, r, i, h⟩ := tickStart_eq x y now dev
  rw [h]

@[simp] theorem tickStart_nightlightActive (x : Ext) (y : Host) (now : Nat) (dev : Device) :
    (tickStart x y now dev).nightlightActive = dev.nightlightActive := by
  obtain ⟨a, b, c, l, e, n, m, o, r, i, h⟩ := tickStart_eq x y now dev
  rw [h]

@[simp] theorem tickStart_nightlightDelayMins (x : Ext) (y : Host) (now : Nat) (dev : Device) :
    (tickStart x y now dev).nightlightDelayMins = dev.nightlightDelayMins := by
  obtain ⟨a, b, c, l, e, n, m, o, r, i, h⟩ := tickStart_eq x y now dev
  rw [h]

@[simp] theorem tickStart_transitionDelay (x : Ext) (y : Host) (now : Nat) (dev : Device) :
    (tickStart x y now dev).transitionDelay = dev.transitionDelay := by
  obtain ⟨a, b, c, l, e, n, m, o, r, i, h⟩ := tickStart_eq x y now dev
  rw [h]

@[simp] theorem tickStart_transitionDelayTemp (x : Ext) (y : Host) (now : Nat) (dev : Device) :
    (tickStart x y now dev).transitionDelayTemp = dev.transitionDelayTemp := by
  obtain ⟨a, b, c, l, e, n, m, o, r, i, h⟩ := tickStart_eq x y now dev
  rw [h]

@[simp] theorem tickStart_currentPlaylist (x : Ext) (y : Host) (now : Nat) (dev : Device) :
    (tickStart x y now dev).currentPlaylist = dev.currentPlaylist := by
  obtain ⟨a, b, c, l, e, n, m, o, r, i, h⟩ := tickStart_eq x y now dev
  rw [h]

@[simp] theorem tickStart_strip (x : Ext) (y : Host) (now : Nat) (dev : Device) :
    (tickStart x y now dev).strip = dev.strip := by
  obtain ⟨a, b, c, l, e, n, m, o, r, i, h⟩ := tickStart_eq x y now dev
  rw [h]

@[simp] theorem tickStart_toki (x : Ext) (y : Host) (now : Nat) (dev : Device) :
    (tickStart x y now dev).toki = dev.toki := by
  obtain ⟨a, b, c, l, e, n, m, o, r, i, h⟩ := tickStart_eq x y now dev
  rw [h]

@[simp] theorem tickStart_udp2Connected (x : Ext) (y : Host) (now : Nat) (dev : Device) :
    (tickStart x y now dev).udp2Connected = dev.udp2Connected := by
  obtain ⟨a, b, c, l, e, n, m, o, r, i, h⟩ := tickStart_eq x y now dev
  rw [h]

@[simp] theorem tickStart_udpRgbConnected (x : Ext) (y : Host) (now : Nat) (dev : Device) :
    (tickStart x y now dev).udpRgbConnected = dev.udpRgbConnected := by
  obtain ⟨a, b, c, l, e, n, m, o, r, i, h⟩ := tickStart_eq x y now dev
  rw [h]

@[simp] theorem tickStart_notifierRemoteIP (x : Ext) (y : Host) (now : Nat) (dev : Device) :
    (tickStart x y now dev).notifierRemoteIP = dev.notifierRemoteIP := by
  obtain ⟨a, b, c, l, e, n, m, o, r, i, h⟩ := tickStart_eq x y now dev
  rw [h]

@[simp] theorem tickStart_realtimeTimeout (x : Ext) (y : Host) (now : Nat) (dev : Device) :
    (tickStart x y now dev).realtimeTimeout = dev.realtimeTimeout := by
  obtain ⟨a, b, c, l, e, n, m, o, r, i, h⟩ := tickStart_eq x y now dev
  rw [h]

@[simp] theorem tickStart_realtimeTimeoutMs (x : Ext) (y : Host) (now : Nat) (dev : Device) :
    (tickStart x y now dev).realtimeTimeoutMs = dev.realtimeTimeoutMs := by
  obtain ⟨a, b, c, l, e, n, m, o, r, i, h⟩ := tickStart_eq x y now dev
  rw [h]

@[simp] theorem tickStart_briLast (x : Ext) (y : Host) (now : Nat) (dev : Device) :
    (tickStart x y now dev).briLast = dev.briLast := by
  obtain ⟨a, b, c, l, e, n, m, o, r, i, h⟩ := tickStart_eq x y now dev
  rw [h]

@[simp] theorem tickStart_arlsForceMaxBri (x : Ext) (y : Host) (now : Nat) (dev : Device) :
    (tickStart x y now dev).arlsForceMaxBri = dev.arlsForceMaxBri := by
  obtain ⟨a, b, c, l, e, n, m, o, r, i, h⟩ := tickStart_eq x y now dev
  rw [h]

@[simp] theorem tickStart_arlsOffset (x : Ext) (y : Host) (now : Nat) (dev : Device) :
    (tickStart x y now dev).arlsOffset = dev.arlsOffset := by
  obtain ⟨a, b, c, l, e, n, m, o, r, i, h⟩ := tickStart_eq x y now dev
  rw [h]

@[simp] theorem tickStart_arlsDisableGammaCorrection (x : Ext) (y : Host) (now : Nat) (dev : Device) :
    (tickStart x y now dev).arlsDisableGammaCorrection = dev.arlsDisableGammaCorrection := by
  obtain ⟨a, b, c, l, e, n, m, o, r, i, h⟩ := tickStart_eq x y now dev
  rw [h]

@[simp] theorem tickStart_tpmPacketCount (x : Ext) (y : Host) (now : Nat) (dev : Device) :
    (tickStart x y now dev).tpmPacketCount = dev.tpmPacketCount := by
  obtain ⟨a, b, c, l, e, n, m, o, r, i, h⟩ := tickStart_eq x y now dev
  rw [h]

@[simp] theorem tickStart_tpmPayloadFrameSize (x : Ext) (y : Host) (now : Nat) (dev : Device) :
    (tickStart x y now dev).tpmPayloadFrameSize = dev.tpmPayloadFrameSize := by
  obtain ⟨a, b, c, l, e, n, m, o, r, i, h⟩ := tickStart_eq x y now dev
  rw [h]

@[simp] theorem tickStart_nodeListEnabled (x : Ext) (y : Host) (now : Nat) (dev : Device) :
    (tickStart x y now dev).nodeListEnabled = dev.nodeListEnabled := by
  obtain ⟨a, b, c, l, e, n, m, o, r, i, h⟩ := tickStart_eq x y now dev
  rw [h]

@[simp] theorem tickStart_Nodes (x : Ext) (y : Host) (now : Nat) (dev : Device) :
    (tickStart x y now dev).Nodes = dev.Nodes := by
  obtain ⟨a, b, c, l, e, n, m, o, r, i, h⟩ := tickStart_eq x y now dev
  rw [h]

@[simp] theorem tickStart_pixels (x : Ext) (y : Host) (now : Nat) (dev : Device) :
    (tickStart x y now dev).pixels = dev.pixels := by
  obtain ⟨a, b, c, l, e, n, m, o, r, i, h⟩ := tickStart_eq x y now dev
  rw [h]

@[simp] theorem tickStart_gammaCorrectCol (x : Ext) (y : Host) (now : Nat) (dev : Device) :
    (tickStart x y now dev).gammaCorrectCol = dev.gammaCorrectCol := by
  obtain ⟨a, b, c, l, e, n, m, o, r, i, h⟩ := tickStart_eq x y now dev
  rw [h]

/-! ## The datagram that a tick reads -/

@[simp] theorem parsePacket_some (q : UdpPacket) : parsePacket (some q) = q.data.length := rfl

@[simp] theorem parsePacket_none : parsePacket none = 0 := rfl

@[simp] theorem socketData_some (q : UdpPacket) : socketData (some q) = q.data := rfl

@[simp] theorem socketData_none : socketData none = [] := rfl

theorem socketRemoteIP_some (q : UdpPacket) (old : Nat) (h : q.data.length ≠ 0) :
    socketRemoteIP (some q) old = q.remoteIP := by
  simp [socketRemoteIP, h]

theorem handleNotifications_reads (x : Ext) (y : Host) (now localIP : Nat) (junk : Nat → Nat)
    (socks : Sockets) (dev : Device) (d : Datagram) (h : Reads socks dev d)
    (hu : (tickStart x y now dev).udpConnected = true) :
    handleNotifications x y now localIP junk socks dev =
      handleDatagram x y now localIP d junk
        { tickStart x y now dev with
          notifierRemoteIP :=
            socketRemoteIP socks.notifierUdp (tickStart x y now dev).notifierRemoteIP } := by
  obtain ⟨data, ip, sup⟩ := d
  obtain ⟨hd, h | h⟩ := h
  · obtain ⟨h1, h2⟩ := h
    simp only at h1 h2 hd
    subst h2
    have hl : data.length ≠ 0 := fun e => hd (List.length_eq_zero.mp e)
    have hr : ∀ old, socketRemoteIP (some ⟨data, ip⟩) old = ip :=
      fun old => socketRemoteIP_some ⟨data, ip⟩ old hl
    unfold handleNotifications
    simp only [hu, h1, parsePacket_some, socketData_some, hr, hl,
      Bool.not_true, Bool.false_eq_true, if_false, decide_False, Bool.false_and]
  · obtain ⟨h1, h2, h3, h4⟩ := h
    simp only at h3 h4 hd
    subst h4
    have hl : data.length ≠ 0 := fun e => hd (List.length_eq_zero.mp e)
    have hr : ∀ old, socketRemoteIP (some ⟨data, ip⟩) old = ip :=
      fun old => socketRemoteIP_some ⟨data, ip⟩ old hl
    unfold handleNotifications
    simp only [hu, h1, h2, h3, parsePacket_some, socketData_some, hr,
      hl, Bool.not_true, Bool.false_eq_true, if_false, if_true, decide_True, decide_False,
      Bool.true_and, Bool.and_true, Bool.false_and, tickStart_udp2Connected]

/-! ## Datagrams that leave the device as it is -/

theorem handleApi_zero (y : Host) (u : Nat → Nat) (n : Nat) (dev : Device) (hn : n ≠ 0)
    (h0 : u 0 = 0) : handleApi y u n dev = dev := by
  unfold handleApi
  have e : Function.update u n 0 0 = 0 := by
    rw [Function.update_noteq (Ne.symm hn)]; exact h0
  simp [e]

theorem handleDatagram_self (x : Ext) (y : Host) (now localIP : Nat) (d : Datagram)
    (junk : Nat → Nat) (dev : Device) (hs : d.isSupp = false) (hip : d.remoteIP = localIP) :
    handleDatagram x y now localIP d junk dev = dev := by
  unfold handleDatagram
  simp [hs, hip]

theorem handleDatagram_zero (x : Ext) (y : Host) (now localIP : Nat) (d : Datagram)
    (junk : Nat → Nat) (dev : Device) (h0 : udpInOf d.data junk 0 = 0)
    (h : dev.realtimeMode ≠ 0 ∨ wledNotifier x now (udpInOf d.data junk) dev.toState = none) :
    handleDatagram x y now localIP d junk dev = dev := by
  unfold handleDatagram
  by_cases h1 : (!(dev.receiveNotifications || dev.receiveDirect)) = true
  · rw [if_pos h1]
  rw [if_neg h1]
  by_cases h2 : (decide (d.data.length = 0) || decide (d.data.length > UDP_IN_MAXSIZE)) = true
  · rw [if_pos h2]
  rw [if_neg h2]
  by_cases h3 : (!d.isSupp && decide (d.remoteIP = localIP)) = true
  · rw [if_pos h3]
  rw [if_neg h3]
  have hl : d.data.length ≠ 0 := by
    intro e; apply h2; simp [e]
  simp only [h0]
  rw [if_neg (by simp)]
  by_cases h4 : (decide True && decide (dev.realtimeMode = 0) && dev.receiveNotifications)
      = true
  · rw [if_pos h4]
    rcases h with h | h
    · exfalso; apply h; simp at h4; exact h4.1
    · rw [h]
  rw [if_neg h4]
  by_cases h5 : (!dev.receiveDirect) = true
  · rw [if_pos h5]
  rw [if_neg h5, if_neg (by decide), if_neg (by decide)]
  exact handleApi_zero y _ _ dev hl h0

theorem handleDatagram_sync (x : Ext) (y : Host) (now localIP : Nat) (d : Datagram)
    (junk : Nat → Nat) (dev : Device) (r : State)
    (h : receiveSync x now localIP d junk dev.toState = some r) :
    handleDatagram x y now localIP d junk dev = { dev with toState := r } := by
  unfold receiveSync at h
  unfold handleDatagram
  by_cases h0 : (!dev.udpConnected) = true
  · rw [if_pos h0] at h; exact absurd h (by simp)
  rw [if_neg h0] at h
  by_cases h1 : (!(dev.receiveNotifications || dev.receiveDirect)) = true
  · rw [if_pos h1] at h; exact absurd h (by simp)
  rw [if_neg h1] at h ⊢
  by_cases h2 : (decide (d.data.length = 0) || decide (d.data.length > UDP_IN_MAXSIZE)) = true
  · rw [if_pos h2] at h; exact absurd h (by simp)
  rw [if_neg h2] at h ⊢
  by_cases h3 : (!d.isSupp && decide (d.remoteIP = localIP)) = true
  · rw [if_pos h3] at h; exact absurd h (by simp)
  rw [if_neg h3] at h ⊢
  simp only at h ⊢
  by_cases h4 : (d.isSupp && decide (udpInOf d.data junk 0 = 255)
      && decide (udpInOf d.data junk 1 = 1) && decide (d.data.length ≥ 40)) = true
  · rw [if_pos h4] at h; exact absurd h (by simp)
  rw [if_neg h4] at h ⊢
  by_cases h5 : (decide (udpInOf d.data junk 0 = 0) && decide (dev.realtimeMode = 0)
      && dev.receiveNotifications) = true
  · rw [if_pos h5] at h ⊢
    rw [h]
  · rw [if_neg h5] at h; exact absurd h (by simp)

/-! ## The expiry check -/

theorem checkExpiry_of_not_expired (y : Host) (now : Nat) (dev : Device)
    (h : dev.realtimeMode = 0 ∨ ¬ now % 2 ^ 32 > dev.realtimeTimeout) :
    checkExpiry y now dev = dev := by
  unfold checkExpiry
  rw [if_neg]
  rcases h with h | h
  · simp [h]
  · simp only [Bool.and_eq_true, decide_eq_true_eq, not_and]
    exact fun _ => h

theorem checkExpiry_of_expired (y : Host) (now : Nat) (dev : Device)
    (hm : dev.realtimeMode ≠ 0) (h : now % 2 ^ 32 > dev.realtimeTimeout) :
    checkExpiry y now dev =
      { dev with
        realtimeOverride :=
          if dev.realtimeOverride = REALTIME_OVERRIDE_ONCE then REALTIME_OVERRIDE_NONE
          else dev.realtimeOverride
        brightness := y.scaledBri dev.bri % 256
        realtimeMode := REALTIME_MODE_INACTIVE
        realtimeIP := ipSetOctet0 dev.realtimeIP 0 } := by
  unfold checkExpiry setBrightness
  rw [if_pos (by simp only [Bool.and_eq_true, decide_eq_true_eq]; exact ⟨by simpa using hm, h⟩)]
  split_ifs <;> rfl

theorem secondNotification_realtime (x : Ext) (now : Nat) (dev : Device) :
    (secondNotification x now dev).realtimeMode = dev.realtimeMode
    ∧ (secondNotification x now dev).realtimeTimeout = dev.realtimeTimeout
    ∧ (secondNotification x now dev).realtimeOverride = dev.realtimeOverride
    ∧ (secondNotification x now dev).realtimeIP = dev.realtimeIP
    ∧ (secondNotification x now dev).brightness = dev.brightness
    ∧ (secondNotification x now dev).bri = dev.bri := by
  obtain ⟨a, b, c, l, h⟩ := secondNotification_eq x now dev
  rw [h]
  exact ⟨rfl, rfl, rfl, rfl, rfl, rfl⟩

theorem e131Show_realtime (now : Nat) (dev : Device) :
    (e131Show now dev).realtimeMode = dev.realtimeMode
    ∧ (e131Show now dev).realtimeTimeout = dev.realtimeTimeout
    ∧ (e131Show now dev).realtimeOverride = dev.realtimeOverride
    ∧ (e131Show now dev).realtimeIP = dev.realtimeIP
    ∧ (e131Show now dev).brightness = dev.brightness
    ∧ (e131Show now dev).bri = dev.bri := by
  obtain ⟨e, n, h⟩ := e131Show_eq now dev
  rw [h]
  exact ⟨rfl, rfl, rfl, rfl, rfl, rfl⟩

theorem tickStart_of_not_expired (x : Ext) (y : Host) (now : Nat) (dev : Device)
    (h : dev.realtimeMode = 0 ∨ ¬ now % 2 ^ 32 > dev.realtimeTimeout) :
    tickStart x y now dev = e131Show now (secondNotification x now dev) := by
  unfold tickStart
  apply checkExpiry_of_not_expired
  rw [(e131Show_realtime now _).1, (e131Show_realtime now _).2.1,
    (secondNotification_realtime x now dev).1, (secondNotification_realtime x now dev).2.1]
  exact h

theorem tickStart_locked (x : Ext) (y : Host) (now : Nat) (dev : Device)
    (h : dev.realtimeMode = 0 ∨ ¬ now % 2 ^ 32 > dev.realtimeTimeout) :
    (tickStart x y now dev).realtimeMode = dev.realtimeMode
    ∧ (tickStart x y now dev).realtimeOverride = dev.realtimeOverride
    ∧ (tickStart x y now dev).realtimeIP = dev.realtimeIP
    ∧ (tickStart x y now dev).brightness = dev.brightness := by
  rw [tickStart_of_not_expired x y now dev h]
  have a := e131Show_realtime now (secondNotification x now dev)
  have b := secondNotification_realtime x now dev
  exact ⟨a.1.trans b.1, a.2.2.1.trans b.2.2.1, a.2.2.2.1.trans b.2.2.2.1,
    a.2.2.2.2.1.trans b.2.2.2.2.1⟩

theorem notify_sentTime (x : Ext) (now callMode : Nat) (followUp : Bool) (s : State) :
    (notify x now callMode followUp s).1.notificationSentTime = s.notificationSentTime
    ∨ (notify x now callMode followUp s).1.notificationSentTime = now := by
  unfold notify
  split_ifs
  · exact Or.inl rfl
  · exact Or.inl rfl
  · exact Or.inl rfl
  · exact Or.inr rfl
  · exact Or.inr rfl

theorem tickStart_notificationSentTime (x : Ext) (y : Host) (now : Nat) (dev : Device) :
    (tickStart x y now dev).notificationSentTime = dev.notificationSentTime
    ∨ (tickStart x y now dev).notificationSentTime = now := by
  have h3 : (tickStart x y now dev).notificationSentTime
      = (secondNotification x now dev).notificationSentTime := by
    obtain ⟨m, o, r, i, h⟩ := checkExpiry_eq y now (e131Show now (secondNotification x now dev))
    obtain ⟨e, n, h'⟩ := e131Show_eq now (secondNotification x now dev)
    unfold tickStart
    rw [h, h']
  rw [h3]
  unfold secondNotification
  split_ifs
  · rcases hn : notify x now dev.notificationSentCallMode true dev.toState with ⟨s1, _ | pkt⟩
    · have := notify_sentTime x now dev.notificationSentCallMode true dev.toState
      rw [hn] at this
      exact this
    · have := notify_sentTime x now dev.notificationSentCallMode true dev.toState
      rw [hn] at this
      exact this
  · exact Or.inl rfl

theorem handleNotifications_off (x : Ext) (y : Host) (now localIP : Nat) (junk : Nat → Nat)
    (socks : Sockets) (dev : Device) (hu : (tickStart x y now dev).udpConnected = false) :
    handleNotifications x y now localIP junk socks dev = tickStart x y now dev := by
  unfold handleNotifications
  simp only [hu, Bool.not_false, if_true]

theorem sub32_self (a : Nat) : sub32 a a = 0 := by
  unfold sub32
  have : a % 2 ^ 32 < 2 ^ 32 := Nat.mod_lt _ (by norm_num)
  omega

theorem wledNotifier_rate (x : Ext) (now : Nat) (u : Nat → Nat) (s : State)
    (h : sub32 now s.notificationSentTime < 1000) : wledNotifier x now u s = none := by
  unfold wledNotifier
  rw [if_pos h]

theorem wledNotifier_group (x : Ext) (now : Nat) (u : Nat → Nat) (s : State)
    (h : (u 11 < 9 ∧ s.receiveGroups &&& 0x01 = 0)
      ∨ (9 ≤ u 11 ∧ u 11 ≤ 199 ∧ s.receiveGroups &&& u 36 = 0)) :
    wledNotifier x now u s = none := by
  unfold wledNotifier
  by_cases h1 : sub32 now s.notificationSentTime < 1000
  · rw [if_pos h1]
  rw [if_neg h1]
  by_cases h2 : u 1 > 199
  · rw [if_pos h2]
  rw [if_neg h2]
  simp only
  rw [if_pos]
  rcases h with ⟨hv, hg⟩ | ⟨hv, hv', hg⟩
  · rw [if_pos (by simp [hv])]; exact hg
  · rw [if_neg (by simp; omega)]; exact hg

theorem parsePacket_eq_zero (p : Option UdpPacket) (h : parsePacket p = 0) :
    socketData p = [] := by
  cases p with
  | none => rfl
  | some q => exact List.length_eq_zero.mp h

theorem handleDatagram_localIP (x : Ext) (y : Host) (now localIP localIP' : Nat)
    (d : Datagram) (junk : Nat → Nat) (dev : Device)
    (hs : d.isSupp = true ∨ d.data = [])
    (hn : ¬ (udpInOf d.data junk 0 = 255 ∧ udpInOf d.data junk 1 = 1 ∧ d.data.length ≥ 40)) :
    handleDatagram x y now localIP d junk dev = handleDatagram x y now localIP' d junk dev := by
  unfold handleDatagram
  rcases hs with hs | hs
  · have e : (d.isSupp && decide (udpInOf d.data junk 0 = 255)
        && decide (udpInOf d.data junk 1 = 1) && decide (d.data.length ≥ 40)) = false := by
      rw [Bool.eq_false_iff]
      intro h
      simp only [Bool.and_eq_true, decide_eq_true_eq] at h
      exact hn ⟨h.1.1.2, h.1.2, h.2⟩
    rw [hs] at e
    simp only [hs, Bool.not_true, Bool.false_and, Bool.false_eq_true, if_false, e]
  · simp [hs]

/-! ## The lock -/

theorem clear_getElem? (n : Nat) (px : List Nat) (j : Nat) :
    ((List.range n).foldl (fun px i => setPixelColor px i 0 0 0 0) px)[j]? =
      if j < n then (if j < px.length then some 0 else none) else px[j]? := by
  induction n with
  | zero => simp
  | succ n ih =>
    rw [List.range_succ, List.foldl_append]
    simp only [List.foldl_cons, List.foldl_nil]
    generalize hq : (List.range n).foldl (fun px i => setPixelColor px i 0 0 0 0) px = q at ih
    unfold setPixelColor
    have e0 : RGBW32 0 0 0 0 = 0 := rfl
    rw [e0]
    by_cases hj : n = j
    · subst hj
      rw [List.getElem?_set_self', ih]
      simp only [lt_irrefl, if_false, Nat.lt_succ_self, if_true]
      by_cases hl : n < px.length
      · simp [hl, List.getElem?_eq_getElem hl]
      · simp [hl, List.getElem?_eq_none (not_lt.mp hl)]
    · rw [List.getElem?_set_ne hj, ih]
      by_cases h1 : j < n
      · simp [h1, Nat.lt_succ_of_lt h1]
      · have h2 : ¬ j < n + 1 := by omega
        simp [h1, h2]

theorem clear_eq (px : List Nat) :
    (List.range px.length).foldl (fun px i => setPixelColor px i 0 0 0 0) px
      = List.replicate px.length (RGBW32 0 0 0 0) := by
  apply List.ext_getElem?
  intro j
  rw [clear_getElem?]
  have e0 : RGBW32 0 0 0 0 = 0 := rfl
  rw [e0]
  by_cases h : j < px.length
  · simp [h]
  · simp [h, List.getElem?_eq_none (not_lt.mp h)]
    exact not_lt.mp h

theorem realtimeLock_eq (y : Host) (now timeoutMs md : Nat) (dev : Device) :
    ∃ b n, realtimeLock y now timeoutMs md dev =
      { dev with
        pixels :=
          if dev.realtimeMode = 0 ∧ dev.realtimeOverride = 0 then
            (List.range (getLengthTotal dev.pixels)).foldl
              (fun px i => setPixelColor px i 0 0 0 0) dev.pixels
          else dev.pixels
        realtimeTimeout :=
          if timeoutMs % 2 ^ 32 = 255001 ∨ timeoutMs % 2 ^ 32 = 65000 then UINT32_MAX
          else (now % 2 ^ 32 + timeoutMs % 2 ^ 32) % 2 ^ 32
        realtimeMode := md % 256
        brightness := b
        shows := n } := by
  unfold realtimeLock setBrightness stripShow
  simp only [Bool.and_eq_true, Bool.or_eq_true, decide_eq_true_eq]
  split_ifs <;> exact ⟨_, _, rfl⟩

/-! ## Realtime datagrams under an override -/

theorem realtimeLock_override (y : Host) (now timeoutMs md : Nat) (dev : Device)
    (ho : dev.realtimeOverride ≠ 0) :
    (realtimeLock y now timeoutMs md dev).pixels = dev.pixels
    ∧ (realtimeLock y now timeoutMs md dev).tpmPacketCount = dev.tpmPacketCount
    ∧ (realtimeLock y now timeoutMs md dev).realtimeOverride = dev.realtimeOverride := by
  obtain ⟨b, n, h⟩ := realtimeLock_eq y now timeoutMs md dev
  rw [h]
  refine ⟨?_, rfl, rfl⟩
  show (if dev.realtimeMode = 0 ∧ dev.realtimeOverride = 0 then _ else dev.pixels) = dev.pixels
  rw [if_neg (fun hc => ho hc.2)]

theorem handleRawRgb_override (y : Host) (now : Nat) (data : List Nat) (ip : Nat)
    (junk : Nat → Nat) (dev : Device) (ho : dev.realtimeOverride ≠ 0) :
    (handleRawRgb y now data ip junk dev).pixels = dev.pixels
    ∧ (handleRawRgb y now data ip junk dev).tpmPacketCount = dev.tpmPacketCount := by
  have l := realtimeLock_override y now dev.realtimeTimeoutMs REALTIME_MODE_HYPERION
    { dev with realtimeIP := ip } ho
  unfold handleRawRgb
  simp only
  split_ifs with h1 h2 h3
  · exact ⟨rfl, rfl⟩
  · exact ⟨rfl, rfl⟩
  · exact ⟨l.1, l.2.1⟩
  · exact absurd (l.2.2 ▸ h3) (fun e => e ho)

theorem handleTPM2_override (y : Host) (now : Nat) (u : Nat → Nat) (ip : Nat) (dev : Device)
    (ho : dev.realtimeOverride ≠ 0) :
    (handleTPM2 y now u ip dev).pixels = dev.pixels
    ∧ (handleTPM2 y now u ip dev).tpmPacketCount = dev.tpmPacketCount := by
  have l := realtimeLock_override y now dev.realtimeTimeoutMs REALTIME_MODE_TPM2NET
    { dev with realtimeIP := ip } ho
  unfold handleTPM2 sendTPM2Ack
  simp only
  by_cases h1 : u 1 = 0xaa
  · rw [if_pos h1]; exact ⟨rfl, rfl⟩
  rw [if_neg h1]
  by_cases h2 : u 1 ≠ 0xda
  · rw [if_pos h2]; exact ⟨rfl, rfl⟩
  rw [if_neg h2, if_pos (by rw [l.2.2]; exact ho)]
  exact ⟨l.1, l.2.1⟩

theorem handleRealtime_override (y : Host) (now : Nat) (u : Nat → Nat) (n ip : Nat)
    (dev : Device) (ho : dev.realtimeOverride ≠ 0) :
    (handleRealtime y now u n ip dev).pixels = dev.pixels
    ∧ (handleRealtime y now u n ip dev).tpmPacketCount = dev.tpmPacketCount := by
  have l := realtimeLock_override y now (u 1 * 1000 + 1) REALTIME_MODE_UDP
    { dev with realtimeIP := ip } ho
  unfold handleRealtime
  simp only
  by_cases h1 : n < 2
  · rw [if_pos h1]; exact ⟨rfl, rfl⟩
  rw [if_neg h1]
  by_cases h2 : u 1 = 0
  · rw [if_pos h2]; exact ⟨rfl, rfl⟩
  rw [if_neg h2, if_pos (by rw [l.2.2]; exact ho)]
  exact ⟨l.1, l.2.1⟩

theorem handleDatagram_override (x : Ext) (y : Host) (now localIP : Nat) (d : Datagram)
    (junk : Nat → Nat) (dev : Device) (ho : dev.realtimeOverride ≠ 0)
    (h0 : udpInOf d.data junk 0 = 0x9c
      ∨ (1 ≤ udpInOf d.data junk 0 ∧ udpInOf d.data junk 0 ≤ 4)) :
    (handleDatagram x y now localIP d junk dev).pixels = dev.pixels
    ∧ (handleDatagram x y now localIP d junk dev).tpmPacketCount = dev.tpmPacketCount := by
  unfold handleDatagram
  simp only
  by_cases h1 : (!(dev.receiveNotifications || dev.receiveDirect)) = true
  · rw [if_pos h1]; exact ⟨rfl, rfl⟩
  rw [if_neg h1]
  by_cases h2 : (decide (d.data.length = 0) || decide (d.data.length > UDP_IN_MAXSIZE)) = true
  · rw [if_pos h2]; exact ⟨rfl, rfl⟩
  rw [if_neg h2]
  by_cases h3 : (!d.isSupp && decide (d.remoteIP = localIP)) = true
  · rw [if_pos h3]; exact ⟨rfl, rfl⟩
  rw [if_neg h3]
  rw [if_neg (by
    simp only [Bool.and_eq_true, decide_eq_true_eq, not_and]
    intro ⟨⟨_, e⟩, _⟩
    omega)]
  rw [if_neg (by
    simp only [Bool.and_eq_true, decide_eq_true_eq, not_and]
    intro e
    omega)]
  by_cases h5 : (!dev.receiveDirect) = true
  · rw [if_pos h5]; exact ⟨rfl, rfl⟩
  rw [if_neg h5]
  by_cases h6 : udpInOf d.data junk 0 = 0x9c
  · rw [if_pos h6]; exact handleTPM2_override y now _ _ dev ho
  rw [if_neg h6]
  rw [if_pos (by
    simp only [Bool.and_eq_true, decide_eq_true_eq]
    omega)]
  exact handleRealtime_override y now _ _ _ dev ho

theorem handleNotifications_rgb (x : Ext) (y : Host) (now localIP : Nat) (junk : Nat → Nat)
    (socks : Sockets) (dev : Device)
    (hu : (tickStart x y now dev).udpConnected = true)
    (h1 : parsePacket socks.notifierUdp = 0)
    (h2 : dev.udp2Connected = true → parsePacket socks.notifier2Udp = 0)
    (h3 : dev.udpRgbConnected = true) (h4 : parsePacket socks.rgbUdp ≠ 0) :
    handleNotifications x y now localIP junk socks dev =
      handleRawRgb y now (socketData socks.rgbUdp) (socketRemoteIP socks.rgbUdp 0) junk
        { tickStart x y now dev with
          notifierRemoteIP :=
            socketRemoteIP socks.notifierUdp (tickStart x y now dev).notifierRemoteIP } := by
  unfold handleNotifications
  simp only [hu, h1, Bool.not_true, Bool.false_eq_true, if_false]
  rw [if_pos]
  simp only [tickStart_udp2Connected, tickStart_udpRgbConnected, h3, h4, decide_True,
    Bool.true_and, Bool.and_true, Bool.and_eq_true, decide_eq_true_eq, ne_eq,
    not_false_eq_true, and_true]
  by_cases hc : dev.udp2Connected = true
  · simp [hc, h2 hc]
  · simp [hc, h1]

theorem checkExpiry_override_congr (y : Host) (now : Nat) (dev dev' : Device)
    (hm : dev'.realtimeMode = dev.realtimeMode)
    (ht : dev'.realtimeTimeout = dev.realtimeTimeout)
    (ho : dev'.realtimeOverride = dev.realtimeOverride) :
    (checkExpiry y now dev').realtimeOverride = (checkExpiry y now dev).realtimeOverride := by
  by_cases h : dev.realtimeMode ≠ 0 ∧ now % 2 ^ 32 > dev.realtimeTimeout
  · rw [checkExpiry_of_expired y now dev h.1 h.2,
      checkExpiry_of_expired y now dev' (by rw [hm]; exact h.1) (by rw [ht]; exact h.2)]
    show (if dev'.realtimeOverride = _ then _ else _) = (if dev.realtimeOverride = _ then _ else _)
    rw [ho]
  · have h' : dev.realtimeMode = 0 ∨ ¬ now % 2 ^ 32 > dev.realtimeTimeout := by
      by_cases hz : dev.realtimeMode = 0
      · exact Or.inl hz
      · exact Or.inr (fun he => h ⟨hz, he⟩)
    rw [checkExpiry_of_not_expired y now dev h',
      checkExpiry_of_not_expired y now dev' (by rw [hm, ht]; exact h'), ho]

theorem tickStart_realtimeOverride (x : Ext) (y : Host) (now : Nat) (dev : Device) :
    (tickStart x y now dev).realtimeOverride = (checkExpiry y now dev).realtimeOverride := by
  unfold tickStart
  have a := e131Show_realtime now (secondNotification x now dev)
  have b := secondNotification_realtime x now dev
  exact checkExpiry_override_congr y now dev _ (a.1.trans b.1) (a.2.1.trans b.2.1)
    (a.2.2.1.trans b.2.2.1)

/-! ## The indexed realtime formats -/

theorem udpInOf_lt_256 (pkt : List Nat) (junk : Nat → Nat) (i : Nat) :
    udpInOf pkt junk i < 256 := by
  unfold udpInOf
  split_ifs <;> exact Nat.mod_lt _ (by norm_num)

theorem handleRealtime_short (y : Host) (now : Nat) (u : Nat → Nat) (n ip : Nat)
    (dev : Device) (hn : n < 2) :
    handleRealtime y now u n ip dev = { dev with realtimeIP := ip } := by
  unfold handleRealtime
  simp only
  rw [if_pos hn]

theorem handleRealtime_zero (y : Host) (now : Nat) (u : Nat → Nat) (n ip : Nat)
    (dev : Device) (hn : 2 ≤ n) (h1 : u 1 = 0) :
    handleRealtime y now u n ip dev = { dev with realtimeIP := ip, realtimeTimeout := 0 } := by
  unfold handleRealtime
  simp only
  rw [if_neg (by omega), if_pos h1]

theorem handleRealtime_lock (y : Host) (now : Nat) (u : Nat → Nat) (n ip : Nat) (dev : Device)
    (hn : 2 ≤ n) (h1 : u 1 ≠ 0) :
    ∃ p s, handleRealtime y now u n ip dev =
      { realtimeLock y now (u 1 * 1000 + 1) REALTIME_MODE_UDP { dev with realtimeIP := ip } with
        pixels := p, shows := s } := by
  unfold handleRealtime stripShow
  simp only
  rw [if_neg (by omega), if_neg h1]
  split_ifs <;> exact ⟨_, _, rfl⟩

theorem handleRealtime_eq (y : Host) (now : Nat) (u : Nat → Nat) (n ip : Nat) (dev : Device) :
    ∃ t p b m s, handleRealtime y now u n ip dev =
      { dev with realtimeIP := ip, realtimeTimeout := t, pixels := p, brightness := b,
                 realtimeMode := m, shows := s } := by
  by_cases h1 : n < 2
  · rw [handleRealtime_short y now u n ip dev h1]
    exact ⟨dev.realtimeTimeout, dev.pixels, dev.brightness, dev.realtimeMode, dev.shows, rfl⟩
  by_cases h2 : u 1 = 0
  · rw [handleRealtime_zero y now u n ip dev (by omega) h2]
    exact ⟨0, dev.pixels, dev.brightness, dev.realtimeMode, dev.shows, rfl⟩
  obtain ⟨p, s, h⟩ := handleRealtime_lock y now u n ip dev (by omega) h2
  obtain ⟨b, k, h'⟩ := realtimeLock_eq y now (u 1 * 1000 + 1) REALTIME_MODE_UDP
    { dev with realtimeIP := ip }
  rw [h, h']
  exact ⟨_, p, b, _, s, rfl⟩

theorem handleDatagram_indexed (x : Ext) (y : Host) (now localIP : Nat) (d : Datagram)
    (junk : Nat → Nat) (dev : Device)
    (h0 : 1 ≤ udpInOf d.data junk 0 ∧ udpInOf d.data junk 0 ≤ 4) :
    handleDatagram x y now localIP d junk dev = dev
    ∨ handleDatagram x y now localIP d junk dev
        = handleRealtime y now (udpInOf d.data junk) d.data.length d.remoteIP dev := by
  unfold handleDatagram
  simp only
  by_cases h1 : (!(dev.receiveNotifications || dev.receiveDirect)) = true
  · rw [if_pos h1]; exact Or.inl rfl
  rw [if_neg h1]
  by_cases h2 : (decide (d.data.length = 0) || decide (d.data.length > UDP_IN_MAXSIZE)) = true
  · rw [if_pos h2]; exact Or.inl rfl
  rw [if_neg h2]
  by_cases h3 : (!d.isSupp && decide (d.remoteIP = localIP)) = true
  · rw [if_pos h3]; exact Or.inl rfl
  rw [if_neg h3]
  rw [if_neg (by
    simp only [Bool.and_eq_true, decide_eq_true_eq, not_and]
    intro ⟨⟨_, e⟩, _⟩
    omega)]
  rw [if_neg (by
    simp only [Bool.and_eq_true, decide_eq_true_eq, not_and]
    intro e
    omega)]
  by_cases h5 : (!dev.receiveDirect) = true
  · rw [if_pos h5]; exact Or.inl rfl
  rw [if_neg h5, if_neg (by omega)]
  rw [if_pos (by
    simp only [Bool.and_eq_true, decide_eq_true_eq]
    omega)]
  exact Or.inr rfl

theorem handleDatagram_realtime (x : Ext) (y : Host) (now localIP : Nat) (d : Datagram)
    (junk : Nat → Nat) (dev : Device) (hd : dev.receiveDirect = true)
    (hl : 1 ≤ d.data.length ∧ d.data.length ≤ UDP_IN_MAXSIZE)
    (hs : d.isSupp = false → d.remoteIP ≠ localIP)
    (h0 : 1 ≤ udpInOf d.data junk 0 ∧ udpInOf d.data junk 0 ≤ 4) :
    handleDatagram x y now localIP d junk dev
      = handleRealtime y now (udpInOf d.data junk) d.data.length d.remoteIP dev := by
  unfold handleDatagram
  simp only
  rw [if_neg (by simp [hd])]
  rw [if_neg (by
    simp only [Bool.or_eq_true, decide_eq_true_eq, not_or]
    omega)]
  rw [if_neg (by
    simp only [Bool.and_eq_true, Bool.not_eq_true', decide_eq_true_eq, not_and]
    exact hs)]
  rw [if_neg (by
    simp only [Bool.and_eq_true, decide_eq_true_eq, not_and]
    intro ⟨⟨_, e⟩, _⟩
    omega)]
  rw [if_neg (by
    simp only [Bool.and_eq_true, decide_eq_true_eq, not_and]
    intro e
    omega)]
  rw [if_neg (by simp [hd]), if_neg (by omega)]
  rw [if_pos (by
    simp only [Bool.and_eq_true, decide_eq_true_eq]
    omega)]

/-- What a tick that reads a datagram of the indexed formats leaves as it was: the
switches of the receiver. -/
theorem handleNotifications_indexed_frame (x : Ext) (y : Host) (now localIP : Nat)
    (junk : Nat → Nat) (socks : Sockets) (dev : Device) (d : Datagram)
    (hr : Reads socks dev d)
    (h0 : 1 ≤ udpInOf d.data junk 0 ∧ udpInOf d.data junk 0 ≤ 4) :
    (handleNotifications x y now localIP junk socks dev).udpConnected = dev.udpConnected
    ∧ (handleNotifications x y now localIP junk socks dev).receiveDirect = dev.receiveDirect
    ∧ (handleNotifications x y now localIP junk socks dev).udp2Connected
        = dev.udp2Connected := by
  by_cases hu : (tickStart x y now dev).udpConnected = true
  · rw [handleNotifications_reads x y now localIP junk socks dev d hr hu]
    rcases handleDatagram_indexed x y now localIP d junk
      { tickStart x y now dev with
        notifierRemoteIP :=
          socketRemoteIP socks.notifierUdp (tickStart x y now dev).notifierRemoteIP }
      h0 with e | e
    · rw [e]
      exact ⟨tickStart_udpConnected x y now dev, tickStart_receiveDirect x y now dev,
        tickStart_udp2Connected x y now dev⟩
    · rw [e]
      obtain ⟨t, p, b, m, s, h⟩ := handleRealtime_eq y now (udpInOf d.data junk) d.data.length
        d.remoteIP
        { tickStart x y now dev with
          notifierRemoteIP :=
            socketRemoteIP socks.notifierUdp (tickStart x y now dev).notifierRemoteIP }
      rw [h]
      exact ⟨tickStart_udpConnected x y now dev, tickStart_receiveDirect x y now dev,
        tickStart_udp2Connected x y now dev⟩
  · rw [handleNotifications_off x y now localIP junk socks dev (by simpa using hu)]
    exact ⟨tickStart_udpConnected x y now dev, tickStart_receiveDirect x y now dev,
      tickStart_udp2Connected x y now dev⟩

/-! ## The realtime owner after the first steps of a tick -/

theorem checkExpiry_realtime_congr (y : Host) (now : Nat) (dev dev' : Device)
    (hm : dev'.realtimeMode = dev.realtimeMode)
    (ht : dev'.realtimeTimeout = dev.realtimeTimeout)
    (hi : dev'.realtimeIP = dev.realtimeIP) :
    (checkExpiry y now dev').realtimeMode = (checkExpiry y now dev).realtimeMode
    ∧ (checkExpiry y now dev').realtimeIP = (checkExpiry y now dev).realtimeIP
    ∧ (checkExpiry y now dev').realtimeTimeout = (checkExpiry y now dev).realtimeTimeout := by
  by_cases h : dev.realtimeMode ≠ 0 ∧ now % 2 ^ 32 > dev.realtimeTimeout
  · rw [checkExpiry_of_expired y now dev h.1 h.2,
      checkExpiry_of_expired y now dev' (by rw [hm]; exact h.1) (by rw [ht]; exact h.2)]
    refine ⟨rfl, ?_, ht⟩
    show ipSetOctet0 dev'.realtimeIP 0 = ipSetOctet0 dev.realtimeIP 0
    rw [hi]
  · have h' : dev.realtimeMode = 0 ∨ ¬ now % 2 ^ 32 > dev.realtimeTimeout := by
      by_cases hz : dev.realtimeMode = 0
      · exact Or.inl hz
      · exact Or.inr (fun he => h ⟨hz, he⟩)
    rw [checkExpiry_of_not_expired y now dev h',
      checkExpiry_of_not_expired y now dev' (by rw [hm, ht]; exact h')]
    exact ⟨hm, hi, ht⟩

theorem tickStart_realtime (x : Ext) (y : Host) (now : Nat) (dev : Device) :
    (tickStart x y now dev).realtimeMode = (checkExpiry y now dev).realtimeMode
    ∧ (tickStart x y now dev).realtimeIP = (checkExpiry y now dev).realtimeIP := by
  unfold tickStart
  have a := e131Show_realtime now (secondNotification x now dev)
  have b := secondNotification_realtime x now dev
  have c := checkExpiry_realtime_congr y now dev (e131Show now (secondNotification x now dev))
    (a.1.trans b.1) (a.2.1.trans b.2.1) (a.2.2.2.1.trans b.2.2.2.1)
  exact ⟨c.1, c.2.1⟩

theorem handleApi_other (y : Host) (u : Nat → Nat) (n : Nat) (dev : Device) (hn : n ≠ 0)
    (h0 : u 0 < 65 ∨ (90 < u 0 ∧ u 0 ≠ 123)) : handleApi y u n dev = dev := by
  unfold handleApi
  have e : Function.update u n 0 0 = u 0 := Function.update_noteq (Ne.symm hn) _ _
  simp only [e]
  rw [if_neg (by
    simp only [Bool.and_eq_true, decide_eq_true_eq, not_and]
    omega)]
  rw [if_neg (by omega)]

/-! ## The node list -/

theorem lookup_cons_eq (k a : Nat) (v : NodeStruct) (l : List (Nat × NodeStruct))
    (h : k = a) : List.lookup k ((a, v) :: l) = some v := by
  simp [List.lookup, h]

theorem lookup_cons_ne (k a : Nat) (v : NodeStruct) (l : List (Nat × NodeStruct))
    (h : k ≠ a) : List.lookup k ((a, v) :: l) = List.lookup k l := by
  have e : (k == a) = false := by simpa using h
  simp [List.lookup, e]

theorem lookup_none_forall (l : List (Nat × NodeStruct)) (u : Nat) (h : l.lookup u = none) :
    ∀ p ∈ l, p.1 ≠ u := by
  induction l with
  | nil => intro p hp; cases hp
  | cons q l ih =>
    obtain ⟨k, v⟩ := q
    by_cases hk : u = k
    · rw [lookup_cons_eq u k v l hk] at h; cases h
    · rw [lookup_cons_ne u k v l hk] at h
      intro p hp
      rcases List.mem_cons.mp hp with e | e
      · rw [e]
        exact fun e' => hk e'.symm
      · exact ih h p e

theorem lookup_map_update (l : List (Nat × NodeStruct)) (u k : Nat)
    (f : NodeStruct → NodeStruct) :
    (l.map (fun p => if p.1 = u then (p.1, f p.2) else p)).lookup k
      = if k = u then (l.lookup k).map f else l.lookup k := by
  induction l with
  | nil => simp
  | cons q l ih =>
    obtain ⟨a, v⟩ := q
    simp only [List.map_cons]
    by_cases ha : a = u
    · rw [if_pos ha]
      by_cases hk : k = a
      · rw [lookup_cons_eq k a _ _ hk, lookup_cons_eq k a _ _ hk, if_pos (hk.trans ha)]
        rfl
      · rw [lookup_cons_ne k a _ _ hk, lookup_cons_ne k a _ _ hk, ih]
    · rw [if_neg ha]
      by_cases hk : k = a
      · rw [lookup_cons_eq k a _ _ hk, if_neg (by rw [hk]; exact ha),
          lookup_cons_eq k a _ _ hk]
      · rw [lookup_cons_ne k a _ _ hk, lookup_cons_ne k a _ _ hk, ih]

theorem map_update_keys (l : List (Nat × NodeStruct)) (u : Nat) (f : NodeStruct → NodeStruct) :
    (l.map (fun p => if p.1 = u then (p.1, f p.2) else p)).map Prod.fst = l.map Prod.fst := by
  rw [List.map_map]
  apply List.map_congr_left
  intro p _
  simp only [Function.comp]
  split_ifs <;> rfl

theorem map_update_absent (l : List (Nat × NodeStruct)) (u : Nat) (f : NodeStruct → NodeStruct)
    (h : l.lookup u = none) :
    l.map (fun p => if p.1 = u then (p.1, f p.2) else p) = l := by
  have hn := lookup_none_forall l u h
  conv_rhs => rw [← List.map_id l]
  apply List.map_congr_left
  intro p hp
  rw [if_neg (hn p hp)]
  rfl

theorem handleNodeInfo_accepted (y : Host) (localIP : Nat) (u : Nat → Nat) (len ip : Nat)
    (dev : Device) (he : dev.nodeListEnabled = true) (hip : ip ≠ localIP) :
    handleNodeInfo y localIP u len ip dev =
      { dev with
        Nodes :=
          (if dev.Nodes.lookup (u 39) = none ∧ dev.Nodes.length < y.WLED_MAX_NODES then
              dev.Nodes ++ [(u 39, NodeStruct.new)]
            else dev.Nodes).map
            (fun p => if p.1 = u 39 then (p.1, storeNodeInfo y u len p.2) else p) } := by
  unfold handleNodeInfo
  rw [if_neg (by simp [he, hip])]
  simp only [Bool.and_eq_true, decide_eq_true_eq, Option.isNone_iff_eq_none]

theorem handleNodeInfo_dropped (y : Host) (localIP : Nat) (u : Nat → Nat) (len ip : Nat)
    (dev : Device) (h : dev.nodeListEnabled = false ∨ ip = localIP) :
    handleNodeInfo y localIP u len ip dev = dev := by
  unfold handleNodeInfo
  rw [if_pos (by rcases h with h | h <;> simp [h])]

theorem handleNodeInfo_eq (y : Host) (localIP : Nat) (u : Nat → Nat) (len ip : Nat)
    (dev : Device) :
    ∃ l, handleNodeInfo y localIP u len ip dev = { dev with Nodes := l } := by
  by_cases h : dev.nodeListEnabled = true ∧ ip ≠ localIP
  · exact ⟨_, handleNodeInfo_accepted y localIP u len ip dev h.1 h.2⟩
  · refine ⟨dev.Nodes, ?_⟩
    rw [handleNodeInfo_dropped]
    by_cases he : dev.nodeListEnabled = true
    · right
      by_contra hip
      exact h ⟨he, hip⟩
    · left
      simpa using he

theorem handleDatagram_nodeInfo (x : Ext) (y : Host) (now localIP : Nat) (d : Datagram)
    (junk : Nat → Nat) (dev : Device)
    (hrx : (dev.receiveNotifications || dev.receiveDirect) = true)
    (hs : d.isSupp = true)
    (hl : 40 ≤ d.data.length ∧ d.data.length ≤ UDP_IN_MAXSIZE)
    (h0 : udpInOf d.data junk 0 = 255) (h1 : udpInOf d.data junk 1 = 1) :
    handleDatagram x y now localIP d junk dev
      = handleNodeInfo y localIP (udpInOf d.data junk) d.data.length d.remoteIP dev := by
  unfold handleDatagram
  simp only
  rw [if_neg (by simp [hrx])]
  rw [if_neg (by
    simp only [Bool.or_eq_true, decide_eq_true_eq, not_or]
    omega)]
  rw [if_neg (by simp [hs])]
  rw [if_pos (by simp [hs, h0, h1, hl.1])]

theorem handleDatagram_nodeInfo_or (x : Ext) (y : Host) (now localIP : Nat) (d : Datagram)
    (junk : Nat → Nat) (dev : Device) (hs : d.isSupp = true) (hl : 40 ≤ d.data.length)
    (h0 : udpInOf d.data junk 0 = 255) (h1 : udpInOf d.data junk 1 = 1) :
    handleDatagram x y now localIP d junk dev = dev
    ∨ handleDatagram x y now localIP d junk dev
        = handleNodeInfo y localIP (udpInOf d.data junk) d.data.length d.remoteIP dev := by
  unfold handleDatagram
  simp only
  by_cases g1 : (!(dev.receiveNotifications || dev.receiveDirect)) = true
  · rw [if_pos g1]; exact Or.inl rfl
  rw [if_neg g1]
  by_cases g2 : (decide (d.data.length = 0) || decide (d.data.length > UDP_IN_MAXSIZE)) = true
  · rw [if_pos g2]; exact Or.inl rfl
  rw [if_neg g2, if_neg (by simp [hs]), if_pos (by simp [hs, h0, h1, hl])]
  exact Or.inr rfl

/-- The node list after a tick that reads an announcement: that of before the tick, or
that which the node-info branch makes of it. -/
theorem handleNotifications_nodeInfo (x : Ext) (y : Host) (now localIP : Nat)
    (junk : Nat → Nat) (socks : Sockets) (dev : Device) (d : Datagram)
    (hr : Reads socks dev d) (hs : d.isSupp = true) (hl : 40 ≤ d.data.length)
    (h0 : udpInOf d.data junk 0 = 255) (h1 : udpInOf d.data junk 1 = 1) :
    (handleNotifications x y now localIP junk socks dev).Nodes = dev.Nodes
    ∨ (handleNotifications x y now localIP junk socks dev).Nodes
        = (handleNodeInfo y localIP (udpInOf d.data junk) d.data.length d.remoteIP dev).Nodes
    := by
  by_cases hu : (tickStart x y now dev).udpConnected = true
  · rw [handleNotifications_reads x y now localIP junk socks dev d hr hu]
    rcases handleDatagram_nodeInfo_or x y now localIP d junk
      { tickStart x y now dev with
        notifierRemoteIP :=
          socketRemoteIP socks.notifierUdp (tickStart x y now dev).notifierRemoteIP }
      hs hl h0 h1 with e | e
    · rw [e]; exact Or.inl (tickStart_Nodes x y now dev)
    · rw [e]
      by_cases ha : dev.nodeListEnabled = true ∧ d.remoteIP ≠ localIP
      · right
        rw [handleNodeInfo_accepted y localIP _ _ _ _
          (by show (tickStart x y now dev).nodeListEnabled = true
              rw [tickStart_nodeListEnabled]; exact ha.1) ha.2,
          handleNodeInfo_accepted y localIP _ _ _ dev ha.1 ha.2]
        simp only [tickStart_Nodes]
      · left
        rw [handleNodeInfo_dropped]
        · exact tickStart_Nodes x y now dev
        · show (tickStart x y now dev).nodeListEnabled = false ∨ _
          rw [tickStart_nodeListEnabled]
          by_cases he : dev.nodeListEnabled = true
          · right
            by_contra hip
            exact ha ⟨he, hip⟩
          · left
            simpa using he
  · rw [handleNotifications_off x y now localIP junk socks dev (by simpa using hu)]
    exact Or.inl (tickStart_Nodes x y now dev)

/-- The node list after a tick that reads an announcement which the device accepts. -/
theorem handleNotifications_announce (x : Ext) (y : Host) (now localIP : Nat)
    (junk : Nat → Nat) (socks : Sockets) (dev : Device) (d : Datagram)
    (hu : dev.udpConnected = true)
    (hrx : (dev.receiveNotifications || dev.receiveDirect) = true)
    (hr : Reads socks dev d) (hs : d.isSupp = true)
    (hl : 40 ≤ d.data.length ∧ d.data.length ≤ UDP_IN_MAXSIZE)
    (h0 : udpInOf d.data junk 0 = 255) (h1 : udpInOf d.data junk 1 = 1)
    (he : dev.nodeListEnabled = true) (hip : d.remoteIP ≠ localIP) :
    (handleNotifications x y now localIP junk socks dev).Nodes =
      (if dev.Nodes.lookup (udpInOf d.data junk 39) = none
          ∧ dev.Nodes.length < y.WLED_MAX_NODES then
          dev.Nodes ++ [(udpInOf d.data junk 39, NodeStruct.new)]
        else dev.Nodes).map
        (fun p => if p.1 = udpInOf d.data junk 39 then
          (p.1, storeNodeInfo y (udpInOf d.data junk) d.data.length p.2) else p) := by
  have hu1 : (tickStart x y now dev).udpConnected = true := by
    rw [tickStart_udpConnected]; exact hu
  rw [handleNotifications_reads x y now localIP junk socks dev d hr hu1]
  rw [handleDatagram_nodeInfo x y now localIP d junk _
    (by show ((tickStart x y now dev).receiveNotifications
          || (tickStart x y now dev).receiveDirect) = true
        rw [tickStart_receiveNotifications, tickStart_receiveDirect]; exact hrx)
    hs hl h0 h1]
  rw [handleNodeInfo_accepted y localIP _ _ _ _
    (by show (tickStart x y now dev).nodeListEnabled = true
        rw [tickStart_nodeListEnabled]; exact he) hip]
  simp only [tickStart_Nodes]

/-! ## The aging of the node list -/

theorem refreshNodeList_cons (k : Nat) (v : NodeStruct) (l : List (Nat × NodeStruct)) :
    refreshNodeList ((k, v) :: l) =
      if v.ip.getD 0 0 ≠ 0 ∧ v.age < 10 then
        (k, { v with age := (v.age + 1) % 256 }) :: refreshNodeList l
      else refreshNodeList l := by
  unfold refreshNodeList
  rw [List.filterMap_cons]
  split_ifs <;> rfl

theorem refreshNodeList_length (l : List (Nat × NodeStruct)) :
    (refreshNodeList l).length ≤ l.length := by
  unfold refreshNodeList
  exact List.length_filterMap_le _ _

theorem refreshNodeList_lookup (u a : Nat) (l : List (Nat × NodeStruct))
    (h : ∀ p ∈ l, p.1 = u → p.2.age = a ∧ p.2.ip.getD 0 0 ≠ 0) :
    (a < 10 →
      (refreshNodeList l).lookup u = (l.lookup u).map (fun nd => { nd with age := a + 1 }))
    ∧ (10 ≤ a → (refreshNodeList l).lookup u = none)
    ∧ (∀ p ∈ refreshNodeList l, p.1 = u → p.2.age = a + 1 ∧ p.2.ip.getD 0 0 ≠ 0) := by
  induction l with
  | nil =>
    refine ⟨fun _ => rfl, fun _ => rfl, ?_⟩
    intro p hp
    cases hp
  | cons q l ih =>
    obtain ⟨k, v⟩ := q
    have ih' := ih (fun p hp => h p (List.mem_cons_of_mem _ hp))
    rw [refreshNodeList_cons]
    by_cases hk : k = u
    · have hv := h (k, v) (List.mem_cons_self _ _) hk
      refine ⟨?_, ?_, ?_⟩
      · intro ha
        rw [if_pos ⟨hv.2, by rw [hv.1]; exact ha⟩, lookup_cons_eq u k _ _ hk.symm,
          lookup_cons_eq u k _ _ hk.symm]
        have e : (v.age + 1) % 256 = a + 1 := by rw [hv.1]; exact Nat.mod_eq_of_lt (by omega)
        rw [e]
        rfl
      · intro ha
        rw [if_neg (by rw [hv.1]; omega)]
        exact ih'.2.1 ha
      · intro p hp hpu
        by_cases hc : v.ip.getD 0 0 ≠ 0 ∧ v.age < 10
        · rw [if_pos hc] at hp
          rcases List.mem_cons.mp hp with e | e
          · rw [e]
            refine ⟨?_, hv.2⟩
            show (v.age + 1) % 256 = a + 1
            rw [hv.1]
            exact Nat.mod_eq_of_lt (by have := hc.2; rw [hv.1] at this; omega)
          · exact ih'.2.2 p e hpu
        · rw [if_neg hc] at hp
          exact ih'.2.2 p hp hpu
    · have hk' : u ≠ k := fun e => hk e.symm
      refine ⟨?_, ?_, ?_⟩
      · intro ha
        rw [lookup_cons_ne u k _ _ hk']
        split_ifs
        · rw [lookup_cons_ne u k _ _ hk']; exact ih'.1 ha
        · exact ih'.1 ha
      · intro ha
        split_ifs
        · rw [lookup_cons_ne u k _ _ hk']; exact ih'.2.1 ha
        · exact ih'.2.1 ha
      · intro p hp hpu
        by_cases hc : v.ip.getD 0 0 ≠ 0 ∧ v.age < 10
        · rw [if_pos hc] at hp
          rcases List.mem_cons.mp hp with e | e
          · rw [e] at hpu
            exact absurd hpu hk
          · exact ih'.2.2 p e hpu
        · rw [if_neg hc] at hp
          exact ih'.2.2 p hp hpu

theorem lookup_some_mem (l : List (Nat × NodeStruct)) (u : Nat) (nd : NodeStruct)
    (h : l.lookup u = some nd) : (u, nd) ∈ l := by
  induction l with
  | nil => cases h
  | cons q l ih =>
    obtain ⟨k, v⟩ := q
    by_cases hk : u = k
    · rw [lookup_cons_eq u k v l hk] at h
      cases h
      rw [hk]
      exact List.mem_cons_self _ _
    · rw [lookup_cons_ne u k v l hk] at h
      exact List.mem_cons_of_mem _ (ih h)

theorem refreshNodeList_iterate (u : Nat) (l : List (Nat × NodeStruct))
    (h : ∀ p ∈ l, p.1 = u → p.2.age = 0 ∧ p.2.ip.getD 0 0 ≠ 0) (m : Nat) (hm : m ≤ 10) :
    (refreshNodeList^[m] l).lookup u = (l.lookup u).map (fun nd => { nd with age := m })
    ∧ (∀ p ∈ refreshNodeList^[m] l, p.1 = u → p.2.age = m ∧ p.2.ip.getD 0 0 ≠ 0) := by
  induction m with
  | zero =>
    refine ⟨?_, h⟩
    simp only [Function.iterate_zero, id_eq]
    cases hl : l.lookup u with
    | none => rfl
    | some nd =>
      have := (h _ (lookup_some_mem l u nd hl) rfl).1
      simp only [Option.map_some']
      congr 1
      cases nd
      simp only at this
      subst this
      rfl
  | succ m ih =>
    have ih' := ih (by omega)
    rw [Function.iterate_succ_apply']
    have r := refreshNodeList_lookup u m (refreshNodeList^[m] l) ih'.2
    refine ⟨?_, r.2.2⟩
    rw [r.1 (by omega), ih'.1]
    cases l.lookup u <;> rfl

theorem refreshNodeList_eleven (u : Nat) (l : List (Nat × NodeStruct))
    (h : ∀ p ∈ l, p.1 = u → p.2.age = 0 ∧ p.2.ip.getD 0 0 ≠ 0) :
    (refreshNodeList^[11] l).lookup u = none := by
  rw [Function.iterate_succ_apply']
  exact (refreshNodeList_lookup u 10 _ (refreshNodeList_iterate u l h 10 (le_refl _)).2).2.1
    (le_refl _)

theorem lookup_append_new (l : List (Nat × NodeStruct)) (u : Nat) (nd : NodeStruct)
    (h : l.lookup u = none) : (l ++ [(u, nd)]).lookup u = some nd := by
  induction l with
  | nil => exact lookup_cons_eq u u nd [] rfl
  | cons q l ih =>
    obtain ⟨k, v⟩ := q
    by_cases hk : u = k
    · rw [lookup_cons_eq u k v l hk] at h; cases h
    · rw [lookup_cons_ne u k v l hk] at h
      rw [List.cons_append, lookup_cons_ne u k v _ hk]
      exact ih h

theorem lookup_append_old (l : List (Nat × NodeStruct)) (u k : Nat) (nd : NodeStruct)
    (h : k ≠ u) : (l ++ [(u, nd)]).lookup k = l.lookup k := by
  induction l with
  | nil => exact lookup_cons_ne k u nd [] h
  | cons q l ih =>
    obtain ⟨a, v⟩ := q
    by_cases hk : k = a
    · rw [List.cons_append, lookup_cons_eq k a v _ hk, lookup_cons_eq k a v _ hk]
    · rw [List.cons_append, lookup_cons_ne k a v _ hk, lookup_cons_ne k a v _ hk]
      exact ih

theorem storeNodeInfo_fields (y : Host) (u : Nat → Nat) (len : Nat) (nd : NodeStruct) :
    (storeNodeInfo y u len nd).age = 0
    ∧ (storeNodeInfo y u len nd).ip = [u 2, u 3, u 4, u 5]
    ∧ (storeNodeInfo y u len nd).nodeType = u 38
    ∧ (storeNodeInfo y u len nd).nodeName
        = y.trim (((List.range 32).map (fun k => u (6 + k))).takeWhile (fun c => c != 0))
    ∧ (len < 44 → (storeNodeInfo y u len nd).build = 0) := by
  refine ⟨rfl, rfl, rfl, rfl, ?_⟩
  intro h
  show (if len ≥ 44 then _ else 0) = 0
  rw [if_neg (by omega)]

theorem updated_entries (y : Host) (u : Nat → Nat) (len : Nat) (l : List (Nat × NodeStruct))
    (h2 : u 2 ≠ 0) :
    ∀ p ∈ l.map (fun p => if p.1 = u 39 then (p.1, storeNodeInfo y u len p.2) else p),
      p.1 = u 39 → p.2.age = 0 ∧ p.2.ip.getD 0 0 ≠ 0 := by
  intro p hp hpu
  obtain ⟨q, _, hq⟩ := List.mem_map.mp hp
  by_cases hk : q.1 = u 39
  · rw [if_pos hk] at hq
    rw [← hq]
    exact ⟨rfl, h2⟩
  · rw [if_neg hk] at hq
    rw [hq] at hk
    exact absurd hpu hk

/-! ## The build number of an announcement -/

theorem or_shl (x b k : Nat) (hx : x < 2 ^ k) : x ||| b <<< k = x + b * 2 ^ k := by
  rw [Nat.shiftLeft_eq, Nat.lor_comm, Nat.mul_comm b, ← Nat.mul_add_lt_is_or hx]
  omega

theorem le32_fold (u : Nat → Nat) (h : ∀ i, u i < 256) :
    (List.range 4).foldl (fun b i => (b ||| (u (40 + i) <<< (8 * i))) % 2 ^ 32) 0
      = u 40 + u 41 * 2 ^ 8 + u 42 * 2 ^ 16 + u 43 * 2 ^ 24 := by
  have h0 := h 40
  have h1 := h 41
  have h2 := h 42
  have h3 := h 43
  have e : (List.range 4).foldl (fun b i => (b ||| (u (40 + i) <<< (8 * i))) % 2 ^ 32) 0
      = ((((0 ||| u 40 <<< 0) % 2 ^ 32 ||| u 41 <<< 8) % 2 ^ 32 ||| u 42 <<< 16) % 2 ^ 32
          ||| u 43 <<< 24) % 2 ^ 32 := rfl
  rw [e, or_shl 0 (u 40) 0 (by norm_num)]
  have e0 : (0 + u 40 * 2 ^ 0) % 2 ^ 32 = u 40 := by omega
  rw [e0, or_shl (u 40) (u 41) 8 (by omega)]
  have e1 : (u 40 + u 41 * 2 ^ 8) % 2 ^ 32 = u 40 + u 41 * 2 ^ 8 := by omega
  rw [e1, or_shl _ (u 42) 16 (by omega)]
  have e2 : (u 40 + u 41 * 2 ^ 8 + u 42 * 2 ^ 16) % 2 ^ 32
      = u 40 + u 41 * 2 ^ 8 + u 42 * 2 ^ 16 := by omega
  rw [e2, or_shl _ (u 43) 24 (by omega)]
  omega

theorem storeNodeInfo_build (y : Host) (u : Nat → Nat) (len : Nat) (nd : NodeStruct)
    (h : ∀ i, u i < 256) :
    (storeNodeInfo y u len nd).build
      = if len ≥ 44 then u 40 + u 41 * 2 ^ 8 + u 42 * 2 ^ 16 + u 43 * 2 ^ 24 else 0 := by
  show (if len ≥ 44 then
      (List.range 4).foldl (fun b i => (b ||| (u (40 + i) <<< (8 * i))) % 2 ^ 32) 0
    else 0) = _
  rw [le32_fold u h]

/-! ## The announcement of `sendSysInfoUDP` -/

theorem sysInfoData_length (i : SysInfo) : (sysInfoData i).length = 44 := rfl

theorem sysInfoData_head (i : SysInfo) (junk : Nat → Nat) :
    udpInOf (sysInfoData i) junk 0 = 255 ∧ udpInOf (sysInfoData i) junk 1 = 1 :=
  ⟨rfl, rfl⟩

theorem sysInfoData_ip (i : SysInfo) (junk : Nat → Nat) :
    [udpInOf (sysInfoData i) junk 2, udpInOf (sysInfoData i) junk 3,
      udpInOf (sysInfoData i) junk 4, udpInOf (sysInfoData i) junk 5]
      = (List.range 4).map (fun k => (sysInfoIP i).getD k 0 % 256 % 256) := rfl

theorem sysInfoData_name (i : SysInfo) (junk : Nat → Nat) :
    (List.range 32).map (fun k => udpInOf (sysInfoData i) junk (6 + k))
      = (List.range 32).map (fun k => i.serverDescription.getD k 0 % 256 % 256) := rfl

theorem sysInfoData_type (i : SysInfo) (junk : Nat → Nat) :
    udpInOf (sysInfoData i) junk 38 = i.NODE_TYPE_ID % 256 % 256
    ∧ udpInOf (sysInfoData i) junk 39 = (sysInfoIP i).getD 3 0 % 256 % 256 :=
  ⟨rfl, rfl⟩

theorem sysInfoData_build (i : SysInfo) (junk : Nat → Nat) (hv : i.VERSION < 2 ^ 32) :
    udpInOf (sysInfoData i) junk 40 + udpInOf (sysInfoData i) junk 41 * 2 ^ 8
      + udpInOf (sysInfoData i) junk 42 * 2 ^ 16 + udpInOf (sysInfoData i) junk 43 * 2 ^ 24
      = i.VERSION := by
  have e0 : udpInOf (sysInfoData i) junk 40
      = ((i.VERSION % 2 ^ 32) >>> (8 * 0) &&& 0xFF) % 256 := rfl
  have e1 : udpInOf (sysInfoData i) junk 41
      = ((i.VERSION % 2 ^ 32) >>> (8 * 1) &&& 0xFF) % 256 := rfl
  have e2 : udpInOf (sysInfoData i) junk 42
      = ((i.VERSION % 2 ^ 32) >>> (8 * 2) &&& 0xFF) % 256 := rfl
  have e3 : udpInOf (sysInfoData i) junk 43
      = ((i.VERSION % 2 ^ 32) >>> (8 * 3) &&& 0xFF) % 256 := rfl
  rw [e0, e1, e2, e3]
  simp only [and_0xFF, Nat.shiftRight_eq_div_pow, Nat.mod_eq_of_lt hv]
  omega

theorem octets_eq (ip : List Nat) (hl : ip.length = 4) (ho : ∀ o ∈ ip, o < 256) :
    (List.range 4).map (fun k => ip.getD k 0 % 256 % 256) = ip := by
  match ip, hl with
  | [a, b, c, e], _ =>
    have ha := ho a (by simp)
    have hb := ho b (by simp)
    have hc := ho c (by simp)
    have he := ho e (by simp)
    show [a % 256 % 256, b % 256 % 256, c % 256 % 256, e % 256 % 256] = [a, b, c, e]
    rw [Nat.mod_mod, Nat.mod_mod, Nat.mod_mod, Nat.mod_mod, Nat.mod_eq_of_lt ha,
      Nat.mod_eq_of_lt hb, Nat.mod_eq_of_lt hc, Nat.mod_eq_of_lt he]

theorem sysInfoIP_wf (i : SysInfo) (hl : i.localIP.length = 4)
    (ho : ∀ o ∈ i.localIP, o < 256) :
    (sysInfoIP i).length = 4 ∧ ∀ o ∈ sysInfoIP i, o < 256 := by
  unfold sysInfoIP
  split_ifs
  · refine ⟨rfl, ?_⟩
    intro o h
    simp only [List.mem_cons, List.mem_singleton, List.not_mem_nil, or_false] at h
    omega
  · exact ⟨hl, ho⟩

theorem chars_eq (sd : List Nat) (h : ∀ c ∈ sd, c < 256) :
    (List.range 32).map (fun k => sd.getD k 0 % 256 % 256)
      = (List.range 32).map (fun k => sd.getD k 0) := by
  apply List.map_congr_left
  intro k _
  rw [Nat.mod_mod]
  apply Nat.mod_eq_of_lt
  by_cases hk : k < sd.length
  · rw [List.getD_eq_getElem _ _ hk]
    exact h _ (List.getElem_mem _)
  · rw [List.getD_eq_default _ _ (not_lt.mp hk)]
    norm_num

/-! ## The packets of the DDP output -/

theorem ddpLoop_count (n : Net) (client : Nat) (buffer : Nat → Nat) (bri : Nat)
    (isRGBW : Bool) (channelCount packetCount : Nat)
    (hb : ∀ k, n.beginPacket k = true) (he : ∀ k, n.endPacket k = true)
    (hp : packetCount < 2 ^ 16) :
    ∀ (fuel currentPacket channel bufferOffset sequenceNumber : Nat) (sent : List Sent),
      currentPacket ≤ packetCount → packetCount - currentPacket < fuel →
      (ddpLoop n client buffer bri isRGBW channelCount packetCount fuel currentPacket channel
          bufferOffset sequenceNumber sent).sent.length
        = sent.length + (packetCount - currentPacket)
      ∧ (ddpLoop n client buffer bri isRGBW channelCount packetCount fuel currentPacket channel
          bufferOffset sequenceNumber sent).result = 0 := by
  intro fuel
  induction fuel with
  | zero => intro c ch off sq sent _ h; omega
  | succ fuel ih =>
    intro c ch off sq sent hc hf
    unfold ddpLoop
    by_cases hlt : c < packetCount
    · rw [if_pos hlt]
      simp only [hb, he, Bool.not_true, Bool.false_eq_true, if_false]
      have hm : (c + 1) % 2 ^ 16 = c + 1 := Nat.mod_eq_of_lt (by omega)
      rw [hm]
      have r := fun ch off sq s =>
        ih (c + 1) ch off sq s (by omega : c + 1 ≤ packetCount) (by omega)
      constructor
      · rw [(r _ _ _ _).1, List.length_append, List.length_singleton]
        omega
      · exact (r _ _ _ _).2
    · rw [if_neg hlt]
      refine ⟨?_, rfl⟩
      show sent.length = _
      omega

theorem realtimeBroadcast_count (n : Net) (client length : Nat) (buffer : Nat → Nat)
    (bri : Nat) (isRGBW : Bool) (sequenceNumber : Nat) (hi : n.interfacesInited = true)
    (hb : ∀ k, n.beginPacket k = true) (he : ∀ k, n.endPacket k = true) :
    (realtimeBroadcast n 0 client length buffer bri isRGBW sequenceNumber).sent.length
      = ((length % 2 ^ 16 * 3) % 2 ^ 16 + 1439) / 1440
    ∧ (realtimeBroadcast n 0 client length buffer bri isRGBW sequenceNumber).result = 0 := by
  unfold realtimeBroadcast
  simp only [hi, Bool.not_true, Bool.false_eq_true, if_false, Nat.zero_mod, if_true]
  have hcc : (length % 2 ^ 16 * 3) % 2 ^ 16 < 2 ^ 16 := Nat.mod_lt _ (by norm_num)
  generalize (length % 2 ^ 16 * 3) % 2 ^ 16 = cc at hcc
  have hpc : (if cc % DDP_CHANNELS_PER_PACKET ≠ 0 then cc / DDP_CHANNELS_PER_PACKET + 1
      else cc / DDP_CHANNELS_PER_PACKET) = (cc + 1439) / 1440 := by
    unfold DDP_CHANNELS_PER_PACKET
    split_ifs <;> omega
  rw [hpc]
  have r := ddpLoop_count n client buffer bri isRGBW cc ((cc + 1439) / 1440) hb he (by omega)
    ((cc + 1439) / 1440 + 1) 0 0 0 sequenceNumber [] (Nat.zero_le _) (by omega)
  refine ⟨?_, r.2⟩
  rw [r.1]
  simp

/-! ## The pixel loop of TPM2.NET -/

theorem setRealtimePixel_cfg (y : Host) (cfg cfg' : Device) (px : List Nat) (i r g b w : Nat)
    (h1 : cfg'.arlsOffset = cfg.arlsOffset)
    (h2 : cfg'.arlsDisableGammaCorrection = cfg.arlsDisableGammaCorrection)
    (h3 : cfg'.gammaCorrectCol = cfg.gammaCorrectCol) :
    setRealtimePixel y cfg' px i r g b w = setRealtimePixel y cfg px i r g b w := by
  unfold setRealtimePixel
  rw [h1, h2, h3]

theorem tpm2Loop_cfg (y : Host) (cfg cfg' : Device) (u : Nat → Nat) (S T : Nat)
    (h1 : cfg'.arlsOffset = cfg.arlsOffset)
    (h2 : cfg'.arlsDisableGammaCorrection = cfg.arlsDisableGammaCorrection)
    (h3 : cfg'.gammaCorrectCol = cfg.gammaCorrectCol) :
    ∀ (fuel i id : Nat) (px : List Nat),
      tpm2Loop y cfg' u S T fuel i id px = tpm2Loop y cfg u S T fuel i id px := by
  intro fuel
  induction fuel with
  | zero => intro i id px; rfl
  | succ fuel ih =>
    intro i id px
    unfold tpm2Loop
    simp only [setRealtimePixel_cfg y cfg cfg' _ _ _ _ _ _ h1 h2 h3, ih]

/-- The store of `setRealtimePixel` at an index inside the buffer, without offset. -/
theorem setRealtimePixel_zero (y : Host) (cfg : Device) (px : List Nat) (i r g b w : Nat)
    (h0 : cfg.arlsOffset = 0) (hl : px.length < 2 ^ 16) (hi : i < px.length) :
    setRealtimePixel y cfg px i r g b w = px.set i (realtimeColor y cfg r g b w) := by
  unfold setRealtimePixel realtimeColor setPixelColor getLengthTotal
  have e : (((i : Int) + cfg.arlsOffset) % 2 ^ 16).toNat = i := by
    rw [h0, add_zero]
    have : ((i : Int) % 2 ^ 16) = ((i % 2 ^ 16 : Nat) : Int) := by norm_cast
    rw [this, Int.toNat_ofNat, Nat.mod_eq_of_lt (by omega)]
  simp only [e, Nat.mod_eq_of_lt hl, hi, if_true]
  split_ifs <;> rfl

theorem range_succ_foldl {α : Type} (f : α → Nat → α) (a : α) (r : Nat) :
    (List.range (r + 1)).foldl f a = (List.range r).foldl (fun x j => f x (j + 1)) (f a 0) := by
  rw [List.range_succ_eq_map, List.foldl_cons, List.foldl_map]

/-- Without wrap-around of the 16-bit counters, the loop of TPM2.NET from the round `a`
on is the fold of `setRealtimePixel` over the `r` rounds that remain. -/
theorem tpm2Loop_from (y : Host) (cfg : Device) (u : Nat → Nat) (S T id0 m : Nat)
    (hS : 3 * (S / 3) + 6 < 2 ^ 16) (hT : T < 2 ^ 16) (hid : id0 + m ≤ T)
    (hm : m ≤ S / 3) (hstop : m = S / 3 ∨ id0 + m = T) :
    ∀ (r a fuel : Nat) (px : List Nat), a + r = m → r < fuel →
      tpm2Loop y cfg u S T fuel (6 + 3 * a) (id0 + a) px
        = (List.range r).foldl (fun px j =>
            setRealtimePixel y cfg px (id0 + (a + j)) (u (6 + 3 * (a + j)))
              (u (6 + 3 * (a + j) + 1)) (u (6 + 3 * (a + j) + 2)) 0) px := by
  intro r
  induction r with
  | zero =>
    intro a fuel px ha hf
    obtain ⟨fuel, rfl⟩ : ∃ f, fuel = f + 1 := ⟨fuel - 1, by omega⟩
    unfold tpm2Loop
    simp only [List.range_zero, List.foldl_nil]
    rcases hstop with h | h
    · rw [if_neg (by omega)]
    · by_cases hc : 6 + 3 * a < S + 4
      · rw [if_pos hc, if_neg (by omega)]
      · rw [if_neg hc]
  | succ r ih =>
    intro a fuel px ha hf
    obtain ⟨fuel, rfl⟩ : ∃ f, fuel = f + 1 := ⟨fuel - 1, by omega⟩
    unfold tpm2Loop
    rw [if_pos (by omega), if_pos (by omega)]
    simp only
    have e1 : (6 + 3 * a + 3) % 2 ^ 16 = 6 + 3 * (a + 1) := by
      rw [Nat.mod_eq_of_lt (by omega)]; ring
    have e2 : (id0 + a + 1) % 2 ^ 16 = id0 + (a + 1) := by
      rw [Nat.mod_eq_of_lt (by omega)]; ring
    rw [e1, e2, ih (a + 1) fuel _ (by omega) (by omega), range_succ_foldl]
    simp only [Nat.add_zero]
    congr 1
    funext px j
    have e3 : a + 1 + j = a + (j + 1) := by ring
    rw [e3]

theorem tpm2Loop_fold (y : Host) (cfg : Device) (u : Nat → Nat) (S T id0 fuel : Nat)
    (px : List Nat) (hS : 3 * (S / 3) + 6 < 2 ^ 16) (hT : T < 2 ^ 16) (hid : id0 ≤ T)
    (hf : min (S / 3) (T - id0) < fuel) :
    tpm2Loop y cfg u S T fuel 6 id0 px
      = (List.range (min (S / 3) (T - id0))).foldl (fun px j =>
          setRealtimePixel y cfg px (id0 + j) (u (6 + 3 * j)) (u (6 + 3 * j + 1))
            (u (6 + 3 * j + 2)) 0) px := by
  have h := tpm2Loop_from y cfg u S T id0 (min (S / 3) (T - id0)) hS hT (by omega) (by omega)
    (by omega) (min (S / 3) (T - id0)) 0 fuel px (by omega) hf
  simp only [Nat.mul_zero, Nat.add_zero, Nat.zero_add] at h
  exact h

/-- The buffer after `m` consecutive stores of `setRealtimePixel` from index `id0` on,
without offset and inside the buffer. -/
theorem stores_getElem? (y : Host) (cfg : Device) (c : Nat → Nat × Nat × Nat) (id0 : Nat)
    (h0 : cfg.arlsOffset = 0) :
    ∀ (m : Nat) (px : List Nat), px.length < 2 ^ 16 → id0 + m ≤ px.length →
      ((List.range m).foldl (fun px j =>
          setRealtimePixel y cfg px (id0 + j) (c j).1 (c j).2.1 (c j).2.2 0) px).length
        = px.length
      ∧ ∀ i, ((List.range m).foldl (fun px j =>
          setRealtimePixel y cfg px (id0 + j) (c j).1 (c j).2.1 (c j).2.2 0) px)[i]?
        = if id0 ≤ i ∧ i < id0 + m then
            some (realtimeColor y cfg (c (i - id0)).1 (c (i - id0)).2.1 (c (i - id0)).2.2 0)
          else px[i]? := by
  intro m
  induction m with
  | zero =>
    intro px _ _
    refine ⟨rfl, fun i => ?_⟩
    rw [if_neg (by omega)]
    rfl
  | succ m ih =>
    intro px hl hid
    rw [List.range_succ, List.foldl_append]
    simp only [List.foldl_cons, List.foldl_nil]
    obtain ⟨hlen, hget⟩ := ih px hl (by omega)
    generalize (List.range m).foldl (fun px j =>
      setRealtimePixel y cfg px (id0 + j) (c j).1 (c j).2.1 (c j).2.2 0) px = q at hlen hget
    rw [setRealtimePixel_zero y cfg q _ _ _ _ _ h0 (by rw [hlen]; exact hl)
      (by rw [hlen]; omega)]
    refine ⟨by rw [List.length_set, hlen], fun i => ?_⟩
    by_cases hi : id0 + m = i
    · subst hi
      rw [List.getElem?_set_self (by rw [hlen]; omega), if_pos (by omega)]
      have e : id0 + m - id0 = m := by omega
      rw [e]
    · rw [List.getElem?_set_ne hi, hget]
      by_cases h1 : id0 ≤ i ∧ i < id0 + m
      · rw [if_pos h1, if_pos (by omega)]
      · rw [if_neg h1, if_neg (by omega)]

theorem handleTPM2_data (y : Host) (now : Nat) (u : Nat → Nat) (ip : Nat) (dev : Device)
    (h1 : u 1 = 0xda) (ho : dev.realtimeOverride = 0) :
    handleTPM2 y now u ip dev =
      (let L := realtimeLock y now dev.realtimeTimeoutMs REALTIME_MODE_TPM2NET
        { dev with realtimeIP := ip }
       let c := (dev.tpmPacketCount + 1) % 256
       let S := if c = 1 then ((u 2 <<< 8) + u 3) % 2 ^ 16 else dev.tpmPayloadFrameSize
       let id := (((S / 3 : Nat) : Int) * ((u 4 : Int) - 1) % 2 ^ 16).toNat
       let T := getLengthTotal L.pixels
       let px := tpm2Loop y dev u S T (T + 1) 6 id L.pixels
       if c = u 5 then
         { L with tpmPacketCount := 0, tpmPayloadFrameSize := S, pixels := px,
                  shows := L.shows + 1 }
       else { L with tpmPacketCount := c, tpmPayloadFrameSize := S, pixels := px }) := by
  obtain ⟨b, n, hL⟩ := realtimeLock_eq y now dev.realtimeTimeoutMs REALTIME_MODE_TPM2NET
    { dev with realtimeIP := ip }
  unfold handleTPM2 stripShow
  simp only
  rw [if_neg (by rw [h1]; decide), if_neg (by rw [h1]; decide)]
  generalize realtimeLock y now dev.realtimeTimeoutMs REALTIME_MODE_TPM2NET
    { dev with realtimeIP := ip } = L at hL
  have hov : L.realtimeOverride = 0 := by rw [hL]; exact ho
  have hcnt : L.tpmPacketCount = dev.tpmPacketCount := by rw [hL]
  have hfs : L.tpmPayloadFrameSize = dev.tpmPayloadFrameSize := by rw [hL]
  have hof : L.arlsOffset = dev.arlsOffset := by rw [hL]
  have hg1 : L.arlsDisableGammaCorrection = dev.arlsDisableGammaCorrection := by rw [hL]
  have hg2 : L.gammaCorrectCol = dev.gammaCorrectCol := by rw [hL]
  clear hL
  rw [if_neg (by rw [hov]; decide)]
  rw [hcnt]
  by_cases hc : (dev.tpmPacketCount + 1) % 256 = 1
  · simp only [hc, if_true]
    rw [tpm2Loop_cfg y dev]
    · exact hof
    · exact hg1
    · exact hg2
  · simp only [hc, if_false]
    rw [hfs, tpm2Loop_cfg y dev]
    · exact hof
    · exact hg1
    · exact hg2

theorem realtimeLock_tpm2 (y : Host) (now timeoutMs : Nat) (dev : Device) :
    (realtimeLock y now timeoutMs REALTIME_MODE_TPM2NET dev).shows = dev.shows
    ∧ (realtimeLock y now timeoutMs REALTIME_MODE_TPM2NET dev).realtimeMode ≠ 0
    ∧ (realtimeLock y now timeoutMs REALTIME_MODE_TPM2NET dev).realtimeOverride
        = dev.realtimeOverride
    ∧ (realtimeLock y now timeoutMs REALTIME_MODE_TPM2NET dev).arlsOffset = dev.arlsOffset
    ∧ (realtimeLock y now timeoutMs REALTIME_MODE_TPM2NET dev).arlsDisableGammaCorrection
        = dev.arlsDisableGammaCorrection
    ∧ (realtimeLock y now timeoutMs REALTIME_MODE_TPM2NET dev).gammaCorrectCol
        = dev.gammaCorrectCol
    ∧ (realtimeLock y now timeoutMs REALTIME_MODE_TPM2NET dev).pixels.length
        = dev.pixels.length
    ∧ (dev.realtimeMode ≠ 0 →
        (realtimeLock y now timeoutMs REALTIME_MODE_TPM2NET dev).pixels = dev.pixels) := by
  have hs : (realtimeLock y now timeoutMs REALTIME_MODE_TPM2NET dev).shows = dev.shows := by
    unfold realtimeLock setBrightness stripShow
    simp only
    rw [if_neg (by decide)]
    split_ifs <;> rfl
  obtain ⟨b, n, h⟩ := realtimeLock_eq y now timeoutMs REALTIME_MODE_TPM2NET dev
  refine ⟨hs, ?_, ?_, ?_, ?_, ?_, ?_, ?_⟩
  · rw [h]
    show REALTIME_MODE_TPM2NET % 256 ≠ 0
    decide
  · rw [h]
  · rw [h]
  · rw [h]
  · rw [h]
  · rw [h]
    show (if dev.realtimeMode = 0 ∧ dev.realtimeOverride = 0 then _ else dev.pixels).length = _
    split_ifs
    · generalize getLengthTotal dev.pixels = t
      induction t with
      | zero => rfl
      | succ t ih =>
        rw [List.range_succ, List.foldl_append]
        simp only [List.foldl_cons, List.foldl_nil, setPixelColor, List.length_set]
        exact ih
    · rfl
  · intro hm
    rw [h]
    show (if dev.realtimeMode = 0 ∧ dev.realtimeOverride = 0 then _ else dev.pixels) = _
    rw [if_neg (fun hc => hm hc.1)]

theorem tpm_id (k m : Nat) (h : k * m < 2 ^ 16) :
    (((k : Nat) : Int) * (((m + 1 : Nat) : Int) - 1) % 2 ^ 16).toNat = k * m := by
  have e : ((k : Nat) : Int) * (((m + 1 : Nat) : Int) - 1) = ((k * m : Nat) : Int) := by
    push_cast; ring
  rw [e]
  have e2 : ((k * m : Nat) : Int) % 2 ^ 16 = ((k * m % 2 ^ 16 : Nat) : Int) := by norm_cast
  rw [e2, Int.toNat_ofNat, Nat.mod_eq_of_lt h]

theorem realtimeColor_cfg (y : Host) (cfg cfg' : Device) (r g b w : Nat)
    (h2 : cfg'.arlsDisableGammaCorrection = cfg.arlsDisableGammaCorrection)
    (h3 : cfg'.gammaCorrectCol = cfg.gammaCorrectCol) :
    realtimeColor y cfg' r g b w = realtimeColor y cfg r g b w := by
  unfold realtimeColor
  rw [h2, h3]

/-! ## The colour bytes of a DDP packet -/

theorem ddpColors_eq (n : Net) (buffer : Nat → Nat) (bri : Nat) (isRGBW : Bool) (P : Nat)
    (hP : P + 3 ≤ 2 ^ 16) :
    ∀ (fuel i off : Nat) (out : List Nat), off < 2 ^ 16 → (P - i + 2) / 3 ≤ fuel →
      ddpColors n buffer bri isRGBW P fuel i off out
        = (out ++ (List.range (3 * ((P - i + 2) / 3))).map (fun j =>
              n.scale8 (buffer ((off + (if isRGBW then 4 else 3) * (j / 3) + j % 3) % 2 ^ 16))
                bri),
            (off + (if isRGBW then 4 else 3) * ((P - i + 2) / 3)) % 2 ^ 16) := by
  intro fuel
  induction fuel with
  | zero =>
    intro i off out ho hf
    have h0 : (P - i + 2) / 3 = 0 := by omega
    rw [h0]
    have ho' : off % 65536 = off := Nat.mod_eq_of_lt ho
    simp [ddpColors, ho']
  | succ fuel ih =>
    intro i off out ho hf
    unfold ddpColors
    by_cases hlt : i < P
    · rw [if_pos hlt]
      have hi : (i + 3) % 2 ^ 16 = i + 3 := Nat.mod_eq_of_lt (by omega)
      obtain ⟨r, hr⟩ : ∃ r, (P - i + 2) / 3 = r + 1 := ⟨(P - i + 2) / 3 - 1, by omega⟩
      have hr' : (P - (i + 3) + 2) / 3 = r := by omega
      simp only [hi]
      rw [ih (i + 3) _ _ (by split <;> exact Nat.mod_lt _ (by norm_num)) (by omega), hr', hr]
      have e3 : 3 * (r + 1) = 3 + 3 * r := by ring
      rw [e3, List.range_add, List.map_append, List.map_map]
      cases isRGBW
      · simp only [Bool.false_eq_true, if_false]
        refine Prod.ext ?_ ?_
        · simp only [List.append_assoc]
          congr 1
          have : List.map (fun j => n.scale8 (buffer ((off + 3 * (j / 3) + j % 3) % 2 ^ 16)) bri)
              (List.range 3) = [n.scale8 (buffer off) bri,
                n.scale8 (buffer ((off + 1) % 2 ^ 16)) bri,
                n.scale8 (buffer ((off + 2) % 2 ^ 16)) bri] := by
            have ho' : off % 65536 = off := Nat.mod_eq_of_lt ho
            simp [List.range_succ, ho']
          rw [this]
          simp only [List.cons_append, List.nil_append, List.cons.injEq, true_and]
          apply List.map_congr_left
          intro j _
          simp only [Function.comp]
          congr 2
          omega
        · show _ % 2 ^ 16 = _ % 2 ^ 16
          omega
      · simp only [if_true]
        refine Prod.ext ?_ ?_
        · simp only [List.append_assoc]
          congr 1
          have : List.map (fun j => n.scale8 (buffer ((off + 4 * (j / 3) + j % 3) % 2 ^ 16)) bri)
              (List.range 3) = [n.scale8 (buffer off) bri,
                n.scale8 (buffer ((off + 1) % 2 ^ 16)) bri,
                n.scale8 (buffer ((off + 2) % 2 ^ 16)) bri] := by
            have ho' : off % 65536 = off := Nat.mod_eq_of_lt ho
            simp [List.range_succ, ho']
          rw [this]
          simp only [List.cons_append, List.nil_append, List.cons.injEq, true_and]
          apply List.map_congr_left
          intro j _
          simp only [Function.comp]
          congr 2
          omega
        · show _ % 2 ^ 16 = _ % 2 ^ 16
          omega
    · rw [if_neg hlt]
      have h0 : (P - i + 2) / 3 = 0 := by omega
      rw [h0]
      have ho' : off % 65536 = off := Nat.mod_eq_of_lt ho
      simp [ho']

/-! ## The packet loop of the DDP output -/

theorem ddpLoop_done (n : Net) (client : Nat) (buffer : Nat → Nat) (bri : Nat)
    (isRGBW : Bool) (channelCount packetCount fuel currentPacket channel bufferOffset
      sequenceNumber : Nat) (sent : List Sent) (h : ¬ currentPacket < packetCount) :
    ddpLoop n client buffer bri isRGBW channelCount packetCount fuel currentPacket channel
      bufferOffset sequenceNumber sent = ⟨0, sequenceNumber, sent⟩ := by
  cases fuel with
  | zero => rfl
  | succ fuel => unfold ddpLoop; rw [if_neg h]

theorem ddpLoop_step (n : Net) (client : Nat) (buffer : Nat → Nat) (bri : Nat)
    (isRGBW : Bool) (channelCount packetCount fuel currentPacket channel bufferOffset
      sequenceNumber : Nat) (sent : List Sent) (h : currentPacket < packetCount) :
    ddpLoop n client buffer bri isRGBW channelCount packetCount (fuel + 1) currentPacket
        channel bufferOffset sequenceNumber sent
      = if n.beginPacket currentPacket = false then
          ⟨1, if sequenceNumber > 15 then 0 else sequenceNumber, sent⟩
        else if n.endPacket currentPacket = false then
          ⟨1, ((if sequenceNumber > 15 then 0 else sequenceNumber) + 1) % 256, sent⟩
        else
          ddpLoop n client buffer bri isRGBW channelCount packetCount fuel
            ((currentPacket + 1) % 2 ^ 16)
            ((channel + (if currentPacket = packetCount - 1
                ∧ channelCount % DDP_CHANNELS_PER_PACKET ≠ 0
              then channelCount % DDP_CHANNELS_PER_PACKET else DDP_CHANNELS_PER_PACKET))
              % 2 ^ 32)
            (ddpColors n buffer bri isRGBW
              (if currentPacket = packetCount - 1
                  ∧ channelCount % DDP_CHANNELS_PER_PACKET ≠ 0
                then channelCount % DDP_CHANNELS_PER_PACKET else DDP_CHANNELS_PER_PACKET)
              (if currentPacket = packetCount - 1
                  ∧ channelCount % DDP_CHANNELS_PER_PACKET ≠ 0
                then channelCount % DDP_CHANNELS_PER_PACKET else DDP_CHANNELS_PER_PACKET)
              0 bufferOffset []).2
            (((if sequenceNumber > 15 then 0 else sequenceNumber) + 1) % 256)
            (sent ++ [ddpPacket n client buffer bri isRGBW channelCount packetCount
              currentPacket channel bufferOffset
              (if sequenceNumber > 15 then 0 else sequenceNumber)]) := by
  rw [ddpLoop, if_pos h]
  cases hb : n.beginPacket currentPacket
  · simp
  · cases he : n.endPacket currentPacket
    · simp
    · simp [ddpPacket]

theorem ddpColors_full (n : Net) (buffer : Nat → Nat) (bri : Nat) (isRGBW : Bool)
    (off : Nat) (ho : off < 2 ^ 16) :
    (ddpColors n buffer bri isRGBW DDP_CHANNELS_PER_PACKET DDP_CHANNELS_PER_PACKET 0 off []).2
      = (off + (if isRGBW then 1920 else 1440)) % 2 ^ 16 := by
  rw [ddpColors_eq n buffer bri isRGBW DDP_CHANNELS_PER_PACKET (by decide) _ 0 off [] ho
    (by decide)]
  show (off + _ * ((1440 - 0 + 2) / 3)) % 2 ^ 16 = _
  cases isRGBW <;> simp

theorem ddpLoop_sent (n : Net) (client : Nat) (buffer : Nat → Nat) (bri : Nat)
    (isRGBW : Bool) (channelCount packetCount : Nat) (hpc : packetCount ≤ 46) :
    ∀ (fuel c sq : Nat) (sent : List Sent), c ≤ packetCount → packetCount - c < fuel →
      ∃ m, m ≤ packetCount - c
        ∧ (∀ t, t < m → n.beginPacket (c + t) = true ∧ n.endPacket (c + t) = true)
        ∧ (m < packetCount - c →
            n.beginPacket (c + m) = false ∨ n.endPacket (c + m) = false)
        ∧ (ddpLoop n client buffer bri isRGBW channelCount packetCount fuel c (1440 * c)
            ((if isRGBW then 1920 else 1440) * c % 2 ^ 16) sq sent).sent
          = sent ++ (List.range m).map (fun t =>
              ddpPacket n client buffer bri isRGBW channelCount packetCount (c + t)
                (1440 * (c + t)) ((if isRGBW then 1920 else 1440) * (c + t) % 2 ^ 16)
                (((if sq > 15 then 0 else sq) + t) % 16))
        ∧ ((∀ k, n.endPacket k = true) →
            (if (ddpLoop n client buffer bri isRGBW channelCount packetCount fuel c
                  (1440 * c) ((if isRGBW then 1920 else 1440) * c % 2 ^ 16) sq sent
                ).sequenceNumber > 15 then 0
              else (ddpLoop n client buffer bri isRGBW channelCount packetCount fuel c
                  (1440 * c) ((if isRGBW then 1920 else 1440) * c % 2 ^ 16) sq sent
                ).sequenceNumber)
            = ((if sq > 15 then 0 else sq) + m) % 16)
        ∧ ((ddpLoop n client buffer bri isRGBW channelCount packetCount fuel c (1440 * c)
            ((if isRGBW then 1920 else 1440) * c % 2 ^ 16) sq sent).result = 0
            ↔ m = packetCount - c)
        ∧ (ddpLoop n client buffer bri isRGBW channelCount packetCount fuel c (1440 * c)
            ((if isRGBW then 1920 else 1440) * c % 2 ^ 16) sq sent).result ≤ 1 := by
  intro fuel
  induction fuel with
  | zero => intro c sq sent _ h; omega
  | succ fuel ih =>
    intro c sq sent hc hf
    have hq : (if sq > 15 then 0 else sq) ≤ 15 := by split <;> omega
    generalize hq' : (if sq > 15 then 0 else sq) = q at hq
    by_cases hlt : c < packetCount
    · rw [ddpLoop_step _ _ _ _ _ _ _ _ _ _ _ _ _ hlt, hq']
      cases hb : n.beginPacket c
      · refine ⟨0, Nat.zero_le _, fun t ht => absurd ht (Nat.not_lt_zero t),
          fun _ => Or.inl hb, by simp, fun _ => ?_, ?_, ?_⟩
        · simp only [if_true]
          show (if q > 15 then 0 else q) = _
          rw [if_neg (by omega)]
          omega
        · simp only [if_true]
          constructor
          · intro h; exact absurd h (by decide)
          · intro h; omega
        · simp
      · cases he : n.endPacket c
        · refine ⟨0, Nat.zero_le _, fun t ht => absurd ht (Nat.not_lt_zero t),
            fun _ => Or.inr he, by simp, fun h => ?_, ?_, ?_⟩
          · rw [h c] at he; exact absurd he (by decide)
          · simp only [Bool.true_eq_false, if_false, if_true]
            constructor
            · intro h; exact absurd h (by decide)
            · intro h; omega
          · simp
        · simp only [Bool.true_eq_false, if_false]
          have hc1 : (c + 1) % 2 ^ 16 = c + 1 := Nat.mod_eq_of_lt (by omega)
          rw [hc1]
          by_cases hl : c + 1 < packetCount
          · have hsz : (if c = packetCount - 1 ∧ channelCount % DDP_CHANNELS_PER_PACKET ≠ 0
                then channelCount % DDP_CHANNELS_PER_PACKET else DDP_CHANNELS_PER_PACKET)
                = DDP_CHANNELS_PER_PACKET := if_neg (fun h => by omega)
            rw [hsz, ddpColors_full n buffer bri isRGBW _ (Nat.mod_lt _ (by norm_num))]
            have e1 : (1440 * c + DDP_CHANNELS_PER_PACKET) % 2 ^ 32 = 1440 * (c + 1) := by
              unfold DDP_CHANNELS_PER_PACKET; omega
            have e2 : ((if isRGBW then 1920 else 1440) * c % 2 ^ 16
                  + (if isRGBW then 1920 else 1440)) % 2 ^ 16
                = (if isRGBW then 1920 else 1440) * (c + 1) % 2 ^ 16 := by
              cases isRGBW <;> simp <;> omega
            rw [e1, e2]
            obtain ⟨m, hm, g1, g2, h1, h2, h3, h4⟩ := ih (c + 1) ((q + 1) % 256)
              (sent ++ [ddpPacket n client buffer bri isRGBW channelCount packetCount c
                (1440 * c) ((if isRGBW then 1920 else 1440) * c % 2 ^ 16) q])
              (by omega) (by omega)
            have hq1 : (if (q + 1) % 256 > 15 then 0 else (q + 1) % 256) = (q + 1) % 16 := by
              split <;> omega
            rw [hq1] at h1 h2
            refine ⟨m + 1, by omega, ?_, ?_, ?_, fun h => ?_, ?_, h4⟩
            · intro t ht
              cases t with
              | zero => exact ⟨hb, he⟩
              | succ t =>
                have := g1 t (by omega)
                rwa [show c + 1 + t = c + (t + 1) by omega] at this
            · intro hm'
              have := g2 (by omega)
              rwa [show c + 1 + m = c + (m + 1) by omega] at this
            · rw [h1, List.range_succ_eq_map, List.map_cons, List.map_map,
                List.append_assoc]
              refine congrArg (fun l => sent ++ l) ?_
              simp only [List.singleton_append, Nat.add_zero]
              rw [Nat.mod_eq_of_lt (by omega : q < 16)]
              refine congrArg (fun l => _ :: l) ?_
              apply List.map_congr_left
              intro t _
              simp only [Function.comp, Nat.succ_eq_add_one]
              have a1 : c + 1 + t = c + (t + 1) := by omega
              have a2 : ((q + 1) % 16 + t) % 16 = (q + (t + 1)) % 16 := by omega
              rw [a1, a2]
            · rw [h2 h]; omega
            · rw [h3]; omega
          · have hd := ddpLoop_done n client buffer bri isRGBW channelCount packetCount fuel
              (c + 1)
            simp only [hd _ _ _ _ hl]
            refine ⟨1, by omega, ?_, fun h => by omega, ?_, fun _ => ?_, ?_, ?_⟩
            · intro t ht
              have : t = 0 := by omega
              subst this
              exact ⟨hb, he⟩
            · rw [show List.range 1 = [0] from rfl]
              simp only [List.map_cons, List.map_nil, Nat.add_zero]
              rw [Nat.mod_eq_of_lt (by omega : q < 16)]
            · show (if (q + 1) % 256 > 15 then 0 else (q + 1) % 256) = _
              split <;> omega
            · simp only [true_iff]
              omega
            · simp
    · rw [ddpLoop_done _ _ _ _ _ _ _ _ _ _ _ _ _ hlt]
      refine ⟨0, Nat.zero_le _, fun t ht => absurd ht (Nat.not_lt_zero t),
        fun h => by omega, by simp, fun _ => ?_, ?_, ?_⟩
      · show (if sq > 15 then 0 else sq) = _
        rw [hq']; omega
      · constructor
        · intro _; omega
        · intro _; rfl
      · simp

theorem realtimeBroadcast_none (n : Net) (type client length : Nat) (buffer : Nat → Nat)
    (bri : Nat) (isRGBW : Bool) (sq : Nat)
    (h : n.interfacesInited = false ∨ type % 256 ≠ 0) :
    realtimeBroadcast n type client length buffer bri isRGBW sq
      = ⟨if n.interfacesInited then 0 else 1, sq, []⟩ := by
  unfold realtimeBroadcast
  cases hi : n.interfacesInited
  · simp
  · rcases h with h | h
    · rw [hi] at h; exact absurd h (by decide)
    · simp [h]

theorem realtimeBroadcast_ddp (n : Net) (type client length : Nat) (buffer : Nat → Nat)
    (bri : Nat) (isRGBW : Bool) (sq : Nat) (hi : n.interfacesInited = true)
    (ht : type % 256 = 0) :
    ∃ m, m ≤ ((length % 2 ^ 16 * 3) % 2 ^ 16 + 1439) / 1440
      ∧ (∀ t, t < m → n.beginPacket t = true ∧ n.endPacket t = true)
      ∧ (m < ((length % 2 ^ 16 * 3) % 2 ^ 16 + 1439) / 1440 →
          n.beginPacket m = false ∨ n.endPacket m = false)
      ∧ (realtimeBroadcast n type client length buffer bri isRGBW sq).sent
        = (List.range m).map (fun t =>
            ddpPacket n client buffer bri isRGBW ((length % 2 ^ 16 * 3) % 2 ^ 16)
              (((length % 2 ^ 16 * 3) % 2 ^ 16 + 1439) / 1440) t (1440 * t)
              ((if isRGBW then 1920 else 1440) * t % 2 ^ 16)
              (((if sq > 15 then 0 else sq) + t) % 16))
      ∧ ((∀ k, n.endPacket k = true) →
          (if (realtimeBroadcast n type client length buffer bri isRGBW sq).sequenceNumber > 15
            then 0
            else (realtimeBroadcast n type client length buffer bri isRGBW sq).sequenceNumber)
          = ((if sq > 15 then 0 else sq) + m) % 16)
      ∧ ((realtimeBroadcast n type client length buffer bri isRGBW sq).result = 0
          ↔ m = ((length % 2 ^ 16 * 3) % 2 ^ 16 + 1439) / 1440)
      ∧ (realtimeBroadcast n type client length buffer bri isRGBW sq).result ≤ 1 := by
  unfold realtimeBroadcast
  simp only [hi, Bool.not_true, Bool.false_eq_true, if_false, ht, if_true]
  have hcc : (length % 2 ^ 16 * 3) % 2 ^ 16 < 2 ^ 16 := Nat.mod_lt _ (by norm_num)
  generalize (length % 2 ^ 16 * 3) % 2 ^ 16 = cc at hcc
  have hpc : (if cc % DDP_CHANNELS_PER_PACKET ≠ 0 then cc / DDP_CHANNELS_PER_PACKET + 1
      else cc / DDP_CHANNELS_PER_PACKET) = (cc + 1439) / 1440 := by
    unfold DDP_CHANNELS_PER_PACKET
    split_ifs <;> omega
  rw [hpc]
  have r := ddpLoop_sent n client buffer bri isRGBW cc ((cc + 1439) / 1440) (by omega)
    ((cc + 1439) / 1440 + 1) 0 sq [] (Nat.zero_le _) (by omega)
  simp only [Nat.mul_zero, Nat.zero_mod, Nat.zero_add, List.nil_append, Nat.sub_zero] at r
  exact r

/-! ## The bytes of a DDP packet -/

theorem ddpPacket_dest (n : Net) (client : Nat) (buffer : Nat → Nat) (bri : Nat)
    (isRGBW : Bool) (cc pc k ch off q : Nat) :
    (ddpPacket n client buffer bri isRGBW cc pc k ch off q).ip = client
    ∧ (ddpPacket n client buffer bri isRGBW cc pc k ch off q).port = n.DDP_DEFAULT_PORT :=
  ⟨rfl, rfl⟩

theorem ddpPacket_data (n : Net) (client : Nat) (buffer : Nat → Nat) (bri : Nat)
    (isRGBW : Bool) (cc pc k ch off q : Nat) (ho : off < 2 ^ 16) :
    (ddpPacket n client buffer bri isRGBW cc pc k ch off q).data
      = [if k = pc - 1 then 0x41 else 0x40, q % 16, 0, 1, ch / 2 ^ 24 % 256,
          ch / 2 ^ 16 % 256, ch / 2 ^ 8 % 256, ch % 256,
          (if k = pc - 1 ∧ cc % 1440 ≠ 0 then cc % 1440 else 1440) / 2 ^ 8 % 256,
          (if k = pc - 1 ∧ cc % 1440 ≠ 0 then cc % 1440 else 1440) % 256]
        ++ (List.range (3 * (((if k = pc - 1 ∧ cc % 1440 ≠ 0 then cc % 1440 else 1440) + 2)
              / 3))).map (fun j =>
            n.scale8 (buffer ((off + (if isRGBW then 4 else 3) * (j / 3) + j % 3) % 2 ^ 16))
              bri) := by
  have hand : ∀ a : Nat, 0xFF &&& a = a % 256 := fun a => by
    rw [Nat.and_comm]; exact and_0xFF a
  have hP : (if (decide (k = pc - 1) && decide (cc % DDP_CHANNELS_PER_PACKET ≠ 0)) = true
        then cc % DDP_CHANNELS_PER_PACKET else DDP_CHANNELS_PER_PACKET)
      = (if k = pc - 1 ∧ cc % 1440 ≠ 0 then cc % 1440 else 1440) := by
    unfold DDP_CHANNELS_PER_PACKET
    by_cases h1 : k = pc - 1 <;> by_cases h2 : cc % 1440 = 0 <;> simp [h1, h2]
  have hf : (if decide (k = pc - 1) = true then DDP_FLAGS1_VER1 ||| DDP_FLAGS1_PUSH
        else DDP_FLAGS1_VER1) = (if k = pc - 1 then 0x41 else 0x40) := by
    by_cases h1 : k = pc - 1
    · simp only [h1, decide_True, if_true]; rfl
    · simp only [h1, decide_False, Bool.false_eq_true, if_false]; rfl
  unfold ddpPacket
  simp only [hP, hf]
  generalize hPP : (if k = pc - 1 ∧ cc % 1440 ≠ 0 then cc % 1440 else 1440) = P
  have hle : P ≤ 1440 := by
    rw [← hPP]; split <;> omega
  rw [ddpColors_eq n buffer bri isRGBW P (by omega) P 0 off [] ho (by omega)]
  simp only [hand, and_0x0F, Nat.shiftRight_eq_div_pow, Nat.sub_zero, List.nil_append]
  rfl

theorem realtimeBroadcast_packet (n : Net) (type client length : Nat) (buffer : Nat → Nat)
    (bri : Nat) (isRGBW : Bool) (sq k : Nat) (p : Sent)
    (h : (realtimeBroadcast n type client length buffer bri isRGBW sq).sent[k]? = some p) :
    n.interfacesInited = true ∧ type % 256 = 0
    ∧ k < ((length % 2 ^ 16 * 3) % 2 ^ 16 + 1439) / 1440
    ∧ k < (realtimeBroadcast n type client length buffer bri isRGBW sq).sent.length
    ∧ (∀ t, t ≤ k → n.beginPacket t = true ∧ n.endPacket t = true)
    ∧ p = ddpPacket n client buffer bri isRGBW ((length % 2 ^ 16 * 3) % 2 ^ 16)
          (((length % 2 ^ 16 * 3) % 2 ^ 16 + 1439) / 1440) k (1440 * k)
          ((if isRGBW then 1920 else 1440) * k % 2 ^ 16)
          (((if sq > 15 then 0 else sq) + k) % 16) := by
  by_cases hn : n.interfacesInited = false ∨ type % 256 ≠ 0
  · rw [realtimeBroadcast_none n type client length buffer bri isRGBW sq hn] at h
    simp at h
  · have hi : n.interfacesInited = true := by
      cases hh : n.interfacesInited
      · exact absurd (Or.inl hh) hn
      · rfl
    have ht : type % 256 = 0 := by
      by_contra hh
      exact hn (Or.inr hh)
    obtain ⟨m, hm, g1, _, hs, _⟩ :=
      realtimeBroadcast_ddp n type client length buffer bri isRGBW sq hi ht
    have hlen : (realtimeBroadcast n type client length buffer bri isRGBW sq).sent.length
        = m := by
      rw [hs, List.length_map, List.length_range]
    rw [hs, List.getElem?_map] at h
    by_cases hk : k < m
    · rw [List.getElem?_range hk] at h
      simp only [Option.map_some', Option.some.injEq] at h
      exact ⟨hi, ht, by omega, by omega, fun t ht' => g1 t (by omega), h.symm⟩
    · rw [List.getElem?_eq_none (by rw [List.length_range]; omega)] at h
      simp at h

/-! ## A DDP output on which every send succeeds -/

theorem realtimeBroadcast_all (n : Net) (client length : Nat) (buffer : Nat → Nat)
    (bri : Nat) (isRGBW : Bool) (sq : Nat) (hi : n.interfacesInited = true)
    (hb : ∀ k, n.beginPacket k = true) (he : ∀ k, n.endPacket k = true) :
    (realtimeBroadcast n 0 client length buffer bri isRGBW sq).sent
      = (List.range (((length % 2 ^ 16 * 3) % 2 ^ 16 + 1439) / 1440)).map (fun t =>
          ddpPacket n client buffer bri isRGBW ((length % 2 ^ 16 * 3) % 2 ^ 16)
            (((length % 2 ^ 16 * 3) % 2 ^ 16 + 1439) / 1440) t (1440 * t)
            ((if isRGBW then 1920 else 1440) * t % 2 ^ 16)
            (((if sq > 15 then 0 else sq) + t) % 16)) := by
  obtain ⟨m, hm, _, g2, hs, _⟩ :=
    realtimeBroadcast_ddp n 0 client length buffer bri isRGBW sq hi rfl
  have : m = ((length % 2 ^ 16 * 3) % 2 ^ 16 + 1439) / 1440 := by
    by_contra hne
    rcases g2 (by omega) with h | h
    · rw [hb m] at h; exact absurd h (by decide)
    · rw [he m] at h; exact absurd h (by decide)
  rw [hs, this]

theorem ddpPacket_declared (n : Net) (client : Nat) (buffer : Nat → Nat) (bri : Nat)
    (isRGBW : Bool) (cc pc k ch off q : Nat) (ho : off < 2 ^ 16) :
    (ddpPacket n client buffer bri isRGBW cc pc k ch off q).data.getD 8 0 * 256
        + (ddpPacket n client buffer bri isRGBW cc pc k ch off q).data.getD 9 0
      = (if k = pc - 1 ∧ cc % 1440 ≠ 0 then cc % 1440 else 1440) := by
  rw [ddpPacket_data n client buffer bri isRGBW cc pc k ch off q ho]
  generalize hPP : (if k = pc - 1 ∧ cc % 1440 ≠ 0 then cc % 1440 else 1440) = P
  have hle : P ≤ 1440 := by
    rw [← hPP]; split <;> omega
  show P / 2 ^ 8 % 256 * 256 + P % 256 = P
  omega

theorem ddpPacket_flags (n : Net) (client : Nat) (buffer : Nat → Nat) (bri : Nat)
    (isRGBW : Bool) (cc pc k ch off q : Nat) (ho : off < 2 ^ 16) :
    (ddpPacket n client buffer bri isRGBW cc pc k ch off q).data.getD 0 0
      = (if k = pc - 1 then 0x41 else 0x40) := by
  rw [ddpPacket_data n client buffer bri isRGBW cc pc k ch off q ho]
  rfl

theorem ddp_sizes_sum (cc : Nat) :
    ((List.range ((cc + 1439) / 1440)).map (fun k =>
      if k = (cc + 1439) / 1440 - 1 ∧ cc % 1440 ≠ 0 then cc % 1440 else 1440)).sum = cc := by
  obtain ⟨m, hm⟩ | h0 : (∃ m, (cc + 1439) / 1440 = m + 1) ∨ (cc + 1439) / 1440 = 0 := by
    cases h : (cc + 1439) / 1440 with
    | zero => exact Or.inr rfl
    | succ m => exact Or.inl ⟨m, rfl⟩
  · rw [hm, List.range_succ, List.map_append, List.sum_append]
    have e : (List.range m).map (fun k =>
        if k = m + 1 - 1 ∧ cc % 1440 ≠ 0 then cc % 1440 else 1440)
        = (List.range m).map (fun _ => 1440) := by
      apply List.map_congr_left
      intro k hk
      rw [List.mem_range] at hk
      rw [if_neg (fun h => by omega)]
    rw [e]
    simp only [List.map_const', List.length_range, List.sum_replicate, smul_eq_mul,
      List.map_cons, List.map_nil, List.sum_cons, List.sum_nil, Nat.add_sub_cancel,
      true_and, Nat.add_zero]
    split <;> omega
  · rw [h0]
    simp only [List.range_zero, List.map_nil, List.sum_nil]
    omega

/-! ## The payloads of a DDP output, one after the other -/

theorem full_chunks {α : Type} (G : Nat → α) (m : Nat) :
    ((List.range m).map (fun k => (List.range 1440).map (fun j => G (1440 * k + j)))).flatten
      = (List.range (1440 * m)).map G := by
  induction m with
  | zero => rfl
  | succ m ih =>
    rw [@List.range_succ m, List.map_append, List.flatten_append, ih, Nat.mul_succ,
      List.range_add, List.map_append, List.map_map]
    simp only [List.map_cons, List.map_nil, List.flatten_cons, List.flatten_nil,
      List.append_nil]
    rfl

theorem chunks_flatten {α : Type} (G : Nat → α) (cc : Nat) :
    ((List.range ((cc + 1439) / 1440)).map (fun k =>
        (List.range (if k = (cc + 1439) / 1440 - 1 ∧ cc % 1440 ≠ 0 then cc % 1440 else 1440)).map
          (fun j => G (1440 * k + j)))).flatten
      = (List.range cc).map G := by
  obtain ⟨m, hm⟩ | h0 : (∃ m, (cc + 1439) / 1440 = m + 1) ∨ (cc + 1439) / 1440 = 0 := by
    cases h : (cc + 1439) / 1440 with
    | zero => exact Or.inr rfl
    | succ m => exact Or.inl ⟨m, rfl⟩
  · rw [hm, @List.range_succ m, List.map_append, List.flatten_append]
    have e : (List.range m).map (fun k =>
        (List.range (if k = m + 1 - 1 ∧ cc % 1440 ≠ 0 then cc % 1440 else 1440)).map
          (fun j => G (1440 * k + j)))
        = (List.range m).map (fun k => (List.range 1440).map (fun j => G (1440 * k + j))) := by
      apply List.map_congr_left
      intro k hk
      rw [List.mem_range] at hk
      rw [if_neg (fun h => by omega)]
    rw [e, full_chunks]
    simp only [List.map_cons, List.map_nil, List.flatten_cons, List.flatten_nil,
      List.append_nil, Nat.add_sub_cancel, true_and]
    have hc : cc = 1440 * m + (if cc % 1440 ≠ 0 then cc % 1440 else 1440) := by
      split <;> omega
    conv_rhs => rw [hc]
    rw [List.range_add, List.map_append, List.map_map]
    rfl
  · have : cc = 0 := by omega
    subst this
    rfl

/-! ## The pixel loop of the raw RGB socket and of DRGB -/

theorem foldl_range_congr {α : Type} (f g : α → Nat → α) :
    ∀ (m : Nat) (a : α), (∀ j, j < m → ∀ b, f b j = g b j) →
      (List.range m).foldl f a = (List.range m).foldl g a := by
  intro m
  induction m with
  | zero => intro a _; rfl
  | succ m ih =>
    intro a h
    rw [List.range_succ, List.foldl_append, List.foldl_append,
      ih a (fun j hj b => h j (by omega) b)]
    simp only [List.foldl_cons, List.foldl_nil]
    exact h m (by omega) _

theorem drgbLoop_stop (y : Host) (cfg : Device) (buf : Nat → Nat) (n T fuel i id : Nat)
    (px : List Nat) (h : ¬ i < n - 2) : drgbLoop y cfg buf n T fuel i id px = px := by
  cases fuel with
  | zero => rfl
  | succ fuel => unfold drgbLoop; rw [if_neg h]

theorem drgbLoop_from (y : Host) (cfg : Device) (buf : Nat → Nat) (n T o m : Nat)
    (hn : n < 2 ^ 16) (hT : T < 2 ^ 16) (hm : m = min ((n - o) / 3) (max T 1)) (ho : o ≤ n) :
    ∀ (fuel a : Nat) (px : List Nat), a < m → m - a ≤ fuel →
      drgbLoop y cfg buf n T fuel (o + 3 * a) a px
        = (List.range (m - a)).foldl (fun px j =>
            setRealtimePixel y cfg px (a + j) (buf (o + 3 * (a + j)))
              (buf (o + 3 * (a + j) + 1)) (buf (o + 3 * (a + j) + 2)) 0) px := by
  intro fuel
  induction fuel with
  | zero => intro a px ha hf; omega
  | succ fuel ih =>
    intro a px ha hf
    have hm1 : m ≤ (n - o) / 3 := by rw [hm]; exact Nat.min_le_left _ _
    have hm2 : m ≤ max T 1 := by rw [hm]; exact Nat.min_le_right _ _
    have hmax : max T 1 = T ∨ max T 1 = 1 := by
      rcases Nat.le_total T 1 with h | h
      · exact Or.inr (Nat.max_eq_right h)
      · exact Or.inl (Nat.max_eq_left h)
    unfold drgbLoop
    rw [if_pos (by omega)]
    simp only
    have hid : (a + 1) % 2 ^ 16 = a + 1 := Nat.mod_eq_of_lt (by omega)
    have hi : (o + 3 * a + 3) % 2 ^ 16 = o + 3 * (a + 1) := by
      rw [Nat.mod_eq_of_lt (by omega)]; ring
    rw [hid, hi]
    obtain ⟨r, hr⟩ : ∃ r, m - a = r + 1 := ⟨m - a - 1, by omega⟩
    rw [hr, range_succ_foldl]
    simp only [Nat.add_zero]
    by_cases hstop : a + 1 ≥ T
    · rw [if_pos hstop]
      have : r = 0 := by omega
      subst this
      rfl
    · rw [if_neg hstop]
      by_cases hlast : a + 1 < m
      · rw [ih (a + 1) _ hlast (by omega)]
        have : m - (a + 1) = r := by omega
        rw [this]
        apply foldl_range_congr
        intro j _ b
        rw [show a + 1 + j = a + (j + 1) by omega]
      · rw [drgbLoop_stop _ _ _ _ _ _ _ _ _ (by
          have : m = (n - o) / 3 := by
            rcases Nat.le_total ((n - o) / 3) (max T 1) with h | h
            · rw [hm]; exact Nat.min_eq_left h
            · omega
          omega)]
        have : r = 0 := by omega
        subst this
        rfl

theorem setRealtimePixel_empty (y : Host) (cfg : Device) (px : List Nat) (i r g b w : Nat)
    (h : getLengthTotal px = 0) : setRealtimePixel y cfg px i r g b w = px := by
  unfold setRealtimePixel
  simp only [h, Nat.not_lt_zero, if_false]

theorem drgbLoop_fold (y : Host) (cfg : Device) (buf : Nat → Nat) (n o fuel : Nat)
    (px : List Nat) (hn : n < 2 ^ 16) (hl : px.length < 2 ^ 16) (ho : o ≤ n)
    (hf : (n - o) / 3 ≤ fuel) :
    drgbLoop y cfg buf n (getLengthTotal px) fuel o 0 px
      = (List.range (min ((n - o) / 3) px.length)).foldl (fun px j =>
          setRealtimePixel y cfg px j (buf (o + 3 * j)) (buf (o + 3 * j + 1))
            (buf (o + 3 * j + 2)) 0) px := by
  have hT : getLengthTotal px = px.length := Nat.mod_eq_of_lt hl
  by_cases h0 : (n - o) / 3 = 0
  · rw [h0, Nat.zero_min, drgbLoop_stop _ _ _ _ _ _ _ _ _ (by omega)]
    rfl
  by_cases hp : px.length = 0
  · have r := drgbLoop_from y cfg buf n (getLengthTotal px) o 1 hn (by omega)
      (by rw [hT, hp]; simp; omega) ho fuel 0 px (by omega) (by omega)
    simp only [Nat.mul_zero, Nat.add_zero, Nat.sub_zero] at r
    rw [r, hp, Nat.min_zero]
    show setRealtimePixel y cfg px _ _ _ _ _ = px
    exact setRealtimePixel_empty _ _ _ _ _ _ _ _ (by rw [hT, hp])
  · have r := drgbLoop_from y cfg buf n (getLengthTotal px) o
      (min ((n - o) / 3) px.length) hn (by omega)
      (by rw [hT, Nat.max_eq_left (by omega)]) ho fuel 0 px
      (by rw [Nat.lt_min]; omega) (by
        have := Nat.min_le_left ((n - o) / 3) px.length
        omega)
    simp only [Nat.mul_zero, Nat.add_zero, Nat.sub_zero, Nat.zero_add] at r
    exact r

/-! ## The lock as the pixel loops see it -/

theorem clear_length (t : Nat) (px : List Nat) :
    ((List.range t).foldl (fun px i => setPixelColor px i 0 0 0 0) px).length = px.length := by
  induction t with
  | zero => rfl
  | succ t ih =>
    rw [List.range_succ, List.foldl_append]
    simp only [List.foldl_cons, List.foldl_nil, setPixelColor, List.length_set]
    exact ih

theorem realtimeLock_fields (y : Host) (now timeoutMs md : Nat) (dev : Device) :
    (realtimeLock y now timeoutMs md dev).realtimeMode = md % 256
    ∧ (realtimeLock y now timeoutMs md dev).realtimeIP = dev.realtimeIP
    ∧ (realtimeLock y now timeoutMs md dev).realtimeOverride = dev.realtimeOverride
    ∧ (realtimeLock y now timeoutMs md dev).arlsOffset = dev.arlsOffset
    ∧ (realtimeLock y now timeoutMs md dev).arlsDisableGammaCorrection
        = dev.arlsDisableGammaCorrection
    ∧ (realtimeLock y now timeoutMs md dev).gammaCorrectCol = dev.gammaCorrectCol
    ∧ (realtimeLock y now timeoutMs md dev).pixels.length = dev.pixels.length
    ∧ (realtimeLock y now timeoutMs md dev).pixels
        = (if dev.realtimeMode = 0 ∧ dev.realtimeOverride = 0 then
            (List.range (getLengthTotal dev.pixels)).foldl
              (fun px i => setPixelColor px i 0 0 0 0) dev.pixels
          else dev.pixels)
    ∧ (md % 256 ≠ REALTIME_MODE_GENERIC →
        (realtimeLock y now timeoutMs md dev).shows = dev.shows) := by
  have hs : md % 256 ≠ REALTIME_MODE_GENERIC →
      (realtimeLock y now timeoutMs md dev).shows = dev.shows := by
    intro hmd
    unfold realtimeLock setBrightness
    simp only
    rw [if_neg hmd]
    split_ifs <;> rfl
  obtain ⟨b, n, h⟩ := realtimeLock_eq y now timeoutMs md dev
  refine ⟨?_, ?_, ?_, ?_, ?_, ?_, ?_, ?_, hs⟩
  · rw [h]
  · rw [h]
  · rw [h]
  · rw [h]
  · rw [h]
  · rw [h]
  · rw [h]
    show (if dev.realtimeMode = 0 ∧ dev.realtimeOverride = 0 then _ else dev.pixels).length = _
    split_ifs
    · exact clear_length _ _
    · rfl
  · rw [h]

theorem drgbLoop_cfg (y : Host) (cfg cfg' : Device) (u : Nat → Nat) (n T : Nat)
    (h1 : cfg'.arlsOffset = cfg.arlsOffset)
    (h2 : cfg'.arlsDisableGammaCorrection = cfg.arlsDisableGammaCorrection)
    (h3 : cfg'.gammaCorrectCol = cfg.gammaCorrectCol) :
    ∀ (fuel i id : Nat) (px : List Nat),
      drgbLoop y cfg' u n T fuel i id px = drgbLoop y cfg u n T fuel i id px := by
  intro fuel
  induction fuel with
  | zero => intro i id px; rfl
  | succ fuel ih =>
    intro i id px
    unfold drgbLoop
    simp only [setRealtimePixel_cfg y cfg cfg' _ _ _ _ _ _ h1 h2 h3, ih]

theorem handleRawRgb_data (y : Host) (now : Nat) (data : List Nat) (ip : Nat)
    (junk : Nat → Nat) (dev : Device) (hd : dev.receiveDirect = true)
    (hn : 3 ≤ data.length ∧ data.length ≤ UDP_IN_MAXSIZE) (ho : dev.realtimeOverride = 0)
    (hl : dev.pixels.length < 2 ^ 16) :
    handleRawRgb y now data ip junk dev
      = { realtimeLock y now dev.realtimeTimeoutMs REALTIME_MODE_HYPERION
            { dev with realtimeIP := ip } with
          pixels := (List.range (min (data.length / 3) dev.pixels.length)).foldl (fun px k =>
            setRealtimePixel y dev px k (data.getD (3 * k) 0 % 256)
              (data.getD (3 * k + 1) 0 % 256) (data.getD (3 * k + 2) 0 % 256) 0)
            (realtimeLock y now dev.realtimeTimeoutMs REALTIME_MODE_HYPERION
              { dev with realtimeIP := ip }).pixels
          shows := (realtimeLock y now dev.realtimeTimeoutMs REALTIME_MODE_HYPERION
              { dev with realtimeIP := ip }).shows + 1 } := by
  obtain ⟨_, _, f3, f4, f5, f6, f7, _, _⟩ := realtimeLock_fields y now dev.realtimeTimeoutMs
    REALTIME_MODE_HYPERION { dev with realtimeIP := ip }
  unfold handleRawRgb
  simp only [hd, Bool.not_true, Bool.false_eq_true, if_false]
  unfold UDP_IN_MAXSIZE at hn
  rw [if_neg (by
    simp only [Bool.or_eq_true, decide_eq_true_eq, UDP_IN_MAXSIZE]
    omega)]
  rw [if_neg (by rw [f3]; exact fun h => h ho)]
  generalize realtimeLock y now dev.realtimeTimeoutMs REALTIME_MODE_HYPERION
    { dev with realtimeIP := ip } = L at f3 f4 f5 f6 f7 ⊢
  unfold stripShow
  have hL : L.pixels.length < 2 ^ 16 := by rw [f7]; exact hl
  have e : ∀ i, i < data.length → udpInOf data junk i = data.getD i 0 % 256 := by
    intro i hi
    unfold udpInOf
    rw [if_pos hi]
  have hp : drgbLoop y L (udpInOf data junk) data.length (getLengthTotal L.pixels)
        data.length 0 0 L.pixels
      = (List.range (min (data.length / 3) dev.pixels.length)).foldl (fun px k =>
          setRealtimePixel y dev px k (data.getD (3 * k) 0 % 256)
            (data.getD (3 * k + 1) 0 % 256) (data.getD (3 * k + 2) 0 % 256) 0) L.pixels := by
    rw [drgbLoop_fold y _ _ _ 0 _ _ (by omega) hL (Nat.zero_le _) (by omega)]
    simp only [Nat.sub_zero, Nat.zero_add, f7]
    apply foldl_range_congr
    intro j hj b
    rw [Nat.lt_min] at hj
    rw [e _ (by omega), e _ (by omega), e _ (by omega)]
    exact setRealtimePixel_cfg y dev L _ _ _ _ _ _ f4 f5 f6
  rw [hp]

/-! ## The pixel loop of DNRGB -/

theorem dnrgbLoop_stop (y : Host) (cfg : Device) (u : Nat → Nat) (n T fuel i id : Nat)
    (px : List Nat) (h : ¬ i < n - 2 ∨ T ≤ id) : dnrgbLoop y cfg u n T fuel i id px = px := by
  cases fuel with
  | zero => rfl
  | succ fuel =>
    unfold dnrgbLoop
    rcases h with h | h
    · rw [if_neg h]
    · split_ifs <;> rfl

theorem dnrgbLoop_from (y : Host) (cfg : Device) (u : Nat → Nat) (n T s m : Nat)
    (hn : n < 2 ^ 16 - 3) (hT : T < 2 ^ 16) (hm : m = min ((n - 4) / 3) (T - s))
    (h4 : 4 ≤ n) :
    ∀ (fuel a : Nat) (px : List Nat), a ≤ m → m - a ≤ fuel →
      dnrgbLoop y cfg u n T fuel (4 + 3 * a) (s + a) px
        = (List.range (m - a)).foldl (fun px j =>
            setRealtimePixel y cfg px (s + (a + j)) (u (4 + 3 * (a + j)))
              (u (4 + 3 * (a + j) + 1)) (u (4 + 3 * (a + j) + 2)) 0) px := by
  have hm1 : m ≤ (n - 4) / 3 := by rw [hm]; exact Nat.min_le_left _ _
  have hm2 : m ≤ T - s := by rw [hm]; exact Nat.min_le_right _ _
  have hm3 : m = (n - 4) / 3 ∨ m = T - s := by
    rcases Nat.le_total ((n - 4) / 3) (T - s) with h | h
    · left; rw [hm]; exact Nat.min_eq_left h
    · right; rw [hm]; exact Nat.min_eq_right h
  intro fuel
  induction fuel with
  | zero =>
    intro a px ha hf
    have : m - a = 0 := by omega
    rw [this]
    rfl
  | succ fuel ih =>
    intro a px ha hf
    by_cases hlt : a < m
    · unfold dnrgbLoop
      rw [if_pos (by omega), if_neg (by omega)]
      simp only
      have hid : (s + a + 1) % 2 ^ 16 = s + (a + 1) := by
        rw [Nat.mod_eq_of_lt (by omega)]; ring
      have hi : (4 + 3 * a + 3) % 2 ^ 16 = 4 + 3 * (a + 1) := by
        rw [Nat.mod_eq_of_lt (by omega)]; ring
      rw [hid, hi, ih (a + 1) _ (by omega) (by omega)]
      obtain ⟨r, hr⟩ : ∃ r, m - a = r + 1 := ⟨m - a - 1, by omega⟩
      have hr' : m - (a + 1) = r := by omega
      rw [hr, hr', range_succ_foldl]
      simp only [Nat.add_zero]
      apply foldl_range_congr
      intro j _ b
      rw [show a + 1 + j = a + (j + 1) by omega]
    · have : m - a = 0 := by omega
      rw [this, dnrgbLoop_stop _ _ _ _ _ _ _ _ _ (by omega)]
      rfl

theorem dnrgbLoop_fold (y : Host) (cfg : Device) (u : Nat → Nat) (n s fuel : Nat)
    (px : List Nat) (hn : 4 ≤ n ∧ n < 2 ^ 16 - 3) (hl : px.length < 2 ^ 16)
    (hf : (n - 4) / 3 ≤ fuel) :
    dnrgbLoop y cfg u n (getLengthTotal px) fuel 4 s px
      = (List.range (min ((n - 4) / 3) (px.length - s))).foldl (fun px j =>
          setRealtimePixel y cfg px (s + j) (u (4 + 3 * j)) (u (4 + 3 * j + 1))
            (u (4 + 3 * j + 2)) 0) px := by
  have hT : getLengthTotal px = px.length := Nat.mod_eq_of_lt hl
  have r := dnrgbLoop_from y cfg u n (getLengthTotal px) s
    (min ((n - 4) / 3) (px.length - s)) (by omega) (by omega) (by rw [hT]) hn.1 fuel 0 px
    (Nat.zero_le _) (by
      have := Nat.min_le_left ((n - 4) / 3) (px.length - s)
      omega)
  simp only [Nat.mul_zero, Nat.add_zero, Nat.sub_zero, Nat.zero_add] at r
  exact r

theorem dnrgbLoop_cfg (y : Host) (cfg cfg' : Device) (u : Nat → Nat) (n T : Nat)
    (h1 : cfg'.arlsOffset = cfg.arlsOffset)
    (h2 : cfg'.arlsDisableGammaCorrection = cfg.arlsDisableGammaCorrection)
    (h3 : cfg'.gammaCorrectCol = cfg.gammaCorrectCol) :
    ∀ (fuel i id : Nat) (px : List Nat),
      dnrgbLoop y cfg' u n T fuel i id px = dnrgbLoop y cfg u n T fuel i id px := by
  intro fuel
  induction fuel with
  | zero => intro i id px; rfl
  | succ fuel ih =>
    intro i id px
    unfold dnrgbLoop
    simp only [setRealtimePixel_cfg y cfg cfg' _ _ _ _ _ _ h1 h2 h3, ih]

/-! ## The bytes that the TPM2.NET branch reads -/

theorem tpm2Loop_congr (y : Host) (cfg : Device) (u u' : Nat → Nat) (S T : Nat)
    (h : ∀ k, k < S + 6 → u' k = u k) :
    ∀ (fuel i id : Nat) (px : List Nat),
      tpm2Loop y cfg u' S T fuel i id px = tpm2Loop y cfg u S T fuel i id px := by
  intro fuel
  induction fuel with
  | zero => intro i id px; rfl
  | succ fuel ih =>
    intro i id px
    unfold tpm2Loop
    by_cases h1 : i < S + 4
    · rw [if_pos h1, if_pos h1, h i (by omega), h (i + 1) (by omega), h (i + 2) (by omega)]
      simp only [ih]
    · rw [if_neg h1, if_neg h1]

theorem handleTPM2_other (y : Host) (now : Nat) (u : Nat → Nat) (ip : Nat) (D : Device)
    (h1 : u 1 ≠ 0xda) :
    handleTPM2 y now u ip D = if u 1 = 0xaa then sendTPM2Ack D else D := by
  unfold handleTPM2
  simp only
  by_cases h : u 1 = 0xaa
  · rw [if_pos h, if_pos h]
  · rw [if_neg h, if_neg h, if_pos h1]

theorem handleTPM2_locked (y : Host) (now : Nat) (u : Nat → Nat) (ip : Nat) (D : Device)
    (h1 : u 1 = 0xda) (ho : D.realtimeOverride ≠ 0) :
    handleTPM2 y now u ip D
      = realtimeLock y now D.realtimeTimeoutMs REALTIME_MODE_TPM2NET
          { D with realtimeIP := ip } := by
  have l := realtimeLock_override y now D.realtimeTimeoutMs REALTIME_MODE_TPM2NET
    { D with realtimeIP := ip } ho
  unfold handleTPM2
  simp only
  rw [if_neg (by rw [h1]; decide), if_neg (by rw [h1]; decide), if_pos (by rw [l.2.2]; exact ho)]

theorem handleTPM2_congr (y : Host) (now : Nat) (u u' : Nat → Nat) (ip : Nat) (D : Device)
    (h1 : u' 1 = u 1)
    (h : u 1 = 0xda → D.realtimeOverride = 0 →
      ∀ k, k < (if (D.tpmPacketCount + 1) % 256 = 1 then ((u 2 <<< 8) + u 3) % 2 ^ 16
          else D.tpmPayloadFrameSize) + 6 → u' k = u k) :
    handleTPM2 y now u' ip D = handleTPM2 y now u ip D := by
  by_cases t : u 1 = 0xda
  · by_cases o : D.realtimeOverride = 0
    · have hk := h t o
      rw [handleTPM2_data y now u' ip D (by rw [h1]; exact t) o,
        handleTPM2_data y now u ip D t o]
      simp only [hk 2 (by omega), hk 3 (by omega), hk 4 (by omega), hk 5 (by omega)]
      rw [tpm2Loop_congr y D u u' _ _ hk]
    · rw [handleTPM2_locked y now u' ip D (by rw [h1]; exact t) o,
        handleTPM2_locked y now u ip D t o]
  · rw [handleTPM2_other y now u' ip D (by rw [h1]; exact t), handleTPM2_other y now u ip D t,
      h1]

theorem handleDatagram_tpm2_congr (x : Ext) (y : Host) (now localIP : Nat) (d : Datagram)
    (junk junk' : Nat → Nat) (D : Device) (h2 : 2 ≤ d.data.length)
    (h0 : d.data.getD 0 0 % 256 = 0x9c)
    (h : ∀ k, d.data.length ≤ k →
      k < (if (D.tpmPacketCount + 1) % 256 = 1 then
            ((udpInOf d.data junk 2 <<< 8) + udpInOf d.data junk 3) % 2 ^ 16
          else D.tpmPayloadFrameSize) + 6 →
      junk' k % 256 = junk k % 256) :
    handleDatagram x y now localIP d junk' D = handleDatagram x y now localIP d junk D := by
  have e0 : ∀ j, udpInOf d.data j 0 = 0x9c := fun j => by
    rw [udpInOf_lt _ _ _ (by omega), h0]
  have e1 : udpInOf d.data junk' 1 = udpInOf d.data junk 1 := by
    rw [udpInOf_lt _ _ _ (by omega), udpInOf_lt _ _ _ (by omega)]
  unfold handleDatagram
  simp only [e0, e1, Nat.reduceEqDiff, decide_False, Bool.and_false, Bool.false_and,
    Bool.false_eq_true, if_false, decide_True, if_true]
  split_ifs <;> first
    | rfl
    | exact handleTPM2_congr y now _ _ _ D e1
        (fun _ _ k hk => udpInOf_junk _ _ _ _ (fun hl => h k hl hk))

theorem handleDatagram_tpm2 (x : Ext) (y : Host) (now localIP : Nat) (d : Datagram)
    (junk : Nat → Nat) (dev : Device) (hd : dev.receiveDirect = true)
    (hl : 1 ≤ d.data.length ∧ d.data.length ≤ UDP_IN_MAXSIZE)
    (hs : d.isSupp = false → d.remoteIP ≠ localIP)
    (h0 : udpInOf d.data junk 0 = 0x9c) :
    handleDatagram x y now localIP d junk dev
      = handleTPM2 y now (udpInOf d.data junk) d.remoteIP dev := by
  unfold handleDatagram
  simp only
  rw [if_neg (by simp [hd])]
  rw [if_neg (by
    simp only [Bool.or_eq_true, decide_eq_true_eq, not_or]
    omega)]
  rw [if_neg (by
    simp only [Bool.and_eq_true, Bool.not_eq_true', decide_eq_true_eq, not_and]
    exact hs)]
  rw [if_neg (by
    simp only [Bool.and_eq_true, decide_eq_true_eq, not_and]
    intro ⟨⟨_, e⟩, _⟩
    omega)]
  rw [if_neg (by
    simp only [Bool.and_eq_true, decide_eq_true_eq, not_and]
    intro e
    omega)]
  rw [if_neg (by simp [hd]), if_pos h0]

theorem realtimeLock_frame (y : Host) (now timeoutMs md : Nat) (dev : Device) :
    (realtimeLock y now timeoutMs md dev).udpConnected = dev.udpConnected
    ∧ (realtimeLock y now timeoutMs md dev).receiveDirect = dev.receiveDirect
    ∧ (realtimeLock y now timeoutMs md dev).udp2Connected = dev.udp2Connected
    ∧ (realtimeLock y now timeoutMs md dev).e131NewData = dev.e131NewData := by
  obtain ⟨b, n, h⟩ := realtimeLock_eq y now timeoutMs md dev
  rw [h]
  exact ⟨rfl, rfl, rfl, rfl⟩

theorem tickStart_frame (x : Ext) (y : Host) (now : Nat) (dev : Device) :
    (tickStart x y now dev).udpConnected = dev.udpConnected
    ∧ (tickStart x y now dev).receiveDirect = dev.receiveDirect
    ∧ (tickStart x y now dev).udp2Connected = dev.udp2Connected
    ∧ (tickStart x y now dev).tpmPacketCount = dev.tpmPacketCount
    ∧ (tickStart x y now dev).tpmPayloadFrameSize = dev.tpmPayloadFrameSize
    ∧ (tickStart x y now dev).arlsOffset = dev.arlsOffset
    ∧ (tickStart x y now dev).arlsDisableGammaCorrection = dev.arlsDisableGammaCorrection
    ∧ (tickStart x y now dev).gammaCorrectCol = dev.gammaCorrectCol
    ∧ (tickStart x y now dev).pixels = dev.pixels := by
  obtain ⟨a, b, c, l, e, n, m, o, r, i, h⟩ := tickStart_eq x y now dev
  rw [h]
  exact ⟨rfl, rfl, rfl, rfl, rfl, rfl, rfl, rfl, rfl⟩

theorem tickStart_shows (x : Ext) (y : Host) (now : Nat) (dev : Device)
    (h : dev.e131NewData = false) :
    (tickStart x y now dev).shows = dev.shows
    ∧ (tickStart x y now dev).e131NewData = false := by
  obtain ⟨a, b, c, l, h1⟩ := secondNotification_eq x now dev
  obtain ⟨m, o, r, i, h3⟩ := checkExpiry_eq y now (e131Show now (secondNotification x now dev))
  have h2 : e131Show now (secondNotification x now dev) = secondNotification x now dev := by
    unfold e131Show
    rw [if_neg]
    rw [h1]
    simp [h]
  unfold tickStart
  rw [h3, h2, h1]
  exact ⟨rfl, h⟩

theorem checkExpiry_override_zero (y : Host) (now : Nat) (dev : Device)
    (h : dev.realtimeOverride = 0) : (checkExpiry y now dev).realtimeOverride = 0 := by
  unfold checkExpiry setBrightness
  split_ifs
  · rfl
  · exact h
  · exact h

theorem Reads_congr (socks : Sockets) (dev dev' : Device) (d : Datagram)
    (h : dev'.udp2Connected = dev.udp2Connected) (hr : Reads socks dev d) :
    Reads socks dev' d := by
  unfold Reads at hr ⊢
  rw [h]
  exact hr

theorem tickRun_succ (x : Ext) (y : Host) (localIP : Nat) (tk : Nat → Tick) (m : Nat)
    (dev : Device) :
    tickRun x y localIP ((List.range (m + 1)).map tk) dev
      = handleNotifications x y (tk m).now localIP (tk m).junk (tk m).socks
          (tickRun x y localIP ((List.range m).map tk) dev) := by
  unfold tickRun
  rw [List.range_succ, List.map_append, List.foldl_append]
  rfl

/-- One data packet of a TPM2.NET frame of `n` packets of `k` pixels each, processed as
packet `m + 1` in the TPM2.NET branch by a device that has counted `m` packets of the
frame. -/
theorem tpm2_step (y : Host) (now : Nat) (u : Nat → Nat) (ip : Nat) (dev : Device)
    (k m n L : Nat)
    (hq1 : u 1 = 0xda) (hq2 : (u 2 <<< 8) + u 3 = 3 * k)
    (hq4 : u 4 = m + 1) (hq5 : u 5 = n)
    (hk : 3 * k + 6 ≤ UDP_IN_MAXSIZE) (hm : m < 255)
    (hc : dev.tpmPacketCount = m) (ho : dev.realtimeOverride = 0) (h0 : dev.arlsOffset = 0)
    (hL : dev.pixels.length = L) (hL2 : L < 2 ^ 16) (hfit : k * m + k ≤ L)
    (hprev : 1 ≤ m → dev.tpmPayloadFrameSize = 3 * k) :
    (handleTPM2 y now u ip dev).tpmPayloadFrameSize = 3 * k
    ∧ (handleTPM2 y now u ip dev).realtimeMode ≠ 0
    ∧ (handleTPM2 y now u ip dev).realtimeOverride = 0
    ∧ (handleTPM2 y now u ip dev).arlsOffset = 0
    ∧ (handleTPM2 y now u ip dev).arlsDisableGammaCorrection
        = dev.arlsDisableGammaCorrection
    ∧ (handleTPM2 y now u ip dev).gammaCorrectCol = dev.gammaCorrectCol
    ∧ (handleTPM2 y now u ip dev).pixels.length = L
    ∧ (handleTPM2 y now u ip dev).tpmPacketCount = (if m + 1 = n then 0 else m + 1)
    ∧ (handleTPM2 y now u ip dev).shows
        = (if m + 1 = n then dev.shows + 1 else dev.shows)
    ∧ (∀ j, j < k → (handleTPM2 y now u ip dev).pixels[k * m + j]?
        = some (realtimeColor y dev (u (6 + 3 * j)) (u (6 + 3 * j + 1))
            (u (6 + 3 * j + 2)) 0))
    ∧ (dev.realtimeMode ≠ 0 → ∀ i, i < k * m →
        (handleTPM2 y now u ip dev).pixels[i]? = dev.pixels[i]?)
    ∧ (handleTPM2 y now u ip dev).udpConnected = dev.udpConnected
    ∧ (handleTPM2 y now u ip dev).receiveDirect = dev.receiveDirect
    ∧ (handleTPM2 y now u ip dev).udp2Connected = dev.udp2Connected
    ∧ (handleTPM2 y now u ip dev).e131NewData = dev.e131NewData := by
  have hk' : 3 * k + 6 ≤ 1472 := hk
  have lk := realtimeLock_tpm2 y now dev.realtimeTimeoutMs { dev with realtimeIP := ip }
  have lf := realtimeLock_frame y now dev.realtimeTimeoutMs REALTIME_MODE_TPM2NET
    { dev with realtimeIP := ip }
  rw [handleTPM2_data y now u ip dev hq1 ho]
  generalize realtimeLock y now dev.realtimeTimeoutMs REALTIME_MODE_TPM2NET
    { dev with realtimeIP := ip } = Lk at lk lf
  obtain ⟨ls, lm, lo, la, lg1, lg2, ll, lp⟩ := lk
  obtain ⟨f1, f2, f3, f4⟩ := lf
  have ec : (dev.tpmPacketCount + 1) % 256 = m + 1 := by
    rw [hc]; exact Nat.mod_eq_of_lt (by omega)
  have eS : (if m + 1 = 1 then (u 2 <<< 8 + u 3) % 2 ^ 16
      else dev.tpmPayloadFrameSize) = 3 * k := by
    by_cases h1 : m + 1 = 1
    · rw [if_pos h1, hq2]; exact Nat.mod_eq_of_lt (by omega)
    · rw [if_neg h1]; exact hprev (by omega)
  have eT : getLengthTotal Lk.pixels = L := by
    unfold getLengthTotal
    rw [ll]
    show dev.pixels.length % 2 ^ 16 = L
    rw [hL]; exact Nat.mod_eq_of_lt hL2
  have e3 : 3 * k / 3 = k := by omega
  have hkm : k * m < 2 ^ 16 := by omega
  simp only [ec, eS, hq4, hq5, eT, e3]
  have eid : (((k : Nat) : Int) * (((m + 1 : Nat) : Int) - 1) % 2 ^ 16).toNat = k * m :=
    tpm_id k m hkm
  rw [eid]
  have hfold := tpm2Loop_fold y dev u (3 * k) L (k * m) (L + 1) Lk.pixels
    (by rw [e3]; omega) hL2 (by omega) (by omega)
  rw [e3, Nat.min_eq_left (by omega)] at hfold
  rw [hfold]
  have hLk : Lk.pixels.length = L := by rw [ll]; exact hL
  have st := stores_getElem? y dev
    (fun j => (u (6 + 3 * j), u (6 + 3 * j + 1), u (6 + 3 * j + 2)))
    (k * m) h0 k Lk.pixels (by rw [hLk]; exact hL2) (by rw [hLk]; exact hfit)
  simp only at st
  generalize (List.range k).foldl (fun px j =>
    setRealtimePixel y dev px (k * m + j) (u (6 + 3 * j)) (u (6 + 3 * j + 1))
      (u (6 + 3 * j + 2)) 0) Lk.pixels = px at st ⊢
  obtain ⟨stl, stg⟩ := st
  have hpx : ∀ j, j < k → px[k * m + j]?
      = some (realtimeColor y dev (u (6 + 3 * j)) (u (6 + 3 * j + 1))
          (u (6 + 3 * j + 2)) 0) := by
    intro j hj
    rw [stg, if_pos (by omega)]
    have e : k * m + j - k * m = j := by omega
    rw [e]
  have hold : dev.realtimeMode ≠ 0 → ∀ i, i < k * m → px[i]? = dev.pixels[i]? := by
    intro h1 i hi
    rw [stg, if_neg (by omega), lp]
    exact h1
  by_cases hn : m + 1 = n
  · rw [if_pos hn, if_pos hn, if_pos hn]
    exact ⟨rfl, lm, lo.trans ho, la.trans h0, lg1, lg2, stl.trans hLk, rfl,
      by show Lk.shows + 1 = dev.shows + 1
         rw [ls], hpx, hold, f1, f2, f3, f4⟩
  · rw [if_neg hn, if_neg hn, if_neg hn]
    exact ⟨rfl, lm, lo.trans ho, la.trans h0, lg1, lg2, stl.trans hLk, rfl, ls, hpx, hold,
      f1, f2, f3, f4⟩

/-- One pass of `handleNotifications` that reads data packet `m + 1` of a TPM2.NET frame
of `n` packets of `k` pixels each, on a device that has counted `m` packets of the
frame. -/
theorem tpm2_tick (x : Ext) (y : Host) (now localIP : Nat) (junk : Nat → Nat)
    (socks : Sockets) (dev : Device) (d : Datagram) (k m n L : Nat)
    (hr : Reads socks dev d) (hu : dev.udpConnected = true) (hd : dev.receiveDirect = true)
    (hl : 3 * k + 6 ≤ d.data.length ∧ d.data.length ≤ UDP_IN_MAXSIZE)
    (hs : d.isSupp = false → d.remoteIP ≠ localIP)
    (hq0 : udpInOf d.data junk 0 = 0x9c) (hq1 : udpInOf d.data junk 1 = 0xda)
    (hq2 : (udpInOf d.data junk 2 <<< 8) + udpInOf d.data junk 3 = 3 * k)
    (hq4 : udpInOf d.data junk 4 = m + 1) (hq5 : udpInOf d.data junk 5 = n)
    (hm : m < 255)
    (hc : dev.tpmPacketCount = m) (ho : dev.realtimeOverride = 0) (h0 : dev.arlsOffset = 0)
    (hL : dev.pixels.length = L) (hL2 : L < 2 ^ 16) (hfit : k * m + k ≤ L)
    (hprev : 1 ≤ m → dev.tpmPayloadFrameSize = 3 * k) :
    (handleNotifications x y now localIP junk socks dev).tpmPayloadFrameSize = 3 * k
    ∧ (handleNotifications x y now localIP junk socks dev).realtimeMode ≠ 0
    ∧ (handleNotifications x y now localIP junk socks dev).realtimeOverride = 0
    ∧ (handleNotifications x y now localIP junk socks dev).arlsOffset = 0
    ∧ (handleNotifications x y now localIP junk socks dev).arlsDisableGammaCorrection
        = dev.arlsDisableGammaCorrection
    ∧ (handleNotifications x y now localIP junk socks dev).gammaCorrectCol
        = dev.gammaCorrectCol
    ∧ (handleNotifications x y now localIP junk socks dev).pixels.length = L
    ∧ (handleNotifications x y now localIP junk socks dev).tpmPacketCount
        = (if m + 1 = n then 0 else m + 1)
    ∧ (handleNotifications x y now localIP junk socks dev).shows
        = (tickStart x y now dev).shows + (if m + 1 = n then 1 else 0)
    ∧ (∀ j, j < k → (handleNotifications x y now localIP junk socks dev).pixels[k * m + j]?
        = some (realtimeColor y dev (udpInOf d.data junk (6 + 3 * j))
            (udpInOf d.data junk (6 + 3 * j + 1)) (udpInOf d.data junk (6 + 3 * j + 2)) 0))
    ∧ ((tickStart x y now dev).realtimeMode ≠ 0 → ∀ i, i < k * m →
        (handleNotifications x y now localIP junk socks dev).pixels[i]? = dev.pixels[i]?)
    ∧ (handleNotifications x y now localIP junk socks dev).udpConnected = true
    ∧ (handleNotifications x y now localIP junk socks dev).receiveDirect = true
    ∧ (handleNotifications x y now localIP junk socks dev).udp2Connected = dev.udp2Connected
    ∧ (handleNotifications x y now localIP junk socks dev).e131NewData
        = (tickStart x y now dev).e131NewData := by
  obtain ⟨t1, t2, t3, t4, t5, t6, t7, t8, t9⟩ := tickStart_frame x y now dev
  have tov : (tickStart x y now dev).realtimeOverride = 0 := by
    rw [tickStart_realtimeOverride]
    exact checkExpiry_override_zero y now dev ho
  rw [handleNotifications_reads x y now localIP junk socks dev d hr (t1.trans hu)]
  generalize socketRemoteIP socks.notifierUdp (tickStart x y now dev).notifierRemoteIP = rip
  generalize tickStart x y now dev = T at t1 t2 t3 t4 t5 t6 t7 t8 t9 tov
  rw [handleDatagram_tpm2 x y now localIP d junk { T with notifierRemoteIP := rip }
    (t2.trans hd) ⟨by omega, hl.2⟩ hs hq0]
  have st := tpm2_step y now (udpInOf d.data junk) d.remoteIP { T with notifierRemoteIP := rip }
    k m n L hq1 hq2 hq4 hq5 (by omega) hm (t4.trans hc) tov (t6.trans h0)
    (by show T.pixels.length = L
        rw [t9]; exact hL) hL2 hfit
    (fun h => t5.trans (hprev h))
  generalize handleTPM2 y now (udpInOf d.data junk) d.remoteIP
    { T with notifierRemoteIP := rip } = R at st
  obtain ⟨s1, s2, s3, s4, s5, s6, s7, s8, s9, s10, s11, s12, s13, s14, s15⟩ := st
  refine ⟨s1, s2, s3, s4, s5.trans t7, s6.trans t8, s7, s8, ?_, ?_, ?_, s12.trans (t1.trans hu),
    s13.trans (t2.trans hd), s14.trans t3, s15⟩
  · rw [s9]
    show (if m + 1 = n then T.shows + 1 else T.shows) = _
    split_ifs <;> rfl
  · intro j hj
    rw [s10 j hj]
    exact congrArg some (realtimeColor_cfg y dev { T with notifierRemoteIP := rip } _ _ _ _ t7 t8)
  · intro hT i hi
    rw [s11 hT i hi]
    show T.pixels[i]? = _
    rw [t9]

/-- What holds after the first `m` passes of a TPM2.NET frame of `n` packets, `m < n`. -/
theorem tpm2_frame_inv (x : Ext) (y : Host) (localIP n k : Nat) (tk : Nat → Tick)
    (d : Nat → Datagram) (dev : Device) (hn : n ≤ 255)
    (hu : dev.udpConnected = true) (hd : dev.receiveDirect = true)
    (hc : dev.tpmPacketCount = 0) (ho : dev.realtimeOverride = 0) (h0 : dev.arlsOffset = 0)
    (hL : n * k ≤ dev.pixels.length ∧ dev.pixels.length < 2 ^ 16)
    (hp : ∀ p, p < n → Reads (tk p).socks dev (d p)
      ∧ ((d p).isSupp = false → (d p).remoteIP ≠ localIP)
      ∧ 3 * k + 6 ≤ (d p).data.length ∧ (d p).data.length ≤ UDP_IN_MAXSIZE
      ∧ udpInOf (d p).data (tk p).junk 0 = 0x9c ∧ udpInOf (d p).data (tk p).junk 1 = 0xda
      ∧ (udpInOf (d p).data (tk p).junk 2 <<< 8) + udpInOf (d p).data (tk p).junk 3 = 3 * k
      ∧ udpInOf (d p).data (tk p).junk 4 = p + 1 ∧ udpInOf (d p).data (tk p).junk 5 = n) :
    ∀ m, m < n →
      (tickRun x y localIP ((List.range m).map tk) dev).tpmPacketCount = m
      ∧ (tickRun x y localIP ((List.range m).map tk) dev).realtimeOverride = 0
      ∧ (tickRun x y localIP ((List.range m).map tk) dev).arlsOffset = 0
      ∧ (tickRun x y localIP ((List.range m).map tk) dev).arlsDisableGammaCorrection
          = dev.arlsDisableGammaCorrection
      ∧ (tickRun x y localIP ((List.range m).map tk) dev).gammaCorrectCol
          = dev.gammaCorrectCol
      ∧ (tickRun x y localIP ((List.range m).map tk) dev).pixels.length = dev.pixels.length
      ∧ (tickRun x y localIP ((List.range m).map tk) dev).udpConnected = true
      ∧ (tickRun x y localIP ((List.range m).map tk) dev).receiveDirect = true
      ∧ (tickRun x y localIP ((List.range m).map tk) dev).udp2Connected = dev.udp2Connected
      ∧ (1 ≤ m →
          (tickRun x y localIP ((List.range m).map tk) dev).tpmPayloadFrameSize = 3 * k
          ∧ (tickRun x y localIP ((List.range m).map tk) dev).realtimeMode ≠ 0)
      ∧ (dev.e131NewData = false →
          (tickRun x y localIP ((List.range m).map tk) dev).e131NewData = false
          ∧ (tickRun x y localIP ((List.range m).map tk) dev).shows = dev.shows)
      ∧ ((∀ i, i + 1 < n → ¬ (tk (i + 1)).now % 2 ^ 32
            > (tickRun x y localIP ((List.range (i + 1)).map tk) dev).realtimeTimeout) →
          ∀ p j, p < m → j < k →
            (tickRun x y localIP ((List.range m).map tk) dev).pixels[k * p + j]?
              = some (realtimeColor y dev (udpInOf (d p).data (tk p).junk (6 + 3 * j))
                  (udpInOf (d p).data (tk p).junk (6 + 3 * j + 1))
                  (udpInOf (d p).data (tk p).junk (6 + 3 * j + 2)) 0)) := by
  intro m
  induction m with
  | zero =>
    intro _
    refine ⟨hc, ho, h0, rfl, rfl, rfl, hu, hd, rfl, fun h => absurd h (by decide),
      fun h => ⟨h, rfl⟩, ?_⟩
    intro _ p j hp' _
    omega
  | succ m ih =>
    intro hm
    obtain ⟨i1, i2, i3, i4, i5, i6, i7, i8, i9, i10, i11, i12⟩ := ih (by omega)
    obtain ⟨q1, q2, q3, q4, q5, q6, q7, q8, q9⟩ := hp m (by omega)
    have hfit : k * m + k ≤ dev.pixels.length := by
      have : k * (m + 1) ≤ n * k := by
        rw [Nat.mul_comm n k]
        exact Nat.mul_le_mul_left k (by omega)
      have e : k * (m + 1) = k * m + k := by ring
      omega
    have st := tpm2_tick x y (tk m).now localIP (tk m).junk (tk m).socks
      (tickRun x y localIP ((List.range m).map tk) dev) (d m) k m n
      dev.pixels.length (Reads_congr _ dev _ _ i9 q1) i7 i8 ⟨q3, q4⟩ q2 q5 q6 q7 q8 q9
      (by omega) i1 i2 i3 i6 hL.2 hfit (fun h => (i10 h).1)
    rw [← tickRun_succ] at st
    obtain ⟨s1, s2, s3, s4, s5, s6, s7, s8, s9, s10, s11, s12, s13, s14, s15⟩ := st
    rw [if_neg (by omega)] at s8 s9
    refine ⟨s8, s3, s4, s5.trans i4, s6.trans i5, s7, s12, s13, s14.trans i9,
      fun _ => ⟨s1, s2⟩, ?_, ?_⟩
    · intro he
      obtain ⟨e1, e2⟩ := i11 he
      obtain ⟨e3, e4⟩ := tickStart_shows x y (tk m).now _ e1
      exact ⟨s15.trans e4, by rw [s9, e3, e2, Nat.add_zero]⟩
    · intro hne p j hp' hj
      by_cases hpm : p = m
      · subst hpm
        rw [s10 j hj]
        exact congrArg some (realtimeColor_cfg y dev _ _ _ _ _ i4 i5)
      · have hlt : p < m := by omega
        have hidx : k * p + j < k * m := by
          have : k * (p + 1) ≤ k * m := Nat.mul_le_mul_left k (by omega)
          have e : k * (p + 1) = k * p + k := by ring
          omega
        have hT : (tickStart x y (tk m).now
            (tickRun x y localIP ((List.range m).map tk) dev)).realtimeMode ≠ 0 := by
          cases m with
          | zero => omega
          | succ m' =>
            rw [(tickStart_locked x y _ _ (Or.inr (hne m' (by omega)))).1]
            exact (i10 (by omega)).2
        rw [s11 hT _ hidx]
        exact i12 hne p j hlt hj

/-! ## C1: round trip of the header fields -/

/-- C1: when the packet that `notify` builds is applied by a receiver without selective
receive flag and without segment options, the brightness, the three colours of the
strip and the temporary transition delay of the receiver are the brightness, the
colours of the main segment and the transition delay of the sender. -/
theorem C1_roundtrip (x : Ext) (nowS nowR callMode localIP remoteIP : Nat)
    (followUp isSupp : Bool) (snd rcv r : State) (pkt : List Nat) (junk : Nat → Nat)
    (hbri : snd.bri < 256)
    (hc0 : (getMainSegment snd.strip).colors0 < 2 ^ 32)
    (hc1 : (getMainSegment snd.strip).colors1 < 2 ^ 32)
    (hc2 : (getMainSegment snd.strip).colors2 < 2 ^ 32)
    (htd : snd.transitionDelay < 2 ^ 16)
    (hsent : (notify x nowS callMode followUp snd).2 = some pkt)
    (hb : rcv.receiveNotificationBrightness = false)
    (hc : rcv.receiveNotificationColor = false)
    (he : rcv.receiveNotificationEffects = false)
    (hso : rcv.receiveSegmentOptions = false)
    (hacc : receiveSync x nowR localIP ⟨pkt, remoteIP, isSupp⟩ junk rcv = some r) :
    r.bri = snd.bri
    ∧ r.strip.color0 = (getMainSegment snd.strip).colors0
    ∧ r.strip.color1 = (getMainSegment snd.strip).colors1
    ∧ r.strip.color2 = (getMainSegment snd.strip).colors2
    ∧ r.transitionDelayTemp = snd.transitionDelay := by
  have hp := notify_packet x nowS callMode followUp snd pkt hsent
  subst hp
  have hr := (wledNotifier_some x nowR _ rcv r
    (receiveSync_some x nowR localIP _ junk rcv r hacc).1).1
  subst hr
  have hss : someSel rcv = false := by simp [someSel, hb, hc, he]
  have hu := udpInOf_header nowS callMode followUp snd junk
  have h11 : udpInOf (notifyPacket nowS callMode followUp snd) junk 11 = 11 := by
    rw [hu 11 (by omega)]; rfl
  obtain ⟨k0, k1, k2, -⟩ :=
    syncApply_colors x nowR (udpInOf (notifyPacket nowS callMode followUp snd) junk) rcv
  refine ⟨?_, ?_, ?_, ?_, ?_⟩
  · rw [syncApply_bri, hss, hu 2 (by omega)]
    simp only [notifyHeader, List.getD_cons_succ, List.getD_cons_zero]
    simp
    omega
  · rw [k0, syncColors_color0, h11, hss, hc, hso, hu 3 (by omega), hu 4 (by omega),
      hu 5 (by omega), hu 10 (by omega)]
    simp only [notifyHeader, List.getD_cons_succ, List.getD_cons_zero]
    simp [RGBW32_bytes _ hc0]
  · rw [k1, syncColors_color1, h11, hss, hc, hso, hu 12 (by omega), hu 13 (by omega),
      hu 14 (by omega), hu 15 (by omega)]
    simp only [notifyHeader, List.getD_cons_succ, List.getD_cons_zero]
    simp [RGBW32_bytes _ hc1]
  · rw [k2, syncColors_color2, h11, hss, hc, hso, hu 20 (by omega), hu 21 (by omega),
      hu 22 (by omega), hu 23 (by omega)]
    simp only [notifyHeader, List.getD_cons_succ, List.getD_cons_zero]
    simp [RGBW32_bytes _ hc2]
  · rw [syncApply_transitionDelayTemp, h11, hu 17 (by omega), hu 18 (by omega)]
    simp only [notifyHeader, List.getD_cons_succ, List.getD_cons_zero]
    rw [if_pos (by omega), shl8_and _ (Nat.mod_lt _ (by omega))]
    simp only [and_0xFF, Nat.shiftRight_eq_div_pow, Nat.shiftLeft_eq]
    omega

/-- Witness of C1: `receiverExample` applies the packet of `senderExample` and ends
with its brightness 128, its colours and its transition delay 750. -/
theorem C1_roundtrip_witness :
    receiveSync extExample 5000 99 ⟨packetExample, 7, false⟩ (fun _ => 0) receiverExample
      = some receivedExample
    ∧ receivedExample.bri = 128
    ∧ receivedExample.strip.color0 = 0x11223344
    ∧ receivedExample.strip.color1 = 0xAABBCCDD
    ∧ receivedExample.strip.color2 = 0x01020304
    ∧ receivedExample.transitionDelayTemp = 750 :=
  ⟨by decide,
   C1_roundtrip extExample 100000 5000 1 99 7 false false senderExample receiverExample
     receivedExample packetExample (fun _ => 0) (by decide) (by decide) (by decide) (by decide)
     (by decide) rfl rfl rfl rfl rfl (by decide)⟩

/-! ## C2: version-gated decoding -/

/-- C2: for an accepted legacy sync packet of version `v` (byte 11), a field introduced
in version `k` is left at the prior value of the receiver when `v < k`: secondary
colour (2), effect intensity (3), transition delay (4), palette (5), timebase (6),
tertiary colour (7), system time (8), CCT (10), the geometry, options and opacity
that only segment records carry (11); the sync-group byte 36 has no influence when
`v < 9`; with `v = 0` the primary colour, when colours are applied, gets white 0; and the result
is the same for every buffer that agrees on the fields that the version defines. -/
theorem C2_version_gating (x : Ext) (now localIP : Nat) (d : Datagram) (junk : Nat → Nat)
    (s r : State) (h : receiveSync x now localIP d junk s = some r) :
    (udpInOf d.data junk 11 < 2 → r.strip.color1 = s.strip.color1)
    ∧ (udpInOf d.data junk 11 < 3 →
        r.strip.segments.map Segment.intensity = s.strip.segments.map Segment.intensity)
    ∧ (udpInOf d.data junk 11 < 4 → r.transitionDelayTemp = s.transitionDelayTemp)
    ∧ (udpInOf d.data junk 11 < 5 →
        r.strip.segments.map Segment.palette = s.strip.segments.map Segment.palette)
    ∧ (udpInOf d.data junk 11 < 6 → r.strip.timebase = s.strip.timebase)
    ∧ (udpInOf d.data junk 11 < 7 → r.strip.color2 = s.strip.color2)
    ∧ (udpInOf d.data junk 11 < 8 → r.toki = s.toki)
    ∧ (udpInOf d.data junk 11 < 9 →
        ∀ b, wledNotifier x now (Function.update (udpInOf d.data junk) 36 b) s = some r)
    ∧ (udpInOf d.data junk 11 < 10 → r.strip.cct = s.strip.cct)
    ∧ (udpInOf d.data junk 11 < 11 →
        r.strip.segments.map
            (fun g => (g.start, g.stop, g.offset, g.grouping, g.spacing, g.options, g.opacity))
          = s.strip.segments.map
            (fun g => (g.start, g.stop, g.offset, g.grouping, g.spacing, g.options, g.opacity)))
    ∧ (udpInOf d.data junk 11 = 0 → (s.receiveNotificationColor || !someSel s) = true →
        r.strip.color0
            = RGBW32 (udpInOf d.data junk 3) (udpInOf d.data junk 4) (udpInOf d.data junk 5) 0
          ∧ W r.strip.color0 = 0)
    ∧ (∀ u', sameFields (udpInOf d.data junk) u' → wledNotifier x now u' s = some r) := by
  have hw := (receiveSync_some x now localIP d junk s r h).1
  have hr := (wledNotifier_some x now _ s r hw).1
  obtain ⟨k0, k1, k2, k3⟩ := syncApply_colors x now (udpInOf d.data junk) s
  refine ⟨?_, ?_, ?_, ?_, ?_, ?_, ?_, ?_, ?_, ?_, ?_, ?_⟩
  · intro hv
    rw [hr, k1, syncColors_color1, if_neg (fun c => by omega)]
  · intro hv
    rw [hr]
    exact syncApply_segments_map Segment.intensity x now _ s (by omega) (fun _ _ => rfl)
      (fun _ _ => rfl) (fun c => absurd c (by omega)) (fun _ _ _ => rfl)
  · intro hv
    rw [hr, syncApply_transitionDelayTemp, if_neg (by omega)]
  · intro hv
    rw [hr]
    exact syncApply_segments_map Segment.palette x now _ s (by omega) (fun _ _ => rfl)
      (fun _ _ => rfl) (fun _ _ _ => rfl) (fun c => absurd c (by omega))
  · intro hv
    rw [hr]
    exact syncApply_timebase x now _ s (Or.inl hv)
  · intro hv
    rw [hr, k2, syncColors_color2, if_neg (fun c => by omega)]
  · intro hv
    rw [hr, syncApply_toki, if_neg (fun c => by omega)]
  · intro hv b
    rw [wledNotifier_congr x now _ _ s (sameFields_update36 _ b hv)]
    exact hw
  · intro hv
    rw [hr, k3]
    exact syncColors_cct s _ _ _ (Or.inl hv)
  · intro hv
    rw [hr]
    exact syncApply_segments_map _ x now _ s hv (fun _ _ => rfl)
      (fun _ _ => rfl) (fun _ _ _ => rfl) (fun _ _ _ => rfl)
  · intro hv hcol
    have e : (if (0 : Nat) > 0 then udpInOf d.data junk 10 else 0) = 0 := by simp
    have hc : ((s.receiveNotificationColor || !someSel s)
        && (decide (0 < 11) || !s.receiveSegmentOptions)) = true := by
      rw [hcol]; rfl
    rw [hr, k0, syncColors_color0, hv, if_pos hc, e]
    exact ⟨rfl, by rw [W_RGBW32]⟩
  · intro u' hu
    rw [wledNotifier_congr x now _ _ s hu]
    exact hw

/-- Witness of C2: `receiverExample` applies a 12-byte packet of version 1; its
secondary colour, transition delay, timebase and system time stay as they were. -/
theorem C2_version_gating_witness :
    receiveSync extExample 5000 99 ⟨legacyPacket 1, 7, false⟩ (fun _ => 0) receiverExample
      = some (legacyReceived 1)
    ∧ udpInOf (legacyPacket 1) (fun _ => 0) 11 = 1
    ∧ (legacyReceived 1).strip.color1 = receiverExample.strip.color1
    ∧ (legacyReceived 1).transitionDelayTemp = receiverExample.transitionDelayTemp
    ∧ (legacyReceived 1).strip.timebase = receiverExample.strip.timebase
    ∧ (legacyReceived 1).toki = receiverExample.toki :=
  ⟨by decide, by decide,
   (C2_version_gating extExample 5000 99 ⟨legacyPacket 1, 7, false⟩ (fun _ => 0)
     receiverExample (legacyReceived 1) (by decide)).1 (by decide),
   (C2_version_gating extExample 5000 99 ⟨legacyPacket 1, 7, false⟩ (fun _ => 0)
     receiverExample (legacyReceived 1) (by decide)).2.2.1 (by decide),
   (C2_version_gating extExample 5000 99 ⟨legacyPacket 1, 7, false⟩ (fun _ => 0)
     receiverExample (legacyReceived 1) (by decide)).2.2.2.2.1 (by decide),
   (C2_version_gating extExample 5000 99 ⟨legacyPacket 1, 7, false⟩ (fun _ => 0)
     receiverExample (legacyReceived 1) (by decide)).2.2.2.2.2.2.1 (by decide)⟩

/-! ## C3: packets of version 0 -/

/-- C3, as stated, fails: a 12-byte packet of version 0 whose bytes 6 and 7 are 1 and 30
switches the nightlight of `receiverExample` on, with a delay of 30 minutes: more than
the brightness and the primary colour is applied. -/
theorem C3_counterexample :
    receiveSync extExample 5000 99 ⟨legacyPacket 0, 7, false⟩ (fun _ => 0) receiverExample
      = some (legacyReceived 0)
    ∧ (legacyPacket 0)[11]? = some 0
    ∧ receiverExample.nightlightActive = false
    ∧ (legacyReceived 0).nightlightActive = true
    ∧ receiverExample.nightlightDelayMins = 0
    ∧ (legacyReceived 0).nightlightDelayMins = 30 := by
  decide

/-- C3, amended: an accepted legacy sync packet of version 0 applies the fields of
version 0 only: the brightness (byte 2), the primary colour (bytes 3 to 5) with white
0, the nightlight (bytes 6 and 7) and, in the segments, the effect mode and speed;
the secondary and tertiary colours, the CCT, the timebase, the system time and the
transition delay keep their values, as do the geometry, options, opacity, intensity
and palette of every segment, and no byte of the packet other than bytes 0 to 9 and
the version byte has any influence. -/
theorem C3_version_zero (x : Ext) (now localIP : Nat) (d : Datagram) (junk : Nat → Nat)
    (s r : State) (h : receiveSync x now localIP d junk s = some r)
    (hv : udpInOf d.data junk 11 = 0) :
    r.strip.color1 = s.strip.color1 ∧ r.strip.color2 = s.strip.color2
    ∧ r.strip.cct = s.strip.cct
    ∧ r.strip.timebase = s.strip.timebase ∧ r.toki = s.toki
    ∧ r.transitionDelayTemp = s.transitionDelayTemp
    ∧ r.strip.color0
        = (if s.receiveNotificationColor || !someSel s then
            RGBW32 (udpInOf d.data junk 3) (udpInOf d.data junk 4) (udpInOf d.data junk 5) 0
          else s.strip.color0)
    ∧ r.bri = (if s.receiveNotificationBrightness || !someSel s then udpInOf d.data junk 2
        else s.bri)
    ∧ r.nightlightActive = decide (udpInOf d.data junk 6 ≠ 0)
    ∧ r.nightlightDelayMins
        = (if udpInOf d.data junk 6 ≠ 0 then udpInOf d.data junk 7 else s.nightlightDelayMins)
    ∧ r.strip.segments.map
          (fun g => (g.start, g.stop, g.offset, g.grouping, g.spacing, g.options, g.opacity,
            g.intensity, g.palette))
        = s.strip.segments.map
          (fun g => (g.start, g.stop, g.offset, g.grouping, g.spacing, g.options, g.opacity,
            g.intensity, g.palette))
    ∧ ∀ u', (∀ i, i ≤ 9 → u' i = udpInOf d.data junk i) → u' 11 = 0 →
        wledNotifier x now u' s = some r := by
  have hw := (receiveSync_some x now localIP d junk s r h).1
  have hr := (wledNotifier_some x now _ s r hw).1
  obtain ⟨k0, k1, k2, k3⟩ := syncApply_colors x now (udpInOf d.data junk) s
  refine ⟨?_, ?_, ?_, ?_, ?_, ?_, ?_, ?_, ?_, ?_, ?_, ?_⟩
  · rw [hr, k1, syncColors_color1, if_neg (fun c => by omega)]
  · rw [hr, k2, syncColors_color2, if_neg (fun c => by omega)]
  · rw [hr, k3]
    exact syncColors_cct s _ _ _ (Or.inl (by omega))
  · rw [hr]
    exact syncApply_timebase x now _ s (Or.inl (by omega))
  · rw [hr, syncApply_toki, if_neg (fun c => by omega)]
  · rw [hr, syncApply_transitionDelayTemp, if_neg (by omega)]
  · rw [hr, k0, syncColors_color0, hv]
    simp
  · rw [hr, syncApply_bri]
  · rw [hr, syncApply_nightlightActive]
  · rw [hr, syncApply_nightlightDelayMins]
  · rw [hr]
    exact syncApply_segments_map _ x now _ s (by omega) (fun _ _ => rfl)
      (fun _ _ => rfl) (fun c => absurd c (by omega)) (fun c => absurd c (by omega))
  · intro u' h9 h11
    rw [wledNotifier_congr x now _ _ s (sameFields_v0 _ u' hv h9 h11)]
    exact hw

/-- Witness of C3, amended: the version-0 packet leaves the secondary colour and the
transition delay of `receiverExample` as they were and sets its brightness to 50. -/
theorem C3_version_zero_witness :
    receiveSync extExample 5000 99 ⟨legacyPacket 0, 7, false⟩ (fun _ => 0) receiverExample
      = some (legacyReceived 0)
    ∧ udpInOf (legacyPacket 0) (fun _ => 0) 11 = 0
    ∧ (legacyReceived 0).strip.color1 = receiverExample.strip.color1
    ∧ (legacyReceived 0).strip.color2 = receiverExample.strip.color2 :=
  ⟨by decide, by decide,
   (C3_version_zero extExample 5000 99 ⟨legacyPacket 0, 7, false⟩ (fun _ => 0)
     receiverExample (legacyReceived 0) (by decide) (by decide)).1,
   (C3_version_zero extExample 5000 99 ⟨legacyPacket 0, 7, false⟩ (fun _ => 0)
     receiverExample (legacyReceived 0) (by decide) (by decide)).2.1⟩

/-! ## C4: packets of a custom version -/

/-- C4, as stated, fails: the packet of `senderExample` with version byte 200 is applied
by `receiverExample`, whose brightness goes from 1 to 128 and whose nightlight is
switched on. -/
theorem C4_counterexample :
    receiveSync extExample 5000 99 ⟨customPacketExample, 7, false⟩ (fun _ => 0) receiverExample
      = some customReceived
    ∧ customPacketExample[0]? = some 0 ∧ customPacketExample[11]? = some 200
    ∧ receiverExample.bri = 1 ∧ customReceived.bri = 128
    ∧ receiverExample.nightlightActive = false ∧ customReceived.nightlightActive = true
    ∧ receiverExample.strip.color0 = 0 ∧ customReceived.strip.color0 = 0x11223344 := by
  decide

/-- C4, amended: an accepted legacy sync packet whose version byte is 200 or more leaves
the segments (and so the effects), the playlist, the CCT, the timebase and the system
time of the receiver as they were; its brightness, nightlight, transition delay and,
when colours are applied and segment options are not received, its three colours
are still applied. -/
theorem C4_custom_version (x : Ext) (now localIP : Nat) (d : Datagram) (junk : Nat → Nat)
    (s r : State) (h : receiveSync x now localIP d junk s = some r)
    (hv : 200 ≤ udpInOf d.data junk 11) :
    r.strip.segments = s.strip.segments
    ∧ r.currentPlaylist = s.currentPlaylist
    ∧ r.strip.cct = s.strip.cct
    ∧ r.strip.timebase = s.strip.timebase ∧ r.toki = s.toki
    ∧ r.bri = (if s.receiveNotificationBrightness || !someSel s then udpInOf d.data junk 2
        else s.bri)
    ∧ r.nightlightActive = decide (udpInOf d.data junk 6 ≠ 0)
    ∧ r.nightlightDelayMins
        = (if udpInOf d.data junk 6 ≠ 0 then udpInOf d.data junk 7 else s.nightlightDelayMins)
    ∧ r.transitionDelayTemp
        = ((udpInOf d.data junk 17 <<< 0) &&& 0xFF) + ((udpInOf d.data junk 18 <<< 8) &&& 0xFF00)
    ∧ ((s.receiveNotificationColor || !someSel s) = true → s.receiveSegmentOptions = false →
        r.strip.color0 = RGBW32 (udpInOf d.data junk 3) (udpInOf d.data junk 4)
            (udpInOf d.data junk 5) (udpInOf d.data junk 10)
        ∧ r.strip.color1 = RGBW32 (udpInOf d.data junk 12) (udpInOf d.data junk 13)
            (udpInOf d.data junk 14) (udpInOf d.data junk 15)
        ∧ r.strip.color2 = RGBW32 (udpInOf d.data junk 20) (udpInOf d.data junk 21)
            (udpInOf d.data junk 22) (udpInOf d.data junk 23)) := by
  have hw := (receiveSync_some x now localIP d junk s r h).1
  have hr := (wledNotifier_some x now _ s r hw).1
  obtain ⟨k0, k1, k2, k3⟩ := syncApply_colors x now (udpInOf d.data junk) s
  refine ⟨?_, ?_, ?_, ?_, ?_, ?_, ?_, ?_, ?_, ?_⟩
  · rw [hr, syncApply_segments, syncFx_ge _ _ _ _ _ _ _ hv]
    simp
  · rw [hr, syncApply_currentPlaylist, syncFx_ge _ _ _ _ _ _ _ hv]
    simp
  · rw [hr, k3]
    exact syncColors_cct s _ _ _ (Or.inr hv)
  · rw [hr]
    exact syncApply_timebase x now _ s (Or.inr hv)
  · rw [hr, syncApply_toki, if_neg (fun c => by omega)]
  · rw [hr, syncApply_bri]
  · rw [hr, syncApply_nightlightActive]
  · rw [hr, syncApply_nightlightDelayMins]
  · rw [hr, syncApply_transitionDelayTemp, if_pos (by omega)]
  · intro hcol hso
    have hc : ((s.receiveNotificationColor || !someSel s)
        && (decide (udpInOf d.data junk 11 < 11) || !s.receiveSegmentOptions)) = true := by
      rw [hcol, hso]; simp
    refine ⟨?_, ?_, ?_⟩
    · rw [hr, k0, syncColors_color0, if_pos hc, if_pos (by omega)]
    · rw [hr, k1, syncColors_color1, if_pos ⟨hc, by omega⟩]
    · rw [hr, k2, syncColors_color2, if_pos ⟨hc, by omega⟩]

/-- Witness of C4, amended: the packet of version 200 leaves the segments and the
system time of `receiverExample` as they were. -/
theorem C4_custom_version_witness :
    receiveSync extExample 5000 99 ⟨customPacketExample, 7, false⟩ (fun _ => 0) receiverExample
      = some customReceived
    ∧ 200 ≤ udpInOf customPacketExample (fun _ => 0) 11
    ∧ customReceived.strip.segments = receiverExample.strip.segments
    ∧ customReceived.toki = receiverExample.toki :=
  ⟨by decide, by decide,
   (C4_custom_version extExample 5000 99 ⟨customPacketExample, 7, false⟩ (fun _ => 0)
     receiverExample customReceived (by decide) (by decide)).1,
   (C4_custom_version extExample 5000 99 ⟨customPacketExample, 7, false⟩ (fun _ => 0)
     receiverExample customReceived (by decide) (by decide)).2.2.2.2.1⟩

/-! ## C5: truncated packets -/

/-- C5, as stated, fails: the first 40 bytes of a version-11 packet, fewer than the 41
that this version requires, are applied by `receiverExample`, whose brightness goes
from 1 to 128. -/
theorem C5_counterexample :
    receiveSync extExample 5000 99 ⟨truncatedPacketExample, 7, false⟩ (fun _ => 0)
        receiverExample
      = some truncatedReceived
    ∧ truncatedPacketExample.length = 40
    ∧ truncatedPacketExample[0]? = some 0 ∧ truncatedPacketExample[11]? = some 11
    ∧ receiverExample.bri = 1 ∧ truncatedReceived.bri = 128 := by
  decide

/-- C5, amended: the notifier branch has no check of the received length.  A datagram
that is applied, whatever its length, counts one state update, sets the nightlight
from byte 6 of the buffer and, unless brightness is deselected, the brightness from
byte 2; and every other datagram of 1 to 1472 bytes from the same socket and sender
that leaves the same bytes in the buffer (for one, a truncation of the packet whose
lost bytes are in the memory behind it) is applied with the same result. -/
theorem C5_no_length_check (x : Ext) (now localIP : Nat) (d : Datagram) (junk : Nat → Nat)
    (s r : State) (h : receiveSync x now localIP d junk s = some r) :
    r.stateUpdatedCalls = s.stateUpdatedCalls + 1
    ∧ r.nightlightActive = decide (udpInOf d.data junk 6 ≠ 0)
    ∧ ((s.receiveNotificationBrightness || !someSel s) = true → r.bri = udpInOf d.data junk 2)
    ∧ ∀ (d' : Datagram) (junk' : Nat → Nat), d'.isSupp = d.isSupp → d'.remoteIP = d.remoteIP →
        0 < d'.data.length → d'.data.length ≤ UDP_IN_MAXSIZE →
        (∀ i, udpInOf d'.data junk' i = udpInOf d.data junk i) →
        receiveSync x now localIP d' junk' s = some r := by
  obtain ⟨hw, -, -, h0, hrt, hn, hc, hself⟩ := receiveSync_some x now localIP d junk s r h
  have hr := (wledNotifier_some x now _ s r hw).1
  refine ⟨?_, ?_, ?_, ?_⟩
  · rw [hr, syncApply_stateUpdatedCalls]
  · rw [hr, syncApply_nightlightActive]
  · intro hb
    rw [hr, syncApply_bri, if_pos hb]
  · intro d' junk' hs hi hl hm hu
    have e : udpInOf d'.data junk' = udpInOf d.data junk := funext hu
    apply receiveSync_of x now localIP d' junk' s r hc hn hl hm
    · rw [hs, hi]; exact hself
    · rw [e]; exact h0
    · exact hrt
    · rw [e]; exact hw

/-- Witness of C5, amended: the truncated packet is applied by `receiverExample` and
sets its brightness to byte 2 of the buffer. -/
theorem C5_no_length_check_witness :
    receiveSync extExample 5000 99 ⟨truncatedPacketExample, 7, false⟩ (fun _ => 0)
        receiverExample
      = some truncatedReceived
    ∧ truncatedPacketExample.length = 40
    ∧ truncatedReceived.stateUpdatedCalls = receiverExample.stateUpdatedCalls + 1
    ∧ truncatedReceived.bri = udpInOf truncatedPacketExample (fun _ => 0) 2 :=
  ⟨by decide, by decide,
   (C5_no_length_check extExample 5000 99 ⟨truncatedPacketExample, 7, false⟩ (fun _ => 0)
     receiverExample truncatedReceived (by decide)).1,
   (C5_no_length_check extExample 5000 99 ⟨truncatedPacketExample, 7, false⟩ (fun _ => 0)
     receiverExample truncatedReceived (by decide)).2.2.1 (by decide)⟩

/-! ## C6: the bytes that are read -/

/-- C6, as stated, fails: `headerOnlyExample` has 41 bytes and declares one segment
record.  The loop processes that record although the datagram holds none, reading
bytes 41 and beyond: with zeros behind the datagram segment 0 gets opacity 0, with
ones behind it segment 1 gets opacity 1. -/
theorem C6_counterexample :
    headerOnlyExample.length = 41
    ∧ headerOnlyExample[11]? = some 11 ∧ headerOnlyExample[39]? = some 1
    ∧ segReceiverExample.strip.segments.map Segment.opacity = [200, 200]
    ∧ (receiveSync extExample 5000 99 ⟨headerOnlyExample, 7, false⟩ (fun _ => 0)
          segReceiverExample).map (fun r => r.strip.segments.map Segment.opacity)
        = some [0, 200]
    ∧ (receiveSync extExample 5000 99 ⟨headerOnlyExample, 7, false⟩ (fun _ => 1)
          segReceiverExample).map (fun r => r.strip.segments.map Segment.opacity)
        = some [200, 1] := by
  decide

/-- C6, amended: the bytes that the notifier branch reads are bytes of the 41-byte
header or one of the 28 bytes of one of the `udpIn[39]` declared segment records
(record `k` at offset `41 + k * udpIn[40]`), whether or not they lie within the
received length: if the memory behind a datagram is changed anywhere else, the
result is the same. -/
theorem C6_bytes_read (x : Ext) (now localIP : Nat) (d : Datagram) (junk junk' : Nat → Nat)
    (s : State)
    (hj : ∀ i, d.data.length ≤ i →
      (i < 41 ∨ ∃ k j, k < udpInOf d.data junk 39 ∧ j < 28
        ∧ i = j + (41 + k * udpInOf d.data junk 40) % 2 ^ 16) →
      junk' i % 256 = junk i % 256) :
    receiveSync x now localIP d junk' s = receiveSync x now localIP d junk s := by
  have hh : ∀ i, i < 41 → udpInOf d.data junk' i = udpInOf d.data junk i :=
    fun i hi => udpInOf_junk _ _ _ _ (fun hl => hj i hl (Or.inl hi))
  have hs : sameFields (udpInOf d.data junk) (udpInOf d.data junk') := by
    refine ⟨fun i _ => hh i (by omega), hh 11 (by omega), fun _ => hh 10 (by omega),
      fun _ i _ _ => hh i (by omega), fun _ => hh 16 (by omega),
      fun _ i _ _ => hh i (by omega), fun _ => hh 19 (by omega),
      fun _ i _ _ => hh i (by omega), fun _ i _ _ => hh i (by omega),
      fun _ i _ _ => hh i (by omega), fun _ => hh 36 (by omega),
      fun _ i _ _ => hh i (by omega),
      fun _ => ⟨hh 39 (by omega), hh 40 (by omega), fun k j hk hjj =>
        udpInOf_junk _ _ _ _ (fun hl => hj _ hl (Or.inr ⟨k, j, hk, hjj, rfl⟩))⟩⟩
  exact receiveSync_congr x now localIP d junk junk' s (hh 0 (by omega)) (hh 1 (by omega))
    (wledNotifier_congr x now _ _ s hs)

/-- Witness of C6, amended: behind `headerOnlyExample`, which declares one record at
bytes 41 to 68, the memory from byte 69 on has no influence on the result. -/
theorem C6_bytes_read_witness :
    receiveSync extExample 5000 99 ⟨headerOnlyExample, 7, false⟩
        (fun i => if i < 69 then 1 else 7) segReceiverExample
      = receiveSync extExample 5000 99 ⟨headerOnlyExample, 7, false⟩
        (fun i => if i < 69 then 1 else 0) segReceiverExample :=
  C6_bytes_read extExample 5000 99 ⟨headerOnlyExample, 7, false⟩
    (fun i => if i < 69 then 1 else 0) (fun i => if i < 69 then 1 else 7) segReceiverExample
    (by
      have e39 : udpInOf headerOnlyExample (fun i => if i < 69 then 1 else 0) 39 = 1 := by decide
      have e40 : udpInOf headerOnlyExample (fun i => if i < 69 then 1 else 0) 40 = 28 := by decide
      intro i _ hi
      simp only [e39, e40] at hi
      have hlt : i < 69 := by
        rcases hi with hi | ⟨k, j, hk, hjj, rfl⟩
        · omega
        · have : k = 0 := by omega
          subst this
          omega
      simp only [hlt, if_true])

/-! ## C7: records of a segment outside the table -/

/-- The evaluation of the code for C7: `outOfRangeExample` is a well-formed packet of 69
bytes with one segment record whose id is 2, and `segReceiverExample` has 2 segments,
the valid ids being 0 and 1.  The test of line 324 does not skip the record: the loop
body goes on to `strip.getSegment(2)`. -/
theorem C7_not_skipped :
    outOfRangeExample.length = 69
    ∧ outOfRangeExample[11]? = some 11 ∧ outOfRangeExample[39]? = some 1
    ∧ outOfRangeExample[40]? = some 28 ∧ outOfRangeExample[41]? = some 2
    ∧ getMaxSegments segReceiverExample.strip.segments = 2
    ∧ syncSegmentId (udpInOf outOfRangeExample (fun _ => 0))
        segReceiverExample.strip.segments 0 = some 2 := by
  decide

/-! ## C8: the layout of the packet -/

/-- C8: the packet that `notify` sends has length `41 + 28 * n` where `n`, the number of
segments, is the value of byte 39; byte 40 is 28, byte 0 is 0, byte 11 is 11, and the
28 bytes from `41 + 28 * i` on are the record of segment `i`, whose first byte is `i`. -/
theorem C8_packet_layout (x : Ext) (now callMode : Nat) (followUp : Bool) (s : State)
    (pkt : List Nat) (hn : getMaxSegments s.strip.segments < 256)
    (h : (notify x now callMode followUp s).2 = some pkt) :
    pkt[39]? = some (getMaxSegments s.strip.segments)
    ∧ pkt.length = 41 + 28 * getMaxSegments s.strip.segments
    ∧ pkt.length = WLEDPACKETSIZE (getMaxSegments s.strip.segments)
    ∧ pkt[40]? = some 28 ∧ pkt[0]? = some 0 ∧ pkt[11]? = some 11
    ∧ ∀ i, i < getMaxSegments s.strip.segments →
        (pkt.drop (41 + 28 * i)).take 28 = notifySegment i (getSegment s.strip.segments i)
        ∧ pkt[41 + 28 * i]? = some i := by
  have hp := notify_packet x now callMode followUp s pkt h
  subst hp
  have hlen := notifyPacket_length now callMode followUp s
  refine ⟨?_, hlen, ?_, ?_, ?_, ?_, ?_⟩
  · rw [getElem?_of_lt _ _ (by omega), notifyPacket_header _ _ _ _ _ _ (by omega)]
    show some (getMaxSegments s.strip.segments % 256) = _
    rw [Nat.mod_eq_of_lt hn]
  · rw [hlen]
    unfold WLEDPACKETSIZE UDP_SEG_SIZE
    omega
  · rw [getElem?_of_lt _ _ (by omega), notifyPacket_header _ _ _ _ _ _ (by omega)]
    rfl
  · rw [getElem?_of_lt _ _ (by omega), notifyPacket_header _ _ _ _ _ _ (by omega)]
    rfl
  · rw [getElem?_of_lt _ _ (by omega), notifyPacket_header _ _ _ _ _ _ (by omega)]
    rfl
  · intro i hi
    constructor
    · have := slice_eq (notifyPacket now callMode followUp s)
        (notifySegment i (getSegment s.strip.segments i)) (41 + 28 * i)
        (by rw [notifySegment_length]; omega)
        (fun k hk => notifyPacket_segment now callMode followUp s i k 0 hi
          (by rw [notifySegment_length] at hk; exact hk))
      rwa [notifySegment_length] at this
    · rw [getElem?_of_lt _ _ (by omega)]
      have := notifyPacket_segment now callMode followUp s i 0 0 hi (by omega)
      rw [Nat.add_zero] at this
      rw [this]
      show some (i % 256) = _
      rw [Nat.mod_eq_of_lt (by omega)]

/-- Witness of C8: the packet of `senderExample`, a device of two segments, has
`41 + 28 * 2 = 97` bytes, and byte 39 is 2. -/
theorem C8_packet_layout_witness :
    getMaxSegments senderExample.strip.segments < 256
    ∧ (notify extExample 100000 1 false senderExample).2 = some packetExample
    ∧ packetExample[39]? = some 2 ∧ packetExample.length = 97 :=
  ⟨by decide, rfl,
   (C8_packet_layout extExample 100000 1 false senderExample packetExample (by decide) rfl).1,
   (C8_packet_layout extExample 100000 1 false senderExample packetExample (by decide) rfl).2.1⟩

/-! ## C9: byte order -/

/-- C9, as stated, fails: the transition delay 750 = 2 * 256 + 238 of `senderExample`
is sent with its low byte 238 at offset 17 and its high byte 2 at offset 18, the
least significant byte at the lower offset. -/
theorem C9_counterexample :
    senderExample.transitionDelay = 2 * 256 + 238
    ∧ (notify extExample 100000 1 false senderExample).2 = some packetExample
    ∧ packetExample[17]? = some 238 ∧ packetExample[18]? = some 2 := by
  decide

/-- C9, amended: in the packet that `notify` sends, the timebase (bytes 25 to 28), the
unix seconds (30 to 33), the milliseconds (34 to 35) and the start, stop and offset
of every segment record are stored with the most significant byte at the lower
offset, whereas the transition delay (bytes 17 to 18) is stored with the least
significant byte first. -/
theorem C9_byte_order (x : Ext) (now callMode : Nat) (followUp : Bool) (s : State)
    (pkt : List Nat) (h : (notify x now callMode followUp s).2 = some pkt) :
    (pkt.getD 17 0 + pkt.getD 18 0 * 2 ^ 8 = s.transitionDelay % 2 ^ 16
      ∧ pkt.getD 17 0 < 256 ∧ pkt.getD 18 0 < 256)
    ∧ (pkt.getD 25 0 * 2 ^ 24 + pkt.getD 26 0 * 2 ^ 16 + pkt.getD 27 0 * 2 ^ 8 + pkt.getD 28 0
        = (now + s.strip.timebase) % 2 ^ 32
      ∧ pkt.getD 26 0 < 256 ∧ pkt.getD 27 0 < 256 ∧ pkt.getD 28 0 < 256)
    ∧ (pkt.getD 30 0 * 2 ^ 24 + pkt.getD 31 0 * 2 ^ 16 + pkt.getD 32 0 * 2 ^ 8 + pkt.getD 33 0
        = s.toki.time.sec % 2 ^ 32
      ∧ pkt.getD 31 0 < 256 ∧ pkt.getD 32 0 < 256 ∧ pkt.getD 33 0 < 256)
    ∧ (pkt.getD 34 0 * 2 ^ 8 + pkt.getD 35 0 = s.toki.time.ms % 2 ^ 16 ∧ pkt.getD 35 0 < 256)
    ∧ ∀ i, i < getMaxSegments s.strip.segments →
        (pkt.getD (41 + 28 * i + 1) 0 * 2 ^ 8 + pkt.getD (41 + 28 * i + 2) 0
            = (getSegment s.strip.segments i).start % 2 ^ 16
          ∧ pkt.getD (41 + 28 * i + 2) 0 < 256)
        ∧ (pkt.getD (41 + 28 * i + 3) 0 * 2 ^ 8 + pkt.getD (41 + 28 * i + 4) 0
            = (getSegment s.strip.segments i).stop % 2 ^ 16
          ∧ pkt.getD (41 + 28 * i + 4) 0 < 256)
        ∧ (pkt.getD (41 + 28 * i + 7) 0 * 2 ^ 8 + pkt.getD (41 + 28 * i + 8) 0
            = (getSegment s.strip.segments i).offset % 2 ^ 16
          ∧ pkt.getD (41 + 28 * i + 8) 0 < 256) := by
  have hp := notify_packet x now callMode followUp s pkt h
  subst hp
  refine ⟨?_, ?_, ?_, ?_, ?_⟩
  · simp only [notifyPacket_header _ _ _ _ _ _ (show 17 < 41 by omega),
      notifyPacket_header _ _ _ _ _ _ (show 18 < 41 by omega)]
    show (s.transitionDelay >>> 0 &&& 0xFF) + (s.transitionDelay >>> 8 &&& 0xFF) * 2 ^ 8 = _ ∧
      (s.transitionDelay >>> 0 &&& 0xFF) < 256 ∧ (s.transitionDelay >>> 8 &&& 0xFF) < 256
    simp only [and_0xFF, Nat.shiftRight_eq_div_pow]
    omega
  · simp only [notifyPacket_header _ _ _ _ _ _ (show 25 < 41 by omega),
      notifyPacket_header _ _ _ _ _ _ (show 26 < 41 by omega),
      notifyPacket_header _ _ _ _ _ _ (show 27 < 41 by omega),
      notifyPacket_header _ _ _ _ _ _ (show 28 < 41 by omega)]
    simp only [notifyHeader, List.getD_cons_succ, List.getD_cons_zero, and_0xFF,
      Nat.shiftRight_eq_div_pow]
    omega
  · simp only [notifyPacket_header _ _ _ _ _ _ (show 30 < 41 by omega),
      notifyPacket_header _ _ _ _ _ _ (show 31 < 41 by omega),
      notifyPacket_header _ _ _ _ _ _ (show 32 < 41 by omega),
      notifyPacket_header _ _ _ _ _ _ (show 33 < 41 by omega)]
    simp only [notifyHeader, List.getD_cons_succ, List.getD_cons_zero, and_0xFF,
      Nat.shiftRight_eq_div_pow]
    omega
  · simp only [notifyPacket_header _ _ _ _ _ _ (show 34 < 41 by omega),
      notifyPacket_header _ _ _ _ _ _ (show 35 < 41 by omega)]
    simp only [notifyHeader, List.getD_cons_succ, List.getD_cons_zero, and_0xFF,
      Nat.shiftRight_eq_div_pow]
    omega
  · intro i hi
    simp only [notifyPacket_segment now callMode followUp s i _ 0 hi (show 1 < 28 by omega),
      notifyPacket_segment now callMode followUp s i _ 0 hi (show 2 < 28 by omega),
      notifyPacket_segment now callMode followUp s i _ 0 hi (show 3 < 28 by omega),
      notifyPacket_segment now callMode followUp s i _ 0 hi (show 4 < 28 by omega),
      notifyPacket_segment now callMode followUp s i _ 0 hi (show 7 < 28 by omega),
      notifyPacket_segment now callMode followUp s i _ 0 hi (show 8 < 28 by omega)]
    simp only [notifySegment, List.getD_cons_succ, List.getD_cons_zero, and_0xFF,
      Nat.shiftRight_eq_div_pow]
    omega

/-- Witness of C9, amended: in the packet of `senderExample` the milliseconds
999 = 3 * 256 + 231 are at bytes 34 and 35 with the high byte first. -/
theorem C9_byte_order_witness :
    (notify extExample 100000 1 false senderExample).2 = some packetExample
    ∧ packetExample.getD 34 0 * 2 ^ 8 + packetExample.getD 35 0
        = senderExample.toki.time.ms % 2 ^ 16
    ∧ packetExample.getD 35 0 < 256 :=
  ⟨rfl, (C9_byte_order extExample 100000 1 false senderExample packetExample rfl).2.2.2.1⟩

/-! ## C10: round trip of the segments -/

/-- C10: when the packet that `notify` builds is applied by a receiver of segment
options and segment bounds that has no selective receive flag and as many segments
as the sender, every segment of the receiver ends with the start, stop, grouping,
spacing, offset, opacity, effect mode, speed, intensity, palette, three colours and
CCT of the segment of the sender of the same index and with its option bits 0 to 3,
while the option bits 4 to 7 are those that the receiver had. -/
theorem C10_segment_roundtrip (x : Ext) (nowS nowR callMode localIP remoteIP : Nat)
    (followUp isSupp : Bool) (snd rcv r : State) (pkt : List Nat) (junk : Nat → Nat)
    (hn : getMaxSegments snd.strip.segments < 256)
    (hwf : ∀ i, i < getMaxSegments snd.strip.segments → (getSegment snd.strip.segments i).wf)
    (hcount : getMaxSegments rcv.strip.segments = getMaxSegments snd.strip.segments)
    (hsent : (notify x nowS callMode followUp snd).2 = some pkt)
    (ho : rcv.receiveSegmentOptions = true) (hbd : rcv.receiveSegmentBounds = true)
    (hb : rcv.receiveNotificationBrightness = false)
    (hc : rcv.receiveNotificationColor = false)
    (he : rcv.receiveNotificationEffects = false)
    (hacc : receiveSync x nowR localIP ⟨pkt, remoteIP, isSupp⟩ junk rcv = some r) :
    ∀ i, i < getMaxSegments snd.strip.segments →
      (getSegment r.strip.segments i).start = (getSegment snd.strip.segments i).start
      ∧ (getSegment r.strip.segments i).stop = (getSegment snd.strip.segments i).stop
      ∧ (getSegment r.strip.segments i).grouping = (getSegment snd.strip.segments i).grouping
      ∧ (getSegment r.strip.segments i).spacing = (getSegment snd.strip.segments i).spacing
      ∧ (getSegment r.strip.segments i).offset = (getSegment snd.strip.segments i).offset
      ∧ (getSegment r.strip.segments i).opacity = (getSegment snd.strip.segments i).opacity
      ∧ (getSegment r.strip.segments i).mode = (getSegment snd.strip.segments i).mode
      ∧ (getSegment r.strip.segments i).speed = (getSegment snd.strip.segments i).speed
      ∧ (getSegment r.strip.segments i).intensity = (getSegment snd.strip.segments i).intensity
      ∧ (getSegment r.strip.segments i).palette = (getSegment snd.strip.segments i).palette
      ∧ (getSegment r.strip.segments i).colors0 = (getSegment snd.strip.segments i).colors0
      ∧ (getSegment r.strip.segments i).colors1 = (getSegment snd.strip.segments i).colors1
      ∧ (getSegment r.strip.segments i).colors2 = (getSegment snd.strip.segments i).colors2
      ∧ (getSegment r.strip.segments i).cct = (getSegment snd.strip.segments i).cct
      ∧ (∀ j, j < 4 → (getSegment r.strip.segments i).options.testBit j
          = (getSegment snd.strip.segments i).options.testBit j)
      ∧ (∀ j, 4 ≤ j → j < 8 → (getSegment r.strip.segments i).options.testBit j
          = (getSegment rcv.strip.segments i).options.testBit j) := by
  have hp := notify_packet x nowS callMode followUp snd pkt hsent
  subst hp
  have hr := (wledNotifier_some x nowR _ rcv r
    (receiveSync_some x nowR localIP _ junk rcv r hacc).1).1
  subst hr
  have hss : someSel rcv = false := by simp [someSel, hb, hc, he]
  have hh := udpInOf_header nowS callMode followUp snd junk
  have h11 : udpInOf (notifyPacket nowS callMode followUp snd) junk 11 = 11 := by
    rw [hh 11 (by omega)]; rfl
  have h39 : udpInOf (notifyPacket nowS callMode followUp snd) junk 39
      = getMaxSegments snd.strip.segments := by
    rw [hh 39 (by omega)]
    show getMaxSegments snd.strip.segments % 256 % 256 = _
    omega
  have h40 : udpInOf (notifyPacket nowS callMode followUp snd) junk 40 = 28 := by
    rw [hh 40 (by omega)]; rfl
  have hu := udpInOf_segment nowS callMode followUp snd junk
  have hid : ∀ i, i < getMaxSegments snd.strip.segments →
      udpInOf (notifyPacket nowS callMode followUp snd) junk (0 + (41 + i * 28)) = i := by
    intro i hi
    rw [hu i 0 hi (by omega)]
    show i % 256 % 256 = i
    omega
  have hfold := syncSegments_full rcv (udpInOf (notifyPacket nowS callMode followUp snd) junk)
    false rcv.strip.segments (getMaxSegments snd.strip.segments) ho hbd (by simp [hc])
    hcount hn h40 hid (getMaxSegments snd.strip.segments) (Nat.le_refl _)
  intro i hi
  have hseg : getSegment (syncApply x nowR
        (udpInOf (notifyPacket nowS callMode followUp snd) junk) rcv).strip.segments i
      = recordSegment (udpInOf (notifyPacket nowS callMode followUp snd) junk) (41 + i * 28)
          (getSegment rcv.strip.segments i) := by
    rw [syncApply_segments_full x nowR _ rcv h11 ho hss]
    unfold syncSegments
    rw [h39]
    exact hfold.2.1 i hi
  obtain ⟨w1, w2, w3, w4, w5, w6, w7, w8, w9, w10, w11, w12, w13, w14, w15⟩ := hwf i hi
  obtain ⟨f1, f2, f3, f4, f5, f6, f7, f8, f9, f10, f11, f12, f13, f14⟩ :=
    recordSegment_fields (udpInOf (notifyPacket nowS callMode followUp snd) junk) (41 + i * 28)
      (getSegment rcv.strip.segments i)
  rw [hseg]
  refine ⟨?_, ?_, ?_, ?_, ?_, ?_, ?_, ?_, ?_, ?_, ?_, ?_, ?_, ?_, ?_, ?_⟩
  · rw [f1, hu i 1 hi (by omega), hu i 2 hi (by omega)]
    exact be16 _ w1
  · rw [f2, hu i 3 hi (by omega), hu i 4 hi (by omega)]
    exact be16 _ w2
  · rw [f3, hu i 5 hi (by omega)]
    show (getSegment snd.strip.segments i).grouping % 256 % 256 = _
    omega
  · rw [f4, hu i 6 hi (by omega)]
    show (getSegment snd.strip.segments i).spacing % 256 % 256 = _
    omega
  · rw [f5, hu i 7 hi (by omega), hu i 8 hi (by omega)]
    exact be16 _ w3
  · rw [f6, hu i 10 hi (by omega)]
    show (getSegment snd.strip.segments i).opacity % 256 % 256 = _
    omega
  · rw [f7, hu i 11 hi (by omega)]
    show (getSegment snd.strip.segments i).mode % 256 % 256 = _
    omega
  · rw [f8, hu i 12 hi (by omega)]
    show (getSegment snd.strip.segments i).speed % 256 % 256 = _
    omega
  · rw [f9, hu i 13 hi (by omega)]
    show (getSegment snd.strip.segments i).intensity % 256 % 256 = _
    omega
  · rw [f10, hu i 14 hi (by omega)]
    show (getSegment snd.strip.segments i).palette % 256 % 256 = _
    omega
  · rw [f11, hu i 15 hi (by omega), hu i 16 hi (by omega), hu i 17 hi (by omega),
      hu i 18 hi (by omega)]
    exact RGBW32_bytes _ w12
  · rw [f12, hu i 19 hi (by omega), hu i 20 hi (by omega), hu i 21 hi (by omega),
      hu i 22 hi (by omega)]
    exact RGBW32_bytes _ w13
  · rw [f13, hu i 23 hi (by omega), hu i 24 hi (by omega), hu i 25 hi (by omega),
      hu i 26 hi (by omega)]
    exact RGBW32_bytes _ w14
  · rw [f14, hu i 27 hi (by omega)]
    show (getSegment snd.strip.segments i).cct % 256 % 256 = _
    omega
  · intro j hj
    rw [recordSegment_options _ _ _ j (by omega), if_pos hj, hu i 9 hi (by omega)]
    exact mod16_testBit _ j hj
  · intro j hj4 hj8
    rw [recordSegment_options _ _ _ j hj8, if_neg (by omega)]

/-- Witness of C10: `segReceiverExample` applies the packet of `senderExample`; its
segment 0 ends with the start 300, the stop 700 and the primary colour of the
segment 0 of the sender. -/
theorem C10_segment_roundtrip_witness :
    receiveSync extExample 5000 99 ⟨packetExample, 7, false⟩ (fun _ => 0) segReceiverExample
      = some segReceived
    ∧ (getSegment segReceived.strip.segments 0).start = 300
    ∧ (getSegment segReceived.strip.segments 0).stop = 700 :=
  ⟨by decide,
   (C10_segment_roundtrip extExample 100000 5000 1 99 7 false false senderExample
     segReceiverExample segReceived packetExample (fun _ => 0) (by decide) (by decide)
     (by decide) rfl rfl rfl rfl rfl rfl (by decide) 0 (by decide)).1,
   (C10_segment_roundtrip extExample 100000 5000 1 99 7 false false senderExample
     segReceiverExample segReceived packetExample (fun _ => 0) (by decide) (by decide)
     (by decide) rfl rfl rfl rfl rfl rfl (by decide) 0 (by decide)).2.1⟩

/-! ## C11: a realtime owner blocks the legacy sync -/

/-- C11: while a realtime owner is active (the mode is not inactive and the lock has not
expired at this tick), a datagram with leading byte 0x00 that the tick reads from a
notifier socket is not decoded as a legacy sync packet: the device after
`handleNotifications` is the device after the steps that every tick takes, whatever the
datagram holds, and brightness, colours, effects and segments (the strip), nightlight,
transition delay, time, realtime mode, strip brightness and pixel buffer are those of
before the tick. -/
theorem C11_realtime_blocks_sync (x : Ext) (y : Host) (now localIP : Nat) (junk : Nat → Nat)
    (socks : Sockets) (dev : Device) (d : Datagram) (hr : Reads socks dev d)
    (h0 : udpInOf d.data junk 0 = 0) (hm : dev.realtimeMode ≠ 0)
    (he : ¬ now % 2 ^ 32 > dev.realtimeTimeout) :
    let r := handleNotifications x y now localIP junk socks dev
    r = { tickStart x y now dev with notifierRemoteIP := r.notifierRemoteIP }
    ∧ r.bri = dev.bri ∧ r.strip = dev.strip
    ∧ r.nightlightActive = dev.nightlightActive
    ∧ r.nightlightDelayMins = dev.nightlightDelayMins
    ∧ r.transitionDelay = dev.transitionDelay
    ∧ r.transitionDelayTemp = dev.transitionDelayTemp
    ∧ r.toki = dev.toki
    ∧ r.realtimeMode = dev.realtimeMode
    ∧ r.brightness = dev.brightness
    ∧ r.pixels = dev.pixels := by
  intro r
  have hl := tickStart_locked x y now dev (Or.inr he)
  have key : r = { tickStart x y now dev with notifierRemoteIP := r.notifierRemoteIP } := by
    by_cases hu : (tickStart x y now dev).udpConnected = true
    · have e : r = _ := handleNotifications_reads x y now localIP junk socks dev d hr hu
      rw [handleDatagram_zero x y now localIP d junk _ h0 (Or.inl (by rw [hl.1]; exact hm))]
        at e
      rw [e]
    · have e : r = _ := handleNotifications_off x y now localIP junk socks dev
        (by simpa using hu)
      rw [e]
  refine ⟨key, ?_, ?_, ?_, ?_, ?_, ?_, ?_, ?_, ?_, ?_⟩
  all_goals rw [key]
  · exact tickStart_bri x y now dev
  · exact tickStart_strip x y now dev
  · exact tickStart_nightlightActive x y now dev
  · exact tickStart_nightlightDelayMins x y now dev
  · exact tickStart_transitionDelay x y now dev
  · exact tickStart_transitionDelayTemp x y now dev
  · exact tickStart_toki x y now dev
  · exact hl.1
  · exact hl.2.2.2
  · exact tickStart_pixels x y now dev

/-- Witness of C11: `lockedExample`, owned by a realtime source until `millis() = 6000`,
reads the sync packet of `senderExample` at `millis() = 5000` and keeps its brightness
1. -/
theorem C11_realtime_blocks_sync_witness :
    Reads (primaryOnly packetExample 7) lockedExample ⟨packetExample, 7, false⟩
    ∧ udpInOf packetExample (fun _ => 0) 0 = 0
    ∧ lockedExample.realtimeMode ≠ 0
    ∧ (handleNotifications extExample hostExample 5000 99 (fun _ => 0)
        (primaryOnly packetExample 7) lockedExample).bri = 1
    ∧ (handleNotifications extExample hostExample 5000 99 (fun _ => 0)
        (primaryOnly packetExample 7) deviceExample).bri = 128 :=
  ⟨⟨by decide, Or.inl ⟨rfl, rfl⟩⟩, by decide, by decide,
   (C11_realtime_blocks_sync extExample hostExample 5000 99 (fun _ => 0)
     (primaryOnly packetExample 7) lockedExample ⟨packetExample, 7, false⟩
     ⟨by decide, Or.inl ⟨rfl, rfl⟩⟩ (by decide) (by decide) (by decide)).2.1,
   by decide⟩

/-! ## C12: datagrams that the device sent itself -/

theorem handleDatagram_nodeInfo_self (x : Ext) (y : Host) (now localIP : Nat) (d : Datagram)
    (junk : Nat → Nat) (dev : Device) (hs : d.isSupp = true)
    (h0 : udpInOf d.data junk 0 = 255) (h1 : udpInOf d.data junk 1 = 1)
    (hl : 40 ≤ d.data.length) (hip : d.remoteIP = localIP) :
    handleDatagram x y now localIP d junk dev = dev := by
  unfold handleDatagram
  simp only
  by_cases g1 : (!(dev.receiveNotifications || dev.receiveDirect)) = true
  · rw [if_pos g1]
  rw [if_neg g1]
  by_cases g2 : (decide (d.data.length = 0) || decide (d.data.length > UDP_IN_MAXSIZE)) = true
  · rw [if_pos g2]
  rw [if_neg g2]
  by_cases g3 : (!d.isSupp && decide (d.remoteIP = localIP)) = true
  · rw [if_pos g3]
  rw [if_neg g3, if_pos (by simp [hs, h0, h1, hl])]
  exact handleNodeInfo_dropped y localIP _ _ _ dev (Or.inr hip)

/-- C12, as stated, fails: the announcement of `sysInfoExample` arrives over the
supplementary socket from address 99.  A device at address 7 stores it in its node list;
the same device at address 99 does not: line 247 compares the source address of an
announcement with the local address, also on the supplementary socket. -/
theorem C12_counterexample :
    (handleNotifications extExample hostExample 5000 7 (fun _ => 0)
        (suppOnly (sysInfoData sysInfoExample) 99) deviceExample).Nodes = nodesExample
    ∧ (handleNotifications extExample hostExample 5000 99 (fun _ => 0)
        (suppOnly (sysInfoData sysInfoExample) 99) deviceExample).Nodes = []
    ∧ deviceExample.Nodes = [] := by
  decide

/-- C12, amended: for every datagram read from the primary notifier socket whose source
address is the local address, whatever its payload, the device after
`handleNotifications` is the device after the steps that every tick takes: nothing of
the datagram reaches device state, realtime ownership or the pixel buffer.  On the
supplementary socket the source address matters for node announcements only (leading
bytes 255 and 1, at least 40 bytes): such a datagram from the local address is dropped
in the same way, and for every other datagram, the primary socket holding nothing, the
result of the tick is the same for every local address. -/
theorem C12_self_datagram (x : Ext) (y : Host) (now localIP : Nat) (junk : Nat → Nat)
    (dev : Device) :
    (∀ (socks : Sockets) (p : UdpPacket), socks.notifierUdp = some p → p.data ≠ [] →
      p.remoteIP = localIP →
      handleNotifications x y now localIP junk socks dev =
        { tickStart x y now dev with
          notifierRemoteIP :=
            (handleNotifications x y now localIP junk socks dev).notifierRemoteIP })
    ∧ (∀ (socks : Sockets) (localIP' : Nat), parsePacket socks.notifierUdp = 0 →
      ¬ (udpInOf (socketData socks.notifier2Udp) junk 0 = 255
          ∧ udpInOf (socketData socks.notifier2Udp) junk 1 = 1
          ∧ (socketData socks.notifier2Udp).length ≥ 40) →
      handleNotifications x y now localIP junk socks dev =
        handleNotifications x y now localIP' junk socks dev)
    ∧ (∀ (socks : Sockets) (d : Datagram), Reads socks dev d → d.isSupp = true →
      udpInOf d.data junk 0 = 255 → udpInOf d.data junk 1 = 1 → 40 ≤ d.data.length →
      d.remoteIP = localIP →
      handleNotifications x y now localIP junk socks dev =
        { tickStart x y now dev with
          notifierRemoteIP :=
            (handleNotifications x y now localIP junk socks dev).notifierRemoteIP }) := by
  refine ⟨?_, ?_, ?_⟩
  · intro socks p hp hd hip
    by_cases hu : (tickStart x y now dev).udpConnected = true
    · have hr : Reads socks dev ⟨p.data, p.remoteIP, false⟩ := ⟨hd, Or.inl ⟨hp, rfl⟩⟩
      have e := handleNotifications_reads x y now localIP junk socks dev _ hr hu
      rw [handleDatagram_self x y now localIP _ junk _ rfl hip] at e
      rw [e]
    · have e := handleNotifications_off x y now localIP junk socks dev (by simpa using hu)
      rw [e]
  · intro socks localIP' hp hn
    unfold handleNotifications
    simp only [hp]
    by_cases hu : (!(tickStart x y now dev).udpConnected) = true
    · rw [if_pos hu, if_pos hu]
    rw [if_neg hu, if_neg hu]
    split_ifs with h1 h2
    · rfl
    · exact handleDatagram_localIP x y now localIP localIP' _ junk _ (Or.inl rfl) hn
    · rfl
    · exact handleDatagram_localIP x y now localIP localIP' _ junk _
        (Or.inr (parsePacket_eq_zero _ hp)) (by
          rw [show (Datagram.mk (socketData socks.notifierUdp) _ false).data = []
            from parsePacket_eq_zero _ hp]
          simp)
  · intro socks d hr hs h0 h1 hl hip
    by_cases hu : (tickStart x y now dev).udpConnected = true
    · have e := handleNotifications_reads x y now localIP junk socks dev d hr hu
      rw [handleDatagram_nodeInfo_self x y now localIP d junk _ hs h0 h1 hl hip] at e
      rw [e]
    · have e := handleNotifications_off x y now localIP junk socks dev (by simpa using hu)
      rw [e]

/-- Witness of C12, amended: the sync packet of `senderExample`, arriving at
`deviceExample` from its own address 99, changes the brightness 1 neither over the
primary socket nor, the device being at another address, over the supplementary one;
arriving over the supplementary socket it sets the brightness to 128 also at address
99.  The announcement of `sysInfoExample` from address 99 over the supplementary socket
leaves the device at address 99 as the first steps of the tick left it. -/
theorem C12_self_datagram_witness :
    (handleNotifications extExample hostExample 5000 99 (fun _ => 0)
        (primaryOnly packetExample 99) deviceExample).bri = 1
    ∧ (handleNotifications extExample hostExample 5000 99 (fun _ => 0)
        (primaryOnly packetExample 99) deviceExample).notifierRemoteIP = 99
    ∧ handleNotifications extExample hostExample 5000 99 (fun _ => 0)
        (primaryOnly packetExample 99) deviceExample =
      { tickStart extExample hostExample 5000 deviceExample with notifierRemoteIP := 99 }
    ∧ handleNotifications extExample hostExample 5000 99 (fun _ => 0)
        (suppOnly packetExample 99) deviceExample =
      handleNotifications extExample hostExample 5000 7 (fun _ => 0)
        (suppOnly packetExample 99) deviceExample
    ∧ (handleNotifications extExample hostExample 5000 99 (fun _ => 0)
        (suppOnly packetExample 99) deviceExample).bri = 128
    ∧ handleNotifications extExample hostExample 5000 99 (fun _ => 0)
        (suppOnly (sysInfoData sysInfoExample) 99) deviceExample =
      { tickStart extExample hostExample 5000 deviceExample with
        notifierRemoteIP :=
          (handleNotifications extExample hostExample 5000 99 (fun _ => 0)
            (suppOnly (sysInfoData sysInfoExample) 99) deviceExample).notifierRemoteIP } :=
  ⟨by decide, by decide,
   (C12_self_datagram extExample hostExample 5000 99 (fun _ => 0) deviceExample).1
     (primaryOnly packetExample 99) ⟨packetExample, 99⟩ rfl (by decide) rfl,
   (C12_self_datagram extExample hostExample 5000 99 (fun _ => 0) deviceExample).2.1
     (suppOnly packetExample 99) 7 rfl (by decide),
   by decide,
   (C12_self_datagram extExample hostExample 5000 99 (fun _ => 0) deviceExample).2.2
     (suppOnly (sysInfoData sysInfoExample) 99) ⟨sysInfoData sysInfoExample, 99, true⟩
     ⟨by decide, Or.inr ⟨rfl, rfl, rfl, rfl⟩⟩ rfl (by decide) (by decide) (by decide) rfl⟩

/-! ## C13: the rate limit after an own notification -/

/-- C13: a datagram with leading byte 0 that a tick reads from a notifier socket at a
time `now` with `(now - notificationSentTime) mod 2^32 < 1000` is dropped: the device
after `handleNotifications` is the device after the steps that every tick takes, and
brightness, colours, effects and segments (the strip), nightlight, transition delay and
time are those of before the tick. -/
theorem C13_rate_limit (x : Ext) (y : Host) (now localIP : Nat) (junk : Nat → Nat)
    (socks : Sockets) (dev : Device) (d : Datagram) (hr : Reads socks dev d)
    (h0 : udpInOf d.data junk 0 = 0) (ht : sub32 now dev.notificationSentTime < 1000) :
    let r := handleNotifications x y now localIP junk socks dev
    r = { tickStart x y now dev with notifierRemoteIP := r.notifierRemoteIP }
    ∧ r.bri = dev.bri ∧ r.strip = dev.strip
    ∧ r.nightlightActive = dev.nightlightActive
    ∧ r.nightlightDelayMins = dev.nightlightDelayMins
    ∧ r.transitionDelay = dev.transitionDelay
    ∧ r.transitionDelayTemp = dev.transitionDelayTemp
    ∧ r.toki = dev.toki := by
  intro r
  have hs : sub32 now (tickStart x y now dev).notificationSentTime < 1000 := by
    rcases tickStart_notificationSentTime x y now dev with e | e
    · rw [e]; exact ht
    · rw [e, sub32_self]; norm_num
  have key : r = { tickStart x y now dev with notifierRemoteIP := r.notifierRemoteIP } := by
    by_cases hu : (tickStart x y now dev).udpConnected = true
    · have e : r = _ := handleNotifications_reads x y now localIP junk socks dev d hr hu
      rw [handleDatagram_zero x y now localIP d junk
        { tickStart x y now dev with
          notifierRemoteIP :=
            socketRemoteIP socks.notifierUdp (tickStart x y now dev).notifierRemoteIP }
        h0 (Or.inr (wledNotifier_rate x now _ _ hs))] at e
      rw [e]
    · have e : r = _ := handleNotifications_off x y now localIP junk socks dev
        (by simpa using hu)
      rw [e]
  refine ⟨key, ?_, ?_, ?_, ?_, ?_, ?_, ?_⟩
  all_goals rw [key]
  · exact tickStart_bri x y now dev
  · exact tickStart_strip x y now dev
  · exact tickStart_nightlightActive x y now dev
  · exact tickStart_nightlightDelayMins x y now dev
  · exact tickStart_transitionDelay x y now dev
  · exact tickStart_transitionDelayTemp x y now dev
  · exact tickStart_toki x y now dev

/-- Witness of C13: `deviceExample`, having notified at `millis() = 4500`, keeps its
brightness 1 when the sync packet of `senderExample` arrives at 5000, and takes the
brightness 128 when it arrives at 5500. -/
theorem C13_rate_limit_witness :
    sub32 5000 4500 < 1000
    ∧ (handleNotifications extExample hostExample 5000 99 (fun _ => 0)
        (primaryOnly packetExample 7) { deviceExample with notificationSentTime := 4500 }).bri
      = 1
    ∧ (handleNotifications extExample hostExample 5500 99 (fun _ => 0)
        (primaryOnly packetExample 7) { deviceExample with notificationSentTime := 4500 }).bri
      = 128 :=
  ⟨by decide,
   (C13_rate_limit extExample hostExample 5000 99 (fun _ => 0) (primaryOnly packetExample 7)
     { deviceExample with notificationSentTime := 4500 } ⟨packetExample, 7, false⟩
     ⟨by decide, Or.inl ⟨rfl, rfl⟩⟩ (by decide) (by decide)).2.1,
   by decide⟩

/-! ## C14: sync groups -/

/-- C14: a datagram with leading byte 0 that a tick reads from a notifier socket is
dropped when its version (byte 11) is 9 to 199 and its sync-group byte 36 shares no bit
with `receiveGroups`, and when its version is below 9 and bit 0 of `receiveGroups` is
clear: the device after `handleNotifications` is the device after the steps that every
tick takes.  So a packet of these versions is applied only if the groups meet, one of a
version below 9 counting as sent in group 1. -/
theorem C14_sync_groups (x : Ext) (y : Host) (now localIP : Nat) (junk : Nat → Nat)
    (socks : Sockets) (dev : Device) (d : Datagram) (hr : Reads socks dev d)
    (h0 : udpInOf d.data junk 0 = 0)
    (hg : (udpInOf d.data junk 11 < 9 ∧ dev.receiveGroups &&& 0x01 = 0)
      ∨ (9 ≤ udpInOf d.data junk 11 ∧ udpInOf d.data junk 11 ≤ 199
          ∧ dev.receiveGroups &&& udpInOf d.data junk 36 = 0)) :
    let r := handleNotifications x y now localIP junk socks dev
    r = { tickStart x y now dev with notifierRemoteIP := r.notifierRemoteIP }
    ∧ r.bri = dev.bri ∧ r.strip = dev.strip
    ∧ r.nightlightActive = dev.nightlightActive
    ∧ r.nightlightDelayMins = dev.nightlightDelayMins
    ∧ r.transitionDelay = dev.transitionDelay
    ∧ r.transitionDelayTemp = dev.transitionDelayTemp
    ∧ r.toki = dev.toki := by
  intro r
  have key : r = { tickStart x y now dev with notifierRemoteIP := r.notifierRemoteIP } := by
    by_cases hu : (tickStart x y now dev).udpConnected = true
    · have e : r = _ := handleNotifications_reads x y now localIP junk socks dev d hr hu
      rw [handleDatagram_zero x y now localIP d junk
        { tickStart x y now dev with
          notifierRemoteIP :=
            socketRemoteIP socks.notifierUdp (tickStart x y now dev).notifierRemoteIP }
        h0 (Or.inr (wledNotifier_group x now _ _ (by
          simp only [tickStart_receiveGroups]; exact hg)))] at e
      rw [e]
    · have e : r = _ := handleNotifications_off x y now localIP junk socks dev
        (by simpa using hu)
      rw [e]
  refine ⟨key, ?_, ?_, ?_, ?_, ?_, ?_, ?_⟩
  all_goals rw [key]
  · exact tickStart_bri x y now dev
  · exact tickStart_strip x y now dev
  · exact tickStart_nightlightActive x y now dev
  · exact tickStart_nightlightDelayMins x y now dev
  · exact tickStart_transitionDelay x y now dev
  · exact tickStart_transitionDelayTemp x y now dev
  · exact tickStart_toki x y now dev

/-- Witness of C14: `deviceExample` receiving in group 2 only keeps its brightness 1
both on the packet of `senderExample` (version 11, group 1) and on a packet of version
5; receiving in group 1 it takes the brightness of either. -/
theorem C14_sync_groups_witness :
    (handleNotifications extExample hostExample 5000 99 (fun _ => 0)
        (primaryOnly packetExample 7) { deviceExample with receiveGroups := 2 }).bri = 1
    ∧ (handleNotifications extExample hostExample 5000 99 (fun _ => 0)
        (primaryOnly (legacyPacket 5) 7) { deviceExample with receiveGroups := 2 }).bri = 1
    ∧ (handleNotifications extExample hostExample 5000 99 (fun _ => 0)
        (primaryOnly packetExample 7) deviceExample).bri = 128
    ∧ (handleNotifications extExample hostExample 5000 99 (fun _ => 0)
        (primaryOnly (legacyPacket 5) 7) deviceExample).bri = 50 :=
  ⟨(C14_sync_groups extExample hostExample 5000 99 (fun _ => 0) (primaryOnly packetExample 7)
     { deviceExample with receiveGroups := 2 } ⟨packetExample, 7, false⟩
     ⟨by decide, Or.inl ⟨rfl, rfl⟩⟩ (by decide) (Or.inr (by decide))).2.1,
   (C14_sync_groups extExample hostExample 5000 99 (fun _ => 0)
     (primaryOnly (legacyPacket 5) 7)
     { deviceExample with receiveGroups := 2 } ⟨legacyPacket 5, 7, false⟩
     ⟨by decide, Or.inl ⟨rfl, rfl⟩⟩ (by decide) (Or.inl (by decide))).2.1,
   by decide, by decide⟩

/-! ## C15: the lock and its expiry -/

/-- C15, as stated, fails when the millisecond counter wraps between the lock and its
expiry: a lock of 1000 ms taken at `millis() = 2^32 - 500` expires at 500, and the
expiry check at `millis() = 2^32 - 501`, one millisecond before the lock time, and the
one at the lock time itself release the lock. -/
theorem C15_counterexample :
    (realtimeLock hostExample 4294966796 1000 REALTIME_MODE_UDP deviceExample).realtimeMode
      = REALTIME_MODE_UDP
    ∧ (realtimeLock hostExample 4294966796 1000 REALTIME_MODE_UDP deviceExample).realtimeTimeout
      = 500
    ∧ (checkExpiry hostExample 4294966795
        (realtimeLock hostExample 4294966796 1000 REALTIME_MODE_UDP deviceExample)).realtimeMode
      = REALTIME_MODE_INACTIVE
    ∧ (checkExpiry hostExample 4294966796
        (realtimeLock hostExample 4294966796 1000 REALTIME_MODE_UDP deviceExample)).realtimeMode
      = REALTIME_MODE_INACTIVE := by
  decide

/-- C15, amended: for every lock time `t`, duration `d` other than 255001 and 65000 and
active mode `md`, provided that `t + d < 2^32` (the millisecond counter does not wrap
before the expiry): after `realtimeLock(d, md)` at time `t` the mode is `md` and the
expiry is `t + d`; the expiry check at any `now` up to `t + d` (so also at `t - 1`)
changes nothing; the check at any later `now` sets the mode to inactive and the strip
brightness to `scaledBri(bri)`, with `bri` the brightness of before the lock; and after
that an expiry check at any time changes nothing. -/
theorem C15_lock_expiry (y : Host) (t d md : Nat) (dev : Device)
    (hd : d ≠ 255001 ∧ d ≠ 65000) (hmd : md ≠ 0 ∧ md < 256) (hw : t + d < 2 ^ 32) :
    (realtimeLock y t d md dev).realtimeMode = md
    ∧ (realtimeLock y t d md dev).realtimeTimeout = t + d
    ∧ (∀ now, now ≤ t + d →
        checkExpiry y now (realtimeLock y t d md dev) = realtimeLock y t d md dev)
    ∧ (∀ now, t + d < now → now < 2 ^ 32 →
        (checkExpiry y now (realtimeLock y t d md dev)).realtimeMode = REALTIME_MODE_INACTIVE
        ∧ (checkExpiry y now (realtimeLock y t d md dev)).brightness
            = y.scaledBri dev.bri % 256
        ∧ ∀ now', checkExpiry y now' (checkExpiry y now (realtimeLock y t d md dev))
            = checkExpiry y now (realtimeLock y t d md dev)) := by
  obtain ⟨b, n, h⟩ := realtimeLock_eq y t d md dev
  have ht : t % 2 ^ 32 = t := Nat.mod_eq_of_lt (by omega)
  have hdd : d % 2 ^ 32 = d := Nat.mod_eq_of_lt (by omega)
  have hm : (realtimeLock y t d md dev).realtimeMode = md := by
    rw [h]; exact Nat.mod_eq_of_lt hmd.2
  have hto : (realtimeLock y t d md dev).realtimeTimeout = t + d := by
    rw [h]
    show (if d % 2 ^ 32 = 255001 ∨ d % 2 ^ 32 = 65000 then UINT32_MAX
      else (t % 2 ^ 32 + d % 2 ^ 32) % 2 ^ 32) = t + d
    rw [hdd, ht, if_neg (by rintro (e | e); exact hd.1 e; exact hd.2 e),
      Nat.mod_eq_of_lt hw]
  have hb : (realtimeLock y t d md dev).bri = dev.bri := by rw [h]
  refine ⟨hm, hto, ?_, ?_⟩
  · intro now hn
    apply checkExpiry_of_not_expired
    right
    rw [hto]
    have := Nat.mod_le now (2 ^ 32)
    omega
  · intro now hn hn'
    have e := checkExpiry_of_expired y now (realtimeLock y t d md dev)
      (by rw [hm]; exact hmd.1) (by rw [hto, Nat.mod_eq_of_lt hn']; exact hn)
    refine ⟨by rw [e], by rw [e, ← hb], ?_⟩
    intro now'
    apply checkExpiry_of_not_expired
    left
    rw [e]
    rfl

/-- Witness of C15, amended: a lock of 2500 ms taken by `deviceExample` at
`millis() = 5000` holds at 4999 and at 7500 and is released at 7501. -/
theorem C15_lock_expiry_witness :
    (checkExpiry hostExample 4999
        (realtimeLock hostExample 5000 2500 REALTIME_MODE_UDP deviceExample)).realtimeMode
      = REALTIME_MODE_UDP
    ∧ (checkExpiry hostExample 7500
        (realtimeLock hostExample 5000 2500 REALTIME_MODE_UDP deviceExample)).realtimeMode
      = REALTIME_MODE_UDP
    ∧ (checkExpiry hostExample 7501
        (realtimeLock hostExample 5000 2500 REALTIME_MODE_UDP deviceExample)).realtimeMode
      = REALTIME_MODE_INACTIVE
    ∧ (checkExpiry hostExample 7501
        (realtimeLock hostExample 5000 2500 REALTIME_MODE_UDP deviceExample)).brightness
      = hostExample.scaledBri deviceExample.bri % 256 :=
  ⟨by decide, by decide,
   ((C15_lock_expiry hostExample 5000 2500 REALTIME_MODE_UDP deviceExample
      ⟨by decide, by decide⟩ ⟨by decide, by decide⟩ (by decide)).2.2.2 7501
      (by decide) (by decide)).1,
   ((C15_lock_expiry hostExample 5000 2500 REALTIME_MODE_UDP deviceExample
      ⟨by decide, by decide⟩ ⟨by decide, by decide⟩ (by decide)).2.2.2 7501
      (by decide) (by decide)).2.1⟩

/-! ## C16: locks without timeout -/

/-- C16: after `realtimeLock` with `timeoutMs` 255001 or 65000 the expiry is
`UINT32_MAX` and the expiry check changes nothing at any value of `millis()`; for every
other 32-bit `timeoutMs` the expiry is `(millis() + timeoutMs) mod 2^32`.  The branch of
the indexed realtime formats, for a datagram of at least two bytes, locks without
timeout when the duration byte is 255 and until
`(millis() + d * 1000 + 1) mod 2^32` when the duration byte `d` is 1 to 254. -/
theorem C16_sentinel (y : Host) (now : Nat) (dev : Device) :
    (∀ timeoutMs md, timeoutMs = 255001 ∨ timeoutMs = 65000 →
      (realtimeLock y now timeoutMs md dev).realtimeTimeout = UINT32_MAX
      ∧ ∀ now', checkExpiry y now' (realtimeLock y now timeoutMs md dev)
          = realtimeLock y now timeoutMs md dev)
    ∧ (∀ timeoutMs md, timeoutMs < 2 ^ 32 → timeoutMs ≠ 255001 → timeoutMs ≠ 65000 →
      (realtimeLock y now timeoutMs md dev).realtimeTimeout
        = (now % 2 ^ 32 + timeoutMs) % 2 ^ 32)
    ∧ (∀ (udpIn : Nat → Nat) (packetSize remoteIP : Nat), 2 ≤ packetSize → udpIn 1 = 255 →
      (handleRealtime y now udpIn packetSize remoteIP dev).realtimeMode = REALTIME_MODE_UDP
      ∧ (handleRealtime y now udpIn packetSize remoteIP dev).realtimeTimeout = UINT32_MAX
      ∧ ∀ now', (checkExpiry y now'
          (handleRealtime y now udpIn packetSize remoteIP dev)).realtimeMode
            = REALTIME_MODE_UDP)
    ∧ (∀ (udpIn : Nat → Nat) (packetSize remoteIP : Nat), 2 ≤ packetSize →
      1 ≤ udpIn 1 → udpIn 1 ≤ 254 →
      (handleRealtime y now udpIn packetSize remoteIP dev).realtimeMode = REALTIME_MODE_UDP
      ∧ (handleRealtime y now udpIn packetSize remoteIP dev).realtimeTimeout
        = (now % 2 ^ 32 + (udpIn 1 * 1000 + 1)) % 2 ^ 32) := by
  have never : ∀ (L : Device), L.realtimeTimeout = UINT32_MAX →
      ∀ now', checkExpiry y now' L = L := by
    intro L hL now'
    apply checkExpiry_of_not_expired
    right
    rw [hL]
    have := Nat.mod_lt now' (show 2 ^ 32 > 0 by norm_num)
    unfold UINT32_MAX
    omega
  refine ⟨?_, ?_, ?_, ?_⟩
  · intro t md ht
    obtain ⟨b, n, h⟩ := realtimeLock_eq y now t md dev
    have hto : (realtimeLock y now t md dev).realtimeTimeout = UINT32_MAX := by
      rw [h]
      show (if t % 2 ^ 32 = 255001 ∨ t % 2 ^ 32 = 65000 then UINT32_MAX
        else (now % 2 ^ 32 + t % 2 ^ 32) % 2 ^ 32) = UINT32_MAX
      rw [if_pos (by rcases ht with e | e <;> rw [e] <;> decide)]
    exact ⟨hto, never _ hto⟩
  · intro t md ht h1 h2
    obtain ⟨b, n, h⟩ := realtimeLock_eq y now t md dev
    rw [h]
    show (if t % 2 ^ 32 = 255001 ∨ t % 2 ^ 32 = 65000 then UINT32_MAX
      else (now % 2 ^ 32 + t % 2 ^ 32) % 2 ^ 32) = (now % 2 ^ 32 + t) % 2 ^ 32
    rw [Nat.mod_eq_of_lt ht, if_neg (by rintro (e | e); exact h1 e; exact h2 e)]
  · intro u n ip hn h1
    obtain ⟨p, s, h⟩ := handleRealtime_lock y now u n ip dev hn (by rw [h1]; decide)
    obtain ⟨b, k, h'⟩ := realtimeLock_eq y now (u 1 * 1000 + 1) REALTIME_MODE_UDP
      { dev with realtimeIP := ip }
    have hm : (handleRealtime y now u n ip dev).realtimeMode = REALTIME_MODE_UDP := by
      rw [h, h']; rfl
    have hto : (handleRealtime y now u n ip dev).realtimeTimeout = UINT32_MAX := by
      rw [h, h']
      show (if (u 1 * 1000 + 1) % 2 ^ 32 = 255001 ∨ (u 1 * 1000 + 1) % 2 ^ 32 = 65000
        then UINT32_MAX else (now % 2 ^ 32 + (u 1 * 1000 + 1) % 2 ^ 32) % 2 ^ 32) = UINT32_MAX
      rw [h1, if_pos (by decide)]
    refine ⟨hm, hto, ?_⟩
    intro now'
    rw [never _ hto now', hm]
  · intro u n ip hn h1 h2
    obtain ⟨p, s, h⟩ := handleRealtime_lock y now u n ip dev hn (by omega)
    obtain ⟨b, k, h'⟩ := realtimeLock_eq y now (u 1 * 1000 + 1) REALTIME_MODE_UDP
      { dev with realtimeIP := ip }
    refine ⟨by rw [h, h']; rfl, ?_⟩
    rw [h, h']
    show (if (u 1 * 1000 + 1) % 2 ^ 32 = 255001 ∨ (u 1 * 1000 + 1) % 2 ^ 32 = 65000
      then UINT32_MAX else (now % 2 ^ 32 + (u 1 * 1000 + 1) % 2 ^ 32) % 2 ^ 32)
      = (now % 2 ^ 32 + (u 1 * 1000 + 1)) % 2 ^ 32
    have e : (u 1 * 1000 + 1) % 2 ^ 32 = u 1 * 1000 + 1 := Nat.mod_eq_of_lt (by omega)
    rw [e, if_neg (by omega)]

/-- Witness of C16: a DRGB datagram with duration byte 255 locks `deviceExample` until
`UINT32_MAX`, one with duration byte 3 received at `millis() = 5000` until 8001, and a
lock of 65000 ms is still held at `millis() = 2^32 - 1`. -/
theorem C16_sentinel_witness :
    (handleRealtime hostExample 5000 (udpInOf [2, 255, 10, 20, 30] (fun _ => 0)) 5 7
        deviceExample).realtimeTimeout = UINT32_MAX
    ∧ (handleRealtime hostExample 5000 (udpInOf [2, 3, 10, 20, 30] (fun _ => 0)) 5 7
        deviceExample).realtimeTimeout = 8001
    ∧ checkExpiry hostExample 4294967295
        (realtimeLock hostExample 5000 65000 REALTIME_MODE_UDP deviceExample)
      = realtimeLock hostExample 5000 65000 REALTIME_MODE_UDP deviceExample :=
  ⟨((C16_sentinel hostExample 5000 deviceExample).2.2.1
      (udpInOf [2, 255, 10, 20, 30] (fun _ => 0)) 5 7 (by decide) (by decide)).2.1,
   ((C16_sentinel hostExample 5000 deviceExample).2.2.2
      (udpInOf [2, 3, 10, 20, 30] (fun _ => 0)) 5 7 (by decide) (by decide) (by decide)).2,
   ((C16_sentinel hostExample 5000 deviceExample).1 65000 REALTIME_MODE_UDP
      (Or.inr rfl)).2 4294967295⟩

/-! ## C17: the override state at the release -/

/-- C17: when the expiry check releases a lock (the mode is active and `millis()` is
beyond the expiry), the override state once becomes none and the states always and none
stay as they are; when the check does not release (the mode is inactive or the lock has
not expired), the override state stays as it is. -/
theorem C17_override_release (y : Host) (now : Nat) (dev : Device) :
    (dev.realtimeMode ≠ 0 ∧ now % 2 ^ 32 > dev.realtimeTimeout →
      (dev.realtimeOverride = REALTIME_OVERRIDE_ONCE →
        (checkExpiry y now dev).realtimeOverride = REALTIME_OVERRIDE_NONE)
      ∧ (dev.realtimeOverride = REALTIME_OVERRIDE_ALWAYS →
        (checkExpiry y now dev).realtimeOverride = REALTIME_OVERRIDE_ALWAYS)
      ∧ (dev.realtimeOverride = REALTIME_OVERRIDE_NONE →
        (checkExpiry y now dev).realtimeOverride = REALTIME_OVERRIDE_NONE)
      ∧ (checkExpiry y now dev).realtimeMode = REALTIME_MODE_INACTIVE)
    ∧ (¬ (dev.realtimeMode ≠ 0 ∧ now % 2 ^ 32 > dev.realtimeTimeout) →
      checkExpiry y now dev = dev) := by
  constructor
  · rintro ⟨hm, he⟩
    have e := checkExpiry_of_expired y now dev hm he
    refine ⟨?_, ?_, ?_, ?_⟩
    · intro h
      rw [e]
      show (if dev.realtimeOverride = REALTIME_OVERRIDE_ONCE then REALTIME_OVERRIDE_NONE
        else dev.realtimeOverride) = REALTIME_OVERRIDE_NONE
      rw [if_pos h]
    · intro h
      rw [e]
      show (if dev.realtimeOverride = REALTIME_OVERRIDE_ONCE then REALTIME_OVERRIDE_NONE
        else dev.realtimeOverride) = REALTIME_OVERRIDE_ALWAYS
      rw [h, if_neg (by decide)]
    · intro h
      rw [e]
      show (if dev.realtimeOverride = REALTIME_OVERRIDE_ONCE then REALTIME_OVERRIDE_NONE
        else dev.realtimeOverride) = REALTIME_OVERRIDE_NONE
      rw [h, if_neg (by decide)]
    · rw [e]
  · intro h
    apply checkExpiry_of_not_expired
    by_cases hm : dev.realtimeMode = 0
    · exact Or.inl hm
    · exact Or.inr (fun he => h ⟨hm, he⟩)

/-- Witness of C17: `lockedExample`, locked until `millis() = 6000`, with override once
has override none after the check at 6001 and override once after the check at 6000;
with override always it keeps it at 6001. -/
theorem C17_override_release_witness :
    (checkExpiry hostExample 6001
        { lockedExample with realtimeOverride := REALTIME_OVERRIDE_ONCE }).realtimeOverride
      = REALTIME_OVERRIDE_NONE
    ∧ (checkExpiry hostExample 6001
        { lockedExample with realtimeOverride := REALTIME_OVERRIDE_ALWAYS }).realtimeOverride
      = REALTIME_OVERRIDE_ALWAYS
    ∧ checkExpiry hostExample 6000
        { lockedExample with realtimeOverride := REALTIME_OVERRIDE_ONCE }
      = { lockedExample with realtimeOverride := REALTIME_OVERRIDE_ONCE } :=
  ⟨((C17_override_release hostExample 6001
      { lockedExample with realtimeOverride := REALTIME_OVERRIDE_ONCE }).1
      ⟨by decide, by decide⟩).1 rfl,
   by decide,
   (C17_override_release hostExample 6000
      { lockedExample with realtimeOverride := REALTIME_OVERRIDE_ONCE }).2 (by decide)⟩

/-! ## C18: the clearing of the buffer by the lock -/

/-- C18: `realtimeLock` leaves every pixel of the buffer (indices 0 to
`getLengthTotal() - 1`) black when, at the call, the realtime mode was inactive and the
override none, and leaves the buffer as it was in every other case (a mode already
active, or an override once or always). -/
theorem C18_lock_clears (y : Host) (now timeoutMs md : Nat) (dev : Device)
    (hl : dev.pixels.length < 2 ^ 16) :
    (dev.realtimeMode = REALTIME_MODE_INACTIVE ∧ dev.realtimeOverride = REALTIME_OVERRIDE_NONE →
      (realtimeLock y now timeoutMs md dev).pixels
        = List.replicate (getLengthTotal dev.pixels) (RGBW32 0 0 0 0))
    ∧ (¬ (dev.realtimeMode = REALTIME_MODE_INACTIVE
          ∧ dev.realtimeOverride = REALTIME_OVERRIDE_NONE) →
      (realtimeLock y now timeoutMs md dev).pixels = dev.pixels) := by
  obtain ⟨b, n, h⟩ := realtimeLock_eq y now timeoutMs md dev
  have hg : getLengthTotal dev.pixels = dev.pixels.length := Nat.mod_eq_of_lt hl
  constructor
  · intro hc
    rw [h]
    show (if dev.realtimeMode = 0 ∧ dev.realtimeOverride = 0 then
        (List.range (getLengthTotal dev.pixels)).foldl
          (fun px i => setPixelColor px i 0 0 0 0) dev.pixels
      else dev.pixels) = _
    rw [if_pos (show dev.realtimeMode = 0 ∧ dev.realtimeOverride = 0 from hc), hg, clear_eq]
  · intro hc
    rw [h]
    show (if dev.realtimeMode = 0 ∧ dev.realtimeOverride = 0 then
        (List.range (getLengthTotal dev.pixels)).foldl
          (fun px i => setPixelColor px i 0 0 0 0) dev.pixels
      else dev.pixels) = _
    rw [if_neg (show ¬ (dev.realtimeMode = 0 ∧ dev.realtimeOverride = 0) from hc)]

/-- Witness of C18: the lock blacks the eight pixels of `deviceExample`, and leaves
those of `lockedExample`, whose mode is active, as they were. -/
theorem C18_lock_clears_witness :
    (realtimeLock hostExample 5000 2500 REALTIME_MODE_UDP deviceExample).pixels
      = [0, 0, 0, 0, 0, 0, 0, 0]
    ∧ (realtimeLock hostExample 5000 2500 REALTIME_MODE_UDP lockedExample).pixels
      = [1, 2, 3, 4, 5, 6, 7, 8] :=
  ⟨(C18_lock_clears hostExample 5000 2500 REALTIME_MODE_UDP deviceExample (by decide)).1
      ⟨rfl, rfl⟩,
   (C18_lock_clears hostExample 5000 2500 REALTIME_MODE_UDP lockedExample (by decide)).2
      (by decide)⟩

/-! ## C19: realtime datagrams under an override -/

/-- C19: while the override state is non-none when the datagram is processed, that is
after the expiry check of the tick, a tick that reads a realtime pixel datagram (a
TPM2.NET datagram or one of the indexed formats 1 to 4 from a notifier socket, or a raw
RGB datagram from the raw RGB socket while the notifier sockets hold nothing) performs
neither the clearing of the buffer nor a pixel write and does not advance the TPM2.NET
packet counter: pixel buffer and counter after `handleNotifications` are those of
before it. -/
theorem C19_override_blocks_pixels (x : Ext) (y : Host) (now localIP : Nat)
    (junk : Nat → Nat) (socks : Sockets) (dev : Device)
    (ho : (checkExpiry y now dev).realtimeOverride ≠ REALTIME_OVERRIDE_NONE)
    (hs : (∃ d, Reads socks dev d
            ∧ (udpInOf d.data junk 0 = 0x9c
                ∨ (1 ≤ udpInOf d.data junk 0 ∧ udpInOf d.data junk 0 ≤ 4)))
      ∨ (parsePacket socks.notifierUdp = 0
          ∧ (dev.udp2Connected = true → parsePacket socks.notifier2Udp = 0)
          ∧ dev.udpRgbConnected = true ∧ parsePacket socks.rgbUdp ≠ 0)) :
    (handleNotifications x y now localIP junk socks dev).pixels = dev.pixels
    ∧ (handleNotifications x y now localIP junk socks dev).tpmPacketCount
        = dev.tpmPacketCount := by
  have ho' : (tickStart x y now dev).realtimeOverride ≠ 0 := by
    rw [tickStart_realtimeOverride]; exact ho
  by_cases hu : (tickStart x y now dev).udpConnected = true
  · rcases hs with ⟨d, hr, h0⟩ | ⟨h1, h2, h3, h4⟩
    · rw [handleNotifications_reads x y now localIP junk socks dev d hr hu]
      have e := handleDatagram_override x y now localIP d junk
        { tickStart x y now dev with
          notifierRemoteIP :=
            socketRemoteIP socks.notifierUdp (tickStart x y now dev).notifierRemoteIP }
        ho' h0
      exact ⟨e.1.trans (tickStart_pixels x y now dev),
        e.2.trans (tickStart_tpmPacketCount x y now dev)⟩
    · rw [handleNotifications_rgb x y now localIP junk socks dev hu h1 h2 h3 h4]
      have e := handleRawRgb_override y now (socketData socks.rgbUdp)
        (socketRemoteIP socks.rgbUdp 0) junk
        { tickStart x y now dev with
          notifierRemoteIP :=
            socketRemoteIP socks.notifierUdp (tickStart x y now dev).notifierRemoteIP }
        ho'
      exact ⟨e.1.trans (tickStart_pixels x y now dev),
        e.2.trans (tickStart_tpmPacketCount x y now dev)⟩
  · rw [handleNotifications_off x y now localIP junk socks dev (by simpa using hu)]
    exact ⟨tickStart_pixels x y now dev, tickStart_tpmPacketCount x y now dev⟩

/-- Witness of C19: with override always, `deviceExample` keeps its eight pixels on a
DRGB datagram, on a TPM2.NET data datagram (the counter staying 0) and on a raw RGB
datagram; with override none the DRGB datagram writes two pixels and clears the
rest. -/
theorem C19_override_blocks_pixels_witness :
    (handleNotifications extExample hostExample 5000 99 (fun _ => 0)
        (primaryOnly [2, 3, 10, 20, 30, 40, 50, 60] 7)
        { deviceExample with realtimeOverride := REALTIME_OVERRIDE_ALWAYS }).pixels
      = [1, 2, 3, 4, 5, 6, 7, 8]
    ∧ (handleNotifications extExample hostExample 5000 99 (fun _ => 0)
        (primaryOnly [0x9c, 0xda, 0, 6, 1, 1, 10, 20, 30, 40, 50, 60, 0x36] 7)
        { deviceExample with realtimeOverride := REALTIME_OVERRIDE_ALWAYS }).tpmPacketCount
      = 0
    ∧ (handleNotifications extExample hostExample 5000 99 (fun _ => 0)
        (rgbOnly [10, 20, 30, 40, 50, 60] 7)
        { deviceExample with realtimeOverride := REALTIME_OVERRIDE_ALWAYS }).pixels
      = [1, 2, 3, 4, 5, 6, 7, 8]
    ∧ (handleNotifications extExample hostExample 5000 99 (fun _ => 0)
        (primaryOnly [2, 3, 10, 20, 30, 40, 50, 60] 7) deviceExample).pixels
      = [660510, 2634300, 0, 0, 0, 0, 0, 0]
    ∧ (handleNotifications extExample hostExample 5000 99 (fun _ => 0)
        (primaryOnly [0x9c, 0xda, 0, 6, 1, 2, 10, 20, 30, 40, 50, 60, 0x36] 7)
        deviceExample).tpmPacketCount = 1 :=
  ⟨(C19_override_blocks_pixels extExample hostExample 5000 99 (fun _ => 0)
      (primaryOnly [2, 3, 10, 20, 30, 40, 50, 60] 7)
      { deviceExample with realtimeOverride := REALTIME_OVERRIDE_ALWAYS } (by decide)
      (Or.inl ⟨⟨[2, 3, 10, 20, 30, 40, 50, 60], 7, false⟩,
        ⟨by decide, Or.inl ⟨rfl, rfl⟩⟩, Or.inr (by decide)⟩)).1,
   (C19_override_blocks_pixels extExample hostExample 5000 99 (fun _ => 0)
      (primaryOnly [0x9c, 0xda, 0, 6, 1, 1, 10, 20, 30, 40, 50, 60, 0x36] 7)
      { deviceExample with realtimeOverride := REALTIME_OVERRIDE_ALWAYS } (by decide)
      (Or.inl ⟨⟨[0x9c, 0xda, 0, 6, 1, 1, 10, 20, 30, 40, 50, 60, 0x36], 7, false⟩,
        ⟨by decide, Or.inl ⟨rfl, rfl⟩⟩, Or.inl (by decide)⟩)).2,
   (C19_override_blocks_pixels extExample hostExample 5000 99 (fun _ => 0)
      (rgbOnly [10, 20, 30, 40, 50, 60] 7)
      { deviceExample with realtimeOverride := REALTIME_OVERRIDE_ALWAYS } (by decide)
      (Or.inr ⟨rfl, fun _ => rfl, rfl, by decide⟩)).1,
   by decide, by decide⟩

/-! ## C20: the last writer wins -/

/-- C20: for two consecutive ticks of a connected device that receives realtime data,
the first reading a datagram `a` and the second a datagram `b` of the indexed formats
(leading byte 1 to 4), `b` with a nonzero duration byte, at least two and at most 1472
bytes, and not from the local address over the primary socket: after the second tick
the owner address is the sender of `b`, the mode is that of the indexed formats, and the
expiry is the one that `b` asks for at the time of its tick, `UINT32_MAX` for the
duration byte 255 and `(millis() + d * 1000 + 1) mod 2^32` for a duration byte `d`
otherwise, whatever the first tick left of the lock of `a`. -/
theorem C20_last_writer (x : Ext) (y : Host) (nowA nowB localIP : Nat)
    (junkA junkB : Nat → Nat) (socksA socksB : Sockets) (dev : Device) (a b : Datagram)
    (hu : dev.udpConnected = true) (hd : dev.receiveDirect = true)
    (ha : Reads socksA dev a)
    (ha0 : 1 ≤ udpInOf a.data junkA 0 ∧ udpInOf a.data junkA 0 ≤ 4)
    (hb : Reads socksB dev b)
    (hb0 : 1 ≤ udpInOf b.data junkB 0 ∧ udpInOf b.data junkB 0 ≤ 4)
    (hb1 : udpInOf b.data junkB 1 ≠ 0)
    (hbl : 2 ≤ b.data.length ∧ b.data.length ≤ UDP_IN_MAXSIZE)
    (hbs : b.isSupp = false → b.remoteIP ≠ localIP) :
    (handleNotifications x y nowB localIP junkB socksB
        (handleNotifications x y nowA localIP junkA socksA dev)).realtimeIP = b.remoteIP
    ∧ (handleNotifications x y nowB localIP junkB socksB
        (handleNotifications x y nowA localIP junkA socksA dev)).realtimeMode
      = REALTIME_MODE_UDP
    ∧ (handleNotifications x y nowB localIP junkB socksB
        (handleNotifications x y nowA localIP junkA socksA dev)).realtimeTimeout
      = if udpInOf b.data junkB 1 = 255 then UINT32_MAX
        else (nowB % 2 ^ 32 + (udpInOf b.data junkB 1 * 1000 + 1)) % 2 ^ 32 := by
  obtain ⟨f1, f2, f3⟩ := handleNotifications_indexed_frame x y nowA localIP junkA socksA dev a
    ha ha0
  generalize handleNotifications x y nowA localIP junkA socksA dev = dev1 at f1 f2 f3
  have hr : Reads socksB dev1 b := by
    obtain ⟨h1, h2⟩ := hb
    refine ⟨h1, ?_⟩
    rw [f3]
    exact h2
  have hu1 : (tickStart x y nowB dev1).udpConnected = true := by
    rw [tickStart_udpConnected, f1]; exact hu
  rw [handleNotifications_reads x y nowB localIP junkB socksB dev1 b hr hu1]
  rw [handleDatagram_realtime x y nowB localIP b junkB _
    (by show (tickStart x y nowB dev1).receiveDirect = true
        rw [tickStart_receiveDirect, f2]; exact hd)
    ⟨by omega, hbl.2⟩ hbs hb0]
  obtain ⟨p, s, h⟩ := handleRealtime_lock y nowB (udpInOf b.data junkB) b.data.length
    b.remoteIP
    { tickStart x y nowB dev1 with
      notifierRemoteIP :=
        socketRemoteIP socksB.notifierUdp (tickStart x y nowB dev1).notifierRemoteIP }
    hbl.1 hb1
  obtain ⟨c, k, h'⟩ := realtimeLock_eq y nowB (udpInOf b.data junkB 1 * 1000 + 1)
    REALTIME_MODE_UDP
    { { tickStart x y nowB dev1 with
        notifierRemoteIP :=
          socketRemoteIP socksB.notifierUdp (tickStart x y nowB dev1).notifierRemoteIP } with
      realtimeIP := b.remoteIP }
  rw [h, h']
  refine ⟨rfl, rfl, ?_⟩
  show (if (udpInOf b.data junkB 1 * 1000 + 1) % 2 ^ 32 = 255001
        ∨ (udpInOf b.data junkB 1 * 1000 + 1) % 2 ^ 32 = 65000 then UINT32_MAX
      else (nowB % 2 ^ 32 + (udpInOf b.data junkB 1 * 1000 + 1) % 2 ^ 32) % 2 ^ 32) = _
  have hlt := udpInOf_lt_256 b.data junkB 1
  have e : (udpInOf b.data junkB 1 * 1000 + 1) % 2 ^ 32 = udpInOf b.data junkB 1 * 1000 + 1 :=
    Nat.mod_eq_of_lt (by omega)
  rw [e]
  by_cases h255 : udpInOf b.data junkB 1 = 255
  · rw [if_pos (Or.inl (by omega)), if_pos h255]
  · rw [if_neg (by omega), if_neg h255]

/-- Witness of C20: `deviceExample` takes a DRGB datagram of sender 7 with duration 200 s
at `millis() = 5000` and one of sender 8 with duration 1 s at 5010; the owner is then 8
and the expiry 6011, before the 205001 that the first datagram had set. -/
theorem C20_last_writer_witness :
    (handleNotifications extExample hostExample 5000 99 (fun _ => 0)
        (primaryOnly [2, 200, 10, 20, 30] 7) deviceExample).realtimeIP = 7
    ∧ (handleNotifications extExample hostExample 5000 99 (fun _ => 0)
        (primaryOnly [2, 200, 10, 20, 30] 7) deviceExample).realtimeTimeout = 205001
    ∧ (handleNotifications extExample hostExample 5010 99 (fun _ => 0)
        (primaryOnly [2, 1, 40, 50, 60] 8)
        (handleNotifications extExample hostExample 5000 99 (fun _ => 0)
          (primaryOnly [2, 200, 10, 20, 30] 7) deviceExample)).realtimeIP = 8
    ∧ (handleNotifications extExample hostExample 5010 99 (fun _ => 0)
        (primaryOnly [2, 1, 40, 50, 60] 8)
        (handleNotifications extExample hostExample 5000 99 (fun _ => 0)
          (primaryOnly [2, 200, 10, 20, 30] 7) deviceExample)).realtimeTimeout = 6011 :=
  ⟨by decide, by decide,
   (C20_last_writer extExample hostExample 5000 5010 99 (fun _ => 0) (fun _ => 0)
      (primaryOnly [2, 200, 10, 20, 30] 7) (primaryOnly [2, 1, 40, 50, 60] 8) deviceExample
      ⟨[2, 200, 10, 20, 30], 7, false⟩ ⟨[2, 1, 40, 50, 60], 8, false⟩ rfl rfl
      ⟨by decide, Or.inl ⟨rfl, rfl⟩⟩ (by decide) ⟨by decide, Or.inl ⟨rfl, rfl⟩⟩ (by decide)
      (by decide) (by decide) (by decide)).1,
   (C20_last_writer extExample hostExample 5000 5010 99 (fun _ => 0) (fun _ => 0)
      (primaryOnly [2, 200, 10, 20, 30] 7) (primaryOnly [2, 1, 40, 50, 60] 8) deviceExample
      ⟨[2, 200, 10, 20, 30], 7, false⟩ ⟨[2, 1, 40, 50, 60], 8, false⟩ rfl rfl
      ⟨by decide, Or.inl ⟨rfl, rfl⟩⟩ (by decide) ⟨by decide, Or.inl ⟨rfl, rfl⟩⟩ (by decide)
      (by decide) (by decide) (by decide)).2.2⟩

/-! ## C21: the duration byte 0 -/

/-- C21, as stated, fails: `lockedExample`, owned by an indexed realtime source,
processes a DRGB datagram of sender 7 with duration byte 0.  When the tick returns the
mode is still that of the indexed formats and the owner address is that of the sender;
only the expiry is 0. -/
theorem C21_counterexample :
    lockedExample.realtimeMode = REALTIME_MODE_UDP
    ∧ (handleNotifications extExample hostExample 5000 99 (fun _ => 0)
        (primaryOnly [2, 0, 10, 20, 30] 7) lockedExample).realtimeMode = REALTIME_MODE_UDP
    ∧ (handleNotifications extExample hostExample 5000 99 (fun _ => 0)
        (primaryOnly [2, 0, 10, 20, 30] 7) lockedExample).realtimeIP = 7
    ∧ (handleNotifications extExample hostExample 5000 99 (fun _ => 0)
        (primaryOnly [2, 0, 10, 20, 30] 7) lockedExample).realtimeTimeout = 0 := by
  decide

/-- C21, amended: a datagram of the indexed formats (leading byte 1 to 4, 2 to 1472
bytes, not from the local address over the primary socket) whose second byte is 0, read
by a connected device that receives realtime data, does not lock and writes no pixel:
it records its sender as owner and sets the expiry to 0, and leaves everything else as
the first steps of the tick left it, the mode included.  The release is that of the
next expiry check: at every `millis()` that is not 0 mod 2^32 the check leaves the mode
inactive, and, if the mode was active, the first octet of the owner address 0. -/
theorem C21_zero_duration (x : Ext) (y : Host) (now localIP : Nat) (junk : Nat → Nat)
    (socks : Sockets) (dev : Device) (d : Datagram)
    (hu : dev.udpConnected = true) (hd : dev.receiveDirect = true)
    (hr : Reads socks dev d)
    (h0 : 1 ≤ udpInOf d.data junk 0 ∧ udpInOf d.data junk 0 ≤ 4)
    (h1 : udpInOf d.data junk 1 = 0)
    (hl : 2 ≤ d.data.length ∧ d.data.length ≤ UDP_IN_MAXSIZE)
    (hs : d.isSupp = false → d.remoteIP ≠ localIP) :
    handleNotifications x y now localIP junk socks dev =
      { tickStart x y now dev with
        notifierRemoteIP := (handleNotifications x y now localIP junk socks dev).notifierRemoteIP
        realtimeIP := d.remoteIP
        realtimeTimeout := 0 }
    ∧ (handleNotifications x y now localIP junk socks dev).realtimeMode
        = (checkExpiry y now dev).realtimeMode
    ∧ (handleNotifications x y now localIP junk socks dev).pixels = dev.pixels
    ∧ ∀ now', now' % 2 ^ 32 ≠ 0 →
        (checkExpiry y now' (handleNotifications x y now localIP junk socks dev)).realtimeMode
          = REALTIME_MODE_INACTIVE
        ∧ ((handleNotifications x y now localIP junk socks dev).realtimeMode ≠ 0 →
            (checkExpiry y now'
              (handleNotifications x y now localIP junk socks dev)).realtimeIP
              = ipSetOctet0 d.remoteIP 0) := by
  have hu1 : (tickStart x y now dev).udpConnected = true := by
    rw [tickStart_udpConnected]; exact hu
  have e := handleNotifications_reads x y now localIP junk socks dev d hr hu1
  rw [handleDatagram_realtime x y now localIP d junk _
    (by show (tickStart x y now dev).receiveDirect = true
        rw [tickStart_receiveDirect]; exact hd)
    ⟨by omega, hl.2⟩ hs h0,
    handleRealtime_zero y now _ _ _ _ hl.1 h1] at e
  generalize handleNotifications x y now localIP junk socks dev = r at e ⊢
  have hto : r.realtimeTimeout = 0 := by rw [e]
  have hip : r.realtimeIP = d.remoteIP := by rw [e]
  refine ⟨by rw [e], ?_, ?_, ?_⟩
  · rw [e]; exact (tickStart_realtime x y now dev).1
  · rw [e]; exact tickStart_pixels x y now dev
  · intro now' hn
    by_cases hm : r.realtimeMode = 0
    · rw [checkExpiry_of_not_expired y now' r (Or.inl hm)]
      exact ⟨hm, fun h => absurd hm h⟩
    · have ex := checkExpiry_of_expired y now' r hm (by rw [hto]; omega)
      refine ⟨by rw [ex], fun _ => ?_⟩
      rw [ex, ← hip]

/-- Witness of C21, amended: after the datagram with duration byte 0 `lockedExample`
has the owner 7 and the expiry 0, still its mode and its pixels, and the expiry check
of the next tick, at `millis() = 5001`, leaves the mode inactive. -/
theorem C21_zero_duration_witness :
    (handleNotifications extExample hostExample 5000 99 (fun _ => 0)
        (primaryOnly [2, 0, 10, 20, 30] 7) lockedExample).pixels = [1, 2, 3, 4, 5, 6, 7, 8]
    ∧ (checkExpiry hostExample 5001
        (handleNotifications extExample hostExample 5000 99 (fun _ => 0)
          (primaryOnly [2, 0, 10, 20, 30] 7) lockedExample)).realtimeMode
      = REALTIME_MODE_INACTIVE :=
  ⟨(C21_zero_duration extExample hostExample 5000 99 (fun _ => 0)
      (primaryOnly [2, 0, 10, 20, 30] 7) lockedExample ⟨[2, 0, 10, 20, 30], 7, false⟩
      rfl rfl ⟨by decide, Or.inl ⟨rfl, rfl⟩⟩ (by decide) (by decide) (by decide)
      (by decide)).2.2.1,
   ((C21_zero_duration extExample hostExample 5000 99 (fun _ => 0)
      (primaryOnly [2, 0, 10, 20, 30] 7) lockedExample ⟨[2, 0, 10, 20, 30], 7, false⟩
      rfl rfl ⟨by decide, Or.inl ⟨rfl, rfl⟩⟩ (by decide) (by decide) (by decide)
      (by decide)).2.2.2 5001 (by decide)).1⟩

/-! ## C22: the leading byte 5 -/

/-- C22, on the code: a datagram with leading byte 5 is not one of the indexed formats.
The test of line 458 admits the leading bytes 1 to 4 only, so that the branch
`udpIn[0] == 5` of line 507 is never reached; the datagram falls through to the API
branch, which takes no text that starts with the byte 5, and the device stays as it
was: no lock, no pixel. -/
theorem C22_byte5_ignored (x : Ext) (y : Host) (now localIP : Nat) (d : Datagram)
    (junk : Nat → Nat) (dev : Device) (h0 : udpInOf d.data junk 0 = 5) :
    handleDatagram x y now localIP d junk dev = dev := by
  unfold handleDatagram
  simp only
  by_cases h1 : (!(dev.receiveNotifications || dev.receiveDirect)) = true
  · rw [if_pos h1]
  rw [if_neg h1]
  by_cases h2 : (decide (d.data.length = 0) || decide (d.data.length > UDP_IN_MAXSIZE)) = true
  · rw [if_pos h2]
  rw [if_neg h2]
  by_cases h3 : (!d.isSupp && decide (d.remoteIP = localIP)) = true
  · rw [if_pos h3]
  rw [if_neg h3]
  have hl : d.data.length ≠ 0 := by
    intro e; apply h2; simp [e]
  rw [if_neg (by
    simp only [Bool.and_eq_true, decide_eq_true_eq, not_and]
    intro ⟨⟨_, e⟩, _⟩
    omega)]
  rw [if_neg (by
    simp only [Bool.and_eq_true, decide_eq_true_eq, not_and]
    intro e
    omega)]
  by_cases h5 : (!dev.receiveDirect) = true
  · rw [if_pos h5]
  rw [if_neg h5, if_neg (by omega)]
  rw [if_neg (by
    simp only [Bool.and_eq_true, decide_eq_true_eq, not_and]
    omega)]
  exact handleApi_other y _ _ dev hl (Or.inl (by omega))

/-- Witness of C22: the DNRGBW datagram `[5, 2, 0, 0, 10, 20, 30, 40]` leaves
`deviceExample` without owner and with its eight pixels, while the same bytes behind the
leading byte 4 lock it and write pixel 0. -/
theorem C22_byte5_ignored_witness :
    handleDatagram extExample hostExample 5000 99 ⟨[5, 2, 0, 0, 10, 20, 30, 40], 7, false⟩
        (fun _ => 0) deviceExample = deviceExample
    ∧ (handleNotifications extExample hostExample 5000 99 (fun _ => 0)
        (primaryOnly [5, 2, 0, 0, 10, 20, 30, 40] 7) deviceExample).realtimeMode
      = REALTIME_MODE_INACTIVE
    ∧ (handleNotifications extExample hostExample 5000 99 (fun _ => 0)
        (primaryOnly [5, 2, 0, 0, 10, 20, 30, 40] 7) deviceExample).pixels
      = [1, 2, 3, 4, 5, 6, 7, 8]
    ∧ (handleNotifications extExample hostExample 5000 99 (fun _ => 0)
        (primaryOnly [4, 2, 0, 0, 10, 20, 30, 40] 7) deviceExample).realtimeMode
      = REALTIME_MODE_UDP
    ∧ (handleNotifications extExample hostExample 5000 99 (fun _ => 0)
        (primaryOnly [4, 2, 0, 0, 10, 20, 30, 40] 7) deviceExample).pixels
      = [660510, 0, 0, 0, 0, 0, 0, 0] :=
  ⟨C22_byte5_ignored extExample hostExample 5000 99 ⟨[5, 2, 0, 0, 10, 20, 30, 40], 7, false⟩
      (fun _ => 0) deviceExample (by decide),
   by decide, by decide, by decide, by decide⟩

/-! ## C23: the completion of a TPM2.NET frame -/

/-- C23: a connected device that receives realtime data, with the packet counter at 0, no
override and no offset, whose buffer holds at least `n * k` pixels, goes through `n`
passes of `handleNotifications` (`1 <= n <= 255`); pass `p` reads from a notifier socket,
not from the address of the device itself on the primary socket, the data packet `p` of a
TPM2.NET frame, which declares the payload size `3 * k`, the packet number `p` and `n`
packets in all and carries its payload.  Then reading the packet flushes the display in
the `n`-th pass and in no pass before it, on top of what the pass shows before it polls
the sockets; with no E1.31 data waiting the display is flushed exactly once in all, in
the `n`-th pass.  The counter is `m` after `m < n` passes and 0 after the `n`-th.  After
the pass of packet `p`, pixel `k * (p - 1) + j` holds the colour of triplet `j` of that
packet, so that the writes cover the pixels 0 to `n * k - 1`; and when no packet after
the first arrives later than the expiry time that the lock of the packet before it set,
all of these pixels hold their colours after the `n`-th pass. -/
theorem C23_frame_completion (x : Ext) (y : Host) (localIP n k : Nat) (tk : Nat → Tick)
    (d : Nat → Datagram) (dev : Device) (hn : 1 ≤ n ∧ n ≤ 255)
    (hu : dev.udpConnected = true) (hd : dev.receiveDirect = true)
    (hc : dev.tpmPacketCount = 0) (ho : dev.realtimeOverride = REALTIME_OVERRIDE_NONE)
    (h0 : dev.arlsOffset = 0)
    (hL : n * k ≤ dev.pixels.length ∧ dev.pixels.length < 2 ^ 16)
    (hp : ∀ p, p < n → Reads (tk p).socks dev (d p)
      ∧ ((d p).isSupp = false → (d p).remoteIP ≠ localIP)
      ∧ 3 * k + 6 ≤ (d p).data.length ∧ (d p).data.length ≤ UDP_IN_MAXSIZE
      ∧ udpInOf (d p).data (tk p).junk 0 = 0x9c ∧ udpInOf (d p).data (tk p).junk 1 = 0xda
      ∧ (udpInOf (d p).data (tk p).junk 2 <<< 8) + udpInOf (d p).data (tk p).junk 3 = 3 * k
      ∧ udpInOf (d p).data (tk p).junk 4 = p + 1 ∧ udpInOf (d p).data (tk p).junk 5 = n) :
    (∀ m, m < n →
      (tickRun x y localIP ((List.range (m + 1)).map tk) dev).shows
        = (tickStart x y (tk m).now (tickRun x y localIP ((List.range m).map tk) dev)).shows
          + (if m + 1 = n then 1 else 0))
    ∧ (dev.e131NewData = false →
        (∀ m, m < n → (tickRun x y localIP ((List.range m).map tk) dev).shows = dev.shows)
        ∧ (tickRun x y localIP ((List.range n).map tk) dev).shows = dev.shows + 1)
    ∧ (∀ m, m < n → (tickRun x y localIP ((List.range m).map tk) dev).tpmPacketCount = m)
    ∧ (tickRun x y localIP ((List.range n).map tk) dev).tpmPacketCount = 0
    ∧ (∀ p j, p < n → j < k →
        (tickRun x y localIP ((List.range (p + 1)).map tk) dev).pixels[k * p + j]?
          = some (realtimeColor y dev (udpInOf (d p).data (tk p).junk (6 + 3 * j))
              (udpInOf (d p).data (tk p).junk (6 + 3 * j + 1))
              (udpInOf (d p).data (tk p).junk (6 + 3 * j + 2)) 0))
    ∧ ((∀ i, i + 1 < n → ¬ (tk (i + 1)).now % 2 ^ 32
          > (tickRun x y localIP ((List.range (i + 1)).map tk) dev).realtimeTimeout) →
        ∀ p j, p < n → j < k →
          (tickRun x y localIP ((List.range n).map tk) dev).pixels[k * p + j]?
            = some (realtimeColor y dev (udpInOf (d p).data (tk p).junk (6 + 3 * j))
                (udpInOf (d p).data (tk p).junk (6 + 3 * j + 1))
                (udpInOf (d p).data (tk p).junk (6 + 3 * j + 2)) 0)) := by
  have inv := tpm2_frame_inv x y localIP n k tk d dev hn.2 hu hd hc ho h0 hL hp
  have step : ∀ m, m < n →
      (tickRun x y localIP ((List.range (m + 1)).map tk) dev).tpmPacketCount
          = (if m + 1 = n then 0 else m + 1)
      ∧ (tickRun x y localIP ((List.range (m + 1)).map tk) dev).shows
          = (tickStart x y (tk m).now
              (tickRun x y localIP ((List.range m).map tk) dev)).shows
            + (if m + 1 = n then 1 else 0)
      ∧ (∀ j, j < k →
          (tickRun x y localIP ((List.range (m + 1)).map tk) dev).pixels[k * m + j]?
            = some (realtimeColor y dev (udpInOf (d m).data (tk m).junk (6 + 3 * j))
                (udpInOf (d m).data (tk m).junk (6 + 3 * j + 1))
                (udpInOf (d m).data (tk m).junk (6 + 3 * j + 2)) 0))
      ∧ ((tickStart x y (tk m).now
            (tickRun x y localIP ((List.range m).map tk) dev)).realtimeMode ≠ 0 →
          ∀ i, i < k * m →
            (tickRun x y localIP ((List.range (m + 1)).map tk) dev).pixels[i]?
              = (tickRun x y localIP ((List.range m).map tk) dev).pixels[i]?) := by
    intro m hm
    obtain ⟨i1, i2, i3, i4, i5, i6, i7, i8, i9, i10, i11, i12⟩ := inv m hm
    obtain ⟨q1, q2, q3, q4, q5, q6, q7, q8, q9⟩ := hp m hm
    have hfit : k * m + k ≤ dev.pixels.length := by
      have : k * (m + 1) ≤ n * k := by
        rw [Nat.mul_comm n k]
        exact Nat.mul_le_mul_left k (by omega)
      have e : k * (m + 1) = k * m + k := by ring
      omega
    have st := tpm2_tick x y (tk m).now localIP (tk m).junk (tk m).socks
      (tickRun x y localIP ((List.range m).map tk) dev) (d m) k m n
      dev.pixels.length (Reads_congr _ dev _ _ i9 q1) i7 i8 ⟨q3, q4⟩ q2 q5 q6 q7 q8 q9
      (by omega) i1 i2 i3 i6 hL.2 hfit (fun h => (i10 h).1)
    rw [← tickRun_succ] at st
    obtain ⟨s1, s2, s3, s4, s5, s6, s7, s8, s9, s10, s11, s12, s13, s14, s15⟩ := st
    refine ⟨s8, s9, ?_, s11⟩
    intro j hj
    rw [s10 j hj]
    exact congrArg some (realtimeColor_cfg y dev _ _ _ _ _ i4 i5)
  obtain ⟨m, rfl⟩ : ∃ m, n = m + 1 := ⟨n - 1, by omega⟩
  refine ⟨fun m hm => (step m hm).2.1, ?_, fun m hm => (inv m hm).1, ?_,
    fun p j hp' hj => (step p hp').2.2.1 j hj, ?_⟩
  · intro he
    refine ⟨fun m hm => ((inv m hm).2.2.2.2.2.2.2.2.2.2.1 he).2, ?_⟩
    obtain ⟨e1, e2⟩ := (inv m (by omega)).2.2.2.2.2.2.2.2.2.2.1 he
    rw [(step m (by omega)).2.1, if_pos rfl, (tickStart_shows x y (tk m).now _ e1).1, e2]
  · rw [(step m (by omega)).1, if_pos rfl]
  · intro hne p j hp' hj
    by_cases hpm : p = m
    · subst hpm
      exact (step p (by omega)).2.2.1 j hj
    · have hlt : p < m := by omega
      have hidx : k * p + j < k * m := by
        have : k * (p + 1) ≤ k * m := Nat.mul_le_mul_left k (by omega)
        have e : k * (p + 1) = k * p + k := by ring
        omega
      have hT : (tickStart x y (tk m).now
          (tickRun x y localIP ((List.range m).map tk) dev)).realtimeMode ≠ 0 := by
        cases m with
        | zero => omega
        | succ m' =>
          rw [(tickStart_locked x y _ _ (Or.inr (hne m' (by omega)))).1]
          exact ((inv (m' + 1) (by omega)).2.2.2.2.2.2.2.2.2.1 (by omega)).2
      rw [(step m (by omega)).2.2.2 hT _ hidx]
      exact (inv m (by omega)).2.2.2.2.2.2.2.2.2.2.2 hne p j hlt hj

/-- The three passes of `tpmFrameExample 1` read the three packets of a frame. -/
theorem tpmFrameExample_packets : ∀ p, p < 3 →
    Reads (tpmFrameExample 1 p).socks deviceExample (tpmDatagramExample p)
    ∧ ((tpmDatagramExample p).isSupp = false → (tpmDatagramExample p).remoteIP ≠ 99)
    ∧ 3 * 2 + 6 ≤ (tpmDatagramExample p).data.length
    ∧ (tpmDatagramExample p).data.length ≤ UDP_IN_MAXSIZE
    ∧ udpInOf (tpmDatagramExample p).data (tpmFrameExample 1 p).junk 0 = 0x9c
    ∧ udpInOf (tpmDatagramExample p).data (tpmFrameExample 1 p).junk 1 = 0xda
    ∧ (udpInOf (tpmDatagramExample p).data (tpmFrameExample 1 p).junk 2 <<< 8)
        + udpInOf (tpmDatagramExample p).data (tpmFrameExample 1 p).junk 3 = 3 * 2
    ∧ udpInOf (tpmDatagramExample p).data (tpmFrameExample 1 p).junk 4 = p + 1
    ∧ udpInOf (tpmDatagramExample p).data (tpmFrameExample 1 p).junk 5 = 3 := by
  intro p hp
  interval_cases p <;>
    exact ⟨⟨by decide, Or.inl ⟨rfl, rfl⟩⟩, by decide, by decide, by decide, by decide,
      by decide, by decide, by decide, by decide⟩

theorem tpmFrameExample_lock : ∀ i, i + 1 < 3 → ¬ (tpmFrameExample 1 (i + 1)).now % 2 ^ 32
    > (tickRun extExample hostExample 99 ((List.range (i + 1)).map (tpmFrameExample 1))
        deviceExample).realtimeTimeout := by
  intro i hi
  have hi2 : i < 2 := by omega
  interval_cases i <;> decide

/-- Witness of C23, `n = 3`: the three passes of `tpmFrameExample 1`, one millisecond
apart, read three packets of two pixels each.  They flush the display of `deviceExample`
once, in the third pass, count 1, 2 and 0 packets, write the pixels 2 and 3 in the
second pass and leave the pixels 0 to 5 filled in the order of the packets; the pixels 6
and 7 are those that the lock cleared. -/
theorem C23_frame_completion_witness :
    (tickRun extExample hostExample 99 ((List.range 2).map (tpmFrameExample 1))
        deviceExample).shows = 0
    ∧ (tickRun extExample hostExample 99 ((List.range 3).map (tpmFrameExample 1))
        deviceExample).shows = 1
    ∧ (tickRun extExample hostExample 99 ((List.range 2).map (tpmFrameExample 1))
        deviceExample).tpmPacketCount = 2
    ∧ (tickRun extExample hostExample 99 ((List.range 3).map (tpmFrameExample 1))
        deviceExample).tpmPacketCount = 0
    ∧ (tickRun extExample hostExample 99 ((List.range 2).map (tpmFrameExample 1))
        deviceExample).pixels[2 * 1 + 1]? = some (RGBW32 14 15 16 0)
    ∧ (tickRun extExample hostExample 99 ((List.range 3).map (tpmFrameExample 1))
        deviceExample).pixels[2 * 0 + 1]? = some (RGBW32 4 5 6 0)
    ∧ (tickRun extExample hostExample 99 ((List.range 3).map (tpmFrameExample 1))
        deviceExample).pixels
        = [RGBW32 1 2 3 0, RGBW32 4 5 6 0, RGBW32 11 12 13 0, RGBW32 14 15 16 0,
           RGBW32 21 22 23 0, RGBW32 24 25 26 0, 0, 0] :=
  ⟨((C23_frame_completion extExample hostExample 99 3 2 (tpmFrameExample 1)
      tpmDatagramExample deviceExample ⟨by decide, by decide⟩ rfl rfl rfl rfl rfl
      ⟨by decide, by decide⟩ tpmFrameExample_packets).2.1 rfl).1 2 (by decide),
   ((C23_frame_completion extExample hostExample 99 3 2 (tpmFrameExample 1)
      tpmDatagramExample deviceExample ⟨by decide, by decide⟩ rfl rfl rfl rfl rfl
      ⟨by decide, by decide⟩ tpmFrameExample_packets).2.1 rfl).2,
   (C23_frame_completion extExample hostExample 99 3 2 (tpmFrameExample 1)
      tpmDatagramExample deviceExample ⟨by decide, by decide⟩ rfl rfl rfl rfl rfl
      ⟨by decide, by decide⟩ tpmFrameExample_packets).2.2.1 2 (by decide),
   (C23_frame_completion extExample hostExample 99 3 2 (tpmFrameExample 1)
      tpmDatagramExample deviceExample ⟨by decide, by decide⟩ rfl rfl rfl rfl rfl
      ⟨by decide, by decide⟩ tpmFrameExample_packets).2.2.2.1,
   (C23_frame_completion extExample hostExample 99 3 2 (tpmFrameExample 1)
      tpmDatagramExample deviceExample ⟨by decide, by decide⟩ rfl rfl rfl rfl rfl
      ⟨by decide, by decide⟩ tpmFrameExample_packets).2.2.2.2.1 1 1 (by decide) (by decide),
   (C23_frame_completion extExample hostExample 99 3 2 (tpmFrameExample 1)
      tpmDatagramExample deviceExample ⟨by decide, by decide⟩ rfl rfl rfl rfl rfl
      ⟨by decide, by decide⟩ tpmFrameExample_packets).2.2.2.2.2 tpmFrameExample_lock 0 1
      (by decide) (by decide),
   by decide⟩

/-- The passes of `tpmFrameExample 3000` read the same three packets three seconds apart,
later than the 2500 ms of the lock: the display is flushed once and the counter is 0
after the third pass, each pass has written its two pixels, but the lock, expired before
the second and the third packet, clears the buffer again, and only the pixels of the
third packet are left at the end. -/
theorem tpmFrameExample_expired :
    (tickRun extExample hostExample 99 ((List.range 3).map (tpmFrameExample 3000))
        deviceExample).shows = 1
    ∧ (tickRun extExample hostExample 99 ((List.range 3).map (tpmFrameExample 3000))
        deviceExample).tpmPacketCount = 0
    ∧ (tickRun extExample hostExample 99 ((List.range 1).map (tpmFrameExample 3000))
        deviceExample).pixels
        = [RGBW32 1 2 3 0, RGBW32 4 5 6 0, 0, 0, 0, 0, 0, 0]
    ∧ (tickRun extExample hostExample 99 ((List.range 2).map (tpmFrameExample 3000))
        deviceExample).pixels
        = [0, 0, RGBW32 11 12 13 0, RGBW32 14 15 16 0, 0, 0, 0, 0]
    ∧ (tickRun extExample hostExample 99 ((List.range 3).map (tpmFrameExample 3000))
        deviceExample).pixels
        = [0, 0, 0, 0, RGBW32 21 22 23 0, RGBW32 24 25 26 0, 0, 0] := by
  decide

/-! ## C24: the pixel index of a TPM2.NET packet -/

theorem tpm2Loop_clipped (y : Host) (cfg : Device) (u : Nat → Nat) (S T fuel i id : Nat)
    (px : List Nat) (h : T ≤ id) : tpm2Loop y cfg u S T fuel i id px = px := by
  cases fuel with
  | zero => rfl
  | succ fuel =>
    unfold tpm2Loop
    split_ifs
    · omega
    · rfl
    · rfl

/-- C24, on the code: a TPM2.NET data packet processed without override captures the
payload size `S` from bytes 2 and 3 when the counter was 0 and keeps the captured size
otherwise, and, for `S` up to 65531 and a buffer of fewer than 2^16 pixels, hands to
`setRealtimePixel` the consecutive indices from `id` on with the triplets from byte 6
on, `floor(S / 3)` of them unless the buffer length clips them.  The start `id` is
`(S / 3) * (packetNum - 1)` cut to 16 bits, the `uint16_t id` of line 438: it depends on
the packet number and the captured size only, but a product of 65536 or more comes back
into the buffer instead of being clipped. -/
theorem C24_tpm2_index (y : Host) (now : Nat) (udpIn : Nat → Nat) (remoteIP : Nat)
    (dev : Device) (S : Nat) (h1 : udpIn 1 = 0xda)
    (ho : dev.realtimeOverride = REALTIME_OVERRIDE_NONE)
    (hL : dev.pixels.length < 2 ^ 16)
    (hS : S = if (dev.tpmPacketCount + 1) % 256 = 1 then ((udpIn 2 <<< 8) + udpIn 3) % 2 ^ 16
      else dev.tpmPayloadFrameSize)
    (hw : S ≤ 65531) :
    (handleTPM2 y now udpIn remoteIP dev).tpmPayloadFrameSize = S
    ∧ (handleTPM2 y now udpIn remoteIP dev).pixels
      = (List.range (min (S / 3) (dev.pixels.length
            - (((S / 3 : Nat) : Int) * ((udpIn 4 : Int) - 1) % 2 ^ 16).toNat))).foldl
          (fun px j =>
            setRealtimePixel y dev px
              ((((S / 3 : Nat) : Int) * ((udpIn 4 : Int) - 1) % 2 ^ 16).toNat + j)
              (udpIn (6 + 3 * j)) (udpIn (6 + 3 * j + 1)) (udpIn (6 + 3 * j + 2)) 0)
          (realtimeLock y now dev.realtimeTimeoutMs REALTIME_MODE_TPM2NET
            { dev with realtimeIP := remoteIP }).pixels := by
  have lk := realtimeLock_tpm2 y now dev.realtimeTimeoutMs { dev with realtimeIP := remoteIP }
  rw [handleTPM2_data y now udpIn remoteIP dev h1 ho]
  generalize realtimeLock y now dev.realtimeTimeoutMs REALTIME_MODE_TPM2NET
    { dev with realtimeIP := remoteIP } = Lk at lk
  obtain ⟨-, -, -, -, -, -, ll, -⟩ := lk
  have eT : getLengthTotal Lk.pixels = dev.pixels.length := by
    unfold getLengthTotal
    rw [ll]
    exact Nat.mod_eq_of_lt hL
  simp only [← hS, eT]
  generalize (((S / 3 : Nat) : Int) * ((udpIn 4 : Int) - 1) % 2 ^ 16).toNat = id
  have hpx : tpm2Loop y dev udpIn S dev.pixels.length (dev.pixels.length + 1) 6 id Lk.pixels
      = (List.range (min (S / 3) (dev.pixels.length - id))).foldl (fun px j =>
          setRealtimePixel y dev px (id + j) (udpIn (6 + 3 * j)) (udpIn (6 + 3 * j + 1))
            (udpIn (6 + 3 * j + 2)) 0) Lk.pixels := by
    by_cases hid : id ≤ dev.pixels.length
    · exact tpm2Loop_fold y dev udpIn S dev.pixels.length id _ Lk.pixels (by omega) hL hid
        (by omega)
    · rw [tpm2Loop_clipped y dev udpIn S _ _ _ _ _ (by omega)]
      have e : dev.pixels.length - id = 0 := by omega
      rw [e, Nat.min_zero]
      rfl
  rw [hpx]
  split_ifs <;> exact ⟨rfl, rfl⟩

/-- Witness of C24: `deviceExample`, eight pixels, processes a data packet that declares
a payload of 1536 bytes, 512 pixels, and the packet number 129.  The first pixel of the
packet is pixel `512 * 128 = 65536` of the frame, beyond every buffer, but the packet
overwrites the pixels 0 to 7, the first with its first triplet. -/
theorem C24_tpm2_index_witness :
    (1536 / 3) * (129 - 1) = 65536
    ∧ (handleTPM2 hostExample 5000
        (udpInOf [0x9c, 0xda, 6, 0, 129, 200, 10, 20, 30] (fun _ => 1)) 7
        deviceExample).tpmPayloadFrameSize = 1536
    ∧ (handleTPM2 hostExample 5000
        (udpInOf [0x9c, 0xda, 6, 0, 129, 200, 10, 20, 30] (fun _ => 1)) 7
        deviceExample).pixels
      = [RGBW32 10 20 30 0, RGBW32 1 1 1 0, RGBW32 1 1 1 0, RGBW32 1 1 1 0, RGBW32 1 1 1 0,
         RGBW32 1 1 1 0, RGBW32 1 1 1 0, RGBW32 1 1 1 0]
    ∧ (handleNotifications extExample hostExample 5000 99 (fun _ => 1)
        (primaryOnly [0x9c, 0xda, 6, 0, 129, 200, 10, 20, 30] 7) deviceExample).pixels
      = [RGBW32 10 20 30 0, RGBW32 1 1 1 0, RGBW32 1 1 1 0, RGBW32 1 1 1 0, RGBW32 1 1 1 0,
         RGBW32 1 1 1 0, RGBW32 1 1 1 0, RGBW32 1 1 1 0] :=
  ⟨by decide,
   (C24_tpm2_index hostExample 5000
      (udpInOf [0x9c, 0xda, 6, 0, 129, 200, 10, 20, 30] (fun _ => 1)) 7 deviceExample 1536
      (by decide) rfl (by decide) (by decide) (by decide)).1,
   by decide, by decide⟩

/-! ## C25: the TPM2.NET poll -/

/-- C25, on the code: a TPM2.NET poll (leading byte 0x9C, sub-type 0xAA, 1 to 1472
bytes, not from the local address over the primary socket), read by a connected device
that receives realtime data, adds exactly one datagram to those sent, the single byte
0xAC to port 65442, and changes nothing else of what the first steps of the tick left.
Its destination is the address `notifierUdp.remoteIP()` of the primary socket: the
requester when the poll came over the primary socket, but the last sender of the
primary socket, not the requester, when it came over the supplementary one. -/
theorem C25_poll_ack (x : Ext) (y : Host) (now localIP : Nat) (junk : Nat → Nat)
    (socks : Sockets) (dev : Device) (d : Datagram)
    (hu : dev.udpConnected = true) (hd : dev.receiveDirect = true)
    (hr : Reads socks dev d)
    (h0 : udpInOf d.data junk 0 = 0x9c) (h1 : udpInOf d.data junk 1 = 0xaa)
    (hl : d.data.length ≤ UDP_IN_MAXSIZE)
    (hs : d.isSupp = false → d.remoteIP ≠ localIP) :
    handleNotifications x y now localIP junk socks dev =
      { tickStart x y now dev with
        notifierRemoteIP := if d.isSupp then dev.notifierRemoteIP else d.remoteIP
        sent := (tickStart x y now dev).sent ++
          [⟨if d.isSupp then dev.notifierRemoteIP else d.remoteIP, TMP2NET_OUT_PORT, [0xac]⟩] }
      := by
  have hu1 : (tickStart x y now dev).udpConnected = true := by
    rw [tickStart_udpConnected]; exact hu
  have hne : 1 ≤ d.data.length := by
    have := hr.1
    cases hdd : d.data with
    | nil => exact absurd hdd this
    | cons a l => simp
  rw [handleNotifications_reads x y now localIP junk socks dev d hr hu1]
  rw [handleDatagram_tpm2 x y now localIP d junk _
    (by show (tickStart x y now dev).receiveDirect = true
        rw [tickStart_receiveDirect]; exact hd)
    ⟨hne, hl⟩ hs h0]
  have hrem : socketRemoteIP socks.notifierUdp (tickStart x y now dev).notifierRemoteIP
      = if d.isSupp then dev.notifierRemoteIP else d.remoteIP := by
    rw [tickStart_notifierRemoteIP]
    obtain ⟨hdat, h | h⟩ := hr
    · rw [h.1, h.2, socketRemoteIP_some _ _ (by
        show d.data.length ≠ 0
        omega)]
      rfl
    · rw [h.2.2.2]
      simp only [if_true]
      cases hp : socks.notifierUdp with
      | none => rfl
      | some q =>
        have : q.data.length = 0 := by
          have := h.1
          rw [hp] at this
          exact this
        simp [socketRemoteIP, this]
  unfold handleTPM2 sendTPM2Ack
  simp only
  rw [if_pos h1, hrem]

/-- Witness of C25: a poll of sender 8 over the primary socket is answered to 8; over
the supplementary socket the answer goes to the last sender of the primary socket, 7,
or, `deviceExample` having seen no datagram on the primary socket, to the address 0. -/
theorem C25_poll_ack_witness :
    (handleNotifications extExample hostExample 5000 99 (fun _ => 0)
        (primaryOnly [0x9c, 0xaa] 8) deviceExample).sent = [⟨8, 65442, [0xac]⟩]
    ∧ (handleNotifications extExample hostExample 5000 99 (fun _ => 0)
        (suppOnly [0x9c, 0xaa] 8) { deviceExample with notifierRemoteIP := 7 }).sent
      = [⟨7, 65442, [0xac]⟩]
    ∧ (handleNotifications extExample hostExample 5000 99 (fun _ => 0)
        (suppOnly [0x9c, 0xaa] 8) deviceExample).sent = [⟨0, 65442, [0xac]⟩]
    ∧ handleNotifications extExample hostExample 5000 99 (fun _ => 0)
        (suppOnly [0x9c, 0xaa] 8) deviceExample
      = { deviceExample with sent := [⟨0, 65442, [0xac]⟩] } :=
  ⟨by decide, by decide, by decide,
   C25_poll_ack extExample hostExample 5000 99 (fun _ => 0) (suppOnly [0x9c, 0xaa] 8)
     deviceExample ⟨[0x9c, 0xaa], 8, true⟩ rfl rfl ⟨by decide, Or.inr ⟨rfl, rfl, rfl, rfl⟩⟩
     (by decide) (by decide) (by decide) (by decide)⟩

/-! ## C26: the aging of an announced node -/

/-- C26, as stated, fails: the announcement of `sysInfoExample`, unit 7 at
`192.168.1.7`, leaves `deviceExample` with the entry of age 0; after ten runs of
`refreshNodeList` the entry is still in the list, with age 10, and the eleventh run
removes it. -/
theorem C26_counterexample :
    (handleNotifications extExample hostExample 5000 99 (fun _ => 0)
        (suppOnly (sysInfoData sysInfoExample) 8) deviceExample).Nodes = nodesExample
    ∧ (nodesExample.lookup 7).map NodeStruct.age = some 0
    ∧ ((refreshNodeList^[9] nodesExample).lookup 7).map NodeStruct.age = some 9
    ∧ ((refreshNodeList^[10] nodesExample).lookup 7).map NodeStruct.age = some 10
    ∧ (refreshNodeList^[11] nodesExample).lookup 7 = none := by
  decide

/-- C26, amended: after the node-info branch has accepted an announcement with a nonzero
first address octet (byte 2) for a unit that is in the list or finds room in it, the
entry of the unit has age 0; after `m` runs of `refreshNodeList` without a new
announcement, for every `m` up to ten, the entry is in the list with age `m` and
otherwise as stored, and the eleventh run removes it. -/
theorem C26_node_aging (y : Host) (localIP : Nat) (udpIn : Nat → Nat) (len remoteIP : Nat)
    (dev : Device) (he : dev.nodeListEnabled = true) (hip : remoteIP ≠ localIP)
    (h2 : udpIn 2 ≠ 0)
    (hp : dev.Nodes.lookup (udpIn 39) ≠ none ∨ dev.Nodes.length < y.WLED_MAX_NODES) :
    ∃ nd, (handleNodeInfo y localIP udpIn len remoteIP dev).Nodes.lookup (udpIn 39) = some nd
      ∧ nd.age = 0
      ∧ (∀ m, m ≤ 10 →
          (refreshNodeList^[m] (handleNodeInfo y localIP udpIn len remoteIP dev).Nodes).lookup
            (udpIn 39) = some { nd with age := m })
      ∧ (refreshNodeList^[11] (handleNodeInfo y localIP udpIn len remoteIP dev).Nodes).lookup
            (udpIn 39) = none := by
  rw [handleNodeInfo_accepted y localIP udpIn len remoteIP dev he hip]
  simp only
  have inv := updated_entries y udpIn len
    (if dev.Nodes.lookup (udpIn 39) = none ∧ dev.Nodes.length < y.WLED_MAX_NODES then
      dev.Nodes ++ [(udpIn 39, NodeStruct.new)] else dev.Nodes) h2
  have hl : ∃ nd0, (if dev.Nodes.lookup (udpIn 39) = none
        ∧ dev.Nodes.length < y.WLED_MAX_NODES then
      dev.Nodes ++ [(udpIn 39, NodeStruct.new)] else dev.Nodes).lookup (udpIn 39)
        = some nd0 := by
    by_cases hc : dev.Nodes.lookup (udpIn 39) = none
    · have hroom : dev.Nodes.length < y.WLED_MAX_NODES := by
        rcases hp with h | h
        · exact absurd hc h
        · exact h
      rw [if_pos ⟨hc, hroom⟩]
      exact ⟨_, lookup_append_new _ _ _ hc⟩
    · rw [if_neg (fun h => hc h.1)]
      cases hq : dev.Nodes.lookup (udpIn 39) with
      | none => exact absurd hq hc
      | some nd0 => exact ⟨nd0, rfl⟩
  obtain ⟨nd0, hnd0⟩ := hl
  have hlook := lookup_map_update
    (if dev.Nodes.lookup (udpIn 39) = none ∧ dev.Nodes.length < y.WLED_MAX_NODES then
      dev.Nodes ++ [(udpIn 39, NodeStruct.new)] else dev.Nodes)
    (udpIn 39) (udpIn 39) (storeNodeInfo y udpIn len)
  rw [if_pos rfl, hnd0] at hlook
  refine ⟨storeNodeInfo y udpIn len nd0, hlook, rfl, ?_, ?_⟩
  · intro m hm
    rw [(refreshNodeList_iterate (udpIn 39) _ inv m hm).1, hlook]
    rfl
  · exact refreshNodeList_eleven (udpIn 39) _ inv

/-- Witness of C26, amended: the entry that the announcement of `sysInfoExample` leaves
in the list of `deviceExample` is there with age 10 after ten runs of `refreshNodeList`
and gone after the eleventh. -/
theorem C26_node_aging_witness :
    (refreshNodeList^[10] (handleNodeInfo hostExample 99
        (udpInOf (sysInfoData sysInfoExample) (fun _ => 0)) 44 8 deviceExample).Nodes).lookup 7
      ≠ none
    ∧ (refreshNodeList^[11] (handleNodeInfo hostExample 99
        (udpInOf (sysInfoData sysInfoExample) (fun _ => 0)) 44 8 deviceExample).Nodes).lookup 7
      = none := by
  obtain ⟨nd, _, _, h3, h4⟩ := C26_node_aging hostExample 99
    (udpInOf (sysInfoData sysInfoExample) (fun _ => 0)) 44 8 deviceExample rfl (by decide)
    (by decide) (Or.inr (by decide))
  exact ⟨fun h => Option.noConfusion ((h3 10 (le_refl _)).symm.trans h), h4⟩

/-! ## C27: the capacity of the node list -/

theorem handleNodeInfo_length (y : Host) (localIP : Nat) (u : Nat → Nat) (len ip : Nat)
    (dev : Device) (h : dev.Nodes.length ≤ y.WLED_MAX_NODES) :
    (handleNodeInfo y localIP u len ip dev).Nodes.length ≤ y.WLED_MAX_NODES := by
  by_cases ha : dev.nodeListEnabled = true ∧ ip ≠ localIP
  · rw [handleNodeInfo_accepted y localIP u len ip dev ha.1 ha.2]
    simp only [List.length_map]
    split_ifs with hc
    · rw [List.length_append]
      simp only [List.length_singleton]
      exact hc.2
    · exact h
  · rw [handleNodeInfo_dropped]
    · exact h
    · by_cases he : dev.nodeListEnabled = true
      · right
        by_contra hip
        exact ha ⟨he, hip⟩
      · left
        simpa using he

theorem nodeRun_length (y : Host) (localIP : Nat) (events : List NodeEvent) (dev : Device)
    (h : dev.Nodes.length ≤ y.WLED_MAX_NODES) :
    (nodeRun y localIP events dev).Nodes.length ≤ y.WLED_MAX_NODES := by
  induction events generalizing dev with
  | nil => exact h
  | cons e es ih =>
    unfold nodeRun
    rw [List.foldl_cons]
    apply ih
    cases e with
    | announce u len ip => exact handleNodeInfo_length y localIP u len ip dev h
    | tick => exact le_trans (refreshNodeList_length dev.Nodes) h

/-- C27: when the node list holds `WLED_MAX_NODES` entries (or more), a tick that reads
an announcement for a unit that is not in the list leaves the list as it was, nothing
inserted and nothing removed; and from a list of at most `WLED_MAX_NODES` entries every
sequence of announcements and of runs of `refreshNodeList` leads to a list of at most
`WLED_MAX_NODES` entries. -/
theorem C27_registry_capacity (x : Ext) (y : Host) (now localIP : Nat) (junk : Nat → Nat)
    (dev : Device) :
    (∀ (socks : Sockets) (d : Datagram), Reads socks dev d → d.isSupp = true →
      40 ≤ d.data.length → udpInOf d.data junk 0 = 255 → udpInOf d.data junk 1 = 1 →
      y.WLED_MAX_NODES ≤ dev.Nodes.length → dev.Nodes.lookup (udpInOf d.data junk 39) = none →
      (handleNotifications x y now localIP junk socks dev).Nodes = dev.Nodes)
    ∧ (∀ events : List NodeEvent, dev.Nodes.length ≤ y.WLED_MAX_NODES →
      (nodeRun y localIP events dev).Nodes.length ≤ y.WLED_MAX_NODES) := by
  constructor
  · intro socks d hr hs hl h0 h1 hfull habs
    rcases handleNotifications_nodeInfo x y now localIP junk socks dev d hr hs hl h0 h1
      with e | e
    · exact e
    · rw [e]
      by_cases ha : dev.nodeListEnabled = true ∧ d.remoteIP ≠ localIP
      · rw [handleNodeInfo_accepted y localIP _ _ _ dev ha.1 ha.2]
        simp only
        rw [if_neg (fun h => by omega)]
        exact map_update_absent _ _ _ habs
      · rw [handleNodeInfo_dropped]
        by_cases he : dev.nodeListEnabled = true
        · right
          by_contra hip
          exact ha ⟨he, hip⟩
        · left
          simpa using he
  · intro events h
    exact nodeRun_length y localIP events dev h

/-- Witness of C27: with room for one entry and the list `nodesExample` of unit 7, the
announcement of unit 9 leaves the list as it is; and the list has one entry after the
two announcements and a run of `refreshNodeList`. -/
theorem C27_registry_capacity_witness :
    (handleNotifications extExample smallHostExample 5000 99 (fun _ => 0)
        (suppOnly (sysInfoData sysInfoExample2) 8) nodeDeviceExample).Nodes = nodesExample
    ∧ (handleNotifications extExample hostExample 5000 99 (fun _ => 0)
        (suppOnly (sysInfoData sysInfoExample2) 8) nodeDeviceExample).Nodes.length = 2
    ∧ (nodeRun smallHostExample 99
        [.announce (udpInOf (sysInfoData sysInfoExample) (fun _ => 0)) 44 8,
         .announce (udpInOf (sysInfoData sysInfoExample2) (fun _ => 0)) 44 8, .tick]
        deviceExample).Nodes.length ≤ 1 :=
  ⟨(C27_registry_capacity extExample smallHostExample 5000 99 (fun _ => 0)
      nodeDeviceExample).1 (suppOnly (sysInfoData sysInfoExample2) 8)
      ⟨sysInfoData sysInfoExample2, 8, true⟩ ⟨by decide, Or.inr ⟨rfl, rfl, rfl, rfl⟩⟩ rfl
      (by decide) (by decide) (by decide) (by decide) (by decide),
   by decide,
   (C27_registry_capacity extExample smallHostExample 5000 99 (fun _ => 0)
      deviceExample).2 _ (by decide)⟩

/-! ## C28: the update of an entry in place -/

/-- C28: a tick of a connected, receiving device with the node list enabled that reads
an announcement (supplementary socket, leading bytes 255 and 1, 40 to 1472 bytes, not
from the local address) for a unit that is in the list, full or not, updates the entry
in place: the list has the keys of before in their order, the entry of the unit has age
0, the address of bytes 2 to 5, the type of byte 38, the name of bytes 6 to 37 up to the
first zero byte and trimmed, and the build of bytes 40 to 43 (0 below 44 bytes), and the
entry of every other unit is that of before. -/
theorem C28_update_in_place (x : Ext) (y : Host) (now localIP : Nat) (junk : Nat → Nat)
    (socks : Sockets) (dev : Device) (d : Datagram) (nd : NodeStruct)
    (hu : dev.udpConnected = true)
    (hrx : (dev.receiveNotifications || dev.receiveDirect) = true)
    (hr : Reads socks dev d) (hs : d.isSupp = true)
    (hl : 40 ≤ d.data.length ∧ d.data.length ≤ UDP_IN_MAXSIZE)
    (h0 : udpInOf d.data junk 0 = 255) (h1 : udpInOf d.data junk 1 = 1)
    (he : dev.nodeListEnabled = true) (hip : d.remoteIP ≠ localIP)
    (hin : dev.Nodes.lookup (udpInOf d.data junk 39) = some nd) :
    (handleNotifications x y now localIP junk socks dev).Nodes.map Prod.fst
      = dev.Nodes.map Prod.fst
    ∧ (handleNotifications x y now localIP junk socks dev).Nodes.lookup
        (udpInOf d.data junk 39)
      = some (storeNodeInfo y (udpInOf d.data junk) d.data.length nd)
    ∧ (storeNodeInfo y (udpInOf d.data junk) d.data.length nd).age = 0
    ∧ (storeNodeInfo y (udpInOf d.data junk) d.data.length nd).ip
        = [udpInOf d.data junk 2, udpInOf d.data junk 3, udpInOf d.data junk 4,
           udpInOf d.data junk 5]
    ∧ (storeNodeInfo y (udpInOf d.data junk) d.data.length nd).nodeType
        = udpInOf d.data junk 38
    ∧ (storeNodeInfo y (udpInOf d.data junk) d.data.length nd).nodeName
        = y.trim (((List.range 32).map (fun k => udpInOf d.data junk (6 + k))).takeWhile
            (fun c => c != 0))
    ∧ (storeNodeInfo y (udpInOf d.data junk) d.data.length nd).build
        = (if d.data.length ≥ 44 then
            (udpInOf d.data junk 40 + udpInOf d.data junk 41 * 2 ^ 8
              + udpInOf d.data junk 42 * 2 ^ 16 + udpInOf d.data junk 43 * 2 ^ 24)
          else 0)
    ∧ (∀ k, k ≠ udpInOf d.data junk 39 →
        (handleNotifications x y now localIP junk socks dev).Nodes.lookup k
          = dev.Nodes.lookup k) := by
  have e := handleNotifications_announce x y now localIP junk socks dev d hu hrx hr hs hl h0 h1
    he hip
  rw [if_neg (fun h => by rw [hin] at h; exact Option.noConfusion h.1)] at e
  have f := storeNodeInfo_fields y (udpInOf d.data junk) d.data.length nd
  refine ⟨?_, ?_, f.1, f.2.1, f.2.2.1, f.2.2.2.1, ?_, ?_⟩
  · rw [e, map_update_keys]
  · rw [e, lookup_map_update, if_pos rfl, hin]
    rfl
  · exact storeNodeInfo_build y (udpInOf d.data junk) d.data.length nd
      (fun i => udpInOf_lt_256 d.data junk i)
  · intro k hk
    rw [e, lookup_map_update, if_neg hk]

/-- Witness of C28: the announcement of `sysInfoExample3` for unit 7, read by
`nodeDeviceExample` whose list of one entry is full, renames the entry to `X` and sets
its build to 5, age 0. -/
theorem C28_update_in_place_witness :
    (handleNotifications extExample smallHostExample 5000 99 (fun _ => 0)
        (suppOnly (sysInfoData sysInfoExample3) 8) nodeDeviceExample).Nodes.lookup 7
      = some { nodeName := [88], ip := [192, 168, 1, 7], age := 0, nodeType := 32, build := 5 }
    ∧ (handleNotifications extExample smallHostExample 5000 99 (fun _ => 0)
        (suppOnly (sysInfoData sysInfoExample3) 8) nodeDeviceExample).Nodes.map Prod.fst
      = [7] :=
  ⟨(C28_update_in_place extExample smallHostExample 5000 99 (fun _ => 0)
      (suppOnly (sysInfoData sysInfoExample3) 8) nodeDeviceExample
      ⟨sysInfoData sysInfoExample3, 8, true⟩
      { nodeName := [87, 76, 69, 68], ip := [192, 168, 1, 7], age := 0, nodeType := 32,
        build := 2203150 } rfl rfl
      ⟨by decide, Or.inr ⟨rfl, rfl, rfl, rfl⟩⟩ rfl (by decide) (by decide) (by decide) rfl
      (by decide) (by decide)).2.1,
   (C28_update_in_place extExample smallHostExample 5000 99 (fun _ => 0)
      (suppOnly (sysInfoData sysInfoExample3) 8) nodeDeviceExample
      ⟨sysInfoData sysInfoExample3, 8, true⟩
      { nodeName := [87, 76, 69, 68], ip := [192, 168, 1, 7], age := 0, nodeType := 32,
        build := 2203150 } rfl rfl
      ⟨by decide, Or.inr ⟨rfl, rfl, rfl, rfl⟩⟩ rfl (by decide) (by decide) (by decide) rfl
      (by decide) (by decide)).1⟩

/-! ## C29: round trip of the announcement -/

/-- The entry of the announced unit after a tick that reads an accepted announcement
for a unit that is in the list or finds room in it. -/
theorem announce_lookup (x : Ext) (y : Host) (now localIP : Nat) (junk : Nat → Nat)
    (socks : Sockets) (dev : Device) (d : Datagram)
    (hu : dev.udpConnected = true)
    (hrx : (dev.receiveNotifications || dev.receiveDirect) = true)
    (hr : Reads socks dev d) (hs : d.isSupp = true)
    (hl : 40 ≤ d.data.length ∧ d.data.length ≤ UDP_IN_MAXSIZE)
    (h0 : udpInOf d.data junk 0 = 255) (h1 : udpInOf d.data junk 1 = 1)
    (he : dev.nodeListEnabled = true) (hip : d.remoteIP ≠ localIP)
    (hp : dev.Nodes.lookup (udpInOf d.data junk 39) ≠ none
      ∨ dev.Nodes.length < y.WLED_MAX_NODES) :
    ∃ nd, (handleNotifications x y now localIP junk socks dev).Nodes.lookup
        (udpInOf d.data junk 39)
      = some (storeNodeInfo y (udpInOf d.data junk) d.data.length nd) := by
  rw [handleNotifications_announce x y now localIP junk socks dev d hu hrx hr hs hl h0 h1 he hip,
    lookup_map_update, if_pos rfl]
  by_cases hc : dev.Nodes.lookup (udpInOf d.data junk 39) = none
  · have hroom : dev.Nodes.length < y.WLED_MAX_NODES := by
      rcases hp with h | h
      · exact absurd hc h
      · exact h
    rw [if_pos ⟨hc, hroom⟩, lookup_append_new _ _ _ hc]
    exact ⟨_, rfl⟩
  · rw [if_neg (fun h => hc h.1)]
    cases hq : dev.Nodes.lookup (udpInOf d.data junk 39) with
    | none => exact absurd hq hc
    | some nd0 => exact ⟨nd0, rfl⟩

theorem sendSysInfoUDP_sent (i : SysInfo) (sender : Device) (pkt : Sent)
    (h : (sendSysInfoUDP i sender).sent = sender.sent ++ [pkt]) :
    pkt = ⟨0xFFFFFFFF, i.udpPort2, sysInfoData i⟩ := by
  unfold sendSysInfoUDP at h
  cases hc : sender.udp2Connected
  · rw [hc] at h
    simp only [Bool.not_false, if_true] at h
    have := congrArg List.length h
    rw [List.length_append, List.length_singleton] at this
    omega
  · rw [hc] at h
    simp only [Bool.not_true, Bool.false_eq_true, if_false] at h
    have := List.append_cancel_left h
    simp only [List.cons.injEq, and_true] at this
    exact this.symm

/-- C29: a device whose supplementary socket is connected sends with `sendSysInfoUDP`
exactly one datagram, of 44 bytes, to `255.255.255.255`, port `udpPort2`.  A connected,
receiving device with the node list enabled reads that datagram over the supplementary
socket, from another address than its own, the sender having an address of four octets,
a name and a type of bytes and a 32-bit `VERSION`; the unit, the last octet of the
announced address, is in the list or finds room in it.  Then the entry of that unit has
age 0, the four octets of the announced address (bytes 2 to 5), the node type of the
sender (byte 38), as name the first 32 bytes of `serverDescription` cut at the first
zero byte and trimmed, and as build the `VERSION` of the sender.  For an accepted
announcement of 40 to 43 bytes the build of the entry is 0. -/
theorem C29_announcement_roundtrip (x : Ext) (y : Host) (now localIP : Nat)
    (junk : Nat → Nat) (socks : Sockets) (dev : Device)
    (hu : dev.udpConnected = true)
    (hrx : (dev.receiveNotifications || dev.receiveDirect) = true)
    (he : dev.nodeListEnabled = true) :
    (∀ (i : SysInfo) (sender : Device), sender.udp2Connected = true →
      ((sendSysInfoUDP i sender).sent.drop sender.sent.length).map
          (fun p => (p.ip, p.port, p.data.length)) = [(0xFFFFFFFF, i.udpPort2, 44)]
      ∧ (sendSysInfoUDP i sender).sent.take sender.sent.length = sender.sent)
    ∧ (∀ (i : SysInfo) (sender : Device) (pkt : Sent) (remoteIP : Nat),
      (sendSysInfoUDP i sender).sent = sender.sent ++ [pkt] →
      Reads socks dev ⟨pkt.data, remoteIP, true⟩ → remoteIP ≠ localIP →
      i.localIP.length = 4 → (∀ o ∈ i.localIP, o < 256) →
      (∀ c ∈ i.serverDescription, c < 256) → i.NODE_TYPE_ID < 256 → i.VERSION < 2 ^ 32 →
      (dev.Nodes.lookup ((sysInfoIP i).getD 3 0) ≠ none
        ∨ dev.Nodes.length < y.WLED_MAX_NODES) →
      ((handleNotifications x y now localIP junk socks dev).Nodes.lookup
          ((sysInfoIP i).getD 3 0)).map (fun nd => (nd.age, nd.ip, nd.nodeType, nd.build))
        = some (0, sysInfoIP i, i.NODE_TYPE_ID, i.VERSION)
      ∧ ((handleNotifications x y now localIP junk socks dev).Nodes.lookup
          ((sysInfoIP i).getD 3 0)).map NodeStruct.nodeName
        = some (y.trim (((List.range 32).map (fun k => i.serverDescription.getD k 0)).takeWhile
            (fun c => c != 0))))
    ∧ (∀ (d : Datagram), Reads socks dev d → d.isSupp = true → d.remoteIP ≠ localIP →
      udpInOf d.data junk 0 = 255 → udpInOf d.data junk 1 = 1 →
      40 ≤ d.data.length → d.data.length ≤ 43 →
      (dev.Nodes.lookup (udpInOf d.data junk 39) ≠ none
        ∨ dev.Nodes.length < y.WLED_MAX_NODES) →
      ((handleNotifications x y now localIP junk socks dev).Nodes.lookup
          (udpInOf d.data junk 39)).map NodeStruct.build = some 0) := by
  refine ⟨?_, ?_, ?_⟩
  · intro i sender hc
    unfold sendSysInfoUDP
    simp only [hc, Bool.not_true, Bool.false_eq_true, if_false]
    constructor
    · rw [List.drop_left]
      simp only [List.map_cons, List.map_nil, sysInfoData_length]
    · rw [List.take_left]
  · intro i sender pkt remoteIP hsent hr hip hlen hoct hsd hty hv hp
    have hpkt := sendSysInfoUDP_sent i sender pkt hsent
    subst hpkt
    have hr' : Reads socks dev ⟨sysInfoData i, remoteIP, true⟩ := hr
    clear hr hsent
    have wf := sysInfoIP_wf i hlen hoct
    have hunit : udpInOf (sysInfoData i) junk 39 = (sysInfoIP i).getD 3 0 := by
      rw [(sysInfoData_type i junk).2, Nat.mod_mod]
      apply Nat.mod_eq_of_lt
      rw [List.getD_eq_getElem _ _ (by rw [wf.1]; norm_num)]
      exact wf.2 _ (List.getElem_mem _)
    obtain ⟨nd, hnd⟩ := announce_lookup x y now localIP junk socks dev
      ⟨sysInfoData i, remoteIP, true⟩ hu hrx hr' rfl
      ⟨by show 40 ≤ (sysInfoData i).length
          rw [sysInfoData_length]; norm_num,
       by show (sysInfoData i).length ≤ UDP_IN_MAXSIZE
          rw [sysInfoData_length]; unfold UDP_IN_MAXSIZE; norm_num⟩
      (sysInfoData_head i junk).1 (sysInfoData_head i junk).2 he hip
      (by show dev.Nodes.lookup (udpInOf (sysInfoData i) junk 39) ≠ none ∨ _
          rw [hunit]; exact hp)
    have hnd' : (handleNotifications x y now localIP junk socks dev).Nodes.lookup
        ((sysInfoIP i).getD 3 0)
        = some (storeNodeInfo y (udpInOf (sysInfoData i) junk) 44 nd) := by
      rw [← hunit]; exact hnd
    have f := storeNodeInfo_fields y (udpInOf (sysInfoData i) junk) 44 nd
    have fb := storeNodeInfo_build y (udpInOf (sysInfoData i) junk) 44 nd
      (fun k => udpInOf_lt_256 _ junk k)
    rw [if_pos (by norm_num), sysInfoData_build i junk hv] at fb
    refine ⟨?_, ?_⟩
    · rw [hnd']
      simp only [Option.map_some']
      rw [f.1, f.2.1, f.2.2.1, fb, sysInfoData_ip, octets_eq _ wf.1 wf.2,
        (sysInfoData_type i junk).1, Nat.mod_mod, Nat.mod_eq_of_lt hty]
    · rw [hnd']
      simp only [Option.map_some']
      rw [f.2.2.2.1, sysInfoData_name, chars_eq _ hsd]
  · intro d hr hs hip h0 h1 hl hl' hp
    obtain ⟨nd, hnd⟩ := announce_lookup x y now localIP junk socks dev d hu hrx hr hs
      ⟨hl, by unfold UDP_IN_MAXSIZE; omega⟩ h0 h1 he hip hp
    rw [hnd]
    simp only [Option.map_some']
    rw [(storeNodeInfo_fields y (udpInOf d.data junk) d.data.length nd).2.2.2.2 (by omega)]

/-- Witness of C29: `deviceExample`, sending as the node of `sysInfoExample2`, puts one
datagram of 44 bytes on the supplementary socket, for `255.255.255.255`, port 65506.
`deviceExample` at the address 99 reads that datagram, the announcement of the node
`192.168.1.9` whose description is ` B ` followed by a zero byte and `X`, and stores it
under the unit 9 with the name of the three bytes before the zero (the host of the
example trims nothing); the same announcement cut to 42 bytes is stored with build 0. -/
theorem C29_announcement_roundtrip_witness :
    (sendSysInfoUDP sysInfoExample2 deviceExample).sent
      = [⟨0xFFFFFFFF, 65506, sysInfoData sysInfoExample2⟩]
    ∧ ((sendSysInfoUDP sysInfoExample2 deviceExample).sent.drop deviceExample.sent.length).map
          (fun p => (p.ip, p.port, p.data.length)) = [(0xFFFFFFFF, 65506, 44)]
    ∧ ((handleNotifications extExample hostExample 5000 99 (fun _ => 0)
        (suppOnly (sysInfoData sysInfoExample2) 8) deviceExample).Nodes.lookup 9).map
          (fun nd => (nd.age, nd.ip, nd.nodeType, nd.build))
      = some (0, [192, 168, 1, 9], 82, 2203151)
    ∧ ((handleNotifications extExample hostExample 5000 99 (fun _ => 0)
        (suppOnly (sysInfoData sysInfoExample2) 8) deviceExample).Nodes.lookup 9).map
          NodeStruct.nodeName
      = some [32, 66, 32]
    ∧ ((handleNotifications extExample hostExample 5000 99 (fun _ => 0)
        (suppOnly ((sysInfoData sysInfoExample2).take 42) 8) deviceExample).Nodes.lookup 9).map
          NodeStruct.build
      = some 0 :=
  ⟨rfl,
   ((C29_announcement_roundtrip extExample hostExample 5000 99 (fun _ => 0)
      (suppOnly (sysInfoData sysInfoExample2) 8) deviceExample rfl rfl rfl).1
      sysInfoExample2 deviceExample rfl).1,
   ((C29_announcement_roundtrip extExample hostExample 5000 99 (fun _ => 0)
      (suppOnly (sysInfoData sysInfoExample2) 8) deviceExample rfl rfl rfl).2.1
      sysInfoExample2 deviceExample ⟨0xFFFFFFFF, 65506, sysInfoData sysInfoExample2⟩ 8 rfl
      ⟨by decide, Or.inr ⟨rfl, rfl, rfl, rfl⟩⟩ (by decide) rfl (by decide)
      (by decide) (by decide) (by decide) (Or.inr (by decide))).1,
   ((C29_announcement_roundtrip extExample hostExample 5000 99 (fun _ => 0)
      (suppOnly (sysInfoData sysInfoExample2) 8) deviceExample rfl rfl rfl).2.1
      sysInfoExample2 deviceExample ⟨0xFFFFFFFF, 65506, sysInfoData sysInfoExample2⟩ 8 rfl
      ⟨by decide, Or.inr ⟨rfl, rfl, rfl, rfl⟩⟩ (by decide) rfl (by decide)
      (by decide) (by decide) (by decide) (Or.inr (by decide))).2,
   (C29_announcement_roundtrip extExample hostExample 5000 99 (fun _ => 0)
      (suppOnly ((sysInfoData sysInfoExample2).take 42) 8) deviceExample rfl rfl rfl).2.2
      ⟨(sysInfoData sysInfoExample2).take 42, 8, true⟩
      ⟨by decide, Or.inr ⟨rfl, rfl, rfl, rfl⟩⟩ rfl (by decide) (by decide) (by decide)
      (by decide) (by decide) (Or.inr (by decide))⟩

/-! ## C30: the number of DDP packets -/

/-- C30, on the code: with the network initialised and every send succeeding,
`realtimeBroadcast` of type 0 returns 0 and sends `ceil(c / 1440)` packets, where `c` is
`length * 3` cut to 16 bits, the `uint16_t channelCount` of line 666.  For a `length` up
to 21845 that is `ceil(length * 3 / 1440)`; from 21846 pixels on the product does not
fit and fewer packets are sent. -/
theorem C30_packet_count (n : Net) (client length : Nat) (buffer : Nat → Nat) (bri : Nat)
    (isRGBW : Bool) (sequenceNumber : Nat) (hl : length < 2 ^ 16)
    (hi : n.interfacesInited = true) (hb : ∀ k, n.beginPacket k = true)
    (he : ∀ k, n.endPacket k = true) :
    (realtimeBroadcast n 0 client length buffer bri isRGBW sequenceNumber).result = 0
    ∧ (realtimeBroadcast n 0 client length buffer bri isRGBW sequenceNumber).sent.length
        = ((length * 3) % 2 ^ 16 + 1439) / 1440
    ∧ (length ≤ 21845 →
        (realtimeBroadcast n 0 client length buffer bri isRGBW sequenceNumber).sent.length
          = (length * 3 + 1439) / 1440) := by
  have r := realtimeBroadcast_count n client length buffer bri isRGBW sequenceNumber hi hb he
  rw [Nat.mod_eq_of_lt hl] at r
  refine ⟨r.2, r.1, ?_⟩
  intro h
  rw [r.1, Nat.mod_eq_of_lt (by omega)]

/-- Witness of C30: for 21846 pixels one packet is sent, where `ceil(65538 / 1440)` is
46; for 500 pixels two packets are sent. -/
theorem C30_packet_count_witness :
    (realtimeBroadcast netExample 0 9 21846 (fun i => i % 256) 255 false 0).sent.length = 1
    ∧ (21846 * 3 + 1439) / 1440 = 46
    ∧ (realtimeBroadcast netExample 0 9 21846 (fun i => i % 256) 255 false 0).sent
        = [⟨9, 4048, [65, 0, 0, 1, 0, 0, 0, 0, 0, 2, 0, 0, 1]⟩]
    ∧ (realtimeBroadcast netExample 0 9 500 (fun i => i % 256) 255 false 0).sent.length = 2 :=
  ⟨(C30_packet_count netExample 9 21846 (fun i => i % 256) 255 false 0 (by decide) rfl
      (fun _ => rfl) (fun _ => rfl)).2.1,
   by decide, by decide,
   (C30_packet_count netExample 9 500 (fun i => i % 256) 255 false 0 (by decide) rfl
      (fun _ => rfl) (fun _ => rfl)).2.1⟩

/-! ## C31: the push flag and the declared lengths -/

/-- C31, on the code: with the network initialised and every send succeeding, a DDP
output sets the push flag (bit 0x01 of byte 0) on its final packet and on no other, every
other packet declares 1440 bytes in bytes 8 and 9, the final one declares the remainder
of `c` by 1440 (1440 when there is none), and the declared lengths sum to `c`, where `c`
is `length * 3` cut to 16 bits, the `uint16_t channelCount` of line 666.  Up to 21845
pixels `c` is `length * 3`; from 21846 pixels on it is not. -/
theorem C31_push_and_lengths (n : Net) (client length : Nat) (buffer : Nat → Nat)
    (bri : Nat) (isRGBW : Bool) (sequenceNumber : Nat) (hl : length < 2 ^ 16)
    (hi : n.interfacesInited = true) (hb : ∀ k, n.beginPacket k = true)
    (he : ∀ k, n.endPacket k = true) :
    (∀ k p,
      (realtimeBroadcast n 0 client length buffer bri isRGBW sequenceNumber).sent[k]? = some p →
        (p.data.getD 0 0 &&& DDP_FLAGS1_PUSH = DDP_FLAGS1_PUSH
          ↔ k + 1 = (realtimeBroadcast n 0 client length buffer bri isRGBW
              sequenceNumber).sent.length)
        ∧ (k + 1 ≠ (realtimeBroadcast n 0 client length buffer bri isRGBW
              sequenceNumber).sent.length →
            p.data.getD 8 0 * 256 + p.data.getD 9 0 = 1440)
        ∧ (k + 1 = (realtimeBroadcast n 0 client length buffer bri isRGBW
              sequenceNumber).sent.length →
            p.data.getD 8 0 * 256 + p.data.getD 9 0
              = if (length * 3) % 2 ^ 16 % 1440 = 0 then 1440
                else (length * 3) % 2 ^ 16 % 1440))
    ∧ ((realtimeBroadcast n 0 client length buffer bri isRGBW sequenceNumber).sent.map
          (fun p => p.data.getD 8 0 * 256 + p.data.getD 9 0)).sum = (length * 3) % 2 ^ 16
    ∧ (length ≤ 21845 →
        ((realtimeBroadcast n 0 client length buffer bri isRGBW sequenceNumber).sent.map
          (fun p => p.data.getD 8 0 * 256 + p.data.getD 9 0)).sum = length * 3) := by
  have hcnt := (realtimeBroadcast_count n client length buffer bri isRGBW sequenceNumber
    hi hb he).1
  have hall := realtimeBroadcast_all n client length buffer bri isRGBW sequenceNumber hi hb he
  rw [Nat.mod_eq_of_lt hl] at hcnt hall
  have hsum : ((realtimeBroadcast n 0 client length buffer bri isRGBW sequenceNumber).sent.map
      (fun p => p.data.getD 8 0 * 256 + p.data.getD 9 0)).sum = (length * 3) % 2 ^ 16 := by
    rw [hall, List.map_map]
    have e : ((fun p : Sent => p.data.getD 8 0 * 256 + p.data.getD 9 0) ∘ fun t =>
          ddpPacket n client buffer bri isRGBW ((length * 3) % 2 ^ 16)
            (((length * 3) % 2 ^ 16 + 1439) / 1440) t (1440 * t)
            ((if isRGBW then 1920 else 1440) * t % 2 ^ 16)
            (((if sequenceNumber > 15 then 0 else sequenceNumber) + t) % 16))
        = fun k => if k = ((length * 3) % 2 ^ 16 + 1439) / 1440 - 1
            ∧ (length * 3) % 2 ^ 16 % 1440 ≠ 0 then (length * 3) % 2 ^ 16 % 1440 else 1440 := by
      funext t
      exact ddpPacket_declared n client buffer bri isRGBW _ _ t _ _ _
        (Nat.mod_lt _ (by norm_num))
    rw [e]
    exact ddp_sizes_sum _
  refine ⟨?_, hsum, ?_⟩
  · intro k p h
    obtain ⟨_, _, hk, _, _, hp⟩ :=
      realtimeBroadcast_packet n 0 client length buffer bri isRGBW sequenceNumber k p h
    rw [Nat.mod_eq_of_lt hl] at hk hp
    rw [hcnt, hp, ddpPacket_flags _ _ _ _ _ _ _ _ _ _ _ (Nat.mod_lt _ (by norm_num)),
      ddpPacket_declared _ _ _ _ _ _ _ _ _ _ _ (Nat.mod_lt _ (by norm_num))]
    generalize (length * 3) % 2 ^ 16 = cc at hk ⊢
    refine ⟨?_, ?_, ?_⟩
    · by_cases hf : k = (cc + 1439) / 1440 - 1
      · rw [if_pos hf]
        exact ⟨fun _ => by omega, fun _ => by decide⟩
      · rw [if_neg hf]
        exact ⟨fun h' => absurd h' (by decide), fun h' => by omega⟩
    · intro hne
      rw [if_neg (fun h' => by omega)]
    · intro heq
      by_cases hr : cc % 1440 = 0
      · rw [if_neg (fun h' => h'.2 hr), if_pos hr]
      · rw [if_pos ⟨by omega, hr⟩, if_neg hr]
  · intro h
    rw [hsum, Nat.mod_eq_of_lt (by omega)]

/-- Witness of C31: for 21846 pixels the one packet declares 2 bytes, where
`21846 * 3` is 65538; for 500 pixels the two packets declare 1440 and 60 bytes, the first
without the push flag and the second with it. -/
theorem C31_push_and_lengths_witness :
    ((realtimeBroadcast netExample 0 9 21846 (fun i => i % 256) 255 false 0).sent.map
        (fun p => p.data.getD 8 0 * 256 + p.data.getD 9 0)).sum = 2
    ∧ 21846 * 3 = 65538
    ∧ ((realtimeBroadcast netExample 0 9 500 (fun i => i % 256) 255 false 0).sent.map
        (fun p => p.data.getD 8 0 * 256 + p.data.getD 9 0)).sum = 500 * 3
    ∧ (realtimeBroadcast netExample 0 9 500 (fun i => i % 256) 255 false 0).sent.map
        (fun p => (p.data.getD 0 0, p.data.getD 8 0 * 256 + p.data.getD 9 0))
      = [(0x40, 1440), (0x41, 60)] :=
  ⟨(C31_push_and_lengths netExample 9 21846 (fun i => i % 256) 255 false 0 (by decide) rfl
      (fun _ => rfl) (fun _ => rfl)).2.1,
   by decide,
   (C31_push_and_lengths netExample 9 500 (fun i => i % 256) 255 false 0 (by decide) rfl
      (fun _ => rfl) (fun _ => rfl)).2.2 (by decide),
   by decide⟩

/-! ## The sequence numbers of the DDP output -/

theorem realtimeBroadcast_byte1 (n : Net) (type client length : Nat) (buffer : Nat → Nat)
    (bri : Nat) (isRGBW : Bool) (sq k : Nat) (p : Sent)
    (h : (realtimeBroadcast n type client length buffer bri isRGBW sq).sent[k]? = some p) :
    p.data.getD 1 0 = ((if sq > 15 then 0 else sq) + k) % 16 := by
  obtain ⟨_, _, _, _, _, hp⟩ :=
    realtimeBroadcast_packet n type client length buffer bri isRGBW sq k p h
  rw [hp, ddpPacket_data _ _ _ _ _ _ _ _ _ _ _ (Nat.mod_lt _ (by norm_num))]
  show _ % 16 % 16 = _
  omega

theorem realtimeBroadcast_counter (n : Net) (type client length : Nat) (buffer : Nat → Nat)
    (bri : Nat) (isRGBW : Bool) (sq : Nat) (he : ∀ k, n.endPacket k = true) :
    (if (realtimeBroadcast n type client length buffer bri isRGBW sq).sequenceNumber > 15
      then 0 else (realtimeBroadcast n type client length buffer bri isRGBW sq).sequenceNumber)
      = ((if sq > 15 then 0 else sq)
          + (realtimeBroadcast n type client length buffer bri isRGBW sq).sent.length) % 16 := by
  by_cases hn : n.interfacesInited = false ∨ type % 256 ≠ 0
  · rw [realtimeBroadcast_none n type client length buffer bri isRGBW sq hn]
    show (if sq > 15 then 0 else sq) = ((if sq > 15 then 0 else sq) + 0) % 16
    split <;> omega
  · have hi : n.interfacesInited = true := by
      cases hh : n.interfacesInited
      · exact absurd (Or.inl hh) hn
      · rfl
    have ht : type % 256 = 0 := by
      by_contra hh
      exact hn (Or.inr hh)
    obtain ⟨m, _, _, _, hs, hq, _⟩ :=
      realtimeBroadcast_ddp n type client length buffer bri isRGBW sq hi ht
    rw [hq he, hs, List.length_map, List.length_range]

theorem broadcastRun_bound : ∀ (calls : List BroadcastCall) (sq : Nat) (sent : List Sent),
    (∀ (i : Nat) (p : Sent), sent[i]? = some p → p.data.getD 1 0 < 16) →
    ∀ (i : Nat) (p : Sent), (broadcastRun calls sq sent).2[i]? = some p → p.data.getD 1 0 < 16 := by
  intro calls
  induction calls with
  | nil => intro sq sent h; exact h
  | cons c calls ih =>
    intro sq sent h
    apply ih
    intro i p hp
    by_cases hi : i < sent.length
    · rw [List.getElem?_append_left hi] at hp
      exact h i p hp
    · rw [List.getElem?_append_right (by omega)] at hp
      rw [realtimeBroadcast_byte1 _ _ _ _ _ _ _ _ _ p hp]
      exact Nat.mod_lt _ (by norm_num)

theorem broadcastRun_seq (b : Nat) : ∀ (calls : List BroadcastCall) (sq : Nat)
    (sent : List Sent), (∀ c, c ∈ calls → ∀ k, c.net.endPacket k = true) →
    (∀ (i : Nat) (p : Sent), sent[i]? = some p → p.data.getD 1 0 = (b + i) % 16) →
    (if sq > 15 then 0 else sq) = (b + sent.length) % 16 →
    ∀ (i : Nat) (p : Sent), (broadcastRun calls sq sent).2[i]? = some p → p.data.getD 1 0 = (b + i) % 16 := by
  intro calls
  induction calls with
  | nil => intro sq sent _ h _; exact h
  | cons c calls ih =>
    intro sq sent he h hs
    apply ih _ _ (fun c' hc' => he c' (List.mem_cons_of_mem _ hc'))
    · intro i p hp
      by_cases hi : i < sent.length
      · rw [List.getElem?_append_left hi] at hp
        exact h i p hp
      · rw [List.getElem?_append_right (by omega)] at hp
        rw [realtimeBroadcast_byte1 _ _ _ _ _ _ _ _ _ p hp, hs]
        omega
    · rw [realtimeBroadcast_counter _ _ _ _ _ _ _ _ (he c (List.mem_cons_self _ _)), hs,
        List.length_append]
      omega

/-! ## C32: the sequence numbers -/

/-- C32, as stated, fails: three outputs of one pixel from the counter 0, on the second of
which `endPacket` fails.  The two packets that leave the device carry the sequence
numbers 0 and 2, the number 1 being used up by the packet that was not sent. -/
theorem C32_counterexample :
    (broadcastRun
      [⟨netExample, 0, 9, 1, fun i => i % 256, 255, false⟩,
       ⟨{ netExample with endPacket := fun _ => false }, 0, 9, 1, fun i => i % 256, 255,
         false⟩,
       ⟨netExample, 0, 9, 1, fun i => i % 256, 255, false⟩] 0 []).2.map
      (fun p => p.data.getD 1 0) = [0, 2]
    ∧ (0 + 1) % 16 ≠ 2 := by
  decide

/-- C32, amended: over any calls of `realtimeBroadcast` from the counter 0, byte 1 of
every packet sent is in 0..15; and as long as no `endPacket` fails, packet number `i` of
all packets sent carries `i mod 16`, so that of two packets sent one after the other,
within one call or across calls, the later one carries the number of the earlier one
plus 1, mod 16. -/
theorem C32_sequence (calls : List BroadcastCall) :
    (∀ (i : Nat) (p : Sent), (broadcastRun calls 0 []).2[i]? = some p → p.data.getD 1 0 < 16)
    ∧ ((∀ c, c ∈ calls → ∀ k, c.net.endPacket k = true) →
        (∀ (i : Nat) (p : Sent), (broadcastRun calls 0 []).2[i]? = some p → p.data.getD 1 0 = i % 16)
        ∧ (∀ (i : Nat) (p q : Sent), (broadcastRun calls 0 []).2[i]? = some p →
            (broadcastRun calls 0 []).2[i + 1]? = some q →
            q.data.getD 1 0 = (p.data.getD 1 0 + 1) % 16)) := by
  refine ⟨broadcastRun_bound calls 0 [] (fun i p h => by simp at h), fun he => ?_⟩
  have key : ∀ (i : Nat) (p : Sent), (broadcastRun calls 0 []).2[i]? = some p → p.data.getD 1 0 = i % 16 := by
    intro i p h
    have := broadcastRun_seq 0 calls 0 [] he (fun i p h => by simp at h) rfl i p h
    rw [this, Nat.zero_add]
  refine ⟨key, fun i p q hp hq => ?_⟩
  rw [key i p hp, key (i + 1) q hq]
  omega

/-- Witness of C32, amended: an output of one pixel, one on which `beginPacket` fails and
another of one pixel send two packets, with the sequence numbers 0 and 1. -/
theorem C32_sequence_witness :
    (broadcastRun
      [⟨netExample, 0, 9, 1, fun i => i % 256, 255, false⟩,
       ⟨{ netExample with beginPacket := fun _ => false }, 0, 9, 1, fun i => i % 256, 255,
         false⟩,
       ⟨netExample, 0, 9, 1, fun i => i % 256, 255, false⟩] 0 []).2
      = [⟨9, 4048, [0x41, 0, 0, 1, 0, 0, 0, 0, 0, 3, 0, 0, 1]⟩,
         ⟨9, 4048, [0x41, 1, 0, 1, 0, 0, 0, 0, 0, 3, 0, 0, 1]⟩]
    ∧ ([0x41, 1, 0, 1, 0, 0, 0, 0, 0, 3, 0, 0, 1] : List Nat).getD 1 0
      = (([0x41, 0, 0, 1, 0, 0, 0, 0, 0, 3, 0, 0, 1] : List Nat).getD 1 0 + 1) % 16 :=
  ⟨by decide,
   ((C32_sequence [⟨netExample, 0, 9, 1, fun i => i % 256, 255, false⟩,
       ⟨{ netExample with beginPacket := fun _ => false }, 0, 9, 1, fun i => i % 256, 255,
         false⟩,
       ⟨netExample, 0, 9, 1, fun i => i % 256, 255, false⟩]).2 (by
      intro c hc k
      simp only [List.mem_cons, List.mem_singleton, List.not_mem_nil, or_false] at hc
      rcases hc with rfl | rfl | rfl <;> rfl)).2 0
      ⟨9, 4048, [0x41, 0, 0, 1, 0, 0, 0, 0, 0, 3, 0, 0, 1]⟩
      ⟨9, 4048, [0x41, 1, 0, 1, 0, 0, 0, 0, 0, 3, 0, 0, 1]⟩ (by decide) (by decide)⟩

/-! ## C33: the layout of the DDP header -/

/-- C33: every packet that `realtimeBroadcast` sends, packet `k` of the call (counted
from 0), is one of the `ceil(c / 1440)` packets of the call (`c` the 16-bit channel
count) and begins with ten header bytes: byte 0 is 0x41 on the final packet of the call
and 0x40 otherwise, byte 2 is 0, byte 3 is the display stream id 1, bytes 4 to 7 are the
32-bit number `1440 * k`, most significant byte first, and bytes 8 and 9 are the 16-bit
payload length `packetSize` of the packet, most significant byte first, which is 1440
or, on the final packet, the remainder.  Up to 21845 pixels that length is the number of
bytes that follow the header. -/
theorem C33_header_layout (n : Net) (type client length : Nat) (buffer : Nat → Nat)
    (bri : Nat) (isRGBW : Bool) (sequenceNumber k : Nat) (p : Sent)
    (h : (realtimeBroadcast n type client length buffer bri isRGBW sequenceNumber).sent[k]?
      = some p) :
    k < ((length % 2 ^ 16 * 3) % 2 ^ 16 + 1439) / 1440
    ∧ p.data.take 10
      = [if k + 1 = ((length % 2 ^ 16 * 3) % 2 ^ 16 + 1439) / 1440 then 0x41 else 0x40,
          p.data.getD 1 0, 0, DDP_ID_DISPLAY,
          1440 * k / 2 ^ 24 % 256, 1440 * k / 2 ^ 16 % 256, 1440 * k / 2 ^ 8 % 256,
          1440 * k % 256,
          (if k + 1 = ((length % 2 ^ 16 * 3) % 2 ^ 16 + 1439) / 1440
              ∧ (length % 2 ^ 16 * 3) % 2 ^ 16 % 1440 ≠ 0
            then (length % 2 ^ 16 * 3) % 2 ^ 16 % 1440 else 1440) / 2 ^ 8 % 256,
          (if k + 1 = ((length % 2 ^ 16 * 3) % 2 ^ 16 + 1439) / 1440
              ∧ (length % 2 ^ 16 * 3) % 2 ^ 16 % 1440 ≠ 0
            then (length % 2 ^ 16 * 3) % 2 ^ 16 % 1440 else 1440) % 256]
    ∧ p.data.getD 1 0 < 16
    ∧ 1440 * k < 2 ^ 32
    ∧ (if k + 1 = ((length % 2 ^ 16 * 3) % 2 ^ 16 + 1439) / 1440
          ∧ (length % 2 ^ 16 * 3) % 2 ^ 16 % 1440 ≠ 0
        then (length % 2 ^ 16 * 3) % 2 ^ 16 % 1440 else 1440) < 2 ^ 16
    ∧ (length % 2 ^ 16 ≤ 21845 →
        p.data.length = 10
          + (if k + 1 = ((length % 2 ^ 16 * 3) % 2 ^ 16 + 1439) / 1440
              ∧ (length % 2 ^ 16 * 3) % 2 ^ 16 % 1440 ≠ 0
            then (length % 2 ^ 16 * 3) % 2 ^ 16 % 1440 else 1440)) := by
  obtain ⟨_, _, hk, _, _, hp⟩ :=
    realtimeBroadcast_packet n type client length buffer bri isRGBW sequenceNumber k p h
  have hcc : (length % 2 ^ 16 * 3) % 2 ^ 16 < 2 ^ 16 := Nat.mod_lt _ (by norm_num)
  have hd := ddpPacket_data n client buffer bri isRGBW ((length % 2 ^ 16 * 3) % 2 ^ 16)
    (((length % 2 ^ 16 * 3) % 2 ^ 16 + 1439) / 1440) k (1440 * k)
    ((if isRGBW then 1920 else 1440) * k % 2 ^ 16)
    (((if sequenceNumber > 15 then 0 else sequenceNumber) + k) % 16)
    (Nat.mod_lt _ (by norm_num))
  rw [← hp] at hd
  have e1 : k = ((length % 2 ^ 16 * 3) % 2 ^ 16 + 1439) / 1440 - 1
      ↔ k + 1 = ((length % 2 ^ 16 * 3) % 2 ^ 16 + 1439) / 1440 := by
    omega
  simp only [e1] at hd
  have h3 : length % 2 ^ 16 ≤ 21845 → (length % 2 ^ 16 * 3) % 2 ^ 16 % 3 = 0 := by
    intro hl
    rw [Nat.mod_eq_of_lt (by omega : length % 2 ^ 16 * 3 < 2 ^ 16)]
    omega
  generalize (length % 2 ^ 16 * 3) % 2 ^ 16 = cc at hk hcc hd h3 ⊢
  generalize hP : (if k + 1 = (cc + 1439) / 1440 ∧ cc % 1440 ≠ 0 then cc % 1440 else 1440)
    = P at hd ⊢
  have hle : P ≤ 1440 := by
    rw [← hP]; split <;> omega
  refine ⟨hk, ?_, ?_, by omega, by omega, ?_⟩
  · rw [hd]
    rfl
  · rw [hd]
    show _ % 16 % 16 < 16
    omega
  · intro hl
    have := h3 hl
    rw [hd, List.length_append, List.length_map, List.length_range]
    have hP3 : P % 3 = 0 := by
      rw [← hP]; split <;> omega
    simp only [List.length_cons, List.length_nil]
    omega

set_option maxRecDepth 100000 in
/-- Witness of C33: of the two packets for 481 pixels, the second one (`k = 1`) starts
with 0x41, carries the channel offset 1440 = 5 * 256 + 160 in bytes 4 to 7 and the
length 3 in bytes 8 and 9, and has 3 bytes behind the header. -/
theorem C33_header_layout_witness :
    (realtimeBroadcast netExample 0 9 481 (fun i => i % 256) 255 false 0).sent[1]?
      = some ⟨9, 4048, [0x41, 1, 0, 1, 0, 0, 5, 160, 0, 3, 159, 160, 161]⟩
    ∧ (1 : Nat) < 2
    ∧ ([0x41, 1, 0, 1, 0, 0, 5, 160, 0, 3, 159, 160, 161] : List Nat).take 10
      = [0x41, 1, 0, 1, 0, 0, 5, 160, 0, 3]
    ∧ ([0x41, 1, 0, 1, 0, 0, 5, 160, 0, 3, 159, 160, 161] : List Nat).length = 10 + 3 :=
  ⟨by decide,
   (C33_header_layout netExample 0 9 481 (fun i => i % 256) 255 false 0 1
      ⟨9, 4048, [0x41, 1, 0, 1, 0, 0, 5, 160, 0, 3, 159, 160, 161]⟩ (by decide)).1,
   (C33_header_layout netExample 0 9 481 (fun i => i % 256) 255 false 0 1
      ⟨9, 4048, [0x41, 1, 0, 1, 0, 0, 5, 160, 0, 3, 159, 160, 161]⟩ (by decide)).2.1,
   (C33_header_layout netExample 0 9 481 (fun i => i % 256) 255 false 0 1
      ⟨9, 4048, [0x41, 1, 0, 1, 0, 0, 5, 160, 0, 3, 159, 160, 161]⟩ (by decide)).2.2.2.2.2
      (by decide)⟩

/-! ## C34: the payload bytes -/

theorem ddpPacket_payload (n : Net) (client : Nat) (buffer : Nat → Nat) (bri : Nat)
    (isRGBW : Bool) (cc k q : Nat) (h3 : cc % 3 = 0) :
    (ddpPacket n client buffer bri isRGBW cc ((cc + 1439) / 1440) k (1440 * k)
        ((if isRGBW then 1920 else 1440) * k % 2 ^ 16) q).data.drop 10
      = (List.range (if k = (cc + 1439) / 1440 - 1 ∧ cc % 1440 ≠ 0 then cc % 1440
            else 1440)).map (fun j =>
          n.scale8 (buffer (((if isRGBW then 4 else 3) * ((1440 * k + j) / 3)
            + (1440 * k + j) % 3) % 2 ^ 16)) bri) := by
  rw [ddpPacket_data n client buffer bri isRGBW cc _ k _ _ q (Nat.mod_lt _ (by norm_num))]
  show List.map _ (List.range _) = _
  generalize hP : (if k = (cc + 1439) / 1440 - 1 ∧ cc % 1440 ≠ 0 then cc % 1440 else 1440) = P
  have hP3 : 3 * ((P + 2) / 3) = P := by
    have : P % 3 = 0 := by
      rw [← hP]; split <;> omega
    omega
  rw [hP3]
  apply List.map_congr_left
  intro j _
  congr 2
  cases isRGBW
  · simp only [Bool.false_eq_true, if_false]; omega
  · simp only [if_true]; omega

/-- C34, on the code: for `length * 3 <= 65535`, with the network initialised and every
send succeeding, byte `j` of the payloads of a DDP output, taken one after the other, is
`scale8(buffer[o], bri)` where `o` is `s * (j / 3) + j % 3` cut to 16 bits, the
`uint16_t bufferOffset` of line 673, with `s = 4` for an RGBW buffer and `s = 3`
otherwise; there are `length * 3` such bytes.  As long as `s * length <= 65536` the
offset is `s * (j / 3) + j % 3` itself. -/
theorem C34_payload (n : Net) (client length : Nat) (buffer : Nat → Nat) (bri : Nat)
    (isRGBW : Bool) (sequenceNumber : Nat) (hl : length * 3 ≤ 65535)
    (hi : n.interfacesInited = true) (hb : ∀ k, n.beginPacket k = true)
    (he : ∀ k, n.endPacket k = true) :
    ((realtimeBroadcast n 0 client length buffer bri isRGBW sequenceNumber).sent.map
        (fun p => p.data.drop 10)).flatten
      = (List.range (length * 3)).map (fun j =>
          n.scale8 (buffer (((if isRGBW then 4 else 3) * (j / 3) + j % 3) % 2 ^ 16)) bri)
    ∧ ((if isRGBW then 4 else 3) * length ≤ 65536 →
        ((realtimeBroadcast n 0 client length buffer bri isRGBW sequenceNumber).sent.map
          (fun p => p.data.drop 10)).flatten
        = (List.range (length * 3)).map (fun j =>
            n.scale8 (buffer ((if isRGBW then 4 else 3) * (j / 3) + j % 3)) bri)) := by
  have hall := realtimeBroadcast_all n client length buffer bri isRGBW sequenceNumber hi hb he
  have hcc : (length % 2 ^ 16 * 3) % 2 ^ 16 = length * 3 := by omega
  rw [hcc] at hall
  have main : ((realtimeBroadcast n 0 client length buffer bri isRGBW sequenceNumber).sent.map
        (fun p => p.data.drop 10)).flatten
      = (List.range (length * 3)).map (fun j =>
          n.scale8 (buffer (((if isRGBW then 4 else 3) * (j / 3) + j % 3) % 2 ^ 16)) bri) := by
    rw [hall, List.map_map]
    have e : ((fun p : Sent => p.data.drop 10) ∘ fun t =>
          ddpPacket n client buffer bri isRGBW (length * 3) ((length * 3 + 1439) / 1440) t
            (1440 * t) ((if isRGBW then 1920 else 1440) * t % 2 ^ 16)
            (((if sequenceNumber > 15 then 0 else sequenceNumber) + t) % 16))
        = fun k => (List.range (if k = (length * 3 + 1439) / 1440 - 1 ∧ length * 3 % 1440 ≠ 0
              then length * 3 % 1440 else 1440)).map (fun j =>
            (fun i => n.scale8 (buffer (((if isRGBW then 4 else 3) * (i / 3) + i % 3)
              % 2 ^ 16)) bri) (1440 * k + j)) := by
      funext t
      exact ddpPacket_payload n client buffer bri isRGBW (length * 3) t
        (((if sequenceNumber > 15 then 0 else sequenceNumber) + t) % 16) (by omega)
    rw [e]
    exact chunks_flatten (fun i => n.scale8 (buffer (((if isRGBW then 4 else 3) * (i / 3)
      + i % 3) % 2 ^ 16)) bri) (length * 3)
  refine ⟨main, fun hs => ?_⟩
  rw [main]
  apply List.map_congr_left
  intro j hj
  rw [List.mem_range] at hj
  congr 2
  apply Nat.mod_eq_of_lt
  cases isRGBW
  · simp only [Bool.false_eq_true, if_false] at hs ⊢; omega
  · simp only [if_true] at hs ⊢; omega

/-- Witness of C34: for 16385 RGBW pixels the payload byte 49152, the red channel of
pixel 16384, is read from `buffer[0]` and not from `buffer[65536]`: with 255 at offset
65536 and 0 elsewhere it is 0, not `scale8(255, 255) = 254`.  For 2 RGBW pixels the
payload is made of the bytes 0, 1, 2 and 4, 5, 6 of the buffer, scaled. -/
theorem C34_payload_witness :
    ((realtimeBroadcast netExample 0 9 16385 (fun i => if i = 65536 then 255 else 0) 255 true
        0).sent.map (fun p => p.data.drop 10)).flatten[49152]? = some 0
    ∧ netExample.scale8 ((fun i => if i = 65536 then 255 else 0) (4 * (49152 / 3) + 49152 % 3))
        255 = 254
    ∧ ((realtimeBroadcast netExample 0 9 2 (fun i => 10 * i) 128 true 0).sent.map
        (fun p => p.data.drop 10)).flatten = [0, 5, 10, 20, 25, 30] := by
  refine ⟨?_, by decide, ?_⟩
  · rw [(C34_payload netExample 9 16385 (fun i => if i = 65536 then 255 else 0) 255 true 0
      (by decide) rfl (fun _ => rfl) (fun _ => rfl)).1, List.getElem?_map,
      List.getElem?_range (by decide)]
    decide
  · rw [(C34_payload netExample 9 2 (fun i => 10 * i) 128 true 0
      (by decide) rfl (fun _ => rfl) (fun _ => rfl)).2 (by decide)]
    decide

/-! ## C35: the result of `realtimeBroadcast` -/

/-- C35: `realtimeBroadcast` returns 1 and sends nothing when the network is not
initialised.  On an initialised network a DDP output (type 0) for which `beginPacket` or
`endPacket` fails at chunk `k` returns 1 and sends no chunk from `k` on (the chunks sent
are the first ones, fewer than `k + 1`); when no chunk fails it returns 0, all
`ceil(c / 1440)` chunks being sent; and for every other type it sends nothing and
returns 0. -/
theorem C35_result (n : Net) (type client length : Nat) (buffer : Nat → Nat) (bri : Nat)
    (isRGBW : Bool) (sequenceNumber : Nat) :
    (n.interfacesInited = false →
      (realtimeBroadcast n type client length buffer bri isRGBW sequenceNumber).result = 1
      ∧ (realtimeBroadcast n type client length buffer bri isRGBW sequenceNumber).sent = [])
    ∧ (n.interfacesInited = true → type % 256 = 0 →
        ∀ k, k < ((length % 2 ^ 16 * 3) % 2 ^ 16 + 1439) / 1440 →
          (n.beginPacket k = false ∨ n.endPacket k = false) →
          (realtimeBroadcast n type client length buffer bri isRGBW sequenceNumber).result = 1
          ∧ (realtimeBroadcast n type client length buffer bri isRGBW
              sequenceNumber).sent.length ≤ k)
    ∧ (n.interfacesInited = true → type % 256 = 0 →
        (∀ k, k < ((length % 2 ^ 16 * 3) % 2 ^ 16 + 1439) / 1440 →
          n.beginPacket k = true ∧ n.endPacket k = true) →
        (realtimeBroadcast n type client length buffer bri isRGBW sequenceNumber).result = 0
        ∧ (realtimeBroadcast n type client length buffer bri isRGBW
            sequenceNumber).sent.length = ((length % 2 ^ 16 * 3) % 2 ^ 16 + 1439) / 1440)
    ∧ (n.interfacesInited = true → type % 256 ≠ 0 →
        (realtimeBroadcast n type client length buffer bri isRGBW sequenceNumber).result = 0
        ∧ (realtimeBroadcast n type client length buffer bri isRGBW sequenceNumber).sent
          = []) := by
  refine ⟨fun hi => ?_, fun hi ht k hk hf => ?_, fun hi ht hs => ?_, fun hi ht => ?_⟩
  · rw [realtimeBroadcast_none n type client length buffer bri isRGBW sequenceNumber
      (Or.inl hi), hi]
    exact ⟨rfl, rfl⟩
  · obtain ⟨m, hm, g1, _, hs, _, hr, hr1⟩ :=
      realtimeBroadcast_ddp n type client length buffer bri isRGBW sequenceNumber hi ht
    have hmk : m ≤ k := by
      by_contra hlt
      have := g1 k (by omega)
      rcases hf with hf | hf
      · rw [this.1] at hf; exact absurd hf (by decide)
      · rw [this.2] at hf; exact absurd hf (by decide)
    constructor
    · have : (realtimeBroadcast n type client length buffer bri isRGBW sequenceNumber).result
          ≠ 0 := fun h0 => by
        have := hr.1 h0
        omega
      omega
    · rw [hs, List.length_map, List.length_range]
      exact hmk
  · obtain ⟨m, hm, _, g2, hsent, _, hr, _⟩ :=
      realtimeBroadcast_ddp n type client length buffer bri isRGBW sequenceNumber hi ht
    have hmm : m = ((length % 2 ^ 16 * 3) % 2 ^ 16 + 1439) / 1440 := by
      by_contra hne
      have hlt : m < ((length % 2 ^ 16 * 3) % 2 ^ 16 + 1439) / 1440 := by omega
      have := hs m hlt
      rcases g2 hlt with h | h
      · rw [this.1] at h; exact absurd h (by decide)
      · rw [this.2] at h; exact absurd h (by decide)
    refine ⟨hr.2 hmm, ?_⟩
    rw [hsent, List.length_map, List.length_range]
    exact hmm
  · rw [realtimeBroadcast_none n type client length buffer bri isRGBW sequenceNumber
      (Or.inr ht), hi]
    exact ⟨rfl, rfl⟩

/-- Witness of C35: for 500 pixels on a network whose `endPacket` fails at chunk 1 the
call returns 1 and sends at most one packet; for type 1 (E1.31) it sends nothing and
returns 0. -/
theorem C35_result_witness :
    ((realtimeBroadcast { netExample with endPacket := fun k => decide (k ≠ 1) } 0 9 500
        (fun i => i % 256) 255 false 0).result = 1
      ∧ (realtimeBroadcast { netExample with endPacket := fun k => decide (k ≠ 1) } 0 9 500
        (fun i => i % 256) 255 false 0).sent.length ≤ 1)
    ∧ ((realtimeBroadcast netExample 1 9 500 (fun i => i % 256) 255 false 0).result = 0
      ∧ (realtimeBroadcast netExample 1 9 500 (fun i => i % 256) 255 false 0).sent = []) :=
  ⟨(C35_result { netExample with endPacket := fun k => decide (k ≠ 1) } 0 9 500
      (fun i => i % 256) 255 false 0).2.1 rfl rfl 1 (by decide) (Or.inr (by decide)),
   (C35_result netExample 1 9 500 (fun i => i % 256) 255 false 0).2.2.2 rfl (by decide)⟩

theorem handleRawRgb_result (y : Host) (now : Nat) (data : List Nat) (ip : Nat)
    (junk : Nat → Nat) (D : Device) (hd : D.receiveDirect = true)
    (hn : 3 ≤ data.length ∧ data.length ≤ UDP_IN_MAXSIZE) (ho : D.realtimeOverride = 0)
    (hl : D.pixels.length < 2 ^ 16) :
    (handleRawRgb y now data ip junk D).realtimeMode = REALTIME_MODE_HYPERION
    ∧ (handleRawRgb y now data ip junk D).realtimeIP = ip
    ∧ (handleRawRgb y now data ip junk D).realtimeTimeout
      = (if D.realtimeTimeoutMs % 2 ^ 32 = 255001 ∨ D.realtimeTimeoutMs % 2 ^ 32 = 65000
          then UINT32_MAX else (now % 2 ^ 32 + D.realtimeTimeoutMs % 2 ^ 32) % 2 ^ 32)
    ∧ (handleRawRgb y now data ip junk D).pixels
      = (List.range (min (data.length / 3) D.pixels.length)).foldl (fun px k =>
          setRealtimePixel y D px k (data.getD (3 * k) 0 % 256)
            (data.getD (3 * k + 1) 0 % 256) (data.getD (3 * k + 2) 0 % 256) 0)
          (if D.realtimeMode = REALTIME_MODE_INACTIVE then List.replicate D.pixels.length 0
          else D.pixels)
    ∧ (handleRawRgb y now data ip junk D).shows = D.shows + 1 := by
  rw [handleRawRgb_data y now data ip junk D hd hn ho hl]
  obtain ⟨b, n, he⟩ := realtimeLock_eq y now D.realtimeTimeoutMs REALTIME_MODE_HYPERION
    { D with realtimeIP := ip }
  obtain ⟨f1, f2, _, _, _, _, _, f8, f9⟩ := realtimeLock_fields y now D.realtimeTimeoutMs
    REALTIME_MODE_HYPERION { D with realtimeIP := ip }
  refine ⟨f1, f2, ?_, ?_, ?_⟩
  · show (realtimeLock _ _ _ _ _).realtimeTimeout = _
    rw [he]
  · show (List.range _).foldl _ (realtimeLock _ _ _ _ _).pixels = _
    rw [f8]
    have hT : getLengthTotal D.pixels = D.pixels.length := Nat.mod_eq_of_lt hl
    have hB : (if ({ D with realtimeIP := ip } : Device).realtimeMode = 0
          ∧ ({ D with realtimeIP := ip } : Device).realtimeOverride = 0 then
        (List.range (getLengthTotal ({ D with realtimeIP := ip } : Device).pixels)).foldl
          (fun px i => setPixelColor px i 0 0 0 0) ({ D with realtimeIP := ip } : Device).pixels
      else ({ D with realtimeIP := ip } : Device).pixels)
        = (if D.realtimeMode = REALTIME_MODE_INACTIVE then List.replicate D.pixels.length 0
          else D.pixels) := by
      show (if D.realtimeMode = 0 ∧ D.realtimeOverride = 0 then
        (List.range (getLengthTotal D.pixels)).foldl (fun px i => setPixelColor px i 0 0 0 0)
          D.pixels else D.pixels) = _
      by_cases hm : D.realtimeMode = 0
      · rw [if_pos ⟨hm, ho⟩, if_pos (show D.realtimeMode = REALTIME_MODE_INACTIVE from hm), hT,
          clear_eq]
        rfl
      · rw [if_neg (fun h => hm h.1),
          if_neg (show ¬ D.realtimeMode = REALTIME_MODE_INACTIVE from hm)]
    rw [hB]
  · show (realtimeLock _ _ _ _ _).shows + 1 = _
    rw [f9 (by decide)]

/-! ## C36: raw RGB datagrams -/

/-- C36: a connected device that receives realtime data and whose notifier sockets hold
nothing reads the datagram `data` of `n` bytes from sender `ip` on the raw RGB socket,
with no override when the datagram is processed and a buffer of fewer than 65536
pixels.  For `3 <= n <= 1472` the tick ends in Hyperion mode with `ip` as owner and the
expiry of `realtimeLock(realtimeTimeoutMs, ..)`; the buffer is the one that the lock
leaves (cleared when the device was not in a realtime mode, unchanged otherwise) with
`setRealtimePixel(k, data[3k], data[3k+1], data[3k+2], 0)` applied for exactly the
`k < min(n / 3, length)`, in order; and the strip is shown once.  For `n < 3` or
`n > 1472` the tick leaves the device as it is after its first steps. -/
theorem C36_raw_rgb (x : Ext) (y : Host) (now localIP : Nat) (junk : Nat → Nat)
    (socks : Sockets) (dev : Device) (data : List Nat) (ip : Nat)
    (hu : dev.udpConnected = true) (hd : dev.receiveDirect = true)
    (h1 : parsePacket socks.notifierUdp = 0)
    (h2 : dev.udp2Connected = true → parsePacket socks.notifier2Udp = 0)
    (h3 : dev.udpRgbConnected = true) (hs : socks.rgbUdp = some ⟨data, ip⟩)
    (ho : (checkExpiry y now dev).realtimeOverride = REALTIME_OVERRIDE_NONE)
    (hl : dev.pixels.length < 2 ^ 16) :
    (3 ≤ data.length ∧ data.length ≤ UDP_IN_MAXSIZE →
      (handleNotifications x y now localIP junk socks dev).realtimeMode
        = REALTIME_MODE_HYPERION
      ∧ (handleNotifications x y now localIP junk socks dev).realtimeIP = ip
      ∧ (handleNotifications x y now localIP junk socks dev).realtimeTimeout
        = (if dev.realtimeTimeoutMs % 2 ^ 32 = 255001 ∨ dev.realtimeTimeoutMs % 2 ^ 32 = 65000
            then UINT32_MAX else (now % 2 ^ 32 + dev.realtimeTimeoutMs % 2 ^ 32) % 2 ^ 32)
      ∧ (handleNotifications x y now localIP junk socks dev).pixels
        = (List.range (min (data.length / 3) dev.pixels.length)).foldl (fun px k =>
            setRealtimePixel y dev px k (data.getD (3 * k) 0 % 256)
              (data.getD (3 * k + 1) 0 % 256) (data.getD (3 * k + 2) 0 % 256) 0)
            (if (checkExpiry y now dev).realtimeMode = REALTIME_MODE_INACTIVE then
              List.replicate dev.pixels.length 0
            else dev.pixels)
      ∧ (handleNotifications x y now localIP junk socks dev).shows
        = (tickStart x y now dev).shows + 1)
    ∧ (data.length < 3 ∨ data.length > UDP_IN_MAXSIZE →
      handleNotifications x y now localIP junk socks dev
        = { tickStart x y now dev with
            notifierRemoteIP :=
              (handleNotifications x y now localIP junk socks dev).notifierRemoteIP }) := by
  have hu' : (tickStart x y now dev).udpConnected = true := by
    rw [tickStart_udpConnected]; exact hu
  have ho' : (tickStart x y now dev).realtimeOverride = 0 := by
    rw [tickStart_realtimeOverride]; exact ho
  by_cases h0 : data.length = 0
  · refine ⟨fun h => by omega, fun _ => ?_⟩
    have hnil : data = [] := List.length_eq_zero.mp h0
    unfold handleNotifications
    simp only [hu', h1, hs, hnil, Bool.not_true, Bool.false_eq_true, if_false, parsePacket_some,
      List.length_nil, ne_eq, not_true_eq_false, decide_False, Bool.and_false, if_false]
    have hk : ∀ (d : Datagram) (D : Device), d.data.length = 0 →
        handleDatagram x y now localIP d junk D = D := by
      intro d D hd0
      unfold handleDatagram
      simp only [hd0, decide_True, Bool.true_or, if_true]
      split_ifs <;> rfl
    rw [hk]
    split_ifs with hc
    · have hc2 : dev.udp2Connected = true := by simpa using hc
      have := parsePacket_eq_zero _ (h2 hc2)
      rw [this]; rfl
    · have := parsePacket_eq_zero _ h1
      rw [this]; rfl
  have h4 : parsePacket socks.rgbUdp ≠ 0 := by rw [hs]; exact h0
  rw [handleNotifications_rgb x y now localIP junk socks dev hu' h1 h2 h3 h4, hs,
    socketData_some, socketRemoteIP_some _ _ h0]
  show _ ∧ (_ → handleRawRgb y now data ip junk _ = _)
  constructor
  · intro hn
    obtain ⟨r1, r2, r3, r4, r5⟩ := handleRawRgb_result y now data ip junk
      { tickStart x y now dev with
        notifierRemoteIP :=
          socketRemoteIP socks.notifierUdp (tickStart x y now dev).notifierRemoteIP }
      (by show (tickStart x y now dev).receiveDirect = true
          rw [tickStart_receiveDirect]; exact hd) hn ho'
      (by show (tickStart x y now dev).pixels.length < 2 ^ 16
          rw [tickStart_pixels]; exact hl)
    refine ⟨r1, r2, ?_, ?_, r5⟩
    · rw [r3]
      show (if (tickStart x y now dev).realtimeTimeoutMs % 2 ^ 32 = 255001
          ∨ (tickStart x y now dev).realtimeTimeoutMs % 2 ^ 32 = 65000 then _ else _) = _
      rw [tickStart_realtimeTimeoutMs]
    · rw [r4]
      show (List.range (min (data.length / 3) (tickStart x y now dev).pixels.length)).foldl _
        (if (tickStart x y now dev).realtimeMode = REALTIME_MODE_INACTIVE then
          List.replicate (tickStart x y now dev).pixels.length 0
        else (tickStart x y now dev).pixels) = _
      rw [tickStart_pixels, (tickStart_realtime x y now dev).1]
      apply foldl_range_congr
      intro j _ px
      exact setRealtimePixel_cfg y dev _ _ _ _ _ _ _ (tickStart_arlsOffset x y now dev)
        (tickStart_arlsDisableGammaCorrection x y now dev)
        (tickStart_gammaCorrectCol x y now dev)
  · intro hn
    unfold handleRawRgb
    simp only
    rw [if_neg (by
      show ¬ (!(tickStart x y now dev).receiveDirect) = true
      rw [tickStart_receiveDirect, hd]; decide)]
    rw [if_pos (by
      simp only [Bool.or_eq_true, decide_eq_true_eq]
      rcases hn with h | h
      · exact Or.inr h
      · exact Or.inl h)]

/-- Witness of C36: `deviceExample` reads the seven bytes `[10, .., 70]` of sender 7 from
the raw RGB socket: it ends in Hyperion mode owned by 7, with pixels 0 and 1 written and
the rest cleared by the lock; a datagram of two bytes leaves the eight pixels alone. -/
theorem C36_raw_rgb_witness :
    ((handleNotifications extExample hostExample 5000 99 (fun _ => 0)
        (rgbOnly [10, 20, 30, 40, 50, 60, 70] 7) deviceExample).realtimeMode
        = REALTIME_MODE_HYPERION
      ∧ (handleNotifications extExample hostExample 5000 99 (fun _ => 0)
        (rgbOnly [10, 20, 30, 40, 50, 60, 70] 7) deviceExample).realtimeIP = 7)
    ∧ (handleNotifications extExample hostExample 5000 99 (fun _ => 0)
        (rgbOnly [10, 20, 30, 40, 50, 60, 70] 7) deviceExample).pixels
      = [660510, 2634300, 0, 0, 0, 0, 0, 0]
    ∧ (handleNotifications extExample hostExample 5000 99 (fun _ => 0)
        (rgbOnly [10, 20] 7) deviceExample).pixels = [1, 2, 3, 4, 5, 6, 7, 8] :=
  ⟨⟨((C36_raw_rgb extExample hostExample 5000 99 (fun _ => 0)
        (rgbOnly [10, 20, 30, 40, 50, 60, 70] 7) deviceExample [10, 20, 30, 40, 50, 60, 70] 7
        rfl rfl rfl (fun _ => rfl) rfl rfl (by decide) (by decide)).1
        ⟨by decide, by decide⟩).1,
     ((C36_raw_rgb extExample hostExample 5000 99 (fun _ => 0)
        (rgbOnly [10, 20, 30, 40, 50, 60, 70] 7) deviceExample [10, 20, 30, 40, 50, 60, 70] 7
        rfl rfl rfl (fun _ => rfl) rfl rfl (by decide) (by decide)).1
        ⟨by decide, by decide⟩).2.1⟩,
   by decide, by decide⟩

/-! ## The length of the buffer under the pixel loops -/

theorem handleRealtime_dnrgb (y : Host) (now : Nat) (u : Nat → Nat) (n ip : Nat) (D : Device)
    (hn : 4 ≤ n ∧ n ≤ UDP_IN_MAXSIZE) (h0 : u 0 = 4) (h1 : u 1 ≠ 0) (hb : ∀ i, u i < 256)
    (ho : D.realtimeOverride = 0) (hl : D.pixels.length < 2 ^ 16) :
    (handleRealtime y now u n ip D).realtimeMode = REALTIME_MODE_UDP
    ∧ (handleRealtime y now u n ip D).realtimeIP = ip
    ∧ (handleRealtime y now u n ip D).pixels
      = (List.range (min ((n - 4) / 3) (D.pixels.length - (u 2 * 256 + u 3)))).foldl
          (fun px k =>
            setRealtimePixel y D px (u 2 * 256 + u 3 + k) (u (4 + 3 * k)) (u (4 + 3 * k + 1))
              (u (4 + 3 * k + 2)) 0)
          (if D.realtimeMode = REALTIME_MODE_INACTIVE then List.replicate D.pixels.length 0
          else D.pixels)
    ∧ (handleRealtime y now u n ip D).shows = D.shows + 1 := by
  obtain ⟨f1, f2, f3, f4, f5, f6, f7, f8, f9⟩ := realtimeLock_fields y now (u 1 * 1000 + 1)
    REALTIME_MODE_UDP { D with realtimeIP := ip }
  unfold UDP_IN_MAXSIZE at hn
  have hid : ((u 3 <<< 0) &&& 0xFF) + ((u 2 <<< 8) &&& 0xFF00) = u 2 * 256 + u 3 := by
    rw [shl8_and _ (hb 2), Nat.shiftLeft_zero, and_0xFF, Nat.mod_eq_of_lt (hb 3)]
    omega
  have hT : getLengthTotal D.pixels = D.pixels.length := Nat.mod_eq_of_lt hl
  have hB : (realtimeLock y now (u 1 * 1000 + 1) REALTIME_MODE_UDP
        { D with realtimeIP := ip }).pixels
      = (if D.realtimeMode = REALTIME_MODE_INACTIVE then List.replicate D.pixels.length 0
        else D.pixels) := by
    rw [f8]
    show (if D.realtimeMode = 0 ∧ D.realtimeOverride = 0 then
      (List.range (getLengthTotal D.pixels)).foldl (fun px i => setPixelColor px i 0 0 0 0)
        D.pixels else D.pixels) = _
    by_cases hm : D.realtimeMode = 0
    · rw [if_pos ⟨hm, ho⟩, if_pos (show D.realtimeMode = REALTIME_MODE_INACTIVE from hm), hT,
        clear_eq]
      rfl
    · rw [if_neg (fun h => hm h.1),
        if_neg (show ¬ D.realtimeMode = REALTIME_MODE_INACTIVE from hm)]
  have hR : handleRealtime y now u n ip D
      = { realtimeLock y now (u 1 * 1000 + 1) REALTIME_MODE_UDP { D with realtimeIP := ip } with
          pixels := (List.range (min ((n - 4) / 3) (D.pixels.length - (u 2 * 256 + u 3)))).foldl
            (fun px k =>
              setRealtimePixel y D px (u 2 * 256 + u 3 + k) (u (4 + 3 * k))
                (u (4 + 3 * k + 1)) (u (4 + 3 * k + 2)) 0)
            (realtimeLock y now (u 1 * 1000 + 1) REALTIME_MODE_UDP
              { D with realtimeIP := ip }).pixels
          shows := (realtimeLock y now (u 1 * 1000 + 1) REALTIME_MODE_UDP
              { D with realtimeIP := ip }).shows + 1 } := by
    unfold handleRealtime
    simp only
    rw [if_neg (by omega), if_neg h1, if_neg (by rw [f3]; exact fun h => h ho)]
    simp only [h0, hid]
    rw [if_neg (by decide), if_neg (by decide), if_neg (by decide), if_pos trivial]
    generalize realtimeLock y now (u 1 * 1000 + 1) REALTIME_MODE_UDP
      { D with realtimeIP := ip } = L at f3 f4 f5 f6 f7 ⊢
    unfold stripShow
    have hL : L.pixels.length < 2 ^ 16 := by rw [f7]; exact hl
    have hp : dnrgbLoop y L u n (getLengthTotal L.pixels) n 4 (u 2 * 256 + u 3) L.pixels
        = (List.range (min ((n - 4) / 3) (D.pixels.length - (u 2 * 256 + u 3)))).foldl
            (fun px k =>
              setRealtimePixel y D px (u 2 * 256 + u 3 + k) (u (4 + 3 * k))
                (u (4 + 3 * k + 1)) (u (4 + 3 * k + 2)) 0) L.pixels := by
      rw [dnrgbLoop_fold y _ _ _ _ _ _ ⟨hn.1, by omega⟩ hL (by omega)]
      simp only [f7]
      apply foldl_range_congr
      intro j _ b
      exact setRealtimePixel_cfg y D L _ _ _ _ _ _ f4 f5 f6
    rw [hp]
  rw [hR]
  refine ⟨f1, f2, ?_, ?_⟩
  · show (List.range _).foldl _ (realtimeLock _ _ _ _ _).pixels = _
    rw [hB]
  · show (realtimeLock _ _ _ _ _).shows + 1 = _
    rw [f9 (by decide)]

/-! ## C38: DNRGB datagrams -/

/-- C38: a connected device that receives realtime data reads a DNRGB datagram of `L`
bytes, `4 <= L <= 1472`, with leading byte 4 and a nonzero duration byte, not sent by
itself over the primary socket, with no override when the datagram is processed and a
buffer of fewer than 65536 pixels.  With `start = 256 * data[2] + data[3]`, the tick
leaves the buffer that the lock leaves (cleared when the device was not in a realtime
mode, unchanged otherwise) with
`setRealtimePixel(start + k, data[4+3k], data[5+3k], data[6+3k], 0)` applied for exactly
the `k < min((L - 4) / 3, length - start)`, in order, that is the `k < (L - 4) / 3` with
`start + k < length`; the device is owned by the sender and the strip is shown once. -/
theorem C38_dnrgb (x : Ext) (y : Host) (now localIP : Nat) (junk : Nat → Nat)
    (socks : Sockets) (dev : Device) (d : Datagram)
    (hu : dev.udpConnected = true) (hd : dev.receiveDirect = true) (hr : Reads socks dev d)
    (hn : 4 ≤ d.data.length ∧ d.data.length ≤ UDP_IN_MAXSIZE)
    (hs : d.isSupp = false → d.remoteIP ≠ localIP)
    (h0 : d.data.getD 0 0 % 256 = 4) (h1 : d.data.getD 1 0 % 256 ≠ 0)
    (ho : (checkExpiry y now dev).realtimeOverride = REALTIME_OVERRIDE_NONE)
    (hl : dev.pixels.length < 2 ^ 16) :
    (handleNotifications x y now localIP junk socks dev).realtimeMode = REALTIME_MODE_UDP
    ∧ (handleNotifications x y now localIP junk socks dev).realtimeIP = d.remoteIP
    ∧ (handleNotifications x y now localIP junk socks dev).pixels
      = (List.range (min ((d.data.length - 4) / 3)
            (dev.pixels.length - (d.data.getD 2 0 % 256 * 256 + d.data.getD 3 0 % 256)))).foldl
          (fun px k =>
            setRealtimePixel y dev px (d.data.getD 2 0 % 256 * 256 + d.data.getD 3 0 % 256 + k)
              (d.data.getD (4 + 3 * k) 0 % 256) (d.data.getD (4 + 3 * k + 1) 0 % 256)
              (d.data.getD (4 + 3 * k + 2) 0 % 256) 0)
          (if (checkExpiry y now dev).realtimeMode = REALTIME_MODE_INACTIVE then
            List.replicate dev.pixels.length 0
          else dev.pixels)
    ∧ (handleNotifications x y now localIP junk socks dev).shows
      = (tickStart x y now dev).shows + 1 := by
  have hu' : (tickStart x y now dev).udpConnected = true := by
    rw [tickStart_udpConnected]; exact hu
  have ho' : (tickStart x y now dev).realtimeOverride = 0 := by
    rw [tickStart_realtimeOverride]; exact ho
  have e := fun i (hi : i < d.data.length) => udpInOf_lt d.data junk i hi
  have hn' := hn
  unfold UDP_IN_MAXSIZE at hn'
  rw [handleNotifications_reads x y now localIP junk socks dev d hr hu',
    handleDatagram_realtime x y now localIP d junk _
      (by show (tickStart x y now dev).receiveDirect = true
          rw [tickStart_receiveDirect]; exact hd)
      ⟨by omega, hn.2⟩ hs (by rw [e 0 (by omega), h0]; decide)]
  obtain ⟨r1, r2, r3, r4⟩ := handleRealtime_dnrgb y now (udpInOf d.data junk) d.data.length
    d.remoteIP
    { tickStart x y now dev with
      notifierRemoteIP :=
        socketRemoteIP socks.notifierUdp (tickStart x y now dev).notifierRemoteIP }
    hn (by rw [e 0 (by omega), h0]) (by rw [e 1 (by omega)]; exact h1)
    (udpInOf_lt_256 d.data junk) ho'
    (by show (tickStart x y now dev).pixels.length < 2 ^ 16
        rw [tickStart_pixels]; exact hl)
  refine ⟨r1, r2, ?_, r4⟩
  rw [r3]
  show (List.range (min ((d.data.length - 4) / 3) ((tickStart x y now dev).pixels.length
      - (udpInOf d.data junk 2 * 256 + udpInOf d.data junk 3)))).foldl _
    (if (tickStart x y now dev).realtimeMode = REALTIME_MODE_INACTIVE then
      List.replicate (tickStart x y now dev).pixels.length 0
    else (tickStart x y now dev).pixels) = _
  rw [tickStart_pixels, (tickStart_realtime x y now dev).1, e 2 (by omega), e 3 (by omega)]
  apply foldl_range_congr
  intro j hj px
  rw [Nat.lt_min] at hj
  rw [e _ (by omega), e _ (by omega), e _ (by omega)]
  exact setRealtimePixel_cfg y dev _ _ _ _ _ _ _ (tickStart_arlsOffset x y now dev)
    (tickStart_arlsDisableGammaCorrection x y now dev)
    (tickStart_gammaCorrectCol x y now dev)

/-- Witness of C38: `deviceExample` reads `[4, 2, 0, 6, 10, 20, 30, 40, 50, 60, 70, 80, 90]`
of sender 7, three triplets from pixel 6 on: pixels 6 and 7 are written, the third
triplet lies beyond the eight pixels, and the lock has cleared the rest. -/
theorem C38_dnrgb_witness :
    (handleNotifications extExample hostExample 5000 99 (fun _ => 0)
        (primaryOnly [4, 2, 0, 6, 10, 20, 30, 40, 50, 60, 70, 80, 90] 7) deviceExample).realtimeIP
      = 7
    ∧ (handleNotifications extExample hostExample 5000 99 (fun _ => 0)
        (primaryOnly [4, 2, 0, 6, 10, 20, 30, 40, 50, 60, 70, 80, 90] 7) deviceExample).pixels
      = [0, 0, 0, 0, 0, 0, 660510, 2634300] :=
  ⟨(C38_dnrgb extExample hostExample 5000 99 (fun _ => 0)
      (primaryOnly [4, 2, 0, 6, 10, 20, 30, 40, 50, 60, 70, 80, 90] 7) deviceExample
      ⟨[4, 2, 0, 6, 10, 20, 30, 40, 50, 60, 70, 80, 90], 7, false⟩ rfl rfl
      ⟨by decide, Or.inl ⟨rfl, rfl⟩⟩ ⟨by decide, by decide⟩ (by decide) (by decide) (by decide)
      (by decide) (by decide)).2.1,
   by decide⟩

/-! ## C39: the declared and the written payload length -/

/-- C39, on the code: behind the 10-byte header, every packet that `realtimeBroadcast`
sends carries the declared length of bytes 8 and 9 rounded up to a multiple of 3, the
colour loop of lines 711 to 716 writing three bytes per round.  Up to 21845 pixels the
declared length is a multiple of 3 and that is the declared length itself; from 21846
pixels on the 16-bit channel count need not be a multiple of 3. -/
theorem C39_payload_length (n : Net) (type client length : Nat) (buffer : Nat → Nat)
    (bri : Nat) (isRGBW : Bool) (sequenceNumber k : Nat) (p : Sent)
    (h : (realtimeBroadcast n type client length buffer bri isRGBW sequenceNumber).sent[k]?
      = some p) :
    p.data.length - 10 = 3 * ((p.data.getD 8 0 * 256 + p.data.getD 9 0 + 2) / 3)
    ∧ 10 ≤ p.data.length
    ∧ (length % 2 ^ 16 ≤ 21845 →
        p.data.length - 10 = p.data.getD 8 0 * 256 + p.data.getD 9 0) := by
  obtain ⟨_, _, hk, _, _, hp⟩ :=
    realtimeBroadcast_packet n type client length buffer bri isRGBW sequenceNumber k p h
  have hdec := ddpPacket_declared n client buffer bri isRGBW ((length % 2 ^ 16 * 3) % 2 ^ 16)
    (((length % 2 ^ 16 * 3) % 2 ^ 16 + 1439) / 1440) k (1440 * k)
    ((if isRGBW then 1920 else 1440) * k % 2 ^ 16)
    (((if sequenceNumber > 15 then 0 else sequenceNumber) + k) % 16)
    (Nat.mod_lt _ (by norm_num))
  have hd := ddpPacket_data n client buffer bri isRGBW ((length % 2 ^ 16 * 3) % 2 ^ 16)
    (((length % 2 ^ 16 * 3) % 2 ^ 16 + 1439) / 1440) k (1440 * k)
    ((if isRGBW then 1920 else 1440) * k % 2 ^ 16)
    (((if sequenceNumber > 15 then 0 else sequenceNumber) + k) % 16)
    (Nat.mod_lt _ (by norm_num))
  rw [← hp] at hdec hd
  have hlen := congrArg List.length hd
  rw [List.length_append, List.length_map, List.length_range] at hlen
  simp only [List.length_cons, List.length_nil] at hlen
  rw [hdec]
  have h3 : length % 2 ^ 16 ≤ 21845 → (length % 2 ^ 16 * 3) % 2 ^ 16 % 3 = 0 := by
    intro hl
    rw [Nat.mod_eq_of_lt (by omega : length % 2 ^ 16 * 3 < 2 ^ 16)]
    omega
  generalize (length % 2 ^ 16 * 3) % 2 ^ 16 = cc at hlen h3 ⊢
  generalize hP : (if k = (cc + 1439) / 1440 - 1 ∧ cc % 1440 ≠ 0 then cc % 1440 else 1440)
    = P at hlen ⊢
  refine ⟨by omega, by omega, fun hl => ?_⟩
  have := h3 hl
  have hP3 : P % 3 = 0 := by
    rw [← hP]; split <;> omega
  omega

/-- Witness of C39: the one packet for 21846 pixels declares 2 bytes and carries 3. -/
theorem C39_payload_length_witness :
    (realtimeBroadcast netExample 0 9 21846 (fun i => i % 256) 255 false 0).sent[0]?
      = some ⟨9, 4048, [0x41, 0, 0, 1, 0, 0, 0, 0, 0, 2, 0, 0, 1]⟩
    ∧ ([0x41, 0, 0, 1, 0, 0, 0, 0, 0, 2, 0, 0, 1] : List Nat).length - 10 = 3
    ∧ ([0x41, 0, 0, 1, 0, 0, 0, 0, 0, 2, 0, 0, 1] : List Nat).getD 8 0 * 256
        + ([0x41, 0, 0, 1, 0, 0, 0, 0, 0, 2, 0, 0, 1] : List Nat).getD 9 0 = 2 :=
  ⟨by decide,
   (C39_payload_length netExample 0 9 21846 (fun i => i % 256) 255 false 0 0
      ⟨9, 4048, [0x41, 0, 0, 1, 0, 0, 0, 0, 0, 2, 0, 0, 1]⟩ (by decide)).1,
   by decide⟩

/-! ## C40: the bytes that the TPM2.NET branch reads -/

/-- C40, as stated, fails: `deviceExample` reads the TPM2.NET data datagram
`[0x9c, 0xda, 0, 6, 1, 1]` of 6 bytes, which declares a payload of 6 bytes and carries
none.  The loop reads the bytes 6 to 11 behind the datagram: with zeros there the pixels
0 and 1 become 0, with 255 there they become 0xFFFFFF. -/
theorem C40_counterexample :
    ([0x9c, 0xda, 0, 6, 1, 1] : List Nat).length = 6
    ∧ (handleNotifications extExample hostExample 5000 99 (fun _ => 0)
        (primaryOnly [0x9c, 0xda, 0, 6, 1, 1] 7) deviceExample).pixels
      = [0, 0, 0, 0, 0, 0, 0, 0]
    ∧ (handleNotifications extExample hostExample 5000 99 (fun _ => 255)
        (primaryOnly [0x9c, 0xda, 0, 6, 1, 1] 7) deviceExample).pixels
      = [0xFFFFFF, 0xFFFFFF, 0, 0, 0, 0, 0, 0] := by
  decide

/-- C40, amended: while a tick processes a TPM2.NET datagram (leading byte 0x9C) of `L`
bytes, the bytes it reads have an index below `6 + S`, where `S` is the frame size in
force: the one declared in bytes 2 and 3 when the packet counter is at zero, the
captured one otherwise.  These indices are not compared with `L`: if the memory behind
the datagram is changed from index `6 + S` on, the result is the same, and for
`L >= 6 + S` it does not depend on that memory at all. -/
theorem C40_bytes_read (x : Ext) (y : Host) (now localIP : Nat) (junk junk' : Nat → Nat)
    (socks : Sockets) (dev : Device) (d : Datagram) (hr : Reads socks dev d)
    (h2 : 2 ≤ d.data.length) (h0 : d.data.getD 0 0 % 256 = 0x9c)
    (hj : ∀ k, d.data.length ≤ k →
      k < 6 + (if (dev.tpmPacketCount + 1) % 256 = 1 then
            256 * udpInOf d.data junk 2 + udpInOf d.data junk 3
          else dev.tpmPayloadFrameSize) →
      junk' k % 256 = junk k % 256) :
    handleNotifications x y now localIP junk' socks dev
      = handleNotifications x y now localIP junk socks dev := by
  by_cases hu : (tickStart x y now dev).udpConnected = true
  · rw [handleNotifications_reads x y now localIP junk' socks dev d hr hu,
      handleNotifications_reads x y now localIP junk socks dev d hr hu]
    apply handleDatagram_tpm2_congr x y now localIP d junk junk' _ h2 h0
    intro k hk hlt
    apply hj k hk
    have hS : ((udpInOf d.data junk 2 <<< 8) + udpInOf d.data junk 3) % 2 ^ 16
        = 256 * udpInOf d.data junk 2 + udpInOf d.data junk 3 := by
      have a := udpInOf_lt_256 d.data junk 2
      have b := udpInOf_lt_256 d.data junk 3
      rw [Nat.shiftLeft_eq, Nat.mod_eq_of_lt (by omega)]
      omega
    have hlt' : k < (if ((tickStart x y now dev).tpmPacketCount + 1) % 256 = 1 then
          ((udpInOf d.data junk 2 <<< 8) + udpInOf d.data junk 3) % 2 ^ 16
        else (tickStart x y now dev).tpmPayloadFrameSize) + 6 := hlt
    rw [tickStart_tpmPacketCount, tickStart_tpmPayloadFrameSize, hS] at hlt'
    omega
  · rw [handleNotifications_off x y now localIP junk' socks dev (by simpa using hu),
      handleNotifications_off x y now localIP junk socks dev (by simpa using hu)]

/-- Witness of C40, amended: the datagram of 13 bytes that declares and carries a payload
of 6 bytes gives the same device whatever lies behind it. -/
theorem C40_bytes_read_witness :
    handleNotifications extExample hostExample 5000 99 (fun _ => 255)
        (primaryOnly [0x9c, 0xda, 0, 6, 1, 1, 10, 20, 30, 40, 50, 60, 0x36] 7) deviceExample
      = handleNotifications extExample hostExample 5000 99 (fun _ => 0)
        (primaryOnly [0x9c, 0xda, 0, 6, 1, 1, 10, 20, 30, 40, 50, 60, 0x36] 7) deviceExample :=
  C40_bytes_read extExample hostExample 5000 99 (fun _ => 0) (fun _ => 255)
    (primaryOnly [0x9c, 0xda, 0, 6, 1, 1, 10, 20, 30, 40, 50, 60, 0x36] 7) deviceExample
    ⟨[0x9c, 0xda, 0, 6, 1, 1, 10, 20, 30, 40, 50, 60, 0x36], 7, false⟩
    ⟨by decide, Or.inl ⟨rfl, rfl⟩⟩ (by decide) (by decide)
    (by
      intro k hk hlt
      have e : (if (deviceExample.tpmPacketCount + 1) % 256 = 1 then
            256 * udpInOf [0x9c, 0xda, 0, 6, 1, 1, 10, 20, 30, 40, 50, 60, 0x36] (fun _ => 0) 2
              + udpInOf [0x9c, 0xda, 0, 6, 1, 1, 10, 20, 30, 40, 50, 60, 0x36] (fun _ => 0) 3
          else deviceExample.tpmPayloadFrameSize) = 6 := by decide
      have hk' : 13 ≤ k := hk
      have hlt' : k < 6 + 6 := by rw [← e]; exact hlt
      omega)

end WLED
